import Mathlib

/-! Rule ingestion core (`src/parser/parse_rule.cc`).

A shallow embedding of the rule parser of the intrusion detection engine:
header canonicalisation (`TestHeader`, `findHeadNode`, `ProcessHeadNode`),
signature deduplication (`mergeDuplicateOtn`, `ParseRuleOptions`), the
per-rule entry point `parse_rule` and the port-group indexer
`FinishPortListRule`, followed by theorems about them.

Conventions of the embedding.

* A C pointer that may be `NULL` is an `Option`.
* Header nodes (`RuleTreeNode`) are shared between signatures and carry a
  mutable reference count, so they live in an explicit heap
  (`ParseState.rtn_heap`); a header pointer is an index into it.  Cells are
  never reused.
* Port objects referenced from headers are compared by address only, so a
  port-object pointer is an address together with the object it points to
  (`PortObjectRef`).
* `ParseError` is fatal and is the `Except.error` case; `ParseWarning`
  appends to `ParseState.warnings`, `LogMessage` to `ParseState.messages`.
* C `int` counters are `Int`; no rule set comes near `2^31` rules.
-/

namespace ParseRule

/-! ## Constants -/

/-- Protocol number of TCP (`IPPROTO_TCP`, system headers). -/
def IPPROTO_TCP : Int := 6
/-- Protocol number of UDP (`IPPROTO_UDP`, system headers). -/
def IPPROTO_UDP : Int := 17
/-- Protocol number of ICMP (`IPPROTO_ICMP`, system headers). -/
def IPPROTO_ICMP : Int := 1
/-- Protocol number of ICMPv6 (`IPPROTO_ICMPV6`, system headers). -/
def IPPROTO_ICMPV6 : Int := 58
/-- The all-IP pseudo protocol (`ETHERNET_TYPE_IP`, decode.h). -/
def ETHERNET_TYPE_IP : Int := 0x0800

/-- Header flag bit (rules.h). -/
def ANY_SRC_PORT : Nat := 0x04
/-- Header flag bit (rules.h). -/
def ANY_DST_PORT : Nat := 0x08
/-- Header flag bit (rules.h). -/
def EXCEPT_SRC_PORT : Nat := 0x20
/-- Header flag bit (rules.h). -/
def EXCEPT_DST_PORT : Nat := 0x40
/-- Header flag bit (rules.h). -/
def BIDIRECTIONAL : Nat := 0x80
/-- Header flag bit (rules.h). -/
def ANY_SRC_IP : Nat := 0x100
/-- Header flag bit (rules.h). -/
def ANY_DST_IP : Nat := 0x200

/-- Node flag of an address-set entry that stands for `any` (sf_ipvar.h). -/
def SFIP_ANY : Nat := 2

/-- Whether `strcasecmp(a, b) == 0`. -/
def strcaseeq (a b : String) : Bool :=
  decide (a.data.map Char.toLower = b.data.map Char.toLower)

/-- The two modes of `ProcessIP`, `AddrToFunc` and `PortToFunc`. -/
inductive Mode where
  | SRC
  | DST
deriving DecidableEq, Repr

/-! ## Address sets -/

/-- Return codes of the address-set module that the parser looks at. -/
inductive SFIP_RET where
  | SFIP_SUCCESS
  | SFIP_FAILURE
  | SFIP_EQUAL
  | SFIP_LOOKUP_FAILURE
  | SFIP_NOT_ANY
  | SFIP_CONFLICT
deriving DecidableEq, Repr

/-- One CIDR entry of an address set (`sfip_node_t`). -/
structure sfip_node_t where
  flags : Nat
  ip : Nat
  bits : Nat
deriving DecidableEq, Repr

/-- An address set (`sfip_var_t`): positive list `head`, negated list
`neg_head`, and the variable name for named sets and aliases. -/
structure sfip_var_t where
  head : List sfip_node_t
  neg_head : List sfip_node_t
  name : Option String
deriving DecidableEq, Repr

/-- Modelled from the spec: `sfvar_compare` of the address-set module, which is
not part of the parser source.  Address sets are "comparable for structural
equality": two sets compare `SFIP_EQUAL` when their positive and negated lists
are equal, two null pointers compare equal, and a null pointer is not equal to
a set. -/
def sfvar_compare (one two : Option sfip_var_t) : SFIP_RET :=
  match one, two with
  | none, none => SFIP_RET.SFIP_EQUAL
  | some a, some b =>
      if a.head = b.head ∧ a.neg_head = b.neg_head then SFIP_RET.SFIP_EQUAL
      else SFIP_RET.SFIP_FAILURE
  | _, _ => SFIP_RET.SFIP_FAILURE

/-! ## Port objects -/

/-- A port object: port ranges `[lo, hi]`, the `any` and pure-not flags, and
the attached list of rule indices. -/
structure PortObject where
  ranges : List (Nat × Nat)
  any : Bool
  pure_not : Bool
  rule_list : List Int
deriving DecidableEq, Repr

/-- A non-null `PortObject *` held by a header: the address, which is what
`TestHeader` compares, and the object found there. -/
structure PortObjectRef where
  addr : Nat
  obj : PortObject
deriving DecidableEq, Repr

/-- A port table: the port objects it owns, in insertion order. -/
abbrev PortTable := List PortObject

/-! ## Header nodes -/

/-- The detection functions a header's function chain can hold. -/
inductive RuleHeadFunc where
  | CheckBidirectional
  | CheckSrcIP
  | CheckDstIP
  | CheckSrcPortEqual
  | CheckSrcPortNotEq
  | CheckDstPortEqual
  | CheckDstPortNotEq
  | RuleListEnd
deriving DecidableEq, Repr

/-- A header node (`RuleTreeNode`).  `listhead` is the address of the action
list the header belongs to. -/
structure RuleTreeNode where
  rule_func : List RuleHeadFunc
  head_node_number : Int
  type : Int
  sip : Option sfip_var_t
  dip : Option sfip_var_t
  proto : Int
  src_portobject : Option PortObjectRef
  dst_portobject : Option PortObjectRef
  flags : Nat
  listhead : Option Nat
  otnRefCount : Nat
deriving DecidableEq, Repr

/-- The zeroed header that `memset` and `SnortAlloc` produce. -/
def RuleTreeNode.zero : RuleTreeNode :=
  { rule_func := [], head_node_number := 0, type := 0, sip := none, dip := none,
    proto := 0, src_portobject := none, dst_portobject := none, flags := 0,
    listhead := none, otnRefCount := 0 }

/-- Address of a port-object pointer (`none` for `NULL`). -/
def poAddr (p : Option PortObjectRef) : Option Nat := p.map PortObjectRef.addr

/-- Check to see if the two header blocks are identical: 1 if they match,
0 if they do not. -/
def TestHeader (rule rtn : Option RuleTreeNode) : Int :=
  match rule, rtn with
  | some rule, some rtn =>
      if rule.type ≠ rtn.type then 0
      else if rule.proto ≠ rtn.proto then 0
      else if rule.listhead ≠ rtn.listhead then 0
      else if rule.flags ≠ rtn.flags then 0
      else if rule.sip ≠ none ∧ rtn.sip ≠ none ∧
          sfvar_compare rule.sip rtn.sip ≠ SFIP_RET.SFIP_EQUAL then 0
      else if rule.dip ≠ none ∧ rtn.dip ≠ none ∧
          sfvar_compare rule.dip rtn.dip ≠ SFIP_RET.SFIP_EQUAL then 0
      else if poAddr rule.src_portobject ≠ poAddr rtn.src_portobject
          ∨ poAddr rule.dst_portobject ≠ poAddr rtn.dst_portobject then 0
      else 1
  | _, _ => 0

/-! ## Signatures -/

/-- Kinds of detection operator the parser distinguishes. -/
inductive RuleOptionType where
  | RULE_OPTION_TYPE_LEAF_NODE
  | RULE_OPTION_TYPE_CONTENT
  | RULE_OPTION_TYPE_CONTENT_URI
  | RULE_OPTION_TYPE_FILE_DATA
  | RULE_OPTION_TYPE_PKT_DATA
  | RULE_OPTION_TYPE_BASE64_DATA
  | RULE_OPTION_TYPE_PCRE
  | RULE_OPTION_TYPE_BYTE_JUMP
  | RULE_OPTION_TYPE_BYTE_EXTRACT
  | RULE_OPTION_TYPE_IP_PROTO
  | RULE_OPTION_TYPE_OTHER
deriving DecidableEq, Repr

/-- One entry of a signature's operator list (`OptFpList`).  The two last
fields are what `is_fast_pattern_only` and `IsHttpBufFpEligible` answer for the
operator's pattern data. -/
structure OptFpList where
  type : RuleOptionType
  isRelative : Bool
  fast_pattern_only : Bool
  http_fp_eligible : Bool
deriving DecidableEq, Repr

/-- Signature identity and revision (`SigInfo`). -/
structure SigInfo where
  generator : Nat
  id : Nat
  rev : Nat
  text_rule : Bool
deriving DecidableEq, Repr

/-- A signature node (`OptTreeNode`).  `proto_nodes` is the per-policy array of
header pointers, indexed by policy id; `proto_node_num` is its length. -/
structure OptTreeNode where
  opt_func : List OptFpList
  chain_node_number : Int
  proto : Int
  sigInfo : SigInfo
  enabled : Bool
  ruleIndex : Int
  num_detection_opts : Int
  proto_nodes : List (Option Nat)
deriving DecidableEq, Repr

/-- Length of the per-policy header array. -/
def OptTreeNode.proto_node_num (otn : OptTreeNode) : Nat := otn.proto_nodes.length

/-- The `(gid, sid)` key of a signature. -/
def OptTreeNode.key (otn : OptTreeNode) : Nat × Nat :=
  (otn.sigInfo.generator, otn.sigInfo.id)

/-- Modelled from the spec: `getRtnFromOtn` (treenodes), the signature's header
for a policy in its per-policy map, `NULL` when there is none. -/
def getRtnFromOtn (otn : OptTreeNode) (policyId : Nat) : Option Nat :=
  (otn.proto_nodes[policyId]?).join

/-- Modelled from the spec: `addRtnToOtn` (treenodes), binds a header to the
signature for a policy, growing the per-policy array with `NULL`s when the
policy id is beyond its end.  A policy that already has a header keeps it. -/
def addRtnToOtn (otn : OptTreeNode) (rtn : Nat) (policyId : Nat) : OptTreeNode :=
  let nodes := otn.proto_nodes ++ List.replicate (policyId + 1 - otn.proto_nodes.length) none
  match (nodes[policyId]?).join with
  | some _ => { otn with proto_nodes := nodes }
  | none => { otn with proto_nodes := nodes.set policyId (some rtn) }

/-- Modelled from the spec: `deleteRtnFromOtn` (treenodes), unbinds and returns
the signature's header for a policy. -/
def deleteRtnFromOtn (otn : OptTreeNode) (policyId : Nat) : Option Nat × OptTreeNode :=
  if policyId < otn.proto_nodes.length then
    (getRtnFromOtn otn policyId, { otn with proto_nodes := otn.proto_nodes.set policyId none })
  else (none, otn)

/-! ## Ingestion state -/

/-- Rule counts for port lists. -/
structure rule_count_t where
  src : Int
  dst : Int
  aa : Int
  sd : Int
  nc : Int
deriving DecidableEq, Repr

/-- Per-rule statistics record. -/
structure port_entry_t where
  rule_type : Int
  proto : Int
  icmp_type : Int
  ip_proto : Int
  protocol : Option String
  src_port : Option String
  dst_port : Option String
  gid : Nat
  sid : Nat
  dir : Int
  content : Bool
  uricontent : Bool
deriving DecidableEq, Repr

/-- The bounded vector of per-rule records. -/
structure port_list_t where
  pl_max : Int
  pl_cnt : Int
  pl_array : List port_entry_t
deriving DecidableEq, Repr

/-- The group tables of the indexer: per protocol an any-any object and the
src and dst tables. -/
structure rule_port_tables_t where
  tcp_anyany : PortObject
  tcp_src : PortTable
  tcp_dst : PortTable
  udp_anyany : PortObject
  udp_src : PortTable
  udp_dst : PortTable
  icmp_anyany : PortObject
  icmp_src : PortTable
  icmp_dst : PortTable
  ip_anyany : PortObject
  ip_src : PortTable
  ip_dst : PortTable
deriving DecidableEq, Repr

/-- Fast-pattern configuration read by the indexer. -/
structure FastPatternConfig where
  singleRuleGroup : Bool
  bleedoverPortLimit : Int
  bleedoverWarnings : Bool
deriving DecidableEq, Repr

/-- The parts of `SnortConfig` the parser reads and writes.  `otn_map` lists
the signatures of the `(gid, sid)` hash in iteration order; `ip_proto_array`
lists the protocol numbers whose entry is set; `conf_error_out` and
`default_rule_state` are what `ScConfErrorOut` and `ScDefaultRuleState`
return. -/
structure SnortConfig where
  otn_map : List OptTreeNode
  port_tables : rule_port_tables_t
  fast_pattern_config : FastPatternConfig
  ip_proto_array : List Int
  conf_error_out : Bool
  default_rule_state : Bool
deriving DecidableEq, Repr

/-- The tables of the active policy (`get_ips_policy()`). -/
structure IpsPolicy where
  policy_id : Nat
  portVarTable : List (String × PortObjectRef)
  nonamePortVarTable : List PortObjectRef
deriving DecidableEq, Repr

/-- Warnings the parser can emit. -/
inductive ParseWarningMsg where
  | duplicateUsingRevision (gid sid rev : Nat)
  | relativeAfterFastPatternOnly
deriving DecidableEq, Repr

/-- Notices the parser writes with `LogMessage`: the bleedover notice with the
port limit, the `gid:sid` of the rule and the larger of its two port counts. -/
inductive LogMsg where
  | bleedoverLimitExceeded (limit : Int) (gid sid : Nat) (ports : Int)
deriving DecidableEq, Repr

/-- Fatal parse errors the parser can raise. -/
inductive ParseErrorMsg where
  | badRule
  | badProtocol
  | portValueMissing
  | badSourcePort
  | badDestinationPort
  | illegalDirection
  | undefinedVariable
  | negatedRangeConflict
  | notAnyNotAllowed
  | unableToProcessIp
  | emptyIpList
  | portVarTableMissingAny
  | portVarLookupFailed
  | portVarParseError
  | unableToAddRawPortObject
  | pureNotPorts
  | duplicateDifferentProtocol
  | duplicateDifferentType
  | duplicatesPreviousRule
  | mustContainSid
  | optionsNotEnclosed
  | unknownRuleOption
  | builtinDetectionOptions
  | mustContainRuleSid
  | couldNotDupPortObject
  | failedToFinishPortListRule
deriving DecidableEq, Repr

/-- Everything one ingestion session reads and writes: the file-level
counters, the configuration, the header heap, the rule-index map, the active
policy, the warnings emitted so far and the notices logged so far. -/
structure ParseState where
  rule_count : Int
  detect_rule_count : Int
  builtin_rule_count : Int
  head_count : Int
  otn_count : Int
  tcpCnt : rule_count_t
  udpCnt : rule_count_t
  icmpCnt : rule_count_t
  ipCnt : rule_count_t
  port_list : port_list_t
  sc : SnortConfig
  rtn_heap : List RuleTreeNode
  ruleIndexMap : List (Nat × Nat)
  policy : IpsPolicy
  warnings : List ParseWarningMsg
  messages : List LogMsg
deriving DecidableEq, Repr

/-- Modelled from the spec: `ParseWarning` (parser), which reports on stderr
and lets ingestion continue. -/
def ParseWarning (st : ParseState) (w : ParseWarningMsg) : ParseState :=
  { st with warnings := st.warnings ++ [w] }

/-- Modelled from the spec: `LogMessage` (util), which writes a notice to the
log; it is not a warning and lets ingestion continue. -/
def LogMessage (st : ParseState) (m : LogMsg) : ParseState :=
  { st with messages := st.messages ++ [m] }

/-- The header node a pointer refers to; `NULL` and addresses outside the heap
give `none`. -/
def getRtn (st : ParseState) (p : Option Nat) : Option RuleTreeNode :=
  p.bind (fun a => st.rtn_heap[a]?)

/-- Modelled from the spec: `OtnLookup` (the signature map), the signature
stored under `(gid, sid)`. -/
def OtnLookup (otn_map : List OptTreeNode) (gid sid : Nat) : Option OptTreeNode :=
  otn_map.find? (fun o => decide (o.key = (gid, sid)))

/-- Modelled from the spec: `OtnLookupAdd` (the signature map), stores a
signature under its `(gid, sid)`; a key already present keeps its entry. -/
def OtnLookupAdd (otn_map : List OptTreeNode) (otn : OptTreeNode) : List OptTreeNode :=
  if (OtnLookup otn_map otn.sigInfo.generator otn.sigInfo.id).isSome then otn_map
  else otn_map ++ [otn]

/-- Modelled from the spec: `OtnRemove` (the signature map), removes the entry
stored under the signature's `(gid, sid)`. -/
def OtnRemove (otn_map : List OptTreeNode) (otn : OptTreeNode) : List OptTreeNode :=
  otn_map.filter (fun o => decide (o.key ≠ otn.key))

/-- Writes a changed signature back to its entry of the signature map (the C
code changes the stored object in place). -/
def OtnStore (otn_map : List OptTreeNode) (otn : OptTreeNode) : List OptTreeNode :=
  otn_map.map (fun o => if o.key = otn.key then otn else o)

/-- Modelled from the spec: `DestroyRuleTreeNode` (parser), drops one reference
to a header node; `NULL` is ignored.  The node is released when no reference
is left, which the heap records as a count of zero. -/
def DestroyRuleTreeNode (st : ParseState) (rtn : Option Nat) : ParseState :=
  match rtn with
  | none => st
  | some a =>
      match st.rtn_heap[a]? with
      | none => st
      | some n => { st with rtn_heap := st.rtn_heap.set a { n with otnRefCount := n.otnRefCount - 1 } }

/-- The state with `sc->otn_map` replaced. -/
def ParseState.setOtnMap (st : ParseState) (m : List OptTreeNode) : ParseState :=
  { st with sc := { st.sc with otn_map := m } }

/-! ## Header canonicalisation -/

/-- Returns matched header node. -/
def findHeadNode (st : ParseState) (testNode : RuleTreeNode) (policyId : Nat) : Option Nat :=
  st.sc.otn_map.findSome? (fun otn =>
    let rtn := getRtnFromOtn otn policyId
    if TestHeader (getRtn st rtn) (some testNode) ≠ 0 then rtn else none)

/-- Transfer the rule block header data from point A to point B. -/
def XferHeader (test_node rtn : RuleTreeNode) : RuleTreeNode :=
  { rtn with
    flags := test_node.flags
    type := test_node.type
    sip := test_node.sip
    dip := test_node.dip
    proto := test_node.proto
    src_portobject := test_node.src_portobject
    dst_portobject := test_node.dst_portobject }

/-- Adds a detection function to the end of the header's function list. -/
def AddRuleFuncToList (rfunc : RuleHeadFunc) (rtn : RuleTreeNode) : RuleTreeNode :=
  { rtn with rule_func := rtn.rule_func ++ [rfunc] }

/-- Links the proper IP address testing function to the header. -/
def AddrToFunc (rtn : RuleTreeNode) (mode : Mode) : RuleTreeNode :=
  match mode with
  | Mode.SRC =>
      if rtn.flags &&& ANY_SRC_IP = 0 then AddRuleFuncToList RuleHeadFunc.CheckSrcIP rtn else rtn
  | Mode.DST =>
      if rtn.flags &&& ANY_DST_IP = 0 then AddRuleFuncToList RuleHeadFunc.CheckDstIP rtn else rtn

/-- Links in the port analysis function for the header. -/
def PortToFunc (rtn : RuleTreeNode) (any_flag except_flag : Int) (mode : Mode) : RuleTreeNode :=
  if any_flag ≠ 0 then rtn
  else if except_flag ≠ 0 then
    match mode with
    | Mode.SRC => AddRuleFuncToList RuleHeadFunc.CheckSrcPortNotEq rtn
    | Mode.DST => AddRuleFuncToList RuleHeadFunc.CheckDstPortNotEq rtn
  else
    match mode with
    | Mode.SRC => AddRuleFuncToList RuleHeadFunc.CheckSrcPortEqual rtn
    | Mode.DST => AddRuleFuncToList RuleHeadFunc.CheckDstPortEqual rtn

/-- Configures the function list for the rule header detection functions. -/
def SetupRTNFuncList (rtn : RuleTreeNode) : RuleTreeNode :=
  let rtn :=
    if rtn.flags &&& BIDIRECTIONAL ≠ 0 then
      AddRuleFuncToList RuleHeadFunc.CheckBidirectional rtn
    else
      let rtn := PortToFunc rtn (if rtn.flags &&& ANY_DST_PORT ≠ 0 then 1 else 0)
        (if rtn.flags &&& EXCEPT_DST_PORT ≠ 0 then 1 else 0) Mode.DST
      let rtn := PortToFunc rtn (if rtn.flags &&& ANY_SRC_PORT ≠ 0 then 1 else 0)
        (if rtn.flags &&& EXCEPT_SRC_PORT ≠ 0 then 1 else 0) Mode.SRC
      let rtn := AddrToFunc rtn Mode.SRC
      AddrToFunc rtn Mode.DST
  AddRuleFuncToList RuleHeadFunc.RuleListEnd rtn

/-- Process the header block info and add it to the header heap if no stored
header matches it.  Returns the address of the canonical header. -/
def ProcessHeadNode (st : ParseState) (test_node : RuleTreeNode) (list : Option Nat) :
    Nat × ParseState :=
  match findHeadNode st test_node st.policy.policy_id with
  | none =>
      let rtn := RuleTreeNode.zero
      let rtn := { rtn with otnRefCount := rtn.otnRefCount + 1 }
      let rtn := XferHeader test_node rtn
      let head_count := st.head_count + 1
      let rtn := { rtn with head_node_number := head_count }
      let rtn := SetupRTNFuncList rtn
      let rtn := { rtn with listhead := list }
      (st.rtn_heap.length,
        { st with head_count := head_count, rtn_heap := st.rtn_heap ++ [rtn] })
  | some a =>
      match st.rtn_heap[a]? with
      | none => (a, st)
      | some n =>
          (a, { st with rtn_heap := st.rtn_heap.set a { n with otnRefCount := n.otnRefCount + 1 } })

/-! ## Signature deduplication -/

/-- One round of the loop of `mergeDuplicateOtn`: the header of the stored
signature for policy `i` is unbound and, unless `i` is the active policy,
bound to the new signature.  The pair is (stored signature, new signature). -/
def migrateStep (policy_id : Nat) (acc : OptTreeNode × OptTreeNode) (i : Nat) :
    OptTreeNode × OptTreeNode :=
  let r := deleteRtnFromOtn acc.1 i
  match r.1 with
  | some rtnTmp2 =>
      if i ≠ policy_id then (r.2, addRtnToOtn acc.2 rtnTmp2 i) else (r.2, acc.2)
  | none => (r.2, acc.2)

/-- The loop of `mergeDuplicateOtn` over the policies `0 .. proto_node_num - 1`
of the stored signature. -/
def migrateRtns (policy_id : Nat) (otn_cur otn_new : OptTreeNode) : OptTreeNode × OptTreeNode :=
  (List.range otn_cur.proto_node_num).foldl (migrateStep policy_id) (otn_cur, otn_new)

/-- Conditionally removes duplicate SID/GIDs.  Keeps the duplicate with the
higher revision; if the revision is the same, keeps the newest rule.  Returns 0
if the original rule stays, 1 if the new rule stays, together with the new
signature and the state. -/
def mergeDuplicateOtn (st : ParseState) (otn_cur otn_new : OptTreeNode) (rtn_new : Nat) :
    Except ParseErrorMsg (Int × OptTreeNode × ParseState) :=
  if otn_cur.proto ≠ otn_new.proto then
    Except.error ParseErrorMsg.duplicateDifferentProtocol
  else
    let rtn_cur := getRtnFromOtn otn_cur st.policy.policy_id
    if rtn_cur ≠ none ∧
        (getRtn st rtn_cur).map RuleTreeNode.type ≠ (getRtn st (some rtn_new)).map RuleTreeNode.type then
      Except.error ParseErrorMsg.duplicateDifferentType
    else if otn_new.sigInfo.rev < otn_cur.sigInfo.rev then
      let otn_new := (deleteRtnFromOtn otn_new st.policy.policy_id).2
      let st := ParseWarning st (ParseWarningMsg.duplicateUsingRevision
        otn_cur.sigInfo.generator otn_cur.sigInfo.id otn_cur.sigInfo.rev)
      let st :=
        match rtn_cur with
        | none =>
            st.setOtnMap (OtnStore st.sc.otn_map (addRtnToOtn otn_cur rtn_new st.policy.policy_id))
        | some _ => DestroyRuleTreeNode st (some rtn_new)
      Except.ok (0, otn_new, st)
    else
      let moved := migrateRtns st.policy.policy_id otn_cur otn_new
      let otn_new := moved.2
      let st := st.setOtnMap (OtnStore st.sc.otn_map moved.1)
      if rtn_cur ≠ none ∧ st.sc.conf_error_out = true then
        Except.error ParseErrorMsg.duplicatesPreviousRule
      else
        let st :=
          if rtn_cur ≠ none then
            let st := ParseWarning st (ParseWarningMsg.duplicateUsingRevision
              otn_new.sigInfo.generator otn_new.sigInfo.id otn_new.sigInfo.rev)
            if otn_new.sigInfo.text_rule = true then
              { st with detect_rule_count := st.detect_rule_count - 1 }
            else
              { st with builtin_rule_count := st.builtin_rule_count - 1 }
          else st
        let st := { st with otn_count := st.otn_count - 1 }
        let st := st.setOtnMap (OtnRemove st.sc.otn_map otn_cur)
        let st := DestroyRuleTreeNode st rtn_cur
        Except.ok (1, otn_new, st)

/-! ## Fast-pattern validation -/

/-- The loop of `ValidateFastPattern`: for each operator, whether the warning
is raised there, given the `fp_only` bit on entry. -/
def ValidateFastPatternLoop : Bool → List OptFpList → List Bool
  | _, [] => []
  | fp_only, fpl :: rest =>
      let warn := fp_only && fpl.isRelative
      let fp_only :=
        if fpl.type = RuleOptionType.RULE_OPTION_TYPE_FILE_DATA ∨
            fpl.type = RuleOptionType.RULE_OPTION_TYPE_PKT_DATA ∨
            fpl.type = RuleOptionType.RULE_OPTION_TYPE_BASE64_DATA ∨
            fpl.type = RuleOptionType.RULE_OPTION_TYPE_PCRE ∨
            fpl.type = RuleOptionType.RULE_OPTION_TYPE_BYTE_JUMP ∨
            fpl.type = RuleOptionType.RULE_OPTION_TYPE_BYTE_EXTRACT then false
        else fp_only
      let fp_only :=
        if fpl.type = RuleOptionType.RULE_OPTION_TYPE_CONTENT ∨
            fpl.type = RuleOptionType.RULE_OPTION_TYPE_CONTENT_URI then
          fpl.fast_pattern_only
        else fp_only
      warn :: ValidateFastPatternLoop fp_only rest

/-- Walks the operator list and warns at every relative operator that follows
a fast-pattern-only content without a reset in between. -/
def ValidateFastPattern (st : ParseState) (otn : OptTreeNode) : ParseState :=
  ((ValidateFastPatternLoop false otn.opt_func).filter (fun b => b)).foldl
    (fun st _ => ParseWarning st ParseWarningMsg.relativeAfterFastPatternOnly) st

/-! ## Option parsing -/

/-- One option token, described by what the collaborators do with it: the
meta-option parser `parse_otn` consumes `sid`, `gid`, `rev` and the other meta
options; the detection-operator registry `IpsManager::get_option` accepts a
detection option and appends its operator; anything else is unknown. -/
inductive SoTok where
  | sid (n : Nat)
  | gid (n : Nat)
  | rev (n : Nat)
  | metaOther
  | detection (fpl : OptFpList)
  | unknown
deriving DecidableEq, Repr

/-- An option token of the rule body: a token as above, or a meta option for
which `parse_otn` hands back a shared-object continuation, given here split on
`;`. -/
inductive RuleTok where
  | plain (t : SoTok)
  | soid (so_opts : List SoTok)
deriving DecidableEq, Repr

/-- The option text of a rule: whether it is enclosed in `(` and `)`, and the
tokens `mSplit` finds between them. -/
structure RuleOpts where
  enclosed : Bool
  toks : List RuleTok
deriving DecidableEq, Repr

/-- The generator id every signature starts with (generators.h). -/
def GENERATOR_SNORT_ENGINE : Nat := 1

/-- Body of the option loops for one token: `parse_otn`, then the registry,
then "Unknown rule option".  The state is the signature and the number of
detection options counted so far. -/
def dispatchOption (acc : OptTreeNode × Int) (t : SoTok) :
    Except ParseErrorMsg (OptTreeNode × Int) :=
  let otn := acc.1
  match t with
  | SoTok.sid n => Except.ok ({ otn with sigInfo := { otn.sigInfo with id := n } }, acc.2)
  | SoTok.gid n => Except.ok ({ otn with sigInfo := { otn.sigInfo with generator := n } }, acc.2)
  | SoTok.rev n => Except.ok ({ otn with sigInfo := { otn.sigInfo with rev := n } }, acc.2)
  | SoTok.metaOther => Except.ok acc
  | SoTok.detection fpl => Except.ok ({ otn with opt_func := otn.opt_func ++ [fpl] }, acc.2 + 1)
  | SoTok.unknown => Except.error ParseErrorMsg.unknownRuleOption

/-- Runs `dispatchOption` over a token list, stopping at the first error. -/
def dispatchOptions : OptTreeNode × Int → List SoTok → Except ParseErrorMsg (OptTreeNode × Int)
  | acc, [] => Except.ok acc
  | acc, t :: rest =>
      match dispatchOption acc t with
      | Except.error e => Except.error e
      | Except.ok acc => dispatchOptions acc rest

/-- The first option loop: every token of the body is dispatched; a token with
a continuation is consumed by `parse_otn` and sets `so_opts`. -/
def firstPass : OptTreeNode × Int × Option (List SoTok) → List RuleTok →
    Except ParseErrorMsg (OptTreeNode × Int × Option (List SoTok))
  | acc, [] => Except.ok acc
  | acc, RuleTok.plain t :: rest =>
      match dispatchOption (acc.1, acc.2.1) t with
      | Except.error e => Except.error e
      | Except.ok r => firstPass (r.1, r.2, acc.2.2) rest
  | acc, RuleTok.soid so_opts :: rest => firstPass (acc.1, acc.2.1, some so_opts) rest

/-- Modelled from the spec: `RuleIndexMapAdd` (detection/sfrim), which assigns
the next dense index to a `(gid, sid)` pair. -/
def RuleIndexMapAdd (m : List (Nat × Nat)) (gid sid : Nat) : Int × List (Nat × Nat) :=
  ((m.length : Int), m ++ [(gid, sid)])

/-- The terminal operator `AddOptFuncToList(OptListEnd, otn)` appends. -/
def leafNode : OptFpList :=
  { type := RuleOptionType.RULE_OPTION_TYPE_LEAF_NODE, isRelative := false,
    fast_pattern_only := false, http_fp_eligible := false }

/-- The signature `ParseRuleOptions` starts from. -/
def newOtn (st : ParseState) (protocol : Int) (text : Bool) : OptTreeNode :=
  { opt_func := [], chain_node_number := st.otn_count, proto := protocol,
    sigInfo := { generator := GENERATOR_SNORT_ENGINE, id := 0, rev := 0, text_rule := text },
    enabled := st.sc.default_rule_state, ruleIndex := 0, num_detection_opts := 0,
    proto_nodes := [] }

/-- The two option loops of `ParseRuleOptions`: every token of the body, then
every token but the last of the shared-object continuation, if there is one.
Gives the signature and `num_detection_opts`. -/
def parseOptionLoops (otn : OptTreeNode) (toks : List RuleTok) :
    Except ParseErrorMsg (OptTreeNode × Int) :=
  match firstPass (otn, 0, none) toks with
  | Except.error e => Except.error e
  | Except.ok r1 =>
      match r1.2.2 with
      | some so_opts => dispatchOptions (r1.1, r1.2.1) so_opts.dropLast
      | none => Except.ok (r1.1, r1.2.1)

/-- The tail of `ParseRuleOptions` for a signature that is kept: count it,
append the terminal operator, validate the fast pattern and store it in the
signature map. -/
def storeOtn (st : ParseState) (otn : OptTreeNode) (num_detection_opts : Int) :
    OptTreeNode × ParseState :=
  let otn := { otn with num_detection_opts := otn.num_detection_opts + num_detection_opts }
  let st := { st with otn_count := st.otn_count + 1 }
  let st :=
    if otn.sigInfo.text_rule = true then
      { st with detect_rule_count := st.detect_rule_count + 1 }
    else
      { st with builtin_rule_count := st.builtin_rule_count + 1 }
  let otn := { otn with opt_func := otn.opt_func ++ [leafNode] }
  let st := ValidateFastPattern st otn
  let st := st.setOtnMap (OtnLookupAdd st.sc.otn_map otn)
  (otn, st)

/-- Parses the option body of a rule into a signature, deduplicates it against
the signature map and stores it.  Returns the stored signature, or `none` when
an older one was kept instead. -/
def ParseRuleOptions (st : ParseState) (rtn : Nat) (rule_opts : Option RuleOpts)
    (protocol : Int) (text : Bool) : Except ParseErrorMsg (Option OptTreeNode × ParseState) :=
  let otn := newOtn st protocol text
  match rule_opts with
  | none => Except.error ParseErrorMsg.mustContainSid
  | some rule_opts =>
      if rule_opts.enclosed = false then Except.error ParseErrorMsg.optionsNotEnclosed
      else
        match parseOptionLoops otn rule_opts.toks with
        | Except.error e => Except.error e
        | Except.ok (otn, num_detection_opts) =>
            if num_detection_opts > 0 ∧ otn.sigInfo.text_rule = false then
              Except.error ParseErrorMsg.builtinDetectionOptions
            else if otn.sigInfo.id = 0 then
              Except.error ParseErrorMsg.mustContainRuleSid
            else
              let otn := addRtnToOtn otn rtn st.policy.policy_id
              match OtnLookup st.sc.otn_map otn.sigInfo.generator otn.sigInfo.id with
              | some otn_dup =>
                  let otn := { otn with ruleIndex := otn_dup.ruleIndex }
                  match mergeDuplicateOtn st otn_dup otn rtn with
                  | Except.error e => Except.error e
                  | Except.ok (ret, otn, st) =>
                      if ret = 0 then Except.ok (none, st)
                      else
                        let r := storeOtn st otn num_detection_opts
                        Except.ok (some r.1, r.2)
              | none =>
                  let r := RuleIndexMapAdd st.ruleIndexMap otn.sigInfo.generator otn.sigInfo.id
                  let otn := { otn with ruleIndex := r.1 }
                  let st := { st with ruleIndexMap := r.2 }
                  let r := storeOtn st otn num_detection_opts
                  Except.ok (some r.1, r.2)

/-! ## Collaborators -/

/-- What the parser asks of modules outside this file for one rule:
`GetRuleProtocol` on the protocol token; `sfvt_lookup_var` and
`sfvt_add_to_var` of the active policy's address-variable table (the latter
returns its status and the address set it filled); `PortObjectParseString` on
a literal port list (`none` on a syntax error); `GetOtnIpProto` on a signature;
and the capacity `MAX_RULE_COUNT` of the per-rule record vector. -/
structure Collab where
  GetRuleProtocol : String → Int
  sfvt_lookup_var : String → Option sfip_var_t
  sfvt_add_to_var : sfip_var_t → String → SFIP_RET × sfip_var_t
  PortObjectParseString : String → Option PortObjectRef
  GetOtnIpProto : OptTreeNode → Int
  MAX_RULE_COUNT : Int

/-! ## Address resolution -/

/-- Raises the empty-list error when the address set is null or has neither a
positive nor a negated entry. -/
def ValidateIPList (addrset : Option sfip_var_t) : Except ParseErrorMsg Int :=
  match addrset with
  | none => Except.error ParseErrorMsg.emptyIpList
  | some a =>
      if a.head = [] ∧ a.neg_head = [] then Except.error ParseErrorMsg.emptyIpList
      else Except.ok 0

/-- Modelled from the spec: `sfvar_create_alias` (address-set module), an alias
that shares storage with the variable and carries the given name. -/
def sfvar_create_alias (tmp : sfip_var_t) (name : Option String) : Option sfip_var_t :=
  some { tmp with name := name }

/-- The part of `ProcessIP` shared by both modes: resolve the token into the
address set `cur` of the header (`NULL` before the first token), giving the
status and the new address set. -/
def resolveIP (env : Collab) (addr : String) (cur : Option sfip_var_t) :
    SFIP_RET × Option sfip_var_t :=
  match cur with
  | none =>
      match env.sfvt_lookup_var addr with
      | some tmp =>
          match sfvar_create_alias tmp tmp.name with
          | none => (SFIP_RET.SFIP_FAILURE, none)
          | some a => (SFIP_RET.SFIP_SUCCESS, some a)
      | none =>
          let r := env.sfvt_add_to_var { head := [], neg_head := [], name := none } addr
          (r.1, some r.2)
  | some v =>
      let r := env.sfvt_add_to_var v addr
      (r.1, some r.2)

/-- The error `ProcessIP` raises for a status other than `SFIP_SUCCESS`. -/
def ipStatusError (ret : SFIP_RET) : ParseErrorMsg :=
  if ret = SFIP_RET.SFIP_LOOKUP_FAILURE then ParseErrorMsg.undefinedVariable
  else if ret = SFIP_RET.SFIP_CONFLICT then ParseErrorMsg.negatedRangeConflict
  else if ret = SFIP_RET.SFIP_NOT_ANY then ParseErrorMsg.notAnyNotAllowed
  else ParseErrorMsg.unableToProcessIp

/-- Whether the head of the positive list is flagged `any`. -/
def headIsAny (v : Option sfip_var_t) : Bool :=
  match v with
  | some a =>
      match a.head with
      | n :: _ => decide (n.flags &&& SFIP_ANY ≠ 0)
      | [] => false
  | none => false

/-- Resolves an address token into the source or destination address set of
the draft header and sets the matching any-IP flag. -/
def ProcessIP (env : Collab) (addr : String) (rtn : RuleTreeNode) (mode : Mode) :
    Except ParseErrorMsg RuleTreeNode :=
  match mode with
  | Mode.SRC =>
      let r := resolveIP env addr rtn.sip
      let rtn := { rtn with sip := r.2 }
      if r.1 ≠ SFIP_RET.SFIP_SUCCESS then Except.error (ipStatusError r.1)
      else
        let rtn := if headIsAny rtn.sip then { rtn with flags := rtn.flags ||| ANY_SRC_IP } else rtn
        match ValidateIPList rtn.sip with
        | Except.error e => Except.error e
        | Except.ok _ => Except.ok rtn
  | Mode.DST =>
      let r := resolveIP env addr rtn.dip
      let rtn := { rtn with dip := r.2 }
      if r.1 ≠ SFIP_RET.SFIP_SUCCESS then Except.error (ipStatusError r.1)
      else
        let rtn := if headIsAny rtn.dip then { rtn with flags := rtn.flags ||| ANY_DST_IP } else rtn
        match ValidateIPList rtn.dip with
        | Except.error e => Except.error e
        | Except.ok _ => Except.ok rtn

/-! ## Port resolution -/

/-- Modelled from the spec: `PortVarTableFind` (sfportobject), the port object
a name is bound to in the port-variable table. -/
def PortVarTableFind (pvt : List (String × PortObjectRef)) (name : String) : Option PortObjectRef :=
  pvt.lookup name

/-- Two port objects have the same port set. -/
def samePorts (a b : PortObject) : Prop :=
  a.ranges = b.ranges ∧ a.any = b.any ∧ a.pure_not = b.pure_not

instance (a b : PortObject) : Decidable (samePorts a b) := by
  unfold samePorts; infer_instance

/-- Modelled from the spec: `PortTableFindInputPortObjectPorts` on the
anonymous table, the stored port object with the same port set. -/
def nonameFind (noname : List PortObjectRef) (po : PortObject) : Option PortObjectRef :=
  noname.find? (fun e => decide (samePorts e.obj po))

/-- Modelled from the spec: `PortObjectHasAny` (sfportobject). -/
def PortObjectHasAny (po : Option PortObjectRef) : Bool :=
  match po with
  | some p => p.obj.any
  | none => false

/-- Modelled from the spec: `PortObjectIsPureNot` (sfportobject). -/
def PortObjectIsPureNot (po : Option PortObjectRef) : Bool :=
  match po with
  | some p => p.obj.pure_not
  | none => false

/-- Parse a port string as a port var, and create or find a port object for
it in the anonymous table.  Returns the port object and the anonymous table. -/
def ParsePortListTcpUdpPort (env : Collab) (pvt : List (String × PortObjectRef))
    (noname : List PortObjectRef) (port_str : String) :
    Except ParseErrorMsg (PortObjectRef × List PortObjectRef) :=
  if strcaseeq port_str "any" = true then
    match PortVarTableFind pvt "any" with
    | none => Except.error ParseErrorMsg.portVarTableMissingAny
    | some portobject => Except.ok (portobject, noname)
  else if port_str.front = '$' then
    match PortVarTableFind pvt (port_str.drop 1) with
    | none => Except.error ParseErrorMsg.portVarLookupFailed
    | some portobject => Except.ok (portobject, noname)
  else
    match env.PortObjectParseString port_str with
    | none => Except.error ParseErrorMsg.portVarParseError
    | some portobject =>
        match nonameFind noname portobject.obj with
        | some pox => Except.ok (pox, noname)
        | none => Except.ok (portobject, noname ++ [portobject])

/-- Resolves the port token of one direction into a port object, sets the
any-port flag and stores the port object in the draft header. -/
def ParsePortList (env : Collab) (rtn : RuleTreeNode) (pvt : List (String × PortObjectRef))
    (noname : List PortObjectRef) (port_str : String) (proto : Int) (dst_flag : Bool) :
    Except ParseErrorMsg (RuleTreeNode × List PortObjectRef) :=
  let resolved : Except ParseErrorMsg (PortObjectRef × List PortObjectRef) :=
    if proto = IPPROTO_TCP ∨ proto = IPPROTO_UDP then
      ParsePortListTcpUdpPort env pvt noname port_str
    else
      match PortVarTableFind pvt "any" with
      | none => Except.error ParseErrorMsg.portVarTableMissingAny
      | some portobject => Except.ok (portobject, noname)
  match resolved with
  | Except.error e => Except.error e
  | Except.ok (portobject, noname) =>
      let rtn :=
        if PortObjectHasAny (some portobject) then
          if dst_flag then { rtn with flags := rtn.flags ||| ANY_DST_PORT }
          else { rtn with flags := rtn.flags ||| ANY_SRC_PORT }
        else rtn
      if PortObjectIsPureNot (some portobject) then Except.error ParseErrorMsg.pureNotPorts
      else if dst_flag then Except.ok ({ rtn with dst_portobject := some portobject }, noname)
      else Except.ok ({ rtn with src_portobject := some portobject }, noname)

/-! ## Port-group indexer -/

/-- Modelled from the spec: `PortObjectPortCount` (sfportobject), the number of
ports of the object's ranges; 0 for `NULL`. -/
def PortObjectPortCount (po : Option PortObjectRef) : Int :=
  match po with
  | some p => ((p.obj.ranges.map (fun r => r.2 + 1 - r.1)).sum : Nat)
  | none => 0

/-- Modelled from the spec: `PortObjectAddRule` (sfportobject), appends a rule
index to the object's rule list. -/
def PortObjectAddRule (po : PortObject) (rule : Int) : PortObject :=
  { po with rule_list := po.rule_list ++ [rule] }

/-- Modelled from the spec: `PortObjectDupPorts` (sfportobject), a new port
object with the same ports and no rules; `NULL` for `NULL`. -/
def PortObjectDupPorts (po : Option PortObjectRef) : Option PortObject :=
  po.map (fun p => { p.obj with rule_list := [] })

/-- Modelled from the spec: `PortTableFindInputPortObjectPorts` on a group
table, the position of the entry with the same port set. -/
def PortTableFindInputPortObjectPorts (table : PortTable) (po : Option PortObjectRef) : Option Nat :=
  match po with
  | none => none
  | some p =>
      match table.findIdx? (fun e => decide (samePorts e p.obj)) with
      | some i => some i
      | none => none

/-- The block `FinishPortListRule` repeats for each table it fills: find the
entry with the ports of `po`, or duplicate `po` and add the copy to the table;
then add the rule index to that entry. -/
def addRuleToTable (table : PortTable) (po : Option PortObjectRef) (rim_index : Int) :
    Except ParseErrorMsg PortTable :=
  match PortTableFindInputPortObjectPorts table po with
  | some i => Except.ok (table.modify (fun pox => PortObjectAddRule pox rim_index) i)
  | none =>
      match PortObjectDupPorts po with
      | none => Except.error ParseErrorMsg.couldNotDupPortObject
      | some pox => Except.ok (table ++ [PortObjectAddRule pox rim_index])

/-- The protocols that have group tables. -/
inductive ProtoSel where
  | tcp
  | udp
  | icmp
  | ip
deriving DecidableEq, Repr

/-- The protocol selection at the head of `FinishPortListRule`. -/
def selectProto (proto : Int) : Option ProtoSel :=
  if proto = IPPROTO_TCP then some ProtoSel.tcp
  else if proto = IPPROTO_UDP then some ProtoSel.udp
  else if proto = IPPROTO_ICMP then some ProtoSel.icmp
  else if proto = ETHERNET_TYPE_IP then some ProtoSel.ip
  else none

/-- The dst table of a protocol. -/
def dstTable (pt : rule_port_tables_t) : ProtoSel → PortTable
  | ProtoSel.tcp => pt.tcp_dst
  | ProtoSel.udp => pt.udp_dst
  | ProtoSel.icmp => pt.icmp_dst
  | ProtoSel.ip => pt.ip_dst

/-- The src table of a protocol. -/
def srcTable (pt : rule_port_tables_t) : ProtoSel → PortTable
  | ProtoSel.tcp => pt.tcp_src
  | ProtoSel.udp => pt.udp_src
  | ProtoSel.icmp => pt.icmp_src
  | ProtoSel.ip => pt.ip_src

/-- The any-any object of a protocol. -/
def aaObject (pt : rule_port_tables_t) : ProtoSel → PortObject
  | ProtoSel.tcp => pt.tcp_anyany
  | ProtoSel.udp => pt.udp_anyany
  | ProtoSel.icmp => pt.icmp_anyany
  | ProtoSel.ip => pt.ip_anyany

/-- Stores a dst table of a protocol. -/
def setDstTable (pt : rule_port_tables_t) (t : PortTable) : ProtoSel → rule_port_tables_t
  | ProtoSel.tcp => { pt with tcp_dst := t }
  | ProtoSel.udp => { pt with udp_dst := t }
  | ProtoSel.icmp => { pt with icmp_dst := t }
  | ProtoSel.ip => { pt with ip_dst := t }

/-- Stores a src table of a protocol. -/
def setSrcTable (pt : rule_port_tables_t) (t : PortTable) : ProtoSel → rule_port_tables_t
  | ProtoSel.tcp => { pt with tcp_src := t }
  | ProtoSel.udp => { pt with udp_src := t }
  | ProtoSel.icmp => { pt with icmp_src := t }
  | ProtoSel.ip => { pt with ip_src := t }

/-- Stores an any-any object of a protocol. -/
def setAaObject (pt : rule_port_tables_t) (o : PortObject) : ProtoSel → rule_port_tables_t
  | ProtoSel.tcp => { pt with tcp_anyany := o }
  | ProtoSel.udp => { pt with udp_anyany := o }
  | ProtoSel.icmp => { pt with icmp_anyany := o }
  | ProtoSel.ip => { pt with ip_anyany := o }

/-- The counters of a protocol (`prc`). -/
def prc (st : ParseState) : ProtoSel → rule_count_t
  | ProtoSel.tcp => st.tcpCnt
  | ProtoSel.udp => st.udpCnt
  | ProtoSel.icmp => st.icmpCnt
  | ProtoSel.ip => st.ipCnt

/-- Stores the counters of a protocol. -/
def setPrc (st : ParseState) (c : rule_count_t) : ProtoSel → ParseState
  | ProtoSel.tcp => { st with tcpCnt := c }
  | ProtoSel.udp => { st with udpCnt := c }
  | ProtoSel.icmp => { st with icmpCnt := c }
  | ProtoSel.ip => { st with ipCnt := c }

/-- The state with `sc->port_tables` replaced. -/
def ParseState.setPortTables (st : ParseState) (pt : rule_port_tables_t) : ParseState :=
  { st with sc := { st.sc with port_tables := pt } }

/-- `PortObjectAddRule(aaObject, rim_index); prc->aa++` for one protocol. -/
def addToAnyAny (st : ParseState) (sel : ProtoSel) (rim_index : Int) : ParseState :=
  let st := st.setPortTables
    (setAaObject st.sc.port_tables (PortObjectAddRule (aaObject st.sc.port_tables sel) rim_index) sel)
  setPrc st { prc st sel with aa := (prc st sel).aa + 1 } sel

/-- The bleedover test of `FinishPortListRule`: the values of
`large_port_group`, `src_cnt` and `dst_cnt` after it. -/
def bleedover (fp : FastPatternConfig) (rtn : RuleTreeNode) : Bool × Int × Int :=
  if fp.singleRuleGroup = false ∧
      rtn.flags &&& (ANY_DST_PORT ||| ANY_SRC_PORT) ≠ (ANY_DST_PORT ||| ANY_SRC_PORT) then
    let s : Bool × Int :=
      if rtn.flags &&& ANY_SRC_PORT = 0 then
        let src_cnt := PortObjectPortCount rtn.src_portobject
        (decide (src_cnt ≥ fp.bleedoverPortLimit), src_cnt)
      else (false, 0)
    let d : Bool × Int :=
      if rtn.flags &&& ANY_DST_PORT = 0 then
        let dst_cnt := PortObjectPortCount rtn.dst_portobject
        (decide (dst_cnt ≥ fp.bleedoverPortLimit), dst_cnt)
      else (false, 0)
    (s.1 || d.1, s.2, d.2)
  else (false, 0, 0)

/-- The head of `FinishPortListRule` after the protocol selection: counts
rules with both ports specific (`sd`) and rules without content (`nc`), and
writes the bleedover notice with `LogMessage` when the port limit test fired
and bleedover warnings are on. -/
def countPortRule (st : ParseState) (rtn : RuleTreeNode) (otn : OptTreeNode)
    (pe : port_entry_t) (sel : ProtoSel) : ParseState :=
  let fp := st.sc.fast_pattern_config
  let st :=
    if rtn.flags &&& ANY_DST_PORT = 0 ∧ rtn.flags &&& ANY_SRC_PORT = 0 then
      setPrc st { prc st sel with sd := (prc st sel).sd + 1 } sel
    else st
  let st :=
    if pe.content = false ∧ pe.uricontent = false then
      setPrc st { prc st sel with nc := (prc st sel).nc + 1 } sel
    else st
  let b := bleedover fp rtn
  if b.1 = true ∧ fp.bleedoverWarnings = true then
    LogMessage st (LogMsg.bleedoverLimitExceeded fp.bleedoverPortLimit otn.sigInfo.generator
      otn.sigInfo.id (if b.2.1 > b.2.2 then b.2.1 else b.2.2))
  else st

/-- The `switch (GetOtnIpProto(otn))` of `FinishPortListRule`: an IP rule is
added to the any-any groups of the protocols it applies to. -/
def addIpRuleToProtoGroups (st : ParseState) (ipp : Int) (rim_index : Int) : ParseState :=
  if ipp = IPPROTO_TCP then addToAnyAny st ProtoSel.tcp rim_index
  else if ipp = IPPROTO_UDP then addToAnyAny st ProtoSel.udp rim_index
  else if ipp = IPPROTO_ICMP then addToAnyAny st ProtoSel.icmp rim_index
  else if ipp = -1 then
    let st := addToAnyAny st ProtoSel.tcp rim_index
    let st := addToAnyAny st ProtoSel.udp rim_index
    addToAnyAny st ProtoSel.icmp rim_index
  else st

/-- The block of `FinishPortListRule` for a specific dst port: the rule goes
into the dst table and, for a bidirectional rule, into the src table too, both
under the dst port object. -/
def addDstPortRule (st : ParseState) (rtn : RuleTreeNode) (sel : ProtoSel) (rim_index : Int) :
    Except ParseErrorMsg ParseState :=
  if rtn.flags &&& ANY_DST_PORT = 0 then
    let st := setPrc st { prc st sel with dst := (prc st sel).dst + 1 } sel
    match addRuleToTable (dstTable st.sc.port_tables sel) rtn.dst_portobject rim_index with
    | Except.error e => Except.error e
    | Except.ok t =>
        let st := st.setPortTables (setDstTable st.sc.port_tables t sel)
        if rtn.flags &&& BIDIRECTIONAL ≠ 0 then
          match addRuleToTable (srcTable st.sc.port_tables sel) rtn.dst_portobject rim_index with
          | Except.error e => Except.error e
          | Except.ok t => Except.ok (st.setPortTables (setSrcTable st.sc.port_tables t sel))
        else Except.ok st
  else Except.ok st

/-- The block of `FinishPortListRule` for a specific src port: the rule goes
into the src table and, for a bidirectional rule, into the dst table too, both
under the src port object. -/
def addSrcPortRule (st : ParseState) (rtn : RuleTreeNode) (sel : ProtoSel) (rim_index : Int) :
    Except ParseErrorMsg ParseState :=
  if rtn.flags &&& ANY_SRC_PORT = 0 then
    let st := setPrc st { prc st sel with src := (prc st sel).src + 1 } sel
    match addRuleToTable (srcTable st.sc.port_tables sel) rtn.src_portobject rim_index with
    | Except.error e => Except.error e
    | Except.ok t =>
        let st := st.setPortTables (setSrcTable st.sc.port_tables t sel)
        if rtn.flags &&& BIDIRECTIONAL ≠ 0 then
          match addRuleToTable (dstTable st.sc.port_tables sel) rtn.src_portobject rim_index with
          | Except.error e => Except.error e
          | Except.ok t => Except.ok (st.setPortTables (setDstTable st.sc.port_tables t sel))
        else Except.ok st
  else Except.ok st

/-- The condition under which `FinishPortListRule` makes the rule an any-any
rule: an any-any header, a large port group, or single-rule-group mode. -/
def takesAnyAnyPath (fp : FastPatternConfig) (rtn : RuleTreeNode) : Prop :=
  rtn.flags &&& (ANY_DST_PORT ||| ANY_SRC_PORT) = (ANY_DST_PORT ||| ANY_SRC_PORT) ∨
    (bleedover fp rtn).1 = true ∨ fp.singleRuleGroup = true

instance (fp : FastPatternConfig) (rtn : RuleTreeNode) : Decidable (takesAnyAnyPath fp rtn) := by
  unfold takesAnyAnyPath; infer_instance

/-- Finish adding the rule to the port tables.  Returns 0, or -1 for a protocol
without group tables. -/
def FinishPortListRule (env : Collab) (st : ParseState) (rtn : RuleTreeNode) (otn : OptTreeNode)
    (proto : Int) (pe : port_entry_t) : Except ParseErrorMsg (Int × ParseState) :=
  match selectProto proto with
  | none => Except.ok (-1, st)
  | some sel =>
      let fp := st.sc.fast_pattern_config
      let st := countPortRule st rtn otn pe sel
      let rim_index := otn.ruleIndex
      if takesAnyAnyPath fp rtn then
        if proto = ETHERNET_TYPE_IP then
          let st := addIpRuleToProtoGroups st (env.GetOtnIpProto otn) rim_index
          Except.ok (0, addToAnyAny st sel rim_index)
        else
          Except.ok (0, addToAnyAny st sel rim_index)
      else
        match addDstPortRule st rtn sel rim_index with
        | Except.error e => Except.error e
        | Except.ok st =>
            match addSrcPortRule st rtn sel rim_index with
            | Except.error e => Except.error e
            | Except.ok st => Except.ok (0, st)

/-! ## The per-rule entry point -/

/-- The rule string as `parse_rule` sees it: a string that begins with `(`
(a built-in rule, the whole string being the option text); a string that
`mSplit` cuts into fewer than six tokens; or the six header tokens and the
option text, if any. -/
inductive RuleArgs where
  | builtin (roptions : RuleOpts)
  | short
  | text (proto src_ip src_port dir dst_ip dst_port : String) (roptions : Option RuleOpts)
deriving DecidableEq, Repr

/-- Rule direction token `->`. -/
def RULE_DIR_OPT__DIRECTIONAL : String := "->"
/-- Rule direction token `<>`. -/
def RULE_DIR_OPT__BIDIRECTIONAL : String := "<>"

/-- Sets `sc->ip_proto_array[p] = 1`. -/
def setIpProto (st : ParseState) (p : Int) : ParseState :=
  { st with sc := { st.sc with ip_proto_array := st.sc.ip_proto_array.insert p } }

/-- What the header branch of `parse_rule` leaves behind: the `text` flag, the
protocol, the draft header, the option text and the number of tokens. -/
structure HeaderResult where
  text : Bool
  protocol : Int
  test_rtn : RuleTreeNode
  roptions : Option RuleOpts
  num_toks : Nat
  st : ParseState

/-- The first half of `parse_rule`, up to the draft header: the assumed header
of a built-in rule, or the header tokens resolved one by one. -/
def parseHeader (env : Collab) (st : ParseState) (args : RuleArgs) (rule_type : Int) :
    Except ParseErrorMsg HeaderResult :=
  let test_rtn := RuleTreeNode.zero
  match args with
  | RuleArgs.builtin roptions =>
      let test_rtn := { test_rtn with flags := test_rtn.flags ||| ANY_DST_PORT }
      let test_rtn := { test_rtn with flags := test_rtn.flags ||| ANY_SRC_PORT }
      let test_rtn := { test_rtn with flags := test_rtn.flags ||| ANY_DST_IP }
      let test_rtn := { test_rtn with flags := test_rtn.flags ||| ANY_SRC_IP }
      let test_rtn := { test_rtn with flags := test_rtn.flags ||| BIDIRECTIONAL }
      let test_rtn := { test_rtn with type := rule_type }
      Except.ok { text := false, protocol := IPPROTO_TCP, test_rtn := test_rtn,
                  roptions := some roptions, num_toks := 0, st := st }
  | RuleArgs.short => Except.error ParseErrorMsg.badRule
  | RuleArgs.text tok0 tok1 tok2 tok3 tok4 tok5 roptions =>
      let num_toks := if roptions.isSome then 7 else 6
      let test_rtn := { test_rtn with type := rule_type }
      let protocol := env.GetRuleProtocol tok0
      let test_rtn := { test_rtn with proto := protocol }
      let marked : Except ParseErrorMsg ParseState :=
        if protocol = IPPROTO_TCP then Except.ok (setIpProto st IPPROTO_TCP)
        else if protocol = IPPROTO_UDP then Except.ok (setIpProto st IPPROTO_UDP)
        else if protocol = IPPROTO_ICMP then
          Except.ok (setIpProto (setIpProto st IPPROTO_ICMP) IPPROTO_ICMPV6)
        else if protocol = ETHERNET_TYPE_IP then
          Except.ok (setIpProto (setIpProto (setIpProto (setIpProto st IPPROTO_TCP) IPPROTO_UDP)
            IPPROTO_ICMP) IPPROTO_ICMPV6)
        else Except.error ParseErrorMsg.badProtocol
      match marked with
      | Except.error e => Except.error e
      | Except.ok st =>
      match ProcessIP env tok1 test_rtn Mode.SRC with
      | Except.error e => Except.error e
      | Except.ok test_rtn =>
      if strcaseeq tok2 RULE_DIR_OPT__DIRECTIONAL = true ∨
          strcaseeq tok2 RULE_DIR_OPT__BIDIRECTIONAL = true then
        Except.error ParseErrorMsg.portValueMissing
      else
      match ParsePortList env test_rtn st.policy.portVarTable st.policy.nonamePortVarTable
          tok2 protocol false with
      | Except.error e => Except.error e
      | Except.ok (test_rtn, noname) =>
      let st := { st with policy := { st.policy with nonamePortVarTable := noname } }
      if tok3 ≠ RULE_DIR_OPT__DIRECTIONAL ∧ tok3 ≠ RULE_DIR_OPT__BIDIRECTIONAL then
        Except.error ParseErrorMsg.illegalDirection
      else
      let test_rtn :=
        if tok3 = RULE_DIR_OPT__BIDIRECTIONAL then
          { test_rtn with flags := test_rtn.flags ||| BIDIRECTIONAL }
        else test_rtn
      match ProcessIP env tok4 test_rtn Mode.DST with
      | Except.error e => Except.error e
      | Except.ok test_rtn =>
      match ParsePortList env test_rtn st.policy.portVarTable st.policy.nonamePortVarTable
          tok5 protocol true with
      | Except.error e => Except.error e
      | Except.ok (test_rtn, noname) =>
      let st := { st with policy := { st.policy with nonamePortVarTable := noname } }
      Except.ok { text := true, protocol := protocol, test_rtn := test_rtn,
                  roptions := roptions, num_toks := num_toks, st := st }

/-- Appends a record to the bounded per-rule vector; -1 when it is full. -/
def port_list_add_entry (plist : port_list_t) (pentry : port_entry_t) : Int × port_list_t :=
  if plist.pl_cnt ≥ plist.pl_max then (-1, plist)
  else (0, { plist with pl_array := plist.pl_array ++ [pentry], pl_cnt := plist.pl_cnt + 1 })

/-- Whether the signature has an operator of the given kind. -/
def otn_has_plugin (otn : OptTreeNode) (type : RuleOptionType) : Bool :=
  otn.opt_func.any (fun fpl => decide (fpl.type = type))

/-- The header node at an address of the heap. -/
def rtnAt (st : ParseState) (a : Nat) : RuleTreeNode :=
  (st.rtn_heap[a]?).getD RuleTreeNode.zero

/-- Process an individual rule and add it to the rule list. -/
def parse_rule (env : Collab) (st : ParseState) (args : RuleArgs) (rule_type : Int)
    (list : Option Nat) : Except ParseErrorMsg ParseState :=
  match parseHeader env st args rule_type with
  | Except.error e => Except.error e
  | Except.ok h =>
      let test_rtn := { h.test_rtn with listhead := list }
      let r := ProcessHeadNode h.st test_rtn list
      let rtn := r.1
      match ParseRuleOptions r.2 rtn h.roptions h.protocol h.text with
      | Except.error e => Except.error e
      | Except.ok (none, st) => Except.ok st
      | Except.ok (some otn, st) =>
          let st := { st with rule_count := st.rule_count + 1 }
          let toks (tok : String) : Option String := if h.num_toks ≠ 0 then some tok else none
          let hdr : Option String × Option String × Option String :=
            match args with
            | RuleArgs.text tok0 _ tok2 _ _ tok5 _ => (toks tok0, toks tok2, toks tok5)
            | _ => (none, none, none)
          let uricontent : Bool :=
            otn_has_plugin otn RuleOptionType.RULE_OPTION_TYPE_CONTENT_URI &&
            otn.opt_func.any (fun fpl =>
              decide (fpl.type = RuleOptionType.RULE_OPTION_TYPE_CONTENT_URI) && fpl.http_fp_eligible)
          let content : Bool :=
            !uricontent && otn_has_plugin otn RuleOptionType.RULE_OPTION_TYPE_CONTENT
          let pe : port_entry_t :=
            { rule_type := rule_type, proto := h.protocol, icmp_type := 0, ip_proto := 0,
              protocol := hdr.1, src_port := hdr.2.1, dst_port := hdr.2.2,
              gid := otn.sigInfo.generator, sid := otn.sigInfo.id,
              dir := if (rtnAt st rtn).flags &&& BIDIRECTIONAL ≠ 0 then 1 else 0,
              content := content, uricontent := uricontent }
          let st := { st with port_list := (port_list_add_entry st.port_list pe).2 }
          match FinishPortListRule env st (rtnAt st rtn) otn h.protocol pe with
          | Except.error e => Except.error e
          | Except.ok (ret, st) =>
              if ret ≠ 0 then Except.error ParseErrorMsg.failedToFinishPortListRule
              else Except.ok st

/-- Resets the counters and the per-rule vector at the start of a session. -/
def parse_rule_init (env : Collab) (st : ParseState) : ParseState :=
  let zero : rule_count_t := { src := 0, dst := 0, aa := 0, sd := 0, nc := 0 }
  { st with
    rule_count := 0
    detect_rule_count := 0
    builtin_rule_count := 0
    head_count := 0
    otn_count := 0
    port_list := { pl_max := env.MAX_RULE_COUNT, pl_cnt := 0, pl_array := [] }
    tcpCnt := zero
    udpCnt := zero
    ipCnt := zero
    icmpCnt := zero }

/-- The value `get_rule_count` returns. -/
def get_rule_count (st : ParseState) : Int := st.rule_count

/-! ## Ingestion sessions -/

/-- One call of `parse_rule`: the collaborators' answers for this rule, the
rule string, the rule type and the action list. -/
structure RuleCall where
  env : Collab
  args : RuleArgs
  rule_type : Int
  list : Option Nat

/-- One event of a session: a rule is parsed, or the configuration loader
makes another policy the active one. -/
inductive Step where
  | rule (c : RuleCall)
  | setPolicy (p : IpsPolicy)

/-- Runs the events of a session in order; a parse error ends the session. -/
def ingest : ParseState → List Step → Except ParseErrorMsg ParseState
  | st, [] => Except.ok st
  | st, Step.rule c :: rest =>
      match parse_rule c.env st c.args c.rule_type c.list with
      | Except.error e => Except.error e
      | Except.ok st => ingest st rest
  | st, Step.setPolicy p :: rest => ingest { st with policy := p } rest

/-! ## Statements and concrete inputs used by the theorems -/

/-- Field-wise header equality with both address sets compared structurally. -/
def HeaderFieldsEqual (a b : RuleTreeNode) : Prop :=
  a.type = b.type ∧ a.proto = b.proto ∧ a.flags = b.flags ∧ a.listhead = b.listhead ∧
  sfvar_compare a.sip b.sip = SFIP_RET.SFIP_EQUAL ∧
  sfvar_compare a.dip b.dip = SFIP_RET.SFIP_EQUAL ∧
  poAddr a.src_portobject = poAddr b.src_portobject ∧
  poAddr a.dst_portobject = poAddr b.dst_portobject

/-- Field-wise header equality in which an address set is compared only when
both headers have one. -/
def HeaderFieldsMatch (a b : RuleTreeNode) : Prop :=
  a.type = b.type ∧ a.proto = b.proto ∧ a.flags = b.flags ∧ a.listhead = b.listhead ∧
  (a.sip = none ∨ b.sip = none ∨ sfvar_compare a.sip b.sip = SFIP_RET.SFIP_EQUAL) ∧
  (a.dip = none ∨ b.dip = none ∨ sfvar_compare a.dip b.dip = SFIP_RET.SFIP_EQUAL) ∧
  poAddr a.src_portobject = poAddr b.src_portobject ∧
  poAddr a.dst_portobject = poAddr b.dst_portobject

/-- The address set `any`. -/
def anyAddrSet : sfip_var_t :=
  { head := [{ flags := SFIP_ANY, ip := 0, bits := 0 }], neg_head := [], name := none }

/-- A header without address sets, as the built-in branch of `parse_rule`
drafts it. -/
def headerNoAddr : RuleTreeNode :=
  { RuleTreeNode.zero with
    flags := ANY_DST_PORT ||| ANY_SRC_PORT ||| ANY_DST_IP ||| ANY_SRC_IP ||| BIDIRECTIONAL }

/-- The same header with source address set `any`. -/
def headerSrcAny : RuleTreeNode := { headerNoAddr with sip := some anyAddrSet }

/-- The port object `any`. -/
def anyPortObject : PortObject :=
  { ranges := [(0, 65535)], any := true, pure_not := false, rule_list := [] }

/-- The port object of the literal list `[1:1024]`. -/
def ports1to1024 : PortObject :=
  { ranges := [(1, 1024)], any := false, pure_not := false, rule_list := [] }

/-- The port object of the literal list `[1:1025]`. -/
def ports1to1025 : PortObject :=
  { ranges := [(1, 1025)], any := false, pure_not := false, rule_list := [] }

/-- The port object of the literal port `80`. -/
def port80 : PortObject :=
  { ranges := [(80, 80)], any := false, pure_not := false, rule_list := [] }

/-- Group tables without rules. -/
def emptyPortTables : rule_port_tables_t :=
  { tcp_anyany := anyPortObject, tcp_src := [], tcp_dst := [],
    udp_anyany := anyPortObject, udp_src := [], udp_dst := [],
    icmp_anyany := anyPortObject, icmp_src := [], icmp_dst := [],
    ip_anyany := anyPortObject, ip_src := [], ip_dst := [] }

/-- A policy whose port-variable table holds `any` and whose anonymous table
is empty. -/
def demoPolicy : IpsPolicy :=
  { policy_id := 0, portVarTable := [("any", { addr := 1, obj := anyPortObject })],
    nonamePortVarTable := [] }

/-- A configuration with an empty signature map, bleedover limit 1024, strict
mode off. -/
def demoConfig : SnortConfig :=
  { otn_map := [], port_tables := emptyPortTables,
    fast_pattern_config :=
      { singleRuleGroup := false, bleedoverPortLimit := 1024, bleedoverWarnings := false },
    ip_proto_array := [], conf_error_out := false, default_rule_state := true }

/-- Collaborators that know the four protocols, the address `any` and a few
literal port lists, and find no IP-proto constraint in any signature. -/
def demoEnv : Collab :=
  { GetRuleProtocol := fun tok =>
      if tok = "tcp" then IPPROTO_TCP else if tok = "udp" then IPPROTO_UDP
      else if tok = "icmp" then IPPROTO_ICMP else if tok = "ip" then ETHERNET_TYPE_IP else -1
    sfvt_lookup_var := fun _ => none
    sfvt_add_to_var := fun v tok =>
      if tok = "any" then
        (SFIP_RET.SFIP_SUCCESS, { v with head := v.head ++ [{ flags := SFIP_ANY, ip := 0, bits := 0 }] })
      else (SFIP_RET.SFIP_LOOKUP_FAILURE, v)
    PortObjectParseString := fun tok =>
      if tok = "80" then some { addr := 80, obj := port80 }
      else if tok = "[1:1024]" then some { addr := 1024, obj := ports1to1024 }
      else if tok = "[1:1025]" then some { addr := 1025, obj := ports1to1025 }
      else none
    GetOtnIpProto := fun _ => -1
    MAX_RULE_COUNT := 65536 }

/-- The state at the start of a session over `demoConfig` and `demoPolicy`. -/
def demoState : ParseState :=
  parse_rule_init demoEnv
    { rule_count := 0, detect_rule_count := 0, builtin_rule_count := 0, head_count := 0,
      otn_count := 0,
      tcpCnt := { src := 0, dst := 0, aa := 0, sd := 0, nc := 0 },
      udpCnt := { src := 0, dst := 0, aa := 0, sd := 0, nc := 0 },
      icmpCnt := { src := 0, dst := 0, aa := 0, sd := 0, nc := 0 },
      ipCnt := { src := 0, dst := 0, aa := 0, sd := 0, nc := 0 },
      port_list := { pl_max := 0, pl_cnt := 0, pl_array := [] },
      sc := demoConfig, rtn_heap := [], ruleIndexMap := [], policy := demoPolicy, warnings := [],
      messages := [] }

/-- The header of `tcp any [1:1024] -> any any`. -/
def headerSrc1024 : RuleTreeNode :=
  { RuleTreeNode.zero with
    proto := IPPROTO_TCP
    flags := ANY_SRC_IP ||| ANY_DST_IP ||| ANY_DST_PORT
    sip := some anyAddrSet
    dip := some anyAddrSet
    src_portobject := some { addr := 1024, obj := ports1to1024 }
    dst_portobject := some { addr := 1, obj := anyPortObject } }

/-- The header of `tcp any [1:1025] -> any any`. -/
def headerSrc1025 : RuleTreeNode :=
  { headerSrc1024 with src_portobject := some { addr := 1025, obj := ports1to1025 } }

/-- The header of `any any -> any any` for a protocol. -/
def headerAnyAny (proto : Int) : RuleTreeNode :=
  { RuleTreeNode.zero with
    proto := proto
    flags := ANY_SRC_IP ||| ANY_DST_IP ||| ANY_SRC_PORT ||| ANY_DST_PORT
    sip := some anyAddrSet
    dip := some anyAddrSet
    src_portobject := some { addr := 1, obj := anyPortObject }
    dst_portobject := some { addr := 1, obj := anyPortObject } }

/-- A text signature `sid:3` of the given protocol with rule index 7. -/
def demoOtn (proto : Int) : OptTreeNode :=
  { opt_func := [leafNode], chain_node_number := 0, proto := proto,
    sigInfo := { generator := 1, id := 3, rev := 0, text_rule := true },
    enabled := true, ruleIndex := 7, num_detection_opts := 0, proto_nodes := [some 0] }

/-- The per-rule record of a rule without content. -/
def demoEntry (proto : Int) : port_entry_t :=
  { rule_type := 1, proto := proto, icmp_type := 0, ip_proto := 0, protocol := none,
    src_port := none, dst_port := none, gid := 1, sid := 3, dir := 0,
    content := false, uricontent := false }

/-- A header pointer is bound for policy `q` by some signature of the list. -/
def bound (otns : List OptTreeNode) (q a : Nat) : Prop :=
  ∃ o ∈ otns, getRtnFromOtn o q = some a

/-- The heap `h'` has every cell of `h`, up to the reference count. -/
def HeapGrows (h h' : List RuleTreeNode) : Prop :=
  ∀ (a : Nat) (n : RuleTreeNode), h[a]? = some n →
    ∃ c, h'[a]? = some { n with otnRefCount := c }

/-- Every header bound in the list is in the heap, and two different headers
bound for the same policy do not match under `TestHeader`. -/
def HeadersUnique (heap : List RuleTreeNode) (otns : List OptTreeNode) : Prop :=
  ∀ q a1 a2, bound otns q a1 → bound otns q a2 →
    ∃ n1 n2, heap[a1]? = some n1 ∧ heap[a2]? = some n2 ∧
      (a1 ≠ a2 → TestHeader (some n1) (some n2) = 0)

/-- The parts of the state that only deduplication and header canonicalisation
change are the same in both states. -/
structure SameCore (a b : ParseState) : Prop where
  otn_map : b.sc.otn_map = a.sc.otn_map
  rtn_heap : b.rtn_heap = a.rtn_heap
  otn_count : b.otn_count = a.otn_count
  rule_count : b.rule_count = a.rule_count
  detect_rule_count : b.detect_rule_count = a.detect_rule_count
  builtin_rule_count : b.builtin_rule_count = a.builtin_rule_count
  policy_id : b.policy.policy_id = a.policy.policy_id
  conf_error_out : b.sc.conf_error_out = a.sc.conf_error_out

/-- The fields of a header that `TestHeader` compares. -/
def hdrFields (r : RuleTreeNode) :
    Int × Int × Nat × Option Nat × Option sfip_var_t × Option sfip_var_t × Option PortObjectRef ×
      Option PortObjectRef :=
  (r.type, r.proto, r.flags, r.listhead, r.sip, r.dip, r.src_portobject, r.dst_portobject)

/-- The signature a blank signature turns into under the option loops. -/
def optsSigInfo (text : Bool) (toks : List RuleTok) : Option SigInfo :=
  match parseOptionLoops
      { opt_func := [], chain_node_number := 0, proto := 0,
        sigInfo := { generator := GENERATOR_SNORT_ENGINE, id := 0, rev := 0, text_rule := text },
        enabled := false, ruleIndex := 0, num_detection_opts := 0, proto_nodes := [] } toks with
  | Except.ok r => some r.1.sigInfo
  | Except.error _ => none

/-- The `(gid, sid, rev, text)` the options of a rule string give its
signature; `none` when the rule has no option text or the options do not
parse. -/
def argsSigInfo (args : RuleArgs) : Option SigInfo :=
  match args with
  | RuleArgs.builtin ro => optsSigInfo false ro.toks
  | RuleArgs.short => none
  | RuleArgs.text _ _ _ _ _ _ (some ro) => optsSigInfo true ro.toks
  | RuleArgs.text _ _ _ _ _ _ none => none

/-- The `(gid, sid)` of a signature. -/
def SigInfo.key (si : SigInfo) : Nat × Nat := (si.generator, si.id)

/-- The revision of the signature the map holds for a `(gid, sid)`. -/
def revOf (st : ParseState) (k : Nat × Nat) : Option Nat :=
  (OtnLookup st.sc.otn_map k.1 k.2).map (fun o => o.sigInfo.rev)

/-- The rule calls among the events of a session. -/
def callsOf : List Step → List RuleCall
  | [] => []
  | Step.rule c :: rest => c :: callsOf rest
  | Step.setPolicy _ :: rest => callsOf rest

/-- The keys of the signature map are pairwise different and `otn_count` is
the number of signatures in the map. -/
def MapCounted (st : ParseState) : Prop :=
  (st.sc.otn_map.map OptTreeNode.key).Nodup ∧ st.otn_count = (st.sc.otn_map.length : Int)

/-- The revision kept for a key after one more rule with signature `si`. -/
def keepRev (old : Option Nat) (si : SigInfo) : Nat :=
  match old with
  | none => si.rev
  | some r0 => max r0 si.rev

/-- A text rule `alert tcp any any -> any 80 (sid:<sid>; rev:<rev>;)` of rule
type 1 on action list 0, parsed with the collaborators `demoEnv`. -/
def textRule80 (sid rev : Nat) : RuleCall :=
  { env := demoEnv
    args := RuleArgs.text "tcp" "any" "any" "->" "any" "80"
      (some { enclosed := true,
              toks := [RuleTok.plain (SoTok.sid sid), RuleTok.plain (SoTok.rev rev)] })
    rule_type := 1
    list := some 0 }

/-- A text rule `alert udp any any -> any any (sid:<sid>; rev:<rev>;)`. -/
def textRuleUdp (sid rev : Nat) : RuleCall :=
  { env := demoEnv
    args := RuleArgs.text "udp" "any" "any" "->" "any" "any"
      (some { enclosed := true,
              toks := [RuleTok.plain (SoTok.sid sid), RuleTok.plain (SoTok.rev rev)] })
    rule_type := 1
    list := some 0 }

/-- The state a session ends in, or the start state if it ends in a parse
error. -/
def endState (st : ParseState) (steps : List Step) : ParseState :=
  match ingest st steps with
  | Except.ok st' => st'
  | Except.error _ => st

/-- A session with three different `(gid, sid)` and two different headers,
where `1:1` comes with the revisions 1, 3 and 2 in this order. -/
def sessionMixed : List Step :=
  [Step.rule (textRule80 1 1), Step.rule (textRuleUdp 2 1), Step.rule (textRule80 1 3),
   Step.rule (textRule80 1 2), Step.rule (textRule80 5 2)]

/-- The same text rule with `rev:1` and then with `rev:2`. -/
def sessionRev12 : List Step :=
  [Step.rule (textRule80 1 1), Step.rule (textRule80 1 2)]

/-- The same text rule, `rev:1`, two times. -/
def sessionTwice : List Step :=
  [Step.rule (textRule80 1 1), Step.rule (textRule80 1 1)]

/-- The state after the single rule `alert tcp any any -> any 80 (sid:1; rev:2;)`. -/
def stateAfterOne : ParseState := endState demoState [Step.rule (textRule80 1 2)]

/-- The signature the map of `stateAfterOne` holds. -/
def demoStored : OptTreeNode :=
  (stateAfterOne.sc.otn_map.head?).getD (demoOtn IPPROTO_TCP)

/-- A draft of the same signature with another revision. -/
def demoDraft (rev : Nat) : OptTreeNode :=
  { demoStored with sigInfo := { demoStored.sigInfo with rev := rev } }

/-- What `mergeDuplicateOtn` returns for `demoStored` and the draft with the
given revision in `stateAfterOne`. -/
def mergeDemo (rev : Nat) : Int × OptTreeNode × ParseState :=
  match mergeDuplicateOtn stateAfterOne demoStored (demoDraft rev) 0 with
  | Except.ok r => r
  | Except.error _ => (0, demoDraft rev, stateAfterOne)

/-- The anonymous port table holds no two different port objects with the same
port set. -/
def PortsUnique (noname : List PortObjectRef) : Prop :=
  noname.Pairwise (fun a b => ¬ samePorts a.obj b.obj)

/-- The first step of `ParsePortList`, "get the protocol specific port
object": the port object the token resolves to and the anonymous table after
it. -/
def resolvePortObject (env : Collab) (pvt : List (String × PortObjectRef))
    (noname : List PortObjectRef) (port_str : String) (proto : Int) :
    Except ParseErrorMsg (PortObjectRef × List PortObjectRef) :=
  if proto = IPPROTO_TCP ∨ proto = IPPROTO_UDP then
    ParsePortListTcpUdpPort env pvt noname port_str
  else
    match PortVarTableFind pvt "any" with
    | none => Except.error ParseErrorMsg.portVarTableMissingAny
    | some portobject => Except.ok (portobject, noname)

/-- The part of the state the port-group indexer owns: the port-group tables,
the per-rule port list and the per-protocol counters. -/
def indexPart (st : ParseState) :
    rule_port_tables_t × port_list_t × rule_count_t × rule_count_t × rule_count_t × rule_count_t :=
  (st.sc.port_tables, st.port_list, st.tcpCnt, st.udpCnt, st.icmpCnt, st.ipCnt)

/-- The header of `tcp any any -> any 80`. -/
def headerDst80 : RuleTreeNode :=
  { RuleTreeNode.zero with
    proto := IPPROTO_TCP
    flags := ANY_SRC_IP ||| ANY_DST_IP ||| ANY_SRC_PORT
    sip := some anyAddrSet
    dip := some anyAddrSet
    src_portobject := some { addr := 1, obj := anyPortObject }
    dst_portobject := some { addr := 80, obj := port80 } }

/-- The header of `tcp any 80 <> any any`. -/
def headerBidirSrc80 : RuleTreeNode :=
  { RuleTreeNode.zero with
    proto := IPPROTO_TCP
    flags := ANY_SRC_IP ||| ANY_DST_IP ||| ANY_DST_PORT ||| BIDIRECTIONAL
    sip := some anyAddrSet
    dip := some anyAddrSet
    src_portobject := some { addr := 80, obj := port80 }
    dst_portobject := some { addr := 1, obj := anyPortObject } }

/-- The port object of the literal list `![80]`, a pure-not list. -/
def notPort80 : PortObject :=
  { ranges := [(80, 80)], any := false, pure_not := true, rule_list := [] }

/-- The collaborators `demoEnv` with a port-list parser that also knows
`![80]`. -/
def pureNotEnv : Collab :=
  { demoEnv with
    PortObjectParseString := fun tok =>
      if tok = "![80]" then some { addr := 81, obj := notPort80 }
      else demoEnv.PortObjectParseString tok }

/-- The rule `alert tcp any any -> any ![80] (sid:4;)`. -/
def pureNotRule : RuleArgs :=
  RuleArgs.text "tcp" "any" "any" "->" "any" "![80]"
    (some { enclosed := true, toks := [RuleTok.plain (SoTok.sid 4)] })

/-- The state `stateAfterOne` with strict mode on. -/
def strictStateAfterOne : ParseState :=
  { stateAfterOne with sc := { stateAfterOne.sc with conf_error_out := true } }

/-- The state after `alert tcp any any -> any 80 (sid:1; rev:2;)` of rule type
1 and the same header with `sid:5` of rule type 2: two headers that differ in
their action type only. -/
def stateTwoTypes : ParseState :=
  endState demoState
    [Step.rule (textRule80 1 2), Step.rule { textRule80 5 1 with rule_type := 2 }]

/-- The operators that reset the fast-pattern-only state: `FILE_DATA`,
`PKT_DATA`, `BASE64_DATA`, `PCRE`, `BYTE_JUMP` and `BYTE_EXTRACT`. -/
def isResetOp (f : OptFpList) : Bool :=
  decide (f.type = RuleOptionType.RULE_OPTION_TYPE_FILE_DATA ∨
    f.type = RuleOptionType.RULE_OPTION_TYPE_PKT_DATA ∨
    f.type = RuleOptionType.RULE_OPTION_TYPE_BASE64_DATA ∨
    f.type = RuleOptionType.RULE_OPTION_TYPE_PCRE ∨
    f.type = RuleOptionType.RULE_OPTION_TYPE_BYTE_JUMP ∨
    f.type = RuleOptionType.RULE_OPTION_TYPE_BYTE_EXTRACT)

/-- The content operators: `CONTENT` and `CONTENT_URI`. -/
def isContentOp (f : OptFpList) : Bool :=
  decide (f.type = RuleOptionType.RULE_OPTION_TYPE_CONTENT ∨
    f.type = RuleOptionType.RULE_OPTION_TYPE_CONTENT_URI)

/-- The rule of the specification for a warning at position `i`: the operator
there is relative and the most recent content or reset operator before it
exists and is a content operator marked fast-pattern-only. -/
def warnsAtSpec (ops : List OptFpList) (i : Nat) : Bool :=
  match ops[i]? with
  | none => false
  | some f =>
      f.isRelative &&
      (match (ops.take i).reverse.find? (fun g => isContentOp g || isResetOp g) with
       | some g => isContentOp g && g.fast_pattern_only
       | none => false)

/-- The `fp_only` bit after one more operator, as the body of the loop of
`ValidateFastPattern` updates it. -/
def fpOnlyStep (fp_only : Bool) (fpl : OptFpList) : Bool :=
  let fp_only :=
    if fpl.type = RuleOptionType.RULE_OPTION_TYPE_FILE_DATA ∨
        fpl.type = RuleOptionType.RULE_OPTION_TYPE_PKT_DATA ∨
        fpl.type = RuleOptionType.RULE_OPTION_TYPE_BASE64_DATA ∨
        fpl.type = RuleOptionType.RULE_OPTION_TYPE_PCRE ∨
        fpl.type = RuleOptionType.RULE_OPTION_TYPE_BYTE_JUMP ∨
        fpl.type = RuleOptionType.RULE_OPTION_TYPE_BYTE_EXTRACT then false
    else fp_only
  if fpl.type = RuleOptionType.RULE_OPTION_TYPE_CONTENT ∨
      fpl.type = RuleOptionType.RULE_OPTION_TYPE_CONTENT_URI then
    fpl.fast_pattern_only
  else fp_only

/-- What `ProcessIP` leaves in the header for a resolved, non-empty address
set `a` in the given mode. -/
def withAddrSet (rtn : RuleTreeNode) (mode : Mode) (a : sfip_var_t) : RuleTreeNode :=
  match mode with
  | Mode.SRC =>
      { rtn with
        sip := some a
        flags := if headIsAny (some a) then rtn.flags ||| ANY_SRC_IP else rtn.flags }
  | Mode.DST =>
      { rtn with
        dip := some a
        flags := if headIsAny (some a) then rtn.flags ||| ANY_DST_IP else rtn.flags }

/-- The address set of the header that `ProcessIP` works on in a mode. -/
def addrSetOf (rtn : RuleTreeNode) (mode : Mode) : Option sfip_var_t :=
  match mode with
  | Mode.SRC => rtn.sip
  | Mode.DST => rtn.dip

/-- The tokens of the option body that the first loop hands to
`dispatchOption`: all but those consumed as a shared-object continuation. -/
def plainToks : List RuleTok → List SoTok
  | [] => []
  | RuleTok.plain t :: rest => t :: plainToks rest
  | RuleTok.soid _ :: rest => plainToks rest

/-- The value of `so_opts` after the first loop, given its value before. -/
def soOptsAfter : Option (List SoTok) → List RuleTok → Option (List SoTok)
  | s, [] => s
  | s, RuleTok.plain _ :: rest => soOptsAfter s rest
  | _, RuleTok.soid so :: rest => soOptsAfter (some so) rest

/-- Everything of a signature but its per-policy header array. -/
def otnBody (o : OptTreeNode) :
    List OptFpList × Int × Int × SigInfo × Bool × Int × Int :=
  (o.opt_func, o.chain_node_number, o.proto, o.sigInfo, o.enabled, o.ruleIndex,
    o.num_detection_opts)

/-- What `ParseRuleOptions` returns for the options `(sid:1; rev:3;)` of a TCP
text rule under header 0 in `stateAfterOne`, which holds `1:1` with rev 2. -/
def optionsDemo : Option OptTreeNode × ParseState :=
  match ParseRuleOptions stateAfterOne 0
      (some { enclosed := true,
              toks := [RuleTok.plain (SoTok.sid 1), RuleTok.plain (SoTok.rev 3)] })
      IPPROTO_TCP true with
  | Except.ok r => r
  | Except.error _ => (none, stateAfterOne)

/-- The options `(sid:1; rev:3;)`. -/
def bodySid1Rev3 : RuleOpts :=
  { enclosed := true, toks := [RuleTok.plain (SoTok.sid 1), RuleTok.plain (SoTok.rev 3)] }

/-- The built-in rule `(sid:<sid>; rev:<rev>;)` of rule type 1 on action list
0, parsed with the collaborators `demoEnv`. -/
def builtinRule (sid rev : Nat) : RuleCall :=
  { env := demoEnv
    args := RuleArgs.builtin
      { enclosed := true,
        toks := [RuleTok.plain (SoTok.sid sid), RuleTok.plain (SoTok.rev rev)] }
    rule_type := 1
    list := some 0 }

/-- The text rule `alert tcp any any -> any 80 (sid:1; rev:1;)` followed by
the built-in rule `(sid:1; rev:2;)`. -/
def sessionTextThenBuiltin : List Step :=
  [Step.rule (textRule80 1 1), Step.rule (builtinRule 1 2)]

/-- A content operator marked fast-pattern-only followed by a relative
operator. -/
def opsFpOnlyThenRelative : List OptFpList :=
  [{ type := RuleOptionType.RULE_OPTION_TYPE_CONTENT, isRelative := false,
     fast_pattern_only := true, http_fp_eligible := false },
   { type := RuleOptionType.RULE_OPTION_TYPE_OTHER, isRelative := true,
     fast_pattern_only := false, http_fp_eligible := false }]

/-- The address set of the single host `10.0.0.1`. -/
def hostAddrSet : sfip_var_t :=
  { head := [{ flags := 0, ip := 167772161, bits := 32 }], neg_head := [], name := none }

/-- The header `headerNoAddr` with the source address set of one host. -/
def headerSrcHost : RuleTreeNode := { headerNoAddr with sip := some hostAddrSet }

/-- The continuation `rev:2; <content>; <unknown option>`, split on `;`. -/
def continuationDemo : List SoTok :=
  [SoTok.rev 2,
   SoTok.detection
     { type := RuleOptionType.RULE_OPTION_TYPE_CONTENT, isRelative := false,
       fast_pattern_only := false, http_fp_eligible := false },
   SoTok.unknown]

/-- The tokens of the option body `(sid:1; soid:<id>;)` whose `soid` option
hands back `continuationDemo`. -/
def bodyWithContinuation : List RuleTok :=
  [RuleTok.plain (SoTok.sid 1), RuleTok.soid continuationDemo]

/-- What the first option loop leaves, the start values when it raises. -/
def firstPassResult (o : OptTreeNode) (toks : List RuleTok) :
    OptTreeNode × Int × Option (List SoTok) :=
  match firstPass (o, 0, none) toks with
  | Except.ok r => r
  | Except.error _ => (o, 0, none)

/-- A group table holds no two different port objects with the same port
set. -/
def TableUnique (t : PortTable) : Prop :=
  t.Pairwise (fun a b => ¬ samePorts a b)

/-- The port set of a port object. -/
def portKey (e : PortObject) : List (Nat × Nat) × Bool × Bool :=
  (e.ranges, e.any, e.pure_not)

/-- The protocol number `FinishPortListRule` selects a group by. -/
def protoOf : ProtoSel → Int
  | ProtoSel.tcp => IPPROTO_TCP
  | ProtoSel.udp => IPPROTO_UDP
  | ProtoSel.icmp => IPPROTO_ICMP
  | ProtoSel.ip => ETHERNET_TYPE_IP

/-- The state `FinishPortListRule` leaves, the old state when it raises. -/
def finishState (env : Collab) (st : ParseState) (rtn : RuleTreeNode) (otn : OptTreeNode)
    (proto : Int) (pe : port_entry_t) : ParseState :=
  match FinishPortListRule env st rtn otn proto pe with
  | Except.ok r => r.2
  | Except.error _ => st

/-- The collaborators `demoEnv` for signatures with the option `ip_proto:17`. -/
def udpOnlyEnv : Collab :=
  { demoEnv with GetOtnIpProto := fun _ => IPPROTO_UDP }

/-- The header of `tcp any 80 <> any 80`: both ports specific, with equal
port sets. -/
def headerBidirBoth80 : RuleTreeNode :=
  { RuleTreeNode.zero with
    proto := IPPROTO_TCP
    flags := ANY_SRC_IP ||| ANY_DST_IP ||| BIDIRECTIONAL
    sip := some anyAddrSet
    dip := some anyAddrSet
    src_portobject := some { addr := 80, obj := port80 }
    dst_portobject := some { addr := 80, obj := port80 } }

/-- The table `t2` lists the port sets of `t1` in their places, followed by
port sets that `t1` did not have, each of them once. -/
def TableExtends (t1 t2 : PortTable) : Prop :=
  ∃ l, t2.map portKey = t1.map portKey ++ l ∧ l.Nodup ∧ ∀ k ∈ l, k ∉ t1.map portKey

/-- A second policy: `demoPolicy` with policy id 1. -/
def policyOne : IpsPolicy := { demoPolicy with policy_id := 1 }

/-- A text rule `alert tcp any any -> any [1:1024] (sid:<sid>; rev:<rev>;)`. -/
def textRule1024 (sid rev : Nat) : RuleCall :=
  { env := demoEnv
    args := RuleArgs.text "tcp" "any" "any" "->" "any" "[1:1024]"
      (some { enclosed := true,
              toks := [RuleTok.plain (SoTok.sid sid), RuleTok.plain (SoTok.rev rev)] })
    rule_type := 1
    list := some 0 }

/-- The rule `1:1` parsed under policy 0 and again under policy 1, then a rule
`1:7` with another header under policy 0. -/
def sessionTwoPolicies : List Step :=
  [Step.rule (textRule80 1 1), Step.setPolicy policyOne, Step.rule (textRule80 1 1),
   Step.setPolicy demoPolicy, Step.rule (textRule1024 7 1)]

/-- The state after `sessionTwoPolicies`: three headers, policy 0 active. -/
def stateTwoPolicies : ParseState := endState demoState sessionTwoPolicies

/-- The signature `1:1` the map of `stateTwoPolicies` holds, bound to header 0
for policy 0 and to header 1 for policy 1. -/
def storedTwoPolicies : OptTreeNode :=
  (OtnLookup stateTwoPolicies.sc.otn_map 1 1).getD (demoOtn IPPROTO_TCP)

/-- The signature `1:1` with `rev:2` as `ParseRuleOptions` hands it to
`mergeDuplicateOtn` for a rule under header 2. -/
def draftHeader2 : OptTreeNode :=
  { addRtnToOtn
      { storedTwoPolicies with
        sigInfo := { storedTwoPolicies.sigInfo with rev := 2 }, proto_nodes := [] }
      2 stateTwoPolicies.policy.policy_id with
    ruleIndex := storedTwoPolicies.ruleIndex }

/-- What `mergeDuplicateOtn` returns, the inputs when it raises. -/
def mergeResult (st : ParseState) (cur new : OptTreeNode) (rtn : Nat) :
    Int × OptTreeNode × ParseState :=
  match mergeDuplicateOtn st cur new rtn with
  | Except.ok r => r
  | Except.error _ => (0, new, st)

/-- The option body `(sid:1; soid:<id>;)` whose `soid` option hands back
`continuationDemo`. -/
def optsWithContinuation : RuleOpts :=
  { enclosed := true, toks := bodyWithContinuation }

/-- The option body `(sid:1; soid:<id>;)` whose `soid` option hands back
`<unknown option>; rev:2; <content>`: the unknown option is not the final
token. -/
def optsUnknownFirst : RuleOpts :=
  { enclosed := true,
    toks := [RuleTok.plain (SoTok.sid 1),
      RuleTok.soid [SoTok.unknown, SoTok.rev 2,
        SoTok.detection
          { type := RuleOptionType.RULE_OPTION_TYPE_CONTENT, isRelative := false,
            fast_pattern_only := false, http_fp_eligible := false }]] }

/-- What `ParseRuleOptions` returns for a text rule of TCP under header 0 in
`demoState`, nothing when it raises. -/
def optionsResult (ro : RuleOpts) : Option OptTreeNode × ParseState :=
  match ParseRuleOptions demoState 0 (some ro) IPPROTO_TCP true with
  | Except.ok r => r
  | Except.error _ => (none, demoState)

/-! # Theorems -/

/-! ## Header equality -/

/-- C2 (as stated, refuted): `TestHeader` answers 1 for a header without a
source address set and an otherwise identical header whose source address set
is `any`, although the two source address sets are not structurally equal. -/
theorem C2_counterexample :
    ¬ (TestHeader (some headerNoAddr) (some headerSrcAny) = 1 ↔
        HeaderFieldsEqual headerNoAddr headerSrcAny) := by
  intro h
  have h1 : TestHeader (some headerNoAddr) (some headerSrcAny) = 1 := by decide
  have h2 := (h.mp h1).2.2.2.2.1
  revert h2
  decide

theorem TestHeader_one_iff (a b : RuleTreeNode) :
    TestHeader (some a) (some b) = 1 ↔ HeaderFieldsMatch a b := by
  unfold HeaderFieldsMatch
  constructor
  · intro h
    simp only [TestHeader] at h
    split_ifs at h with h1 h2 h3 h4 h5 h6 h7
    all_goals first | (exact absurd h (by decide)) | skip
    push_neg at h1 h2 h3 h4 h7
    refine ⟨h1, h2, h4, h3, ?_, ?_, h7.1, h7.2⟩
    · by_cases ha : a.sip = none
      · exact Or.inl ha
      · by_cases hb : b.sip = none
        · exact Or.inr (Or.inl hb)
        · exact Or.inr (Or.inr (by_contra fun hc => h5 ⟨ha, hb, hc⟩))
    · by_cases ha : a.dip = none
      · exact Or.inl ha
      · by_cases hb : b.dip = none
        · exact Or.inr (Or.inl hb)
        · exact Or.inr (Or.inr (by_contra fun hc => h6 ⟨ha, hb, hc⟩))
  · rintro ⟨h1, h2, h3, h4, h5, h6, h7, h8⟩
    have n5 : ¬ (a.sip ≠ none ∧ b.sip ≠ none ∧
        sfvar_compare a.sip b.sip ≠ SFIP_RET.SFIP_EQUAL) := by
      rintro ⟨x, y, z⟩
      rcases h5 with h | h | h
      · exact x h
      · exact y h
      · exact z h
    have n6 : ¬ (a.dip ≠ none ∧ b.dip ≠ none ∧
        sfvar_compare a.dip b.dip ≠ SFIP_RET.SFIP_EQUAL) := by
      rintro ⟨x, y, z⟩
      rcases h6 with h | h | h
      · exact x h
      · exact y h
      · exact z h
    have n7 : ¬ (poAddr a.src_portobject ≠ poAddr b.src_portobject ∨
        poAddr a.dst_portobject ≠ poAddr b.dst_portobject) := by
      rintro (x | x)
      · exact x h7
      · exact x h8
    simp only [TestHeader, h1, h2, h3, h4, ne_eq, not_true_eq_false, if_false]
    rw [if_neg n5, if_neg n6, if_neg n7]

/-- C2 (amended): for non-null headers `TestHeader` returns 1 exactly when
type, proto, flags and listhead are equal, the port-object pointers are
identical, and each pair of address sets is structurally equal or has a null
member. -/
theorem C2_TestHeader_iff (a b : RuleTreeNode) :
    TestHeader (some a) (some b) = 1 ↔ HeaderFieldsMatch a b :=
  TestHeader_one_iff a b

/-! ## Port-group indexer -/

theorem flags_and_mod (f m : Nat) (hm : m < 16) : f &&& m = (f % 16) &&& m := by
  have : f % 16 = f &&& (2^4 - 1) := (Nat.and_pow_two_sub_one_eq_mod f 4).symm
  rw [this, Nat.and_assoc]
  congr 1
  interval_cases m <;> decide

theorem both_any_iff (f : Nat) :
    f &&& (ANY_DST_PORT ||| ANY_SRC_PORT) = (ANY_DST_PORT ||| ANY_SRC_PORT) ↔
      f &&& ANY_DST_PORT ≠ 0 ∧ f &&& ANY_SRC_PORT ≠ 0 := by
  have h1 := flags_and_mod f 12 (by decide)
  have h2 := flags_and_mod f 8 (by decide)
  have h3 := flags_and_mod f 4 (by decide)
  have hlt : f % 16 < 16 := Nat.mod_lt _ (by decide)
  show f &&& 12 = 12 ↔ f &&& 8 ≠ 0 ∧ f &&& 4 ≠ 0
  rw [h1, h2, h3]
  generalize f % 16 = r at hlt
  interval_cases r <;> decide

@[simp] theorem setPrc_sc (st : ParseState) (c : rule_count_t) (s : ProtoSel) :
    (setPrc st c s).sc = st.sc := by cases s <;> rfl

@[simp] theorem prc_setPrc (st : ParseState) (c : rule_count_t) (s t : ProtoSel) :
    prc (setPrc st c s) t = if s = t then c else prc st t := by
  cases s <;> cases t <;> simp [prc, setPrc]

@[simp] theorem ParseWarning_sc (st : ParseState) (w : ParseWarningMsg) :
    (ParseWarning st w).sc = st.sc := rfl

@[simp] theorem prc_ParseWarning (st : ParseState) (w : ParseWarningMsg) (t : ProtoSel) :
    prc (ParseWarning st w) t = prc st t := by cases t <;> rfl

@[simp] theorem LogMessage_sc (st : ParseState) (m : LogMsg) :
    (LogMessage st m).sc = st.sc := rfl

@[simp] theorem prc_LogMessage (st : ParseState) (m : LogMsg) (t : ProtoSel) :
    prc (LogMessage st m) t = prc st t := by cases t <;> rfl

@[simp] theorem setPortTables_port_tables (st : ParseState) (pt : rule_port_tables_t) :
    (st.setPortTables pt).sc.port_tables = pt := rfl

@[simp] theorem setPortTables_fp (st : ParseState) (pt : rule_port_tables_t) :
    (st.setPortTables pt).sc.fast_pattern_config = st.sc.fast_pattern_config := rfl

@[simp] theorem prc_setPortTables (st : ParseState) (pt : rule_port_tables_t) (t : ProtoSel) :
    prc (st.setPortTables pt) t = prc st t := by cases t <;> rfl

@[simp] theorem aaObject_setAaObject (pt : rule_port_tables_t) (o : PortObject) (s t : ProtoSel) :
    aaObject (setAaObject pt o s) t = if s = t then o else aaObject pt t := by
  cases s <;> cases t <;> simp [aaObject, setAaObject]

@[simp] theorem srcTable_setAaObject (pt : rule_port_tables_t) (o : PortObject) (s t : ProtoSel) :
    srcTable (setAaObject pt o s) t = srcTable pt t := by
  cases s <;> cases t <;> rfl

@[simp] theorem dstTable_setAaObject (pt : rule_port_tables_t) (o : PortObject) (s t : ProtoSel) :
    dstTable (setAaObject pt o s) t = dstTable pt t := by
  cases s <;> cases t <;> rfl

@[simp] theorem addToAnyAny_port_tables (st : ParseState) (s : ProtoSel) (i : Int) :
    (addToAnyAny st s i).sc.port_tables =
      setAaObject st.sc.port_tables (PortObjectAddRule (aaObject st.sc.port_tables s) i) s := by
  simp [addToAnyAny]

@[simp] theorem prc_addToAnyAny (st : ParseState) (s t : ProtoSel) (i : Int) :
    prc (addToAnyAny st s i) t =
      if s = t then { prc st s with aa := (prc st s).aa + 1 } else prc st t := by
  simp [addToAnyAny]

theorem selectProto_ne_ip {proto : Int} {sel : ProtoSel} (h : selectProto proto = some sel)
    (hne : sel ≠ ProtoSel.ip) : proto ≠ ETHERNET_TYPE_IP := by
  intro hp
  subst hp
  simp [selectProto, ETHERNET_TYPE_IP, IPPROTO_TCP, IPPROTO_UDP, IPPROTO_ICMP] at h
  exact hne h.symm

theorem selectProto_ip {proto : Int} {sel : ProtoSel} (h : selectProto proto = some sel)
    (hp : proto = ETHERNET_TYPE_IP) : sel = ProtoSel.ip := by
  subst hp
  simp [selectProto, ETHERNET_TYPE_IP, IPPROTO_TCP, IPPROTO_UDP, IPPROTO_ICMP] at h
  exact h.symm

@[simp] theorem countPortRule_sc (st : ParseState) (rtn : RuleTreeNode) (otn : OptTreeNode)
    (pe : port_entry_t) (sel : ProtoSel) : (countPortRule st rtn otn pe sel).sc = st.sc := by
  unfold countPortRule
  dsimp only
  split_ifs <;> simp

theorem countPortRule_prc (st : ParseState) (rtn : RuleTreeNode) (otn : OptTreeNode)
    (pe : port_entry_t) (sel s : ProtoSel) :
    (prc (countPortRule st rtn otn pe sel) s).aa = (prc st s).aa ∧
    (prc (countPortRule st rtn otn pe sel) s).src = (prc st s).src ∧
    (prc (countPortRule st rtn otn pe sel) s).dst = (prc st s).dst := by
  unfold countPortRule
  dsimp only
  split_ifs <;> by_cases h : sel = s <;> simp [h]

@[simp] theorem addIpRuleToProtoGroups_tables (st : ParseState) (ipp i : Int) (s : ProtoSel) :
    srcTable (addIpRuleToProtoGroups st ipp i).sc.port_tables s = srcTable st.sc.port_tables s ∧
    dstTable (addIpRuleToProtoGroups st ipp i).sc.port_tables s = dstTable st.sc.port_tables s := by
  unfold addIpRuleToProtoGroups
  split_ifs <;> simp

theorem addIpRuleToProtoGroups_ip (st : ParseState) (ipp i : Int) :
    aaObject (addIpRuleToProtoGroups st ipp i).sc.port_tables ProtoSel.ip =
      aaObject st.sc.port_tables ProtoSel.ip ∧
    prc (addIpRuleToProtoGroups st ipp i) ProtoSel.ip = prc st ProtoSel.ip := by
  unfold addIpRuleToProtoGroups
  split_ifs <;> simp

theorem addIpRuleToProtoGroups_prc (st : ParseState) (ipp i : Int) (s : ProtoSel) :
    (prc (addIpRuleToProtoGroups st ipp i) s).src = (prc st s).src ∧
    (prc (addIpRuleToProtoGroups st ipp i) s).dst = (prc st s).dst := by
  unfold addIpRuleToProtoGroups
  split_ifs <;> cases s <;> simp

theorem addIpRuleToProtoGroups_all (st : ParseState) (i : Int) (s : ProtoSel) :
    aaObject (addIpRuleToProtoGroups st (-1) i).sc.port_tables s =
      (if s = ProtoSel.ip then aaObject st.sc.port_tables s
       else PortObjectAddRule (aaObject st.sc.port_tables s) i) ∧
    prc (addIpRuleToProtoGroups st (-1) i) s =
      (if s = ProtoSel.ip then prc st s else { prc st s with aa := (prc st s).aa + 1 }) := by
  unfold addIpRuleToProtoGroups
  have e1 : ¬ ((-1 : Int) = IPPROTO_TCP) := by decide
  have e2 : ¬ ((-1 : Int) = IPPROTO_UDP) := by decide
  have e3 : ¬ ((-1 : Int) = IPPROTO_ICMP) := by decide
  simp only [if_neg e1, if_neg e2, if_neg e3, if_true]
  cases s <;> simp

/-- On the any-any path `FinishPortListRule` returns 0, appends the rule index
to the protocol's any-any object, adds 1 to its `aa` counter and leaves every
src and dst table and every `src` and `dst` counter as it was. -/
theorem FinishPortListRule_anyany (env : Collab) (st : ParseState) (rtn : RuleTreeNode)
    (otn : OptTreeNode) (proto : Int) (pe : port_entry_t) (sel : ProtoSel)
    (hsel : selectProto proto = some sel)
    (hpath : takesAnyAnyPath st.sc.fast_pattern_config rtn) :
    ∃ st', FinishPortListRule env st rtn otn proto pe = Except.ok (0, st') ∧
      (aaObject st'.sc.port_tables sel).rule_list =
        (aaObject st.sc.port_tables sel).rule_list ++ [otn.ruleIndex] ∧
      (∀ s, srcTable st'.sc.port_tables s = srcTable st.sc.port_tables s ∧
            dstTable st'.sc.port_tables s = dstTable st.sc.port_tables s) ∧
      (prc st' sel).aa = (prc st sel).aa + 1 ∧
      (∀ s, (prc st' s).src = (prc st s).src ∧ (prc st' s).dst = (prc st s).dst) := by
  unfold FinishPortListRule
  rw [hsel]
  simp only [if_pos hpath]
  by_cases hp : proto = ETHERNET_TYPE_IP
  · have hs := selectProto_ip hsel hp
    subst hs
    simp only [if_pos hp]
    refine ⟨_, rfl, ?_, ?_, ?_, ?_⟩
    · simp [PortObjectAddRule, (addIpRuleToProtoGroups_ip _ _ _).1]
    · intro s
      simp
    · simp [(addIpRuleToProtoGroups_ip _ _ _).2, (countPortRule_prc _ _ _ _ _ _).1]
    · intro s
      have h1 := addIpRuleToProtoGroups_prc (countPortRule st rtn otn pe ProtoSel.ip)
        (env.GetOtnIpProto otn) otn.ruleIndex s
      have h2 := countPortRule_prc st rtn otn pe ProtoSel.ip s
      by_cases h : ProtoSel.ip = s
      · subst h
        simp [h1, h2]
      · simp [h, h1, h2]
  · simp only [if_neg hp]
    refine ⟨_, rfl, ?_, ?_, ?_, ?_⟩
    · simp [PortObjectAddRule]
    · intro s
      simp
    · simp [(countPortRule_prc _ _ _ _ _ _).1]
    · intro s
      have h2 := countPortRule_prc st rtn otn pe sel s
      by_cases h : sel = s
      · subst h
        simp [h2]
      · simp [h, h2]

theorem bleedover_of_count (fp : FastPatternConfig) (rtn : RuleTreeNode)
    (hsingle : fp.singleRuleGroup = false)
    (h : (rtn.flags &&& ANY_SRC_PORT = 0 ∧
            PortObjectPortCount rtn.src_portobject ≥ fp.bleedoverPortLimit) ∨
         (rtn.flags &&& ANY_DST_PORT = 0 ∧
            PortObjectPortCount rtn.dst_portobject ≥ fp.bleedoverPortLimit)) :
    (bleedover fp rtn).1 = true := by
  have hnot : rtn.flags &&& (ANY_DST_PORT ||| ANY_SRC_PORT) ≠ (ANY_DST_PORT ||| ANY_SRC_PORT) := by
    intro hb
    have := (both_any_iff rtn.flags).mp hb
    rcases h with h | h
    · exact this.2 h.1
    · exact this.1 h.1
  unfold bleedover
  rw [if_pos ⟨hsingle, hnot⟩]
  rcases h with ⟨h1, h2⟩ | ⟨h1, h2⟩
  · simp [h1, h2]
  · simp [h1, h2]

/-- C7 (the code at the boundary): with bleedover limit 1024 and
single-rule-group mode off, the rule `tcp any [1:1024] -> any any`, whose src
port object has exactly 1024 ports, gets `large_port_group` set and is put in
the TCP any-any group (`aa` becomes 1) while the TCP src table stays empty and
`src` stays 0. -/
theorem C7_count_at_limit_is_promoted :
    PortObjectPortCount headerSrc1024.src_portobject =
        demoState.sc.fast_pattern_config.bleedoverPortLimit ∧
    (bleedover demoState.sc.fast_pattern_config headerSrc1024).1 = true ∧
    (FinishPortListRule demoEnv demoState headerSrc1024 (demoOtn IPPROTO_TCP) IPPROTO_TCP
        (demoEntry IPPROTO_TCP)).toOption.map
      (fun r => (r.1, r.2.sc.port_tables.tcp_anyany.rule_list, r.2.sc.port_tables.tcp_src,
        r.2.tcpCnt.aa, r.2.tcpCnt.src)) = some (0, [7], [], 1, 0) := by
  decide

/-- C8: for a known protocol and single-rule-group mode off, a rule whose
specific src or dst port object has more ports than the bleedover limit is
added to the protocol's any-any group, whose `aa` counter grows by 1; no src or
dst table and no `src` or `dst` counter changes. -/
theorem C8_bleedover_goes_to_anyany (env : Collab) (st : ParseState) (rtn : RuleTreeNode)
    (otn : OptTreeNode) (proto : Int) (pe : port_entry_t) (sel : ProtoSel)
    (hsel : selectProto proto = some sel)
    (hsingle : st.sc.fast_pattern_config.singleRuleGroup = false)
    (hlarge : (rtn.flags &&& ANY_SRC_PORT = 0 ∧
        PortObjectPortCount rtn.src_portobject > st.sc.fast_pattern_config.bleedoverPortLimit) ∨
      (rtn.flags &&& ANY_DST_PORT = 0 ∧
        PortObjectPortCount rtn.dst_portobject > st.sc.fast_pattern_config.bleedoverPortLimit)) :
    ∃ st', FinishPortListRule env st rtn otn proto pe = Except.ok (0, st') ∧
      (aaObject st'.sc.port_tables sel).rule_list =
        (aaObject st.sc.port_tables sel).rule_list ++ [otn.ruleIndex] ∧
      (prc st' sel).aa = (prc st sel).aa + 1 ∧
      (∀ s, srcTable st'.sc.port_tables s = srcTable st.sc.port_tables s ∧
            dstTable st'.sc.port_tables s = dstTable st.sc.port_tables s) ∧
      (∀ s, (prc st' s).src = (prc st s).src ∧ (prc st' s).dst = (prc st s).dst) := by
  have hb : (bleedover st.sc.fast_pattern_config rtn).1 = true := by
    apply bleedover_of_count _ _ hsingle
    rcases hlarge with ⟨h1, h2⟩ | ⟨h1, h2⟩
    · exact Or.inl ⟨h1, le_of_lt h2⟩
    · exact Or.inr ⟨h1, le_of_lt h2⟩
  obtain ⟨st', h1, h2, h3, h4, h5⟩ :=
    FinishPortListRule_anyany env st rtn otn proto pe sel hsel (Or.inr (Or.inl hb))
  exact ⟨st', h1, h2, h4, h3, h5⟩

/-- C8 at `tcp any [1:1025] -> any any` with bleedover limit 1024. -/
theorem C8_witness :
    ∃ st', FinishPortListRule demoEnv demoState headerSrc1025 (demoOtn IPPROTO_TCP) IPPROTO_TCP
        (demoEntry IPPROTO_TCP) = Except.ok (0, st') ∧
      (aaObject st'.sc.port_tables ProtoSel.tcp).rule_list =
        (aaObject demoState.sc.port_tables ProtoSel.tcp).rule_list ++ [(demoOtn IPPROTO_TCP).ruleIndex] ∧
      (prc st' ProtoSel.tcp).aa = (prc demoState ProtoSel.tcp).aa + 1 ∧
      (∀ s, srcTable st'.sc.port_tables s = srcTable demoState.sc.port_tables s ∧
            dstTable st'.sc.port_tables s = dstTable demoState.sc.port_tables s) ∧
      (∀ s, (prc st' s).src = (prc demoState s).src ∧ (prc st' s).dst = (prc demoState s).dst) :=
  C8_bleedover_goes_to_anyany demoEnv demoState headerSrc1025 (demoOtn IPPROTO_TCP) IPPROTO_TCP
    (demoEntry IPPROTO_TCP) ProtoSel.tcp (by decide) (by decide) (Or.inl (by decide))

/-- C9: a TCP, UDP or ICMP rule whose header has both `ANY_SRC_PORT` and
`ANY_DST_PORT` goes into that protocol's any-any group only: the index is
appended there, the other any-any objects and all src and dst tables are
unchanged, `aa` grows by exactly 1 and no `src` or `dst` counter changes. -/
theorem C9_anyany_header_only_anyany_group (env : Collab) (st : ParseState) (rtn : RuleTreeNode)
    (otn : OptTreeNode) (proto : Int) (pe : port_entry_t) (sel : ProtoSel)
    (hsel : selectProto proto = some sel) (hne : sel ≠ ProtoSel.ip)
    (hflags : rtn.flags &&& (ANY_DST_PORT ||| ANY_SRC_PORT) = (ANY_DST_PORT ||| ANY_SRC_PORT)) :
    ∃ st', FinishPortListRule env st rtn otn proto pe = Except.ok (0, st') ∧
      (aaObject st'.sc.port_tables sel).rule_list =
        (aaObject st.sc.port_tables sel).rule_list ++ [otn.ruleIndex] ∧
      (∀ s, s ≠ sel → aaObject st'.sc.port_tables s = aaObject st.sc.port_tables s) ∧
      (∀ s, srcTable st'.sc.port_tables s = srcTable st.sc.port_tables s ∧
            dstTable st'.sc.port_tables s = dstTable st.sc.port_tables s) ∧
      (prc st' sel).aa = (prc st sel).aa + 1 ∧
      (∀ s, (prc st' s).src = (prc st s).src ∧ (prc st' s).dst = (prc st s).dst) := by
  have hp := selectProto_ne_ip hsel hne
  have hpath : takesAnyAnyPath st.sc.fast_pattern_config rtn := Or.inl hflags
  obtain ⟨st', h1, h2, h3, h4, h5⟩ :=
    FinishPortListRule_anyany env st rtn otn proto pe sel hsel hpath
  refine ⟨st', h1, h2, ?_, h3, h4, h5⟩
  intro s hs
  have hs' : ¬ sel = s := fun h => hs h.symm
  unfold FinishPortListRule at h1
  rw [hsel] at h1
  simp only [if_pos hpath, if_neg hp] at h1
  cases h1
  simp [hs']

/-- C9 at `udp any any -> any any`. -/
theorem C9_witness :
    selectProto IPPROTO_UDP = some ProtoSel.udp ∧
    ∃ st', FinishPortListRule demoEnv demoState (headerAnyAny IPPROTO_UDP) (demoOtn IPPROTO_UDP)
        IPPROTO_UDP (demoEntry IPPROTO_UDP) = Except.ok (0, st') ∧
      (aaObject st'.sc.port_tables ProtoSel.udp).rule_list =
        (aaObject demoState.sc.port_tables ProtoSel.udp).rule_list ++ [(demoOtn IPPROTO_UDP).ruleIndex] ∧
      (∀ s, s ≠ ProtoSel.udp →
        aaObject st'.sc.port_tables s = aaObject demoState.sc.port_tables s) ∧
      (∀ s, srcTable st'.sc.port_tables s = srcTable demoState.sc.port_tables s ∧
            dstTable st'.sc.port_tables s = dstTable demoState.sc.port_tables s) ∧
      (prc st' ProtoSel.udp).aa = (prc demoState ProtoSel.udp).aa + 1 ∧
      (∀ s, (prc st' s).src = (prc demoState s).src ∧ (prc st' s).dst = (prc demoState s).dst) :=
  ⟨by decide,
   C9_anyany_header_only_anyany_group demoEnv demoState (headerAnyAny IPPROTO_UDP)
    (demoOtn IPPROTO_UDP) IPPROTO_UDP (demoEntry IPPROTO_UDP) ProtoSel.udp (by decide) (by decide)
    (by decide)⟩

/-- C10: an IP rule on the any-any path whose signature has no IP-proto
constraint (`GetOtnIpProto` is -1) is appended to the TCP, UDP, ICMP and IP
any-any objects, and each of the four `aa` counters grows by exactly 1. -/
theorem C10_ip_rule_propagates_to_all (env : Collab) (st : ParseState) (rtn : RuleTreeNode)
    (otn : OptTreeNode) (pe : port_entry_t)
    (hpath : takesAnyAnyPath st.sc.fast_pattern_config rtn)
    (hipp : env.GetOtnIpProto otn = -1) :
    ∃ st', FinishPortListRule env st rtn otn ETHERNET_TYPE_IP pe = Except.ok (0, st') ∧
      ∀ s, (aaObject st'.sc.port_tables s).rule_list =
            (aaObject st.sc.port_tables s).rule_list ++ [otn.ruleIndex] ∧
          (prc st' s).aa = (prc st s).aa + 1 := by
  unfold FinishPortListRule
  have hsel : selectProto ETHERNET_TYPE_IP = some ProtoSel.ip := by decide
  rw [hsel]
  simp only [if_pos hpath, if_true, hipp]
  refine ⟨_, rfl, ?_⟩
  intro s
  have h1 := addIpRuleToProtoGroups_all (countPortRule st rtn otn pe ProtoSel.ip) otn.ruleIndex s
  have h2 := countPortRule_prc st rtn otn pe ProtoSel.ip s
  have h3 := addIpRuleToProtoGroups_all (countPortRule st rtn otn pe ProtoSel.ip) otn.ruleIndex
    ProtoSel.ip
  by_cases h : ProtoSel.ip = s
  · subst h
    simp [h3.1, h3.2, h2.1, PortObjectAddRule]
  · have h' : ¬ s = ProtoSel.ip := fun e => h e.symm
    simp [h, h', h1.1, h1.2, h2.1, PortObjectAddRule]

/-- C10 at `ip any any <> any any`. -/
theorem C10_witness :
    takesAnyAnyPath demoState.sc.fast_pattern_config (headerAnyAny ETHERNET_TYPE_IP) ∧
    demoEnv.GetOtnIpProto (demoOtn ETHERNET_TYPE_IP) = -1 ∧
    ∃ st', FinishPortListRule demoEnv demoState (headerAnyAny ETHERNET_TYPE_IP)
        (demoOtn ETHERNET_TYPE_IP) ETHERNET_TYPE_IP (demoEntry ETHERNET_TYPE_IP) = Except.ok (0, st') ∧
      ∀ s, (aaObject st'.sc.port_tables s).rule_list =
            (aaObject demoState.sc.port_tables s).rule_list ++ [(demoOtn ETHERNET_TYPE_IP).ruleIndex] ∧
          (prc st' s).aa = (prc demoState s).aa + 1 :=
  ⟨by decide, by decide,
   C10_ip_rule_propagates_to_all demoEnv demoState (headerAnyAny ETHERNET_TYPE_IP)
    (demoOtn ETHERNET_TYPE_IP) (demoEntry ETHERNET_TYPE_IP) (by decide) (by decide)⟩

/-! ## Frame lemmas -/

theorem SameCore_refl (a : ParseState) : SameCore a a := ⟨rfl, rfl, rfl, rfl, rfl, rfl, rfl, rfl⟩

theorem SameCore.andThen {a b c : ParseState} (h1 : SameCore a b) (h2 : SameCore b c) :
    SameCore a c :=
  ⟨h2.1.trans h1.1, h2.2.trans h1.2, h2.3.trans h1.3, h2.4.trans h1.4, h2.5.trans h1.5,
   h2.6.trans h1.6, h2.7.trans h1.7, h2.8.trans h1.8⟩

theorem SameCore_setPrc (st : ParseState) (c : rule_count_t) (s : ProtoSel) :
    SameCore st (setPrc st c s) := by
  cases s <;> exact ⟨rfl, rfl, rfl, rfl, rfl, rfl, rfl, rfl⟩

theorem SameCore_ParseWarning (st : ParseState) (w : ParseWarningMsg) :
    SameCore st (ParseWarning st w) := ⟨rfl, rfl, rfl, rfl, rfl, rfl, rfl, rfl⟩

theorem SameCore_LogMessage (st : ParseState) (m : LogMsg) :
    SameCore st (LogMessage st m) := ⟨rfl, rfl, rfl, rfl, rfl, rfl, rfl, rfl⟩

theorem SameCore_setPortTables (st : ParseState) (pt : rule_port_tables_t) :
    SameCore st (st.setPortTables pt) := ⟨rfl, rfl, rfl, rfl, rfl, rfl, rfl, rfl⟩

theorem SameCore_setIpProto (st : ParseState) (p : Int) :
    SameCore st (setIpProto st p) := ⟨rfl, rfl, rfl, rfl, rfl, rfl, rfl, rfl⟩

theorem SameCore_addToAnyAny (st : ParseState) (s : ProtoSel) (i : Int) :
    SameCore st (addToAnyAny st s i) := by
  constructor <;> cases s <;> rfl

theorem SameCore_ite (c : Prop) [Decidable c] {a b : ParseState} (h : SameCore a b) :
    SameCore a (if c then b else a) := by
  split_ifs
  · exact h
  · exact SameCore_refl a

theorem SameCore_countPortRule (st : ParseState) (rtn : RuleTreeNode) (otn : OptTreeNode)
    (pe : port_entry_t) (sel : ProtoSel) : SameCore st (countPortRule st rtn otn pe sel) := by
  unfold countPortRule
  dsimp only
  refine SameCore.andThen ?_ (SameCore_ite _ (SameCore_LogMessage _ _))
  refine SameCore.andThen ?_ (SameCore_ite _ (SameCore_setPrc _ _ _))
  exact SameCore_ite _ (SameCore_setPrc _ _ _)

theorem SameCore_addIpRuleToProtoGroups (st : ParseState) (ipp i : Int) :
    SameCore st (addIpRuleToProtoGroups st ipp i) := by
  unfold addIpRuleToProtoGroups
  split_ifs
  · exact SameCore_addToAnyAny _ _ _
  · exact SameCore_addToAnyAny _ _ _
  · exact SameCore_addToAnyAny _ _ _
  · exact ((SameCore_addToAnyAny _ _ _).andThen (SameCore_addToAnyAny _ _ _)).andThen
      (SameCore_addToAnyAny _ _ _)
  · exact SameCore_refl _

theorem SameCore_addDstPortRule {st st' : ParseState} {rtn : RuleTreeNode} {sel : ProtoSel}
    {i : Int} (h : addDstPortRule st rtn sel i = Except.ok st') : SameCore st st' := by
  unfold addDstPortRule at h
  dsimp only at h
  split_ifs at h <;> (try split at h) <;> (try split at h) <;>
    first
    | (cases h; done)
    | (cases h; constructor <;> cases sel <;> rfl)

theorem SameCore_addSrcPortRule {st st' : ParseState} {rtn : RuleTreeNode} {sel : ProtoSel}
    {i : Int} (h : addSrcPortRule st rtn sel i = Except.ok st') : SameCore st st' := by
  unfold addSrcPortRule at h
  dsimp only at h
  split_ifs at h <;> (try split at h) <;> (try split at h) <;>
    first
    | (cases h; done)
    | (cases h; constructor <;> cases sel <;> rfl)

theorem SameCore_FinishPortListRule {env : Collab} {st st' : ParseState} {rtn : RuleTreeNode}
    {otn : OptTreeNode} {proto : Int} {pe : port_entry_t} {ret : Int}
    (h : FinishPortListRule env st rtn otn proto pe = Except.ok (ret, st')) : SameCore st st' := by
  unfold FinishPortListRule at h
  split at h
  · cases h
    exact SameCore_refl _
  · dsimp only at h
    split_ifs at h
    · cases h
      exact ((SameCore_countPortRule _ _ _ _ _).andThen (SameCore_addIpRuleToProtoGroups _ _ _)).andThen
        (SameCore_addToAnyAny _ _ _)
    · cases h
      exact (SameCore_countPortRule _ _ _ _ _).andThen (SameCore_addToAnyAny _ _ _)
    · split at h
      · cases h
      · rename_i st1 h1
        split at h
        · cases h
        · rename_i st2 h2
          cases h
          exact ((SameCore_countPortRule _ _ _ _ _).andThen (SameCore_addDstPortRule h1)).andThen
            (SameCore_addSrcPortRule h2)

theorem SameCore_setNoname (st : ParseState) (n : List PortObjectRef) :
    SameCore st { st with policy := { st.policy with nonamePortVarTable := n } } :=
  ⟨rfl, rfl, rfl, rfl, rfl, rfl, rfl, rfl⟩

theorem SameCore_parseHeader {env : Collab} {st : ParseState} {args : RuleArgs} {rule_type : Int}
    {h : HeaderResult} (hh : parseHeader env st args rule_type = Except.ok h) :
    SameCore st h.st := by
  unfold parseHeader at hh
  cases args with
  | builtin ro =>
    dsimp only at hh
    cases hh
    exact SameCore_refl _
  | short => cases hh
  | text t0 t1 t2 t3 t4 t5 ro =>
    dsimp only at hh
    split at hh
    · cases hh
    · rename_i st1 hm
      have hs1 : SameCore st st1 := by
        split_ifs at hm
        · cases hm; exact SameCore_setIpProto _ _
        · cases hm; exact SameCore_setIpProto _ _
        · cases hm; exact (SameCore_setIpProto _ _).andThen (SameCore_setIpProto _ _)
        · cases hm
          exact (((SameCore_setIpProto _ _).andThen (SameCore_setIpProto _ _)).andThen
            (SameCore_setIpProto _ _)).andThen (SameCore_setIpProto _ _)
      repeat' (split at hh)
      all_goals
        first
        | (cases hh; done)
        | (cases hh; exact hs1.andThen ⟨rfl, rfl, rfl, rfl, rfl, rfl, rfl, rfl⟩)

/-! ## Per-policy header arrays, the header heap and deduplication -/

theorem pad_getElem?_join (l : List (Option Nat)) (n i : Nat) :
    ((l ++ List.replicate n none)[i]?).join = (l[i]?).join := by
  by_cases hi : i < l.length
  · rw [List.getElem?_append_left hi]
  · rw [List.getElem?_append_right (not_lt.mp hi), List.getElem?_eq_none (not_lt.mp hi),
      List.getElem?_replicate]
    split_ifs <;> rfl

theorem getRtn_addRtn {o : OptTreeNode} {a p q b : Nat}
    (h : getRtnFromOtn (addRtnToOtn o a p) q = some b) :
    (q = p ∧ b = a) ∨ getRtnFromOtn o q = some b := by
  unfold addRtnToOtn at h
  dsimp only at h
  split at h
  · unfold getRtnFromOtn at h ⊢
    rw [pad_getElem?_join] at h
    exact Or.inr h
  · unfold getRtnFromOtn at h ⊢
    dsimp only at h
    by_cases hq : p = q
    · subst hq
      rw [List.getElem?_set_self'] at h
      cases hn : (o.proto_nodes ++ List.replicate (p + 1 - o.proto_nodes.length) none)[p]? with
      | none => rw [hn] at h; cases h
      | some v =>
        rw [hn] at h
        simp at h
        exact Or.inl ⟨rfl, h.symm⟩
    · rw [List.getElem?_set_ne hq, pad_getElem?_join] at h
      exact Or.inr h

theorem getRtn_addRtn_self (o : OptTreeNode) (a p : Nat) (h : getRtnFromOtn o p = none) :
    getRtnFromOtn (addRtnToOtn o a p) p = some a := by
  unfold addRtnToOtn
  dsimp only
  have hj : ((o.proto_nodes ++ List.replicate (p + 1 - o.proto_nodes.length) none)[p]?).join = none := by
    rw [pad_getElem?_join]
    exact h
  rw [hj]
  dsimp only
  unfold getRtnFromOtn
  dsimp only
  have hlen : p < (o.proto_nodes ++ List.replicate (p + 1 - o.proto_nodes.length) none).length := by
    rw [List.length_append, List.length_replicate]
    omega
  rw [List.getElem?_set_self hlen]
  rfl

theorem getRtn_deleteRtn {o : OptTreeNode} {i q b : Nat}
    (h : getRtnFromOtn (deleteRtnFromOtn o i).2 q = some b) : getRtnFromOtn o q = some b := by
  unfold deleteRtnFromOtn at h
  split_ifs at h with hi
  · unfold getRtnFromOtn at h ⊢
    dsimp only at h
    by_cases hq : i = q
    · subst hq
      rw [List.getElem?_set_self hi] at h
      simp at h
    · rw [List.getElem?_set_ne hq] at h
      exact h
  · exact h

theorem deleteRtn_fst {o : OptTreeNode} {i b : Nat}
    (h : (deleteRtnFromOtn o i).1 = some b) : getRtnFromOtn o i = some b := by
  unfold deleteRtnFromOtn at h
  split_ifs at h with hi
  exact h



theorem HeapGrows_refl (h : List RuleTreeNode) : HeapGrows h h :=
  fun _ n hn => ⟨n.otnRefCount, hn⟩

theorem HeapGrows_trans {h1 h2 h3 : List RuleTreeNode} (a : HeapGrows h1 h2)
    (b : HeapGrows h2 h3) : HeapGrows h1 h3 := by
  intro i n hn
  obtain ⟨c, hc⟩ := a i n hn
  obtain ⟨d, hd⟩ := b i _ hc
  exact ⟨d, hd⟩

theorem HeapGrows_set (h : List RuleTreeNode) (a : Nat) (n : RuleTreeNode) (c : Nat)
    (ha : h[a]? = some n) : HeapGrows h (h.set a { n with otnRefCount := c }) := by
  intro i m hm
  by_cases hi : a = i
  · subst hi
    rw [ha] at hm
    cases hm
    have hlt : a < h.length := by
      rcases List.getElem?_eq_some.mp ha with ⟨hl, _⟩
      exact hl
    exact ⟨c, List.getElem?_set_self hlt⟩
  · exact ⟨m.otnRefCount, by rw [List.getElem?_set_ne hi]; exact hm⟩

theorem HeapGrows_append (h : List RuleTreeNode) (l : List RuleTreeNode) :
    HeapGrows h (h ++ l) := by
  intro i m hm
  have hlt : i < h.length := by
    rcases List.getElem?_eq_some.mp hm with ⟨hl, _⟩
    exact hl
  exact ⟨m.otnRefCount, by rw [List.getElem?_append_left hlt]; exact hm⟩

theorem HeapGrows_Destroy_of (h : List RuleTreeNode) (st : ParseState) (r : Option Nat)
    (heq : st.rtn_heap = h) : HeapGrows h (DestroyRuleTreeNode st r).rtn_heap := by
  subst heq
  unfold DestroyRuleTreeNode
  split
  · exact HeapGrows_refl _
  · split
    · exact HeapGrows_refl _
    · rename_i a n hn
      exact HeapGrows_set _ _ _ _ hn

theorem HeapGrows_Destroy (st : ParseState) (r : Option Nat) :
    HeapGrows st.rtn_heap (DestroyRuleTreeNode st r).rtn_heap := by
  unfold DestroyRuleTreeNode
  split
  · exact HeapGrows_refl _
  · split
    · exact HeapGrows_refl _
    · rename_i a n hn
      exact HeapGrows_set _ _ _ _ hn

@[simp] theorem Destroy_sc (st : ParseState) (r : Option Nat) :
    (DestroyRuleTreeNode st r).sc = st.sc := by
  unfold DestroyRuleTreeNode
  split
  · rfl
  · split <;> rfl

@[simp] theorem Destroy_policy (st : ParseState) (r : Option Nat) :
    (DestroyRuleTreeNode st r).policy = st.policy := by
  unfold DestroyRuleTreeNode
  split
  · rfl
  · split <;> rfl

@[simp] theorem Destroy_otn_count (st : ParseState) (r : Option Nat) :
    (DestroyRuleTreeNode st r).otn_count = st.otn_count := by
  unfold DestroyRuleTreeNode
  split
  · rfl
  · split <;> rfl

@[simp] theorem Destroy_rule_count (st : ParseState) (r : Option Nat) :
    (DestroyRuleTreeNode st r).rule_count = st.rule_count := by
  unfold DestroyRuleTreeNode
  split
  · rfl
  · split <;> rfl

@[simp] theorem Destroy_detect_rule_count (st : ParseState) (r : Option Nat) :
    (DestroyRuleTreeNode st r).detect_rule_count = st.detect_rule_count := by
  unfold DestroyRuleTreeNode
  split
  · rfl
  · split <;> rfl

@[simp] theorem Destroy_builtin_rule_count (st : ParseState) (r : Option Nat) :
    (DestroyRuleTreeNode st r).builtin_rule_count = st.builtin_rule_count := by
  unfold DestroyRuleTreeNode
  split
  · rfl
  · split <;> rfl

@[simp] theorem addRtnToOtn_sigInfo (o : OptTreeNode) (a q : Nat) :
    (addRtnToOtn o a q).sigInfo = o.sigInfo := by
  unfold addRtnToOtn
  dsimp only
  split <;> rfl

@[simp] theorem deleteRtnFromOtn_sigInfo (o : OptTreeNode) (q : Nat) :
    (deleteRtnFromOtn o q).2.sigInfo = o.sigInfo := by
  unfold deleteRtnFromOtn
  split_ifs <;> rfl

theorem migrateStep_spec (p : Nat) (acc : OptTreeNode × OptTreeNode) (i : Nat) :
    (migrateStep p acc i).1.sigInfo = acc.1.sigInfo ∧
    (migrateStep p acc i).2.sigInfo = acc.2.sigInfo ∧
    (∀ q b, getRtnFromOtn (migrateStep p acc i).1 q = some b → getRtnFromOtn acc.1 q = some b) ∧
    (∀ q b, getRtnFromOtn (migrateStep p acc i).2 q = some b →
      getRtnFromOtn acc.2 q = some b ∨ (q ≠ p ∧ getRtnFromOtn acc.1 q = some b)) := by
  unfold migrateStep
  dsimp only
  split
  · rename_i r hr
    split_ifs with hi
    · refine ⟨by simp, by simp, fun q b h => getRtn_deleteRtn h, ?_⟩
      intro q b h
      rcases getRtn_addRtn h with ⟨hq, hb⟩ | h'
      · subst hq; subst hb
        exact Or.inr ⟨hi, deleteRtn_fst hr⟩
      · exact Or.inl h'
    · exact ⟨by simp, rfl, fun q b h => getRtn_deleteRtn h, fun q b h => Or.inl h⟩
  · exact ⟨by simp, rfl, fun q b h => getRtn_deleteRtn h, fun q b h => Or.inl h⟩

theorem migrateRtns_spec (p : Nat) (cur new : OptTreeNode) :
    (migrateRtns p cur new).1.sigInfo = cur.sigInfo ∧
    (migrateRtns p cur new).2.sigInfo = new.sigInfo ∧
    (∀ q b, getRtnFromOtn (migrateRtns p cur new).1 q = some b → getRtnFromOtn cur q = some b) ∧
    (∀ q b, getRtnFromOtn (migrateRtns p cur new).2 q = some b →
      getRtnFromOtn new q = some b ∨ (q ≠ p ∧ getRtnFromOtn cur q = some b)) := by
  unfold migrateRtns
  generalize List.range cur.proto_node_num = l
  suffices H : ∀ (l : List Nat) (acc : OptTreeNode × OptTreeNode),
      (acc.1.sigInfo = cur.sigInfo ∧ acc.2.sigInfo = new.sigInfo ∧
        (∀ q b, getRtnFromOtn acc.1 q = some b → getRtnFromOtn cur q = some b) ∧
        (∀ q b, getRtnFromOtn acc.2 q = some b →
          getRtnFromOtn new q = some b ∨ (q ≠ p ∧ getRtnFromOtn cur q = some b))) →
      ((l.foldl (migrateStep p) acc).1.sigInfo = cur.sigInfo ∧
        (l.foldl (migrateStep p) acc).2.sigInfo = new.sigInfo ∧
        (∀ q b, getRtnFromOtn (l.foldl (migrateStep p) acc).1 q = some b →
          getRtnFromOtn cur q = some b) ∧
        (∀ q b, getRtnFromOtn (l.foldl (migrateStep p) acc).2 q = some b →
          getRtnFromOtn new q = some b ∨ (q ≠ p ∧ getRtnFromOtn cur q = some b))) from
    H l (cur, new) ⟨rfl, rfl, fun _ _ h => h, fun _ _ h => Or.inl h⟩
  intro l
  induction l with
  | nil => intro acc h; exact h
  | cons i l ih =>
    intro acc h
    rw [List.foldl_cons]
    apply ih
    obtain ⟨s1, s2, s3, s4⟩ := migrateStep_spec p acc i
    refine ⟨s1.trans h.1, s2.trans h.2.1, fun q b hb => h.2.2.1 q b (s3 q b hb), ?_⟩
    intro q b hb
    rcases s4 q b hb with h' | ⟨hq, h'⟩
    · exact h.2.2.2 q b h'
    · exact Or.inr ⟨hq, h.2.2.1 q b h'⟩

theorem mergeDuplicateOtn_spec {st : ParseState} {cur new : OptTreeNode} {rtn : Nat} {ret : Int}
    {new' : OptTreeNode} {st' : ParseState}
    (h : mergeDuplicateOtn st cur new rtn = Except.ok (ret, new', st')) :
    st'.policy = st.policy ∧ st'.rule_count = st.rule_count ∧
    HeapGrows st.rtn_heap st'.rtn_heap ∧ st'.sc.conf_error_out = st.sc.conf_error_out ∧
    cur.proto = new.proto ∧
    ((new.sigInfo.rev < cur.sigInfo.rev ∧ ret = 0 ∧
        st'.sc.otn_map =
          (if getRtnFromOtn cur st.policy.policy_id = none then
            OtnStore st.sc.otn_map (addRtnToOtn cur rtn st.policy.policy_id)
           else st.sc.otn_map) ∧
        st'.otn_count = st.otn_count ∧ st'.detect_rule_count = st.detect_rule_count ∧
        st'.builtin_rule_count = st.builtin_rule_count) ∨
     (¬ new.sigInfo.rev < cur.sigInfo.rev ∧ ret = 1 ∧
        new' = (migrateRtns st.policy.policy_id cur new).2 ∧
        st'.sc.otn_map =
          OtnRemove (OtnStore st.sc.otn_map (migrateRtns st.policy.policy_id cur new).1) cur ∧
        st'.otn_count = st.otn_count - 1 ∧
        (getRtnFromOtn cur st.policy.policy_id ≠ none → st.sc.conf_error_out = false) ∧
        st'.detect_rule_count = st.detect_rule_count -
          (if getRtnFromOtn cur st.policy.policy_id ≠ none ∧ new.sigInfo.text_rule = true
            then 1 else 0) ∧
        st'.builtin_rule_count = st.builtin_rule_count -
          (if getRtnFromOtn cur st.policy.policy_id ≠ none ∧ new.sigInfo.text_rule = false
            then 1 else 0))) := by
  unfold mergeDuplicateOtn at h
  dsimp only at h
  split_ifs at h with h1 h2 h3 h4 h5 h6
  · simp only [Except.ok.injEq, Prod.mk.injEq] at h
    obtain ⟨hr, -, hs⟩ := h
    subst hs; subst hr
    cases hc : getRtnFromOtn cur st.policy.policy_id with
    | none =>
      exact ⟨rfl, rfl, HeapGrows_refl _, rfl, not_not.mp h1,
        Or.inl ⟨h3, rfl, by simp [ParseState.setOtnMap, ParseWarning], rfl, rfl, rfl⟩⟩
    | some a =>
      refine ⟨?_, ?_, ?_, ?_, not_not.mp h1, Or.inl ⟨h3, rfl, ?_, ?_, ?_, ?_⟩⟩
      · simp [ParseWarning]
      · simp [ParseWarning]
      · exact HeapGrows_Destroy (ParseWarning st _) (some rtn)
      · simp [ParseWarning]
      · simp [ParseWarning]
      · simp [ParseWarning]
      · simp [ParseWarning]
      · simp [ParseWarning]
  all_goals
    simp only [Except.ok.injEq, Prod.mk.injEq] at h
    obtain ⟨hr, hn, hs⟩ := h
    subst hs; subst hr; subst hn
    have hmig := (migrateRtns_spec st.policy.policy_id cur new).2.1
    have hce : getRtnFromOtn cur st.policy.policy_id ≠ none → st.sc.conf_error_out = false := by
      intro hne
      by_contra hc
      exact h4 ⟨hne, by simpa [ParseState.setOtnMap] using hc⟩
    refine ⟨?_, ?_, ?_, ?_, not_not.mp h1, Or.inr ⟨h3, rfl, rfl, ?_, ?_, hce, ?_, ?_⟩⟩
  all_goals
    first
    | exact HeapGrows_Destroy_of _ _ _ rfl
    | (simp [ParseWarning, ParseState.setOtnMap, h5, h6, hmig]; done)
    | (rw [hmig] at h6; simp [ParseWarning, ParseState.setOtnMap, h5, h6]; done)
    | (simp [ParseWarning, ParseState.setOtnMap, h5]; done)



theorem OtnLookup_eq_none {m : List OptTreeNode} {g s : Nat} :
    OtnLookup m g s = none ↔ (g, s) ∉ m.map OptTreeNode.key := by
  unfold OtnLookup
  rw [List.find?_eq_none]
  simp only [decide_eq_true_eq, List.mem_map, not_exists, not_and]

theorem OtnLookup_some {m : List OptTreeNode} {g s : Nat} {o : OptTreeNode}
    (h : OtnLookup m g s = some o) : o ∈ m ∧ o.key = (g, s) := by
  unfold OtnLookup at h
  exact ⟨List.mem_of_find?_eq_some h, by simpa using List.find?_some h⟩

theorem OtnStore_keys (m : List OptTreeNode) (o : OptTreeNode) :
    (OtnStore m o).map OptTreeNode.key = m.map OptTreeNode.key := by
  unfold OtnStore
  rw [List.map_map]
  apply List.map_congr_left
  intro x _
  simp only [Function.comp]
  split_ifs with h
  · exact h.symm
  · rfl

theorem OtnRemove_keys (m : List OptTreeNode) (o : OptTreeNode) :
    (OtnRemove m o).map OptTreeNode.key =
      (m.map OptTreeNode.key).filter (fun k => decide (k ≠ o.key)) := by
  unfold OtnRemove
  rw [List.filter_map]
  rfl

theorem OtnLookupAdd_of_none {m : List OptTreeNode} {o : OptTreeNode}
    (h : OtnLookup m o.sigInfo.generator o.sigInfo.id = none) : OtnLookupAdd m o = m ++ [o] := by
  unfold OtnLookupAdd
  simp [h]

theorem OtnLookup_OtnRemove (m : List OptTreeNode) (o : OptTreeNode) :
    OtnLookup (OtnRemove m o) o.sigInfo.generator o.sigInfo.id = none := by
  rw [OtnLookup_eq_none, OtnRemove_keys]
  simp [OptTreeNode.key]

theorem ValidateFastPattern_eq (st : ParseState) (otn : OptTreeNode) :
    ∃ ws, ValidateFastPattern st otn = { st with warnings := st.warnings ++ ws } := by
  unfold ValidateFastPattern
  generalize (ValidateFastPatternLoop false otn.opt_func).filter (fun b => b) = l
  induction l generalizing st with
  | nil => exact ⟨[], by simp⟩
  | cons b l ih =>
    rw [List.foldl_cons]
    obtain ⟨ws, hws⟩ := ih (ParseWarning st ParseWarningMsg.relativeAfterFastPatternOnly)
    exact ⟨ParseWarningMsg.relativeAfterFastPatternOnly :: ws, by rw [hws]; simp [ParseWarning]⟩

theorem storeOtn_spec (st : ParseState) (otn : OptTreeNode) (n : Int) :
    (storeOtn st otn n).1.sigInfo = otn.sigInfo ∧
    (storeOtn st otn n).1.proto_nodes = otn.proto_nodes ∧
    (storeOtn st otn n).2.sc.otn_map = OtnLookupAdd st.sc.otn_map (storeOtn st otn n).1 ∧
    (storeOtn st otn n).2.otn_count = st.otn_count + 1 ∧
    (storeOtn st otn n).2.detect_rule_count =
      st.detect_rule_count + (if otn.sigInfo.text_rule = true then 1 else 0) ∧
    (storeOtn st otn n).2.builtin_rule_count =
      st.builtin_rule_count + (if otn.sigInfo.text_rule = true then 0 else 1) ∧
    (storeOtn st otn n).2.rule_count = st.rule_count ∧
    (storeOtn st otn n).2.rtn_heap = st.rtn_heap ∧
    (storeOtn st otn n).2.policy = st.policy ∧
    (storeOtn st otn n).2.sc.conf_error_out = st.sc.conf_error_out := by
  unfold storeOtn
  dsimp only
  split_ifs with ht
  all_goals
    generalize hX : ValidateFastPattern _ _ = X
    obtain ⟨ws, hws⟩ := ValidateFastPattern_eq _ _
    rw [hX] at hws
    subst hws
    simp [ParseState.setOtnMap]

theorem storeOtn_spec_of {st : ParseState} {otn : OptTreeNode} {n : Int}
    {X : OptTreeNode × ParseState} (hX : storeOtn st otn n = X) :
    X.1.sigInfo = otn.sigInfo ∧
    X.1.proto_nodes = otn.proto_nodes ∧
    X.2.sc.otn_map = OtnLookupAdd st.sc.otn_map X.1 ∧
    X.2.otn_count = st.otn_count + 1 ∧
    X.2.detect_rule_count =
      st.detect_rule_count + (if otn.sigInfo.text_rule = true then 1 else 0) ∧
    X.2.builtin_rule_count =
      st.builtin_rule_count + (if otn.sigInfo.text_rule = true then 0 else 1) ∧
    X.2.rule_count = st.rule_count ∧
    X.2.rtn_heap = st.rtn_heap ∧
    X.2.policy = st.policy ∧
    X.2.sc.conf_error_out = st.sc.conf_error_out := by
  subst hX
  exact storeOtn_spec st otn n

theorem dispatchOption_fields {acc r : OptTreeNode × Int} {t : SoTok}
    (h : dispatchOption acc t = Except.ok r) :
    r.1.proto_nodes = acc.1.proto_nodes ∧ r.1.sigInfo.text_rule = acc.1.sigInfo.text_rule := by
  unfold dispatchOption at h
  cases t <;> dsimp only at h <;> cases h <;> exact ⟨rfl, rfl⟩

theorem dispatchOptions_fields {l : List SoTok} {acc r : OptTreeNode × Int}
    (h : dispatchOptions acc l = Except.ok r) :
    r.1.proto_nodes = acc.1.proto_nodes ∧ r.1.sigInfo.text_rule = acc.1.sigInfo.text_rule := by
  induction l generalizing acc with
  | nil => unfold dispatchOptions at h; cases h; exact ⟨rfl, rfl⟩
  | cons t l ih =>
    unfold dispatchOptions at h
    split at h
    · cases h
    · rename_i acc' hd
      have h1 := dispatchOption_fields hd
      have h2 := ih h
      exact ⟨h2.1.trans h1.1, h2.2.trans h1.2⟩

theorem firstPass_fields {l : List RuleTok} {acc r : OptTreeNode × Int × Option (List SoTok)}
    (h : firstPass acc l = Except.ok r) :
    r.1.proto_nodes = acc.1.proto_nodes ∧ r.1.sigInfo.text_rule = acc.1.sigInfo.text_rule := by
  induction l generalizing acc with
  | nil => unfold firstPass at h; cases h; exact ⟨rfl, rfl⟩
  | cons t l ih =>
    cases t with
    | plain t =>
      unfold firstPass at h
      split at h
      · cases h
      · rename_i r' hd
        have h1 := dispatchOption_fields hd
        have h2 := ih h
        exact ⟨h2.1.trans h1.1, h2.2.trans h1.2⟩
    | soid so =>
      unfold firstPass at h
      exact @ih (acc.1, acc.2.1, some so) h

theorem parseOptionLoops_fields {o : OptTreeNode} {toks : List RuleTok} {r : OptTreeNode × Int}
    (h : parseOptionLoops o toks = Except.ok r) :
    r.1.proto_nodes = o.proto_nodes ∧ r.1.sigInfo.text_rule = o.sigInfo.text_rule := by
  unfold parseOptionLoops at h
  split at h
  · cases h
  · rename_i r1 h1
    have f1 := firstPass_fields h1
    split at h
    · have f2 := dispatchOptions_fields h
      exact ⟨f2.1.trans f1.1, f2.2.trans f1.2⟩
    · cases h
      exact f1



theorem ParseRuleOptions_spec {st : ParseState} {rtn : Nat} {rule_opts : Option RuleOpts}
    {protocol : Int} {text : Bool} {res : Option OptTreeNode} {st' : ParseState}
    (h : ParseRuleOptions st rtn rule_opts protocol text = Except.ok (res, st')) :
    ∃ ro otn n, rule_opts = some ro ∧
      parseOptionLoops (newOtn st protocol text) ro.toks = Except.ok (otn, n) ∧
      otn.sigInfo.id ≠ 0 ∧ otn.sigInfo.text_rule = text ∧
      st'.policy = st.policy ∧ st'.rule_count = st.rule_count ∧
      HeapGrows st.rtn_heap st'.rtn_heap ∧ st'.sc.conf_error_out = st.sc.conf_error_out ∧
      ((OtnLookup st.sc.otn_map otn.sigInfo.generator otn.sigInfo.id = none ∧
          ∃ o', res = some o' ∧ o'.sigInfo = otn.sigInfo ∧
            (∀ q b, getRtnFromOtn o' q = some b → q = st.policy.policy_id ∧ b = rtn) ∧
            getRtnFromOtn o' st.policy.policy_id = some rtn ∧
            st'.sc.otn_map = st.sc.otn_map ++ [o'] ∧
            st'.otn_count = st.otn_count + 1 ∧
            st'.detect_rule_count = st.detect_rule_count + (if text = true then 1 else 0) ∧
            st'.builtin_rule_count = st.builtin_rule_count + (if text = true then 0 else 1)) ∨
       (∃ cur, OtnLookup st.sc.otn_map otn.sigInfo.generator otn.sigInfo.id = some cur ∧
          otn.sigInfo.rev < cur.sigInfo.rev ∧ res = none ∧
          st'.sc.otn_map =
            (if getRtnFromOtn cur st.policy.policy_id = none then
              OtnStore st.sc.otn_map (addRtnToOtn cur rtn st.policy.policy_id)
             else st.sc.otn_map) ∧
          st'.otn_count = st.otn_count ∧ st'.detect_rule_count = st.detect_rule_count ∧
          st'.builtin_rule_count = st.builtin_rule_count) ∨
       (∃ cur, OtnLookup st.sc.otn_map otn.sigInfo.generator otn.sigInfo.id = some cur ∧
          ¬ otn.sigInfo.rev < cur.sigInfo.rev ∧
          ∃ o' cur', res = some o' ∧ o'.sigInfo = otn.sigInfo ∧ cur'.sigInfo = cur.sigInfo ∧
            (∀ q b, getRtnFromOtn o' q = some b →
              (q = st.policy.policy_id ∧ b = rtn) ∨
                (q ≠ st.policy.policy_id ∧ getRtnFromOtn cur q = some b)) ∧
            st'.sc.otn_map = OtnRemove (OtnStore st.sc.otn_map cur') cur ++ [o'] ∧
            st'.otn_count = st.otn_count ∧
            (getRtnFromOtn cur st.policy.policy_id ≠ none → st.sc.conf_error_out = false) ∧
            st'.detect_rule_count = st.detect_rule_count +
              (if getRtnFromOtn cur st.policy.policy_id = none ∧ text = true then 1 else 0) ∧
            st'.builtin_rule_count = st.builtin_rule_count +
              (if getRtnFromOtn cur st.policy.policy_id = none ∧ text = false then 1 else 0))) := by
  unfold ParseRuleOptions at h
  dsimp only at h
  split at h
  · cases h
  · rename_i ro
    split_ifs at h with henc
    split at h
    · cases h
    · rename_i otn n hloops
      have hf := parseOptionLoops_fields hloops
      have htext : otn.sigInfo.text_rule = text := hf.2
      have hnodes : otn.proto_nodes = [] := hf.1
      split_ifs at h with hb hid
      have hbind : ∀ q b, getRtnFromOtn (addRtnToOtn otn rtn st.policy.policy_id) q = some b →
          q = st.policy.policy_id ∧ b = rtn := by
        intro q b hq
        rcases getRtn_addRtn hq with h' | h'
        · exact h'
        · unfold getRtnFromOtn at h'
          rw [hnodes] at h'
          simp at h'
      refine ⟨ro, otn, n, rfl, hloops, hid, htext, ?_⟩
      split at h
      · rename_i cur hcur
        simp only [addRtnToOtn_sigInfo] at hcur
        split at h
        · cases h
        · rename_i ret new' st1 hm
          obtain ⟨m1, m2, m3, m4, m5, m6⟩ := mergeDuplicateOtn_spec hm
          split_ifs at h with hret
          · cases h
            rcases m6 with ⟨r1, r2, r3, r4, r5, r6⟩ | ⟨r1, r2, _⟩
            · refine ⟨m1, m2, m3, m4, Or.inr (Or.inl ⟨cur, hcur, ?_, rfl, r3, r4, r5, r6⟩)⟩
              simpa using r1
            · exact absurd (r2.symm.trans hret) (by decide)
          · cases h
            rcases m6 with ⟨r1, r2, _⟩ | ⟨r1, r2, r3, r4, r5, r6, r7, r8⟩
            · exact absurd r2 hret
            · obtain ⟨s1, s2, s3, s4, s5, s6, s7, s8, s9, s10⟩ := storeOtn_spec st1 new' n
              have g2 : new'.sigInfo = otn.sigInfo := by
                rw [r3]
                exact ((migrateRtns_spec _ _ _).2.1).trans (by simp)
              have g4 : ∀ q b, getRtnFromOtn new' q = some b →
                  (q = st.policy.policy_id ∧ b = rtn) ∨
                    (q ≠ st.policy.policy_id ∧ getRtnFromOtn cur q = some b) := by
                intro q b hq
                rw [r3] at hq
                rcases (migrateRtns_spec _ _ _).2.2.2 q b hq with h' | h'
                · exact Or.inl (hbind q b h')
                · exact Or.inr h'
              have hsig : (storeOtn st1 new' n).1.sigInfo = otn.sigInfo := s1.trans g2
              have hkey := (OtnLookup_some hcur).2
              simp only [OptTreeNode.key, Prod.mk.injEq] at hkey
              have hlk : OtnLookup st1.sc.otn_map (storeOtn st1 new' n).1.sigInfo.generator
                  (storeOtn st1 new' n).1.sigInfo.id = none := by
                rw [r4, hsig, ← hkey.1, ← hkey.2]
                exact OtnLookup_OtnRemove _ cur
              have r1' : ¬ otn.sigInfo.rev < cur.sigInfo.rev := by simpa using r1
              have r7' : st1.detect_rule_count = st.detect_rule_count -
                  (if getRtnFromOtn cur st.policy.policy_id ≠ none ∧ text = true then 1 else 0) := by
                rw [r7]; simp [htext]
              have r8' : st1.builtin_rule_count = st.builtin_rule_count -
                  (if getRtnFromOtn cur st.policy.policy_id ≠ none ∧ text = false then 1 else 0) := by
                rw [r8]; simp [htext]
              rw [g2, htext] at s5 s6
              obtain ⟨cur', hcur', r4'⟩ : ∃ cur' : OptTreeNode, cur'.sigInfo = cur.sigInfo ∧
                  st1.sc.otn_map = OtnRemove (OtnStore st.sc.otn_map cur') cur :=
                ⟨_, (migrateRtns_spec _ _ _).1, r4⟩
              refine ⟨s9.trans m1, s7.trans m2, by rw [s8]; exact m3, s10.trans m4,
                Or.inr (Or.inr ⟨cur, hcur, r1', _, cur', rfl, hsig, hcur',
                  ?_, ?_, ?_, r6, ?_, ?_⟩)⟩
              · intro q b hq
                apply g4 q b
                unfold getRtnFromOtn at hq ⊢
                rw [s2] at hq
                exact hq
              · rw [s3, OtnLookupAdd_of_none hlk, r4']
              · rw [s4, r5]; ring
              · rw [s5, r7']
                by_cases hc : getRtnFromOtn cur st.policy.policy_id = none <;>
                  cases text <;> simp [hc]
              · rw [s6, r8']
                by_cases hc : getRtnFromOtn cur st.policy.policy_id = none <;>
                  cases text <;> simp [hc]
      · rename_i hnone
        simp only [addRtnToOtn_sigInfo] at hnone
        cases h
        generalize hX : storeOtn _ _ n = X
        obtain ⟨s1, s2, s3, s4, s5, s6, s7, s8, s9, s10⟩ := storeOtn_spec_of hX
        have hsig : X.1.sigInfo = otn.sigInfo := by rw [s1]; simp
        have hlk : OtnLookup st.sc.otn_map X.1.sigInfo.generator X.1.sigInfo.id = none := by
          rw [hsig]; exact hnone
        refine ⟨s9, s7, by rw [s8]; exact HeapGrows_refl _, s10,
          Or.inl ⟨hnone, X.1, rfl, hsig, ?_, ?_, ?_, s4, ?_, ?_⟩⟩
        · intro q b hq
          apply hbind q b
          unfold getRtnFromOtn at hq ⊢
          rw [s2] at hq
          exact hq
        · have := getRtn_addRtn_self otn rtn st.policy.policy_id
            (by unfold getRtnFromOtn; rw [hnodes]; rfl)
          unfold getRtnFromOtn at this ⊢
          rw [s2]
          exact this
        · rw [s3]
          exact OtnLookupAdd_of_none hlk
        · rw [s5]; simp [htext]
        · rw [s6]; simp [htext]

/-! ## Header canonicalisation -/

theorem sfvar_compare_comm (a b : Option sfip_var_t) :
    sfvar_compare a b = SFIP_RET.SFIP_EQUAL ↔ sfvar_compare b a = SFIP_RET.SFIP_EQUAL := by
  cases a <;> cases b <;> simp [sfvar_compare, eq_comm]

theorem HeaderFieldsMatch_symm {a b : RuleTreeNode} (h : HeaderFieldsMatch a b) :
    HeaderFieldsMatch b a := by
  obtain ⟨h1, h2, h3, h4, h5, h6, h7, h8⟩ := h
  refine ⟨h1.symm, h2.symm, h3.symm, h4.symm, ?_, ?_, h7.symm, h8.symm⟩
  · rcases h5 with h | h | h
    · exact Or.inr (Or.inl h)
    · exact Or.inl h
    · exact Or.inr (Or.inr ((sfvar_compare_comm _ _).mp h))
  · rcases h6 with h | h | h
    · exact Or.inr (Or.inl h)
    · exact Or.inl h
    · exact Or.inr (Or.inr ((sfvar_compare_comm _ _).mp h))

theorem TestHeader_zero_or_one (a b : Option RuleTreeNode) :
    TestHeader a b = 0 ∨ TestHeader a b = 1 := by
  unfold TestHeader
  split
  · split_ifs <;> simp
  · exact Or.inl rfl

theorem TestHeader_comm (a b : Option RuleTreeNode) : TestHeader a b = TestHeader b a := by
  cases a with
  | none => cases b <;> rfl
  | some a =>
    cases b with
    | none => rfl
    | some b =>
      have h1 := TestHeader_one_iff a b
      have h2 := TestHeader_one_iff b a
      rcases TestHeader_zero_or_one (some a) (some b) with ha | ha <;>
        rcases TestHeader_zero_or_one (some b) (some a) with hb | hb
      · rw [ha, hb]
      · exact absurd (h1.mpr (HeaderFieldsMatch_symm (h2.mp hb))) (by rw [ha]; decide)
      · exact absurd (h2.mpr (HeaderFieldsMatch_symm (h1.mp ha))) (by rw [hb]; decide)
      · rw [ha, hb]

theorem TestHeader_congr_right {a b : RuleTreeNode} (h : hdrFields a = hdrFields b)
    (x : Option RuleTreeNode) : TestHeader x (some a) = TestHeader x (some b) := by
  simp only [hdrFields, Prod.mk.injEq] at h
  obtain ⟨h1, h2, h3, h4, h5, h6, h7, h8⟩ := h
  cases x with
  | none => rfl
  | some x => simp only [TestHeader, h1, h2, h3, h4, h5, h6, h7, h8]

theorem TestHeader_congr_left {a b : RuleTreeNode} (h : hdrFields a = hdrFields b)
    (x : Option RuleTreeNode) : TestHeader (some a) x = TestHeader (some b) x := by
  rw [TestHeader_comm, TestHeader_congr_right h, TestHeader_comm]

theorem hdrFields_PortToFunc (r : RuleTreeNode) (a e : Int) (m : Mode) :
    hdrFields (PortToFunc r a e m) = hdrFields r := by
  unfold PortToFunc
  split_ifs <;> cases m <;> rfl

theorem hdrFields_AddrToFunc (r : RuleTreeNode) (m : Mode) :
    hdrFields (AddrToFunc r m) = hdrFields r := by
  unfold AddrToFunc
  cases m <;> dsimp only <;> split_ifs <;> rfl

theorem hdrFields_SetupRTNFuncList (r : RuleTreeNode) :
    hdrFields (SetupRTNFuncList r) = hdrFields r := by
  unfold SetupRTNFuncList
  dsimp only
  show hdrFields (if r.flags &&& BIDIRECTIONAL ≠ 0 then _ else _) = _
  by_cases hb : r.flags &&& BIDIRECTIONAL ≠ 0
  · rw [if_pos hb]
    rfl
  · rw [if_neg hb, hdrFields_AddrToFunc, hdrFields_AddrToFunc, hdrFields_PortToFunc,
      hdrFields_PortToFunc]



theorem HeadersUnique_mono {h h' : List RuleTreeNode} {otns otns' : List OptTreeNode}
    (hg : HeapGrows h h') (hb : ∀ q a, bound otns' q a → bound otns q a)
    (hu : HeadersUnique h otns) : HeadersUnique h' otns' := by
  intro q a1 a2 b1 b2
  obtain ⟨n1, n2, e1, e2, ht⟩ := hu q a1 a2 (hb q a1 b1) (hb q a2 b2)
  obtain ⟨c1, f1⟩ := hg a1 n1 e1
  obtain ⟨c2, f2⟩ := hg a2 n2 e2
  refine ⟨_, _, f1, f2, ?_⟩
  intro hne
  exact ((TestHeader_congr_left (b := n1) rfl _).trans
    (TestHeader_congr_right (b := n2) rfl _)).trans (ht hne)

theorem findHeadNode_none {st : ParseState} {t : RuleTreeNode} {p : Nat}
    (h : findHeadNode st t p = none) :
    ∀ o ∈ st.sc.otn_map, TestHeader (getRtn st (getRtnFromOtn o p)) (some t) = 0 := by
  unfold findHeadNode at h
  rw [List.findSome?_eq_none_iff] at h
  intro o ho
  have := h o ho
  dsimp only at this
  by_contra hne
  rw [if_pos hne] at this
  cases hr : getRtnFromOtn o p with
  | none => rw [hr] at hne; exact hne rfl
  | some a => rw [hr] at this; cases this

theorem findHeadNode_some {st : ParseState} {t : RuleTreeNode} {p a : Nat}
    (h : findHeadNode st t p = some a) :
    bound st.sc.otn_map p a ∧ ∃ n, st.rtn_heap[a]? = some n ∧ TestHeader (some n) (some t) ≠ 0 := by
  unfold findHeadNode at h
  obtain ⟨o, ho, hq⟩ := List.exists_of_findSome?_eq_some h
  dsimp only at hq
  split_ifs at hq with hne
  refine ⟨⟨o, ho, hq⟩, ?_⟩
  rw [hq] at hne
  cases hn : st.rtn_heap[a]? with
  | none =>
    exfalso
    apply hne
    simp [getRtn, hn, TestHeader]
  | some n =>
    refine ⟨n, rfl, ?_⟩
    simpa [getRtn, hn] using hne

theorem ProcessHeadNode_spec (st : ParseState) (t : RuleTreeNode) (list : Option Nat)
    (hl : t.listhead = list) (hu : HeadersUnique st.rtn_heap st.sc.otn_map) :
    (ProcessHeadNode st t list).2.sc = st.sc ∧
    (ProcessHeadNode st t list).2.policy = st.policy ∧
    (ProcessHeadNode st t list).2.otn_count = st.otn_count ∧
    (ProcessHeadNode st t list).2.rule_count = st.rule_count ∧
    (ProcessHeadNode st t list).2.detect_rule_count = st.detect_rule_count ∧
    (ProcessHeadNode st t list).2.builtin_rule_count = st.builtin_rule_count ∧
    HeapGrows st.rtn_heap (ProcessHeadNode st t list).2.rtn_heap ∧
    (∀ o : OptTreeNode,
      (∀ q b, getRtnFromOtn o q = some b →
        q = st.policy.policy_id ∧ b = (ProcessHeadNode st t list).1) →
      HeadersUnique (ProcessHeadNode st t list).2.rtn_heap (st.sc.otn_map ++ [o])) := by
  unfold ProcessHeadNode
  split
  · rename_i hnone
    dsimp only
    refine ⟨rfl, rfl, rfl, rfl, rfl, rfl, HeapGrows_append _ _, ?_⟩
    intro o ho
    have hzero := findHeadNode_none hnone
    generalize hnn : ({ SetupRTNFuncList
        { XferHeader t { RuleTreeNode.zero with otnRefCount := RuleTreeNode.zero.otnRefCount + 1 } with
          head_node_number := st.head_count + 1 } with listhead := list } : RuleTreeNode) = nn
    have hf : hdrFields nn = hdrFields t := by
      have := hdrFields_SetupRTNFuncList
        { XferHeader t { RuleTreeNode.zero with otnRefCount := RuleTreeNode.zero.otnRefCount + 1 } with
          head_node_number := st.head_count + 1 }
      subst hnn
      simp only [hdrFields, Prod.mk.injEq] at this ⊢
      obtain ⟨h1, h2, h3, -, h5, h6, h7, h8⟩ := this
      exact ⟨h1, h2, h3, hl.symm, h5, h6, h7, h8⟩
    have hnew : (st.rtn_heap ++ [nn])[st.rtn_heap.length]? = some nn := by
      rw [List.getElem?_append_right (le_refl _)]
      simp
    have hold : ∀ q a, bound st.sc.otn_map q a →
        ∃ n, st.rtn_heap[a]? = some n ∧ (st.rtn_heap ++ [nn])[a]? = some n ∧
          a < st.rtn_heap.length := by
      intro q a hb
      obtain ⟨n, _, hn, _, _⟩ := hu q a a hb hb
      have hlt : a < st.rtn_heap.length := by
        rcases List.getElem?_eq_some.mp hn with ⟨hl', _⟩
        exact hl'
      exact ⟨n, hn, by rw [List.getElem?_append_left hlt]; exact hn, hlt⟩
    have hsplit : ∀ q a, bound (st.sc.otn_map ++ [o]) q a →
        bound st.sc.otn_map q a ∨ (q = st.policy.policy_id ∧ a = st.rtn_heap.length) := by
      intro q a hb
      obtain ⟨o', ho', hq'⟩ := hb
      rcases List.mem_append.mp ho' with hm | hm
      · exact Or.inl ⟨o', hm, hq'⟩
      · rw [List.mem_singleton] at hm
        subst hm
        exact Or.inr (ho q a hq')
    have hT : ∀ a n, bound st.sc.otn_map st.policy.policy_id a → st.rtn_heap[a]? = some n →
        TestHeader (some n) (some nn) = 0 := by
      intro a n hb hn
      obtain ⟨o1, ho1, hq1⟩ := hb
      have := hzero o1 ho1
      rw [hq1] at this
      have hg : getRtn st (some a) = some n := hn
      rw [hg] at this
      rw [TestHeader_congr_right hf]
      exact this
    intro q a1 a2 b1 b2
    rcases hsplit q a1 b1 with c1 | ⟨q1, e1⟩ <;> rcases hsplit q a2 b2 with c2 | ⟨q2, e2⟩
    · obtain ⟨n1, n2, f1, f2, ht⟩ := hu q a1 a2 c1 c2
      obtain ⟨m1, g1, g1', _⟩ := hold q a1 c1
      obtain ⟨m2, g2, g2', _⟩ := hold q a2 c2
      rw [f1] at g1; cases g1
      rw [f2] at g2; cases g2
      exact ⟨n1, n2, g1', g2', ht⟩
    · obtain ⟨m1, g1, g1', hlt⟩ := hold q a1 c1
      subst e2
      refine ⟨m1, nn, g1', hnew, fun _ => ?_⟩
      subst q2
      exact hT a1 m1 c1 g1
    · obtain ⟨m2, g2, g2', hlt⟩ := hold q a2 c2
      subst e1
      refine ⟨nn, m2, hnew, g2', fun _ => ?_⟩
      subst q1
      rw [TestHeader_comm]
      exact hT a2 m2 c2 g2
    · subst e1; subst e2
      exact ⟨nn, nn, hnew, hnew, fun h => absurd rfl h⟩
  · rename_i a hsome
    obtain ⟨hb, n, hn, hT⟩ := findHeadNode_some hsome
    rw [hn]
    dsimp only
    refine ⟨rfl, rfl, rfl, rfl, rfl, rfl, HeapGrows_set _ _ _ _ hn, ?_⟩
    intro o ho
    apply HeadersUnique_mono (HeapGrows_set _ _ _ _ hn) _ hu
    intro q b hqb
    obtain ⟨o', ho', hq'⟩ := hqb
    rcases List.mem_append.mp ho' with hm | hm
    · exact ⟨o', hm, hq'⟩
    · rw [List.mem_singleton] at hm
      subst hm
      obtain ⟨e1, e2⟩ := ho q b hq'
      subst e1; subst e2
      exact hb

/-! ## One accepted rule -/

theorem dispatchOption_indep {a b r : OptTreeNode × Int} {t : SoTok}
    (hab : a.1.sigInfo = b.1.sigInfo) (h : dispatchOption a t = Except.ok r) :
    ∃ r', dispatchOption b t = Except.ok r' ∧ r'.1.sigInfo = r.1.sigInfo := by
  unfold dispatchOption at h ⊢
  cases t <;> dsimp only at h ⊢ <;> cases h <;> exact ⟨_, rfl, by simp [hab]⟩

theorem dispatchOptions_indep {l : List SoTok} {a b r : OptTreeNode × Int}
    (hab : a.1.sigInfo = b.1.sigInfo) (h : dispatchOptions a l = Except.ok r) :
    ∃ r', dispatchOptions b l = Except.ok r' ∧ r'.1.sigInfo = r.1.sigInfo := by
  induction l generalizing a b with
  | nil =>
    unfold dispatchOptions at h ⊢
    cases h
    exact ⟨b, rfl, hab.symm⟩
  | cons t l ih =>
    unfold dispatchOptions at h
    split at h
    · cases h
    · rename_i a' ha
      obtain ⟨b', hb, hs⟩ := dispatchOption_indep hab ha
      obtain ⟨r', hr, hs'⟩ := ih hs.symm h
      refine ⟨r', ?_, hs'⟩
      rw [dispatchOptions, hb]
      exact hr

theorem firstPass_indep {l : List RuleTok} {a b r : OptTreeNode × Int × Option (List SoTok)}
    (hab : a.1.sigInfo = b.1.sigInfo) (hso : a.2.2 = b.2.2) (h : firstPass a l = Except.ok r) :
    ∃ r', firstPass b l = Except.ok r' ∧ r'.1.sigInfo = r.1.sigInfo ∧ r'.2.2 = r.2.2 := by
  induction l generalizing a b with
  | nil =>
    unfold firstPass at h ⊢
    cases h
    exact ⟨b, rfl, hab.symm, hso.symm⟩
  | cons t l ih =>
    cases t with
    | plain t =>
      unfold firstPass at h
      split at h
      · cases h
      · rename_i a' ha
        obtain ⟨b', hb, hs⟩ := dispatchOption_indep (a := (a.1, a.2.1)) (b := (b.1, b.2.1)) hab ha
        obtain ⟨r', hr, hs'⟩ := ih (a := (a'.1, a'.2, a.2.2)) (b := (b'.1, b'.2, b.2.2)) hs.symm hso h
        refine ⟨r', ?_, hs'⟩
        rw [firstPass, hb]
        exact hr
    | soid so =>
      unfold firstPass at h
      obtain ⟨r', hr, hs'⟩ := ih (a := (a.1, a.2.1, some so)) (b := (b.1, b.2.1, some so)) hab rfl h
      refine ⟨r', ?_, hs'⟩
      rw [firstPass]
      exact hr

theorem parseOptionLoops_indep {toks : List RuleTok} {a b : OptTreeNode} {r : OptTreeNode × Int}
    (hab : a.sigInfo = b.sigInfo) (h : parseOptionLoops a toks = Except.ok r) :
    ∃ r', parseOptionLoops b toks = Except.ok r' ∧ r'.1.sigInfo = r.1.sigInfo := by
  unfold parseOptionLoops at h
  split at h
  · cases h
  · rename_i r1 h1
    obtain ⟨r1', h1', hs, hso⟩ := firstPass_indep (a := (a, 0, none)) (b := (b, 0, none)) hab rfl h1
    split at h
    · rename_i so hso1
      obtain ⟨r', hr, hs'⟩ := dispatchOptions_indep (a := (r1.1, r1.2.1)) (b := (r1'.1, r1'.2.1))
        hs.symm h
      refine ⟨r', ?_, hs'⟩
      unfold parseOptionLoops
      rw [h1']
      dsimp only
      rw [hso, hso1]
      exact hr
    · rename_i hso1
      cases h
      refine ⟨(r1'.1, r1'.2.1), ?_, hs⟩
      unfold parseOptionLoops
      rw [h1']
      dsimp only
      rw [hso, hso1]

theorem optsSigInfo_of_loops {st : ParseState} {protocol : Int} {text : Bool}
    {toks : List RuleTok} {otn : OptTreeNode} {n : Int}
    (h : parseOptionLoops (newOtn st protocol text) toks = Except.ok (otn, n)) :
    optsSigInfo text toks = some otn.sigInfo := by
  obtain ⟨r', hr, hs⟩ := parseOptionLoops_indep (a := newOtn st protocol text) (b :=
    { opt_func := [], chain_node_number := 0, proto := 0,
      sigInfo := { generator := GENERATOR_SNORT_ENGINE, id := 0, rev := 0, text_rule := text },
      enabled := false, ruleIndex := 0, num_detection_opts := 0, proto_nodes := [] }) rfl h
  unfold optsSigInfo
  rw [hr]
  exact congrArg some hs

theorem parseHeader_sig {env : Collab} {st : ParseState} {args : RuleArgs} {rule_type : Int}
    {h : HeaderResult} (hh : parseHeader env st args rule_type = Except.ok h) :
    ∀ ro, h.roptions = some ro → argsSigInfo args = optsSigInfo h.text ro.toks := by
  unfold parseHeader at hh
  cases args with
  | builtin ro =>
    dsimp only at hh
    cases hh
    intro ro' hro
    cases hro
    rfl
  | short => cases hh
  | text t0 t1 t2 t3 t4 t5 ro =>
    dsimp only at hh
    repeat' (split at hh)
    all_goals
      first
      | (cases hh; done)
      | (cases hh
         intro ro' hro
         dsimp only at hro
         subst hro
         rfl)

theorem parse_rule_decomp {env : Collab} {st st' : ParseState} {args : RuleArgs} {rule_type : Int}
    {list : Option Nat} (h : parse_rule env st args rule_type list = Except.ok st') :
    ∃ hd res st2, parseHeader env st args rule_type = Except.ok hd ∧
      ParseRuleOptions (ProcessHeadNode hd.st { hd.test_rtn with listhead := list } list).2
        (ProcessHeadNode hd.st { hd.test_rtn with listhead := list } list).1
        hd.roptions hd.protocol hd.text = Except.ok (res, st2) ∧
      ((res = none ∧ st' = st2) ∨
       (res ≠ none ∧ SameCore { st2 with rule_count := st2.rule_count + 1 } st')) := by
  unfold parse_rule at h
  split at h
  · cases h
  · rename_i hd hhd
    dsimp only at h
    split at h
    · cases h
    · rename_i st2 hpro
      cases h
      exact ⟨hd, none, st', hhd, hpro, Or.inl ⟨rfl, rfl⟩⟩
    · rename_i otn st2 hpro
      split at h
      · cases h
      · rename_i ret st3 hfin
        split_ifs at h
        cases h
        refine ⟨hd, some otn, st2, hhd, hpro, Or.inr ⟨by simp, ?_⟩⟩
        have := SameCore_FinishPortListRule hfin
        exact ⟨this.1, this.2, this.3, this.4, this.5, this.6, this.7, this.8⟩



/-- What one accepted rule does to the signature map and the counters: the
signature is new, or it is an older revision of a stored one, or it replaces a
stored one. -/
theorem parse_rule_step {env : Collab} {st st' : ParseState} {args : RuleArgs} {rule_type : Int}
    {list : Option Nat} (h : parse_rule env st args rule_type list = Except.ok st') :
    ∃ si, argsSigInfo args = some si ∧ si.id ≠ 0 ∧
      st'.policy.policy_id = st.policy.policy_id ∧
      st'.sc.conf_error_out = st.sc.conf_error_out ∧
      ((OtnLookup st.sc.otn_map si.generator si.id = none ∧
          ∃ o', o'.sigInfo = si ∧ getRtnFromOtn o' st.policy.policy_id ≠ none ∧
            st'.sc.otn_map = st.sc.otn_map ++ [o'] ∧
            st'.otn_count = st.otn_count + 1 ∧ st'.rule_count = st.rule_count + 1 ∧
            st'.detect_rule_count = st.detect_rule_count + (if si.text_rule = true then 1 else 0) ∧
            st'.builtin_rule_count =
              st.builtin_rule_count + (if si.text_rule = true then 0 else 1)) ∨
       (∃ cur, OtnLookup st.sc.otn_map si.generator si.id = some cur ∧
          si.rev < cur.sigInfo.rev ∧
          (st'.sc.otn_map = st.sc.otn_map ∨
            ∃ x, x.sigInfo = cur.sigInfo ∧ st'.sc.otn_map = OtnStore st.sc.otn_map x) ∧
          st'.otn_count = st.otn_count ∧ st'.rule_count = st.rule_count ∧
          st'.detect_rule_count = st.detect_rule_count ∧
          st'.builtin_rule_count = st.builtin_rule_count) ∨
       (∃ cur, OtnLookup st.sc.otn_map si.generator si.id = some cur ∧
          ¬ si.rev < cur.sigInfo.rev ∧
          ∃ o' cur', o'.sigInfo = si ∧ cur'.sigInfo = cur.sigInfo ∧
            st'.sc.otn_map = OtnRemove (OtnStore st.sc.otn_map cur') cur ++ [o'] ∧
            st'.otn_count = st.otn_count ∧ st'.rule_count = st.rule_count + 1 ∧
            (getRtnFromOtn cur st.policy.policy_id ≠ none → st.sc.conf_error_out = false) ∧
            st'.detect_rule_count = st.detect_rule_count +
              (if getRtnFromOtn cur st.policy.policy_id = none ∧ si.text_rule = true
                then 1 else 0) ∧
            st'.builtin_rule_count = st.builtin_rule_count +
              (if getRtnFromOtn cur st.policy.policy_id = none ∧ si.text_rule = false
                then 1 else 0))) := by
  obtain ⟨hd, res, st2, hhd, hpro, hres⟩ := parse_rule_decomp h
  have hc := SameCore_parseHeader hhd
  generalize hP : ProcessHeadNode hd.st { hd.test_rtn with listhead := list } list = P at hpro
  have hPsc : P.2.sc = hd.st.sc ∧ P.2.policy = hd.st.policy ∧ P.2.otn_count = hd.st.otn_count ∧
      P.2.rule_count = hd.st.rule_count ∧ P.2.detect_rule_count = hd.st.detect_rule_count ∧
      P.2.builtin_rule_count = hd.st.builtin_rule_count := by
    subst hP
    unfold ProcessHeadNode
    split
    · exact ⟨rfl, rfl, rfl, rfl, rfl, rfl⟩
    · split <;> exact ⟨rfl, rfl, rfl, rfl, rfl, rfl⟩
  obtain ⟨p1, p2, p3, p4, p5, p6⟩ := hPsc
  obtain ⟨ro, otn, n, hro, hloops, hid, htext, q1, q2, q3, q4, hcases⟩ := ParseRuleOptions_spec hpro
  have hsig : argsSigInfo args = some otn.sigInfo := by
    rw [parseHeader_sig hhd ro hro]
    exact optsSigInfo_of_loops hloops
  have hmap : P.2.sc.otn_map = st.sc.otn_map := by rw [p1]; exact hc.1
  have hpid : P.2.policy.policy_id = st.policy.policy_id := by rw [p2]; exact hc.7
  have hceo : P.2.sc.conf_error_out = st.sc.conf_error_out := by rw [p1]; exact hc.8
  have hoc : P.2.otn_count = st.otn_count := p3.trans hc.3
  have hrc : P.2.rule_count = st.rule_count := p4.trans hc.4
  have hdc : P.2.detect_rule_count = st.detect_rule_count := p5.trans hc.5
  have hbc : P.2.builtin_rule_count = st.builtin_rule_count := p6.trans hc.6
  rw [hmap, hpid] at hcases
  rw [hoc, hdc, hbc, hceo] at hcases
  rw [← htext] at hcases
  refine ⟨otn.sigInfo, hsig, hid, ?_⟩
  rcases hcases with ⟨hl, o', hr, ho', _, hself, hm', hc1, hc2, hc3⟩ |
      ⟨cur, hl, hlt, hr, hm', hc1, hc2, hc3⟩ |
      ⟨cur, hl, hlt, o', cur', hr, ho', hcur', _, hm', hc1, hce, hc2, hc3⟩
  · subst hr
    rcases hres with ⟨hn, _⟩ | ⟨_, hsc⟩
    · cases hn
    · refine ⟨?_, ?_, Or.inl ⟨hl, o', ho', by rw [hself]; simp, ?_, ?_, ?_, ?_, ?_⟩⟩
      · rw [hsc.7]; show st2.policy.policy_id = _; rw [q1, hpid]
      · rw [hsc.8]; show st2.sc.conf_error_out = _; rw [q4, hceo]
      · rw [hsc.1]; exact hm'
      · rw [hsc.3]; exact hc1
      · rw [hsc.4]; show st2.rule_count + 1 = _; rw [q2, hrc]
      · rw [hsc.5]; exact hc2
      · rw [hsc.6]; exact hc3
  · subst hr
    rcases hres with ⟨_, hst⟩ | ⟨hn, _⟩
    · subst hst
      refine ⟨by rw [q1, hpid], by rw [q4, hceo], Or.inr (Or.inl ⟨cur, hl, hlt, ?_, hc1, by rw [q2, hrc], hc2, hc3⟩)⟩
      rw [hm']
      split_ifs
      · exact Or.inr ⟨_, addRtnToOtn_sigInfo _ _ _, rfl⟩
      · exact Or.inl rfl
    · exact absurd rfl hn
  · subst hr
    rcases hres with ⟨hn, _⟩ | ⟨_, hsc⟩
    · cases hn
    · refine ⟨?_, ?_, Or.inr (Or.inr ⟨cur, hl, hlt, o', cur', ho', hcur', ?_, ?_, ?_, hce, ?_, ?_⟩)⟩
      · rw [hsc.7]; show st2.policy.policy_id = _; rw [q1, hpid]
      · rw [hsc.8]; show st2.sc.conf_error_out = _; rw [q4, hceo]
      · rw [hsc.1]; exact hm'
      · rw [hsc.3]; exact hc1
      · rw [hsc.4]; show st2.rule_count + 1 = _; rw [q2, hrc]
      · rw [hsc.5]; exact hc2
      · rw [hsc.6]; exact hc3

/-! ## Header uniqueness -/

theorem bound_OtnStore {m : List OptTreeNode} {x : OptTreeNode} {q a : Nat}
    (h : bound (OtnStore m x) q a) : bound m q a ∨ getRtnFromOtn x q = some a := by
  obtain ⟨o, ho, hq⟩ := h
  unfold OtnStore at ho
  obtain ⟨o0, ho0, hf⟩ := List.mem_map.mp ho
  split_ifs at hf
  · subst hf
    exact Or.inr hq
  · subst hf
    exact Or.inl ⟨o0, ho0, hq⟩

theorem ParseRuleOptions_bound {st : ParseState} {rtn : Nat} {rule_opts : Option RuleOpts}
    {protocol : Int} {text : Bool} {res : Option OptTreeNode} {st' : ParseState}
    (h : ParseRuleOptions st rtn rule_opts protocol text = Except.ok (res, st')) :
    ∀ q a, bound st'.sc.otn_map q a →
      bound st.sc.otn_map q a ∨ (q = st.policy.policy_id ∧ a = rtn) := by
  obtain ⟨ro, otn, n, hro, hloops, hid, htext, q1, q2, q3, q4, hcases⟩ := ParseRuleOptions_spec h
  intro q a hb
  rcases hcases with ⟨hl, o', hr, ho', hbind, _, hm', _⟩ |
      ⟨cur, hl, hlt, hr, hm', _⟩ |
      ⟨cur, hl, hlt, o', cur', hr, ho', hcur', hbind, hm', _⟩
  · rw [hm'] at hb
    obtain ⟨o, ho, hq⟩ := hb
    rcases List.mem_append.mp ho with hm | hm
    · exact Or.inl ⟨o, hm, hq⟩
    · rw [List.mem_singleton] at hm
      subst hm
      exact Or.inr (hbind q a hq)
  · rw [hm'] at hb
    split_ifs at hb
    · rcases bound_OtnStore hb with hb' | hb'
      · exact Or.inl hb'
      · rcases getRtn_addRtn hb' with h' | h'
        · exact Or.inr h'
        · exact Or.inl ⟨cur, (OtnLookup_some hl).1, h'⟩
    · exact Or.inl hb
  · rw [hm'] at hb
    obtain ⟨o, ho, hq⟩ := hb
    rcases List.mem_append.mp ho with hm | hm
    · unfold OtnRemove at hm
      rw [List.mem_filter] at hm
      obtain ⟨hm1, hm2⟩ := hm
      unfold OtnStore at hm1
      obtain ⟨o0, ho0, hf⟩ := List.mem_map.mp hm1
      split_ifs at hf with hk
      · subst hf
        exfalso
        have : cur'.key = cur.key := by
          simp only [OptTreeNode.key, hcur']
        simp [this] at hm2
      · subst hf
        exact Or.inl ⟨o0, ho0, hq⟩
    · rw [List.mem_singleton] at hm
      subst hm
      rcases hbind q a hq with h' | ⟨_, h'⟩
      · exact Or.inr h'
      · exact Or.inl ⟨cur, (OtnLookup_some hl).1, h'⟩

/-- One accepted rule keeps the headers of the signature map pairwise
different under `TestHeader`, for every policy. -/
theorem parse_rule_HeadersUnique {env : Collab} {st st' : ParseState} {args : RuleArgs}
    {rule_type : Int} {list : Option Nat}
    (h : parse_rule env st args rule_type list = Except.ok st')
    (hu : HeadersUnique st.rtn_heap st.sc.otn_map) :
    HeadersUnique st'.rtn_heap st'.sc.otn_map := by
  obtain ⟨hd, res, st2, hhd, hpro, hres⟩ := parse_rule_decomp h
  have hc := SameCore_parseHeader hhd
  have hu1 : HeadersUnique hd.st.rtn_heap hd.st.sc.otn_map := by
    rw [hc.1, hc.2]; exact hu
  obtain ⟨p1, p2, _, _, _, _, p7, p8⟩ :=
    ProcessHeadNode_spec hd.st { hd.test_rtn with listhead := list } list rfl hu1
  generalize hP : ProcessHeadNode hd.st { hd.test_rtn with listhead := list } list = P
    at hpro p1 p2 p7 p8
  obtain ⟨_, _, _, _, _, _, _, _, _, q3, _, _⟩ := ParseRuleOptions_spec hpro
  have hb := ParseRuleOptions_bound hpro
  -- a signature whose only header is the canonical one, for the active policy
  have hu2 := p8 (addRtnToOtn (newOtn st 0 false) P.1 hd.st.policy.policy_id) (by
    intro q b hq
    rcases getRtn_addRtn hq with h' | h'
    · exact h'
    · simp [getRtnFromOtn, newOtn] at h')
  have hu3 : HeadersUnique st2.rtn_heap st2.sc.otn_map := by
    apply HeadersUnique_mono q3 _ hu2
    intro q a hqa
    rcases hb q a hqa with h' | ⟨e1, e2⟩
    · obtain ⟨o, ho, hq⟩ := h'
      rw [p1] at ho
      exact ⟨o, List.mem_append_left _ ho, hq⟩
    · subst e1; subst e2
      refine ⟨_, List.mem_append_right _ (List.mem_singleton.mpr rfl), ?_⟩
      rw [p2]
      exact getRtn_addRtn_self _ _ _ (by simp [getRtnFromOtn, newOtn])
  rcases hres with ⟨_, hst⟩ | ⟨_, hsc⟩
  · subst hst
    exact hu3
  · rw [hsc.1, hsc.2]
    exact hu3

theorem ingest_HeadersUnique {steps : List Step} {st st' : ParseState}
    (h : ingest st steps = Except.ok st')
    (hu : HeadersUnique st.rtn_heap st.sc.otn_map) :
    HeadersUnique st'.rtn_heap st'.sc.otn_map := by
  induction steps generalizing st with
  | nil => unfold ingest at h; cases h; exact hu
  | cons s rest ih =>
    cases s with
    | rule c =>
      unfold ingest at h
      split at h
      · cases h
      · rename_i st1 h1
        exact ih h (parse_rule_HeadersUnique h1 hu)
    | setPolicy p =>
      unfold ingest at h
      exact ih h hu

/-! ## Counting and revisions -/

theorem filter_ne_length {l : List (Nat × Nat)} {a : Nat × Nat} (hn : l.Nodup) (ha : a ∈ l) :
    (l.filter (fun k => decide (k ≠ a))).length + 1 = l.length := by
  have h1 := List.Nodup.erase_eq_filter hn a
  have h2 := List.length_erase_of_mem ha
  have h3 : l.length ≠ 0 := by
    intro h0
    rw [List.length_eq_zero] at h0
    subst h0
    cases ha
  have h4 : (l.filter (fun k => decide (k ≠ a))).length = l.length - 1 := by
    rw [← h2, h1]
    congr 1
    apply List.filter_congr
    intro x _
    by_cases hx : x = a <;> simp [hx]
  omega

theorem OtnLookup_mem_keys {m : List OptTreeNode} {g s : Nat} {o : OptTreeNode}
    (h : OtnLookup m g s = some o) : (g, s) ∈ m.map OptTreeNode.key := by
  obtain ⟨h1, h2⟩ := OtnLookup_some h
  exact List.mem_map.mpr ⟨o, h1, h2⟩

theorem parse_rule_MapCounted {env : Collab} {st st' : ParseState} {args : RuleArgs}
    {rule_type : Int} {list : Option Nat}
    (h : parse_rule env st args rule_type list = Except.ok st') (hi : MapCounted st) :
    MapCounted st' := by
  obtain ⟨si, _, _, _, _, hcases⟩ := parse_rule_step h
  obtain ⟨hn, hc⟩ := hi
  rcases hcases with ⟨hl, o', ho', _, hm', hc1, _⟩ |
      ⟨cur, hl, hlt, hm', hc1, _⟩ |
      ⟨cur, hl, hlt, o', cur', ho', hcur', hm', hc1, _⟩
  · constructor
    · rw [hm', List.map_append, List.map_singleton]
      apply List.Nodup.append hn (List.nodup_singleton _)
      rw [List.disjoint_singleton]
      rw [OtnLookup_eq_none] at hl
      simpa [OptTreeNode.key, ho'] using hl
    · rw [hm', hc1, hc]
      simp
  · rcases hm' with hm' | ⟨x, hx, hm'⟩
    · exact ⟨by rw [hm']; exact hn, by rw [hm', hc1, hc]⟩
    · constructor
      · rw [hm', OtnStore_keys]; exact hn
      · rw [hm', hc1, hc]
        simp [OtnStore]
  · have hkey : o'.key = cur.key := by
      have := (OtnLookup_some hl).2
      simp only [OptTreeNode.key, ho'] at this ⊢
      exact this.symm
    have hmem : cur.key ∈ st.sc.otn_map.map OptTreeNode.key := by
      have := OtnLookup_mem_keys hl
      rw [(OtnLookup_some hl).2]
      exact this
    constructor
    · rw [hm', List.map_append, List.map_singleton, OtnRemove_keys, OtnStore_keys]
      apply List.Nodup.append (List.Nodup.filter _ hn) (List.nodup_singleton _)
      rw [List.disjoint_singleton, hkey]
      simp
    · rw [hm', hc1, hc]
      have hlen : (OtnRemove (OtnStore st.sc.otn_map cur') cur).length + 1 =
          st.sc.otn_map.length := by
        have := filter_ne_length hn hmem
        rw [← OtnStore_keys st.sc.otn_map cur', ← OtnRemove_keys] at this
        have hlen' : (OtnStore st.sc.otn_map cur').length = st.sc.otn_map.length := by
          simp [OtnStore]
        rw [← hlen']
        simpa using this
      rw [List.length_append, List.length_singleton, hlen]

theorem ingest_MapCounted {steps : List Step} {st st' : ParseState}
    (h : ingest st steps = Except.ok st') (hi : MapCounted st) : MapCounted st' := by
  induction steps generalizing st with
  | nil => unfold ingest at h; cases h; exact hi
  | cons s rest ih =>
    cases s with
    | rule c =>
      unfold ingest at h
      split at h
      · cases h
      · rename_i st1 h1
        exact ih h (parse_rule_MapCounted h1 hi)
    | setPolicy p =>
      unfold ingest at h
      exact ih h hi



theorem OtnLookup_append (m : List OptTreeNode) (o : OptTreeNode) (g s : Nat) :
    OtnLookup (m ++ [o]) g s =
      (OtnLookup m g s).or (if o.key = (g, s) then some o else none) := by
  unfold OtnLookup
  rw [List.find?_append]
  congr 1
  simp only [List.find?_cons, List.find?_nil]
  by_cases h : o.key = (g, s) <;> simp [h]

theorem OtnLookup_OtnStore_ne (m : List OptTreeNode) (x : OptTreeNode) (g s : Nat)
    (h : (g, s) ≠ x.key) : OtnLookup (OtnStore m x) g s = OtnLookup m g s := by
  unfold OtnLookup OtnStore
  induction m with
  | nil => rfl
  | cons a rest ih =>
    rw [List.map_cons, List.find?_cons, List.find?_cons]
    by_cases ha : a.key = x.key
    · have h1 : ¬ (x.key = (g, s)) := fun e => h e.symm
      have h2 : ¬ (a.key = (g, s)) := fun e => h (e.symm.trans ha)
      simp only [ha, if_true, h1, h2, decide_False]
      exact ih
    · simp only [ha, if_false]
      by_cases hk : a.key = (g, s)
      · simp [hk]
      · simp only [hk, decide_False]
        exact ih

theorem OtnLookup_OtnStore_eq (m : List OptTreeNode) (x : OptTreeNode) :
    OtnLookup (OtnStore m x) x.key.1 x.key.2 =
      (OtnLookup m x.key.1 x.key.2).map (fun _ => x) := by
  unfold OtnLookup OtnStore
  induction m with
  | nil => rfl
  | cons a rest ih =>
    rw [List.map_cons, List.find?_cons, List.find?_cons]
    by_cases ha : a.key = x.key
    · simp [ha]
    · simp only [ha, if_false]
      have : ¬ (a.key = (x.key.1, x.key.2)) := ha
      simp only [this, decide_False]
      exact ih

theorem OtnLookup_Remove_Store_ne (m : List OptTreeNode) (x cur : OptTreeNode) (g s : Nat)
    (hx : x.key = cur.key) (h : (g, s) ≠ cur.key) :
    OtnLookup (OtnRemove (OtnStore m x) cur) g s = OtnLookup m g s := by
  unfold OtnLookup OtnRemove OtnStore
  induction m with
  | nil => rfl
  | cons a rest ih =>
    rw [List.map_cons]
    by_cases ha : a.key = x.key
    · have h2 : ¬ (a.key = (g, s)) := fun e => h (e.symm.trans (ha.trans hx))
      rw [List.find?_cons, if_pos ha, List.filter_cons_of_neg (by simp [hx])]
      simp only [h2, decide_False]
      exact ih
    · rw [if_neg ha]
      have hne : a.key ≠ cur.key := fun e => ha (e.trans hx.symm)
      rw [List.filter_cons_of_pos (by simp [hne]), List.find?_cons, List.find?_cons]
      by_cases hk : a.key = (g, s)
      · simp [hk]
      · simp only [hk, decide_False]
        exact ih

theorem parse_rule_revOf {env : Collab} {st st' : ParseState} {args : RuleArgs}
    {rule_type : Int} {list : Option Nat}
    (h : parse_rule env st args rule_type list = Except.ok st') :
    ∃ si, argsSigInfo args = some si ∧
      ∀ k, revOf st' k = if k = si.key then some (keepRev (revOf st k) si) else revOf st k := by
  obtain ⟨si, hsi, _, _, _, hcases⟩ := parse_rule_step h
  refine ⟨si, hsi, ?_⟩
  intro k
  obtain ⟨g, s⟩ := k
  unfold revOf
  dsimp only
  rcases hcases with ⟨hl, o', ho', _, hm', _⟩ |
      ⟨cur, hl, hlt, hm', _⟩ |
      ⟨cur, hl, hlt, o', cur', ho', hcur', hm', _⟩
  · have hk' : o'.key = si.key := by simp [OptTreeNode.key, SigInfo.key, ho']
    rw [hm', OtnLookup_append, hk']
    by_cases hk : (g, s) = si.key
    · have hgs : g = si.generator ∧ s = si.id := by
        simpa [SigInfo.key] using hk
      rw [if_pos hk, hgs.1, hgs.2, hl]
      simp [keepRev, SigInfo.key, ho']
    · have hk2 : ¬ si.key = (g, s) := fun e => hk e.symm
      rw [if_neg hk, if_neg hk2]
      simp
  · have hcurkey := (OtnLookup_some hl).2
    have hrev : (OtnLookup st'.sc.otn_map g s).map (fun o => o.sigInfo.rev) =
        (OtnLookup st.sc.otn_map g s).map (fun o => o.sigInfo.rev) := by
      rcases hm' with hm' | ⟨x, hx, hm'⟩
      · rw [hm']
      · rw [hm']
        have hxk : x.key = cur.key := by simp [OptTreeNode.key, hx]
        by_cases hk : (g, s) = x.key
        · have hgs : g = x.key.1 ∧ s = x.key.2 := by
            rw [← hk]; exact ⟨rfl, rfl⟩
          rw [hgs.1, hgs.2, OtnLookup_OtnStore_eq]
          have hl' : OtnLookup st.sc.otn_map x.key.1 x.key.2 = some cur := by
            rw [hxk, hcurkey]; exact hl
          rw [hl']
          simp [hx]
        · rw [OtnLookup_OtnStore_ne _ _ _ _ hk]
    rw [hrev]
    by_cases hk : (g, s) = si.key
    · have hgs : g = si.generator ∧ s = si.id := by
        simpa [SigInfo.key] using hk
      rw [if_pos hk, hgs.1, hgs.2, hl]
      simp only [Option.map_some', keepRev]
      congr 1
      exact (max_eq_left (le_of_lt hlt)).symm
    · rw [if_neg hk]
  · have hcurkey := (OtnLookup_some hl).2
    have hk' : o'.key = si.key := by simp [OptTreeNode.key, SigInfo.key, ho']
    have hxk : cur'.key = cur.key := by simp [OptTreeNode.key, hcur']
    have hsk : si.key = cur.key := by
      rw [hcurkey]; rfl
    rw [hm', OtnLookup_append, hk']
    by_cases hk : (g, s) = si.key
    · have hgs : g = si.generator ∧ s = si.id := by
        simpa [SigInfo.key] using hk
      have hrem : OtnLookup (OtnRemove (OtnStore st.sc.otn_map cur') cur) g s = none := by
        have := OtnLookup_OtnRemove (OtnStore st.sc.otn_map cur') cur
        have e : (cur.sigInfo.generator, cur.sigInfo.id) = (g, s) := by
          rw [hk, hsk]; rfl
        simp only [Prod.mk.injEq] at e
        rw [e.1, e.2] at this
        exact this
      rw [if_pos hk, hrem, if_pos hk.symm]
      rw [hgs.1, hgs.2, hl]
      simp only [Option.or, Option.map_some', keepRev, ho']
      congr 1
      exact (max_eq_right (not_lt.mp hlt)).symm
    · have hk2 : ¬ si.key = (g, s) := fun e => hk e.symm
      have hk3 : (g, s) ≠ cur.key := fun e => hk (e.trans hsk.symm)
      rw [if_neg hk, if_neg hk2, OtnLookup_Remove_Store_ne _ _ _ _ _ hxk hk3]
      simp

theorem parse_rule_keysNodup {env : Collab} {st st' : ParseState} {args : RuleArgs}
    {rule_type : Int} {list : Option Nat}
    (h : parse_rule env st args rule_type list = Except.ok st')
    (hn : (st.sc.otn_map.map OptTreeNode.key).Nodup) :
    (st'.sc.otn_map.map OptTreeNode.key).Nodup := by
  obtain ⟨si, _, _, _, _, hcases⟩ := parse_rule_step h
  rcases hcases with ⟨hl, o', ho', _, hm', _⟩ |
      ⟨cur, hl, hlt, hm', _⟩ |
      ⟨cur, hl, hlt, o', cur', ho', hcur', hm', _⟩
  · rw [hm', List.map_append, List.map_singleton]
    apply List.Nodup.append hn (List.nodup_singleton _)
    rw [List.disjoint_singleton]
    rw [OtnLookup_eq_none] at hl
    simpa [OptTreeNode.key, ho'] using hl
  · rcases hm' with hm' | ⟨x, hx, hm'⟩
    · rw [hm']; exact hn
    · rw [hm', OtnStore_keys]; exact hn
  · have hkey : o'.key = cur.key := by
      have := (OtnLookup_some hl).2
      simp only [OptTreeNode.key, ho'] at this ⊢
      exact this.symm
    rw [hm', List.map_append, List.map_singleton, OtnRemove_keys, OtnStore_keys]
    apply List.Nodup.append (List.Nodup.filter _ hn) (List.nodup_singleton _)
    rw [List.disjoint_singleton, hkey]
    simp

theorem filter_key_of_lookup {m : List OptTreeNode} {k : Nat × Nat} {o : OptTreeNode}
    (hn : (m.map OptTreeNode.key).Nodup) (hl : OtnLookup m k.1 k.2 = some o) :
    m.filter (fun x => decide (x.key = k)) = [o] := by
  unfold OtnLookup at hl
  induction m with
  | nil => simp at hl
  | cons a rest ih =>
    rw [List.map_cons, List.nodup_cons] at hn
    by_cases hk : a.key = k
    · have ha : o = a := by simpa [List.find?_cons, hk] using hl.symm
      subst ha
      rw [List.filter_cons_of_pos (by simpa using hk)]
      congr 1
      rw [List.filter_eq_nil_iff]
      intro x hx hxk
      apply hn.1
      rw [hk, ← of_decide_eq_true hxk]
      exact List.mem_map_of_mem _ hx
    · rw [List.filter_cons_of_neg (by simpa using hk)]
      apply ih hn.2
      simpa [List.find?_cons, hk] using hl

/-- What the revision stored for a key after a run has to do with the revision
stored before it and with the revisions of the calls for that key. -/
theorem ingest_revs (k : Nat × Nat) {steps : List Step} {st st' : ParseState}
    (h : ingest st steps = Except.ok st') :
    (∀ c ∈ callsOf steps, ∀ si, argsSigInfo c.args = some si → si.key = k →
      ∃ r, revOf st' k = some r ∧ si.rev ≤ r) ∧
    (∀ r0, revOf st k = some r0 → ∃ r, revOf st' k = some r ∧ r0 ≤ r) ∧
    (∀ r, revOf st' k = some r → revOf st k = some r ∨
      ∃ c ∈ callsOf steps, ∃ si, argsSigInfo c.args = some si ∧ si.key = k ∧ si.rev = r) := by
  induction steps generalizing st with
  | nil =>
    unfold ingest at h
    cases h
    refine ⟨?_, ?_, ?_⟩
    · intro c hc; simp [callsOf] at hc
    · intro r0 h0; exact ⟨r0, h0, le_refl _⟩
    · intro r hr; exact Or.inl hr
  | cons s rest ih =>
    cases s with
    | setPolicy p =>
      unfold ingest at h
      have := ih h
      simpa [callsOf, revOf] using this
    | rule c =>
      unfold ingest at h
      split at h
      · cases h
      · rename_i st1 h1
        obtain ⟨i1, i2, i3⟩ := ih h
        obtain ⟨sc, hsc, hrev⟩ := parse_rule_revOf h1
        have hrk := hrev k
        refine ⟨?_, ?_, ?_⟩
        · intro c' hc' si hsi hk
          simp only [callsOf, List.mem_cons] at hc'
          rcases hc' with rfl | hc'
          · rw [hsc] at hsi
            cases hsi
            rw [if_pos hk.symm] at hrk
            obtain ⟨r, hr, hle⟩ := i2 _ hrk
            refine ⟨r, hr, le_trans ?_ hle⟩
            unfold keepRev
            split
            · exact le_refl _
            · exact le_max_right _ _
          · exact i1 c' hc' si hsi hk
        · intro r0 h0
          by_cases hk : k = sc.key
          · rw [if_pos hk, h0] at hrk
            obtain ⟨r, hr, hle⟩ := i2 _ hrk
            exact ⟨r, hr, le_trans (by simp [keepRev]) hle⟩
          · rw [if_neg hk, h0] at hrk
            exact i2 _ hrk
        · intro r hr
          rcases i3 r hr with h3 | ⟨c', hc', si, hsi, hk, hr'⟩
          · by_cases hk : k = sc.key
            · rw [if_pos hk, h3] at hrk
              cases h0 : revOf st k with
              | none =>
                rw [h0] at hrk
                refine Or.inr ⟨c, by simp [callsOf], sc, hsc, hk.symm, ?_⟩
                simpa [keepRev] using hrk.symm
              | some r0 =>
                rw [h0] at hrk
                have hm : r = max r0 sc.rev := by simpa [keepRev] using hrk
                rcases max_choice r0 sc.rev with hc | hc
                · left; rw [hm, hc]
                · exact Or.inr ⟨c, by simp [callsOf], sc, hsc, hk.symm, by rw [hm, hc]⟩
            · rw [if_neg hk, h3] at hrk
              exact Or.inl hrk.symm
          · exact Or.inr ⟨c', by simp [callsOf, hc'], si, hsi, hk, hr'⟩

theorem ingest_keysNodup {steps : List Step} {st st' : ParseState}
    (h : ingest st steps = Except.ok st') (hi : (st.sc.otn_map.map OptTreeNode.key).Nodup) :
    (st'.sc.otn_map.map OptTreeNode.key).Nodup := by
  induction steps generalizing st with
  | nil => unfold ingest at h; cases h; exact hi
  | cons s rest ih =>
    cases s with
    | rule c =>
      unfold ingest at h
      split at h
      · cases h
      · rename_i st1 h1
        exact ih h (parse_rule_keysNodup h1 hi)
    | setPolicy p =>
      unfold ingest at h
      exact ih h hi

theorem revOf_some {st : ParseState} {k : Nat × Nat} {r : Nat} (h : revOf st k = some r) :
    ∃ o, OtnLookup st.sc.otn_map k.1 k.2 = some o ∧ o.sigInfo.rev = r := by
  unfold revOf at h
  cases hl : OtnLookup st.sc.otn_map k.1 k.2 with
  | none => rw [hl] at h; cases h
  | some o => rw [hl] at h; exact ⟨o, rfl, by simpa using h⟩

theorem findHeadNode_eq_none_iff (st : ParseState) (t : RuleTreeNode) (p : Nat) :
    findHeadNode st t p = none ↔
      ∀ o ∈ st.sc.otn_map, TestHeader (getRtn st (getRtnFromOtn o p)) (some t) = 0 := by
  constructor
  · exact findHeadNode_none
  · intro hz
    unfold findHeadNode
    rw [List.findSome?_eq_none_iff]
    intro o ho
    dsimp only
    rw [if_neg (by simpa using hz o ho)]

theorem ProcessHeadNode_heap (st : ParseState) (t : RuleTreeNode) (list : Option Nat) :
    ((ProcessHeadNode st t list).2.rtn_heap.length = st.rtn_heap.length + 1 ↔
      findHeadNode st t st.policy.policy_id = none) ∧
    (∀ a, findHeadNode st t st.policy.policy_id = some a →
      (ProcessHeadNode st t list).1 = a ∧
      (ProcessHeadNode st t list).2.rtn_heap.length = st.rtn_heap.length) := by
  unfold ProcessHeadNode
  cases hf : findHeadNode st t st.policy.policy_id with
  | none => simp
  | some a =>
    dsimp only
    cases hn : st.rtn_heap[a]? with
    | none => simp
    | some n => simp

theorem parse_rule_twice {env : Collab} {args : RuleArgs} {rule_type : Int} {list : Option Nat}
    {sa sb sc : ParseState} (hn : (sa.sc.otn_map.map OptTreeNode.key).Nodup)
    (h1 : parse_rule env sa args rule_type list = Except.ok sb)
    (h2 : parse_rule env sb args rule_type list = Except.ok sc) :
    ∃ si, argsSigInfo args = some si ∧
      ∃ o, sc.sc.otn_map.filter (fun x => decide (x.key = si.key)) = [o] ∧
        (OtnLookup sa.sc.otn_map si.generator si.id = none → o.sigInfo = si) := by
  have hnc := parse_rule_keysNodup h2 (parse_rule_keysNodup h1 hn)
  obtain ⟨si, hsi, hrev⟩ := parse_rule_revOf h2
  obtain ⟨o, hl, _⟩ := revOf_some ((hrev si.key).trans (if_pos rfl))
  have hf := filter_key_of_lookup hnc hl
  refine ⟨si, hsi, o, hf, ?_⟩
  intro hnone
  obtain ⟨s1, hs1, _, _, _, hc1⟩ := parse_rule_step h1
  rw [hsi] at hs1
  cases hs1
  rcases hc1 with ⟨_, o1, ho1, _, hm1, _⟩ | ⟨cur, hl1, _⟩ | ⟨cur, hl1, _⟩
  · obtain ⟨s2, hs2, _, _, _, hc2⟩ := parse_rule_step h2
    rw [hsi] at hs2
    cases hs2
    have hlb : OtnLookup sb.sc.otn_map si.generator si.id = some o1 := by
      rw [hm1, OtnLookup_append, hnone]
      simp [OptTreeNode.key, ho1]
    rcases hc2 with ⟨hl2, _⟩ | ⟨cur, hl2, hlt, _⟩ | ⟨cur, hl2, _, o2, cur2, ho2, _, hm2, _⟩
    · rw [hlb] at hl2; cases hl2
    · rw [hlb] at hl2
      cases hl2
      rw [ho1] at hlt
      omega
    · have hmem : o2 ∈ sc.sc.otn_map.filter (fun x => decide (x.key = si.key)) := by
        rw [List.mem_filter, hm2]
        exact ⟨by simp, by simp [OptTreeNode.key, SigInfo.key, ho2]⟩
      rw [hf, List.mem_singleton] at hmem
      rw [← hmem]
      exact ho2
  · rw [hnone] at hl1; cases hl1
  · rw [hnone] at hl1; cases hl1

/-! ## Sessions: header uniqueness, revisions and counters -/

/-- C1: after any run of accepted rules that starts from an empty signature
map (with the active policy switched any number of times in between), two
different header nodes that signatures of the map are bound to for the same
policy are both in the heap and do not match under `TestHeader`; and
`ProcessHeadNode` adds a node to the heap exactly when `findHeadNode` finds no
signature of the map whose header for the active policy matches the drafted
header, returning the found node and leaving the heap size alone otherwise. -/
theorem C1_headers_unique_per_policy (st0 : ParseState) (steps : List Step) (st : ParseState)
    (h0 : st0.sc.otn_map = []) (h : ingest st0 steps = Except.ok st) :
    (∀ q o1 o2 a1 a2, o1 ∈ st.sc.otn_map → o2 ∈ st.sc.otn_map →
      getRtnFromOtn o1 q = some a1 → getRtnFromOtn o2 q = some a2 → a1 ≠ a2 →
      ∃ n1 n2, st.rtn_heap[a1]? = some n1 ∧ st.rtn_heap[a2]? = some n2 ∧
        TestHeader (some n1) (some n2) = 0) ∧
    (∀ (s : ParseState) (t : RuleTreeNode) (list : Option Nat),
      ((ProcessHeadNode s t list).2.rtn_heap.length = s.rtn_heap.length + 1 ↔
        findHeadNode s t s.policy.policy_id = none) ∧
      (findHeadNode s t s.policy.policy_id = none ↔
        ∀ o ∈ s.sc.otn_map,
          TestHeader (getRtn s (getRtnFromOtn o s.policy.policy_id)) (some t) = 0) ∧
      (∀ a, findHeadNode s t s.policy.policy_id = some a →
        (ProcessHeadNode s t list).1 = a ∧
        (ProcessHeadNode s t list).2.rtn_heap.length = s.rtn_heap.length)) := by
  constructor
  · have hu0 : HeadersUnique st0.rtn_heap st0.sc.otn_map := by
      intro q a1 a2 hb
      obtain ⟨o, ho, _⟩ := hb
      rw [h0] at ho
      cases ho
    have hu := ingest_HeadersUnique h hu0
    intro q o1 o2 a1 a2 m1 m2 b1 b2 hne
    obtain ⟨n1, n2, e1, e2, hz⟩ := hu q a1 a2 ⟨o1, m1, b1⟩ ⟨o2, m2, b2⟩
    exact ⟨n1, n2, e1, e2, hz hne⟩
  · intro s t list
    exact ⟨(ProcessHeadNode_heap s t list).1, findHeadNode_eq_none_iff s t _,
      (ProcessHeadNode_heap s t list).2⟩

/-- C3: after a run of accepted rules that starts from an empty signature map,
the map holds exactly one signature for every `(gid, sid)` that some rule of
the run has, and its revision is the largest revision among the rules of the
run with that `(gid, sid)`: no such rule has a larger one and one of them has
exactly this one. -/
theorem C3_kept_revision_is_maximum (st0 : ParseState) (steps : List Step) (st : ParseState)
    (k : Nat × Nat) (h0 : st0.sc.otn_map = []) (h : ingest st0 steps = Except.ok st)
    (hk : ∃ c ∈ callsOf steps, ∃ si, argsSigInfo c.args = some si ∧ si.key = k) :
    ∃ o, st.sc.otn_map.filter (fun x => decide (x.key = k)) = [o] ∧
      (∀ c ∈ callsOf steps, ∀ si, argsSigInfo c.args = some si → si.key = k →
        si.rev ≤ o.sigInfo.rev) ∧
      (∃ c ∈ callsOf steps, ∃ si, argsSigInfo c.args = some si ∧ si.key = k ∧
        si.rev = o.sigInfo.rev) := by
  obtain ⟨i1, _, i3⟩ := ingest_revs k h
  have hn : (st.sc.otn_map.map OptTreeNode.key).Nodup :=
    ingest_keysNodup h (by rw [h0]; exact List.nodup_nil)
  obtain ⟨c, hc, si, hsi, hkey⟩ := hk
  obtain ⟨r, hr, _⟩ := i1 c hc si hsi hkey
  obtain ⟨o, hl, hor⟩ := revOf_some hr
  refine ⟨o, filter_key_of_lookup hn hl, ?_, ?_⟩
  · intro c' hc' si' hsi' hk'
    obtain ⟨r', hr', hle⟩ := i1 c' hc' si' hsi' hk'
    rw [hr] at hr'
    cases hr'
    rw [hor]
    exact hle
  · rcases i3 r hr with h3 | h3
    · exfalso
      simp [revOf, OtnLookup, h0] at h3
    · rw [hor]
      exact h3

/-- C6: after `parse_rule_init` on a state with an empty signature map and any
run of accepted rules, `otn_count` is the number of different `(gid, sid)`
pairs held in the map; and when the run is two text rules with the same
`(gid, sid)`, the second with a revision at least that of the first (rev 1 and
then rev 2, say), it ends with `otn_count = 1` and `detect_rule_count = 1`. -/
theorem C6_otn_count_is_distinct_keys (env : Collab) (st0 : ParseState) (steps : List Step)
    (st : ParseState) (h0 : st0.sc.otn_map = [])
    (h : ingest (parse_rule_init env st0) steps = Except.ok st) :
    st.otn_count = (((st.sc.otn_map.map OptTreeNode.key).dedup.length : Nat) : Int) ∧
    (∀ c1 c2 si1 si2, steps = [Step.rule c1, Step.rule c2] →
      argsSigInfo c1.args = some si1 → argsSigInfo c2.args = some si2 →
      si1.key = si2.key → si1.text_rule = true → si2.text_rule = true →
      si1.rev ≤ si2.rev →
      st.otn_count = 1 ∧ st.detect_rule_count = 1) := by
  have hm0 : (parse_rule_init env st0).sc.otn_map = [] := h0
  constructor
  · have hi : MapCounted (parse_rule_init env st0) := by
      constructor
      · rw [hm0]; exact List.nodup_nil
      · rw [hm0]; rfl
    obtain ⟨hn, hc⟩ := ingest_MapCounted h hi
    rw [List.Nodup.dedup hn, hc, List.length_map]
  · intro c1 c2 si1 si2 hs e1 e2 hk t1 t2 hle
    subst hs
    unfold ingest at h
    split at h
    · cases h
    rename_i st1 h1
    unfold ingest at h
    split at h
    · cases h
    rename_i st2 h2
    unfold ingest at h
    cases h
    obtain ⟨s1, hs1, _, hp1, _, hc1⟩ := parse_rule_step h1
    rw [e1] at hs1
    cases hs1
    have hkk : si2.generator = si1.generator ∧ si2.id = si1.id := by
      simpa [SigInfo.key, eq_comm] using hk
    rcases hc1 with ⟨_, o1, ho1, hb1, hm1, hoc1, _, hd1, _⟩ | ⟨cur, hl, _⟩ | ⟨cur, hl, _⟩
    · obtain ⟨s2, hs2, _, _, _, hc2⟩ := parse_rule_step h2
      rw [e2] at hs2
      cases hs2
      have hl1 : OtnLookup st1.sc.otn_map si2.generator si2.id = some o1 := by
        rw [hm1, hm0, hkk.1, hkk.2]
        simp [OtnLookup, OptTreeNode.key, ho1]
      rcases hc2 with ⟨hl, _⟩ | ⟨cur, hl, hlt, _⟩ | ⟨cur, hl, _, o2, cur2, _, _, _, hoc2, _, _, hd2, _⟩
      · rw [hl1] at hl; cases hl
      · rw [hl1] at hl
        cases hl
        rw [ho1] at hlt
        omega
      · rw [hl1] at hl
        cases hl
        rw [hp1] at hd2
        have hpos : (if si1.text_rule = true then (1 : Int) else 0) = 1 := if_pos t1
        have hneg : (if getRtnFromOtn o1 (parse_rule_init env st0).policy.policy_id = none ∧
            si2.text_rule = true then (1 : Int) else 0) = 0 := if_neg (fun hh => hb1 hh.1)
        rw [hoc2, hoc1, hd2, hd1, hpos, hneg]
        exact ⟨rfl, rfl⟩
    · simp [OtnLookup, hm0] at hl
    · simp [OtnLookup, hm0] at hl

/-- C4: when `mergeDuplicateOtn` raises no parse error it returns 0 or 1, and 0
exactly when the revision of the new signature is lower than that of the stored
one.  On 0 the signature map keeps its keys in their order, and keeps its
`(gid, sid, rev)` entries when the stored signature is the one the map holds
under pairwise different keys; the only change the map can carry is that the
stored signature, when it had no header for the active policy, is now bound to
the header of the new rule.  On 1 the key of the stored signature is no longer
in the map, no other key is lost, and the new signature is handed back with its
`(gid, sid, rev)` for the caller to store.  Parsing the same rule twice in a
map with pairwise different keys leaves exactly one signature for its
`(gid, sid)`, which is the one of the rule when the map had none for that key
before. -/
theorem C4_merge_keeps_higher_revision (st : ParseState) (cur new : OptTreeNode) (rtn : Nat)
    (ret : Int) (new' : OptTreeNode) (st' : ParseState)
    (h : mergeDuplicateOtn st cur new rtn = Except.ok (ret, new', st')) :
    (ret = 0 ∨ ret = 1) ∧
    (ret = 0 ↔ new.sigInfo.rev < cur.sigInfo.rev) ∧
    (ret = 0 →
      st'.sc.otn_map.map OptTreeNode.key = st.sc.otn_map.map OptTreeNode.key ∧
      (OtnLookup st.sc.otn_map cur.sigInfo.generator cur.sigInfo.id = some cur →
        (st.sc.otn_map.map OptTreeNode.key).Nodup →
        st'.sc.otn_map.map OptTreeNode.sigInfo = st.sc.otn_map.map OptTreeNode.sigInfo) ∧
      st'.sc.otn_map =
        (if getRtnFromOtn cur st.policy.policy_id = none then
          OtnStore st.sc.otn_map (addRtnToOtn cur rtn st.policy.policy_id)
         else st.sc.otn_map)) ∧
    (ret = 1 →
      OtnLookup st'.sc.otn_map cur.sigInfo.generator cur.sigInfo.id = none ∧
      st'.sc.otn_map.map OptTreeNode.key =
        (st.sc.otn_map.map OptTreeNode.key).filter (fun k => decide (k ≠ cur.key)) ∧
      new'.sigInfo = new.sigInfo) ∧
    (∀ (env : Collab) (args : RuleArgs) (rule_type : Int) (list : Option Nat)
        (sa sb sc : ParseState),
      (sa.sc.otn_map.map OptTreeNode.key).Nodup →
      parse_rule env sa args rule_type list = Except.ok sb →
      parse_rule env sb args rule_type list = Except.ok sc →
      ∃ si, argsSigInfo args = some si ∧
        ∃ o, sc.sc.otn_map.filter (fun x => decide (x.key = si.key)) = [o] ∧
          (OtnLookup sa.sc.otn_map si.generator si.id = none → o.sigInfo = si)) := by
  obtain ⟨_, _, _, _, _, hc⟩ := mergeDuplicateOtn_spec h
  refine ⟨?_, ?_, ?_, ?_, ?_⟩
  · rcases hc with ⟨_, hr, _⟩ | ⟨_, hr, _⟩
    · exact Or.inl hr
    · exact Or.inr hr
  · rcases hc with ⟨hlt, hr, _⟩ | ⟨hlt, hr, _⟩
    · exact ⟨fun _ => hlt, fun _ => hr⟩
    · constructor
      · intro h0; rw [hr] at h0; cases h0
      · intro h1; exact absurd h1 hlt
  · intro h0
    rcases hc with ⟨_, _, hm, _⟩ | ⟨_, hr, _⟩
    · refine ⟨?_, ?_, hm⟩
      · rw [hm]
        split
        · exact OtnStore_keys _ _
        · rfl
      · intro hl hn
        rw [hm]
        split
        · unfold OtnStore
          rw [List.map_map]
          apply List.map_congr_left
          intro o ho
          dsimp only [Function.comp]
          split
          · rename_i hk
            have hkc : (addRtnToOtn cur rtn st.policy.policy_id).key = cur.key := by
              simp [OptTreeNode.key, addRtnToOtn_sigInfo]
            have hf := @filter_key_of_lookup _ cur.key _ hn hl
            have hmem : o ∈ st.sc.otn_map.filter (fun x => decide (x.key = cur.key)) := by
              rw [List.mem_filter]
              exact ⟨ho, by simpa [hkc] using hk⟩
            rw [hf, List.mem_singleton] at hmem
            rw [addRtnToOtn_sigInfo, hmem]
          · rfl
        · rfl
    · rw [hr] at h0; cases h0
  · intro h1
    rcases hc with ⟨_, hr, _⟩ | ⟨_, _, hn, hm, _⟩
    · rw [hr] at h1; cases h1
    · refine ⟨?_, ?_, ?_⟩
      · rw [hm]; exact OtnLookup_OtnRemove _ _
      · rw [hm, OtnRemove_keys, OtnStore_keys]
      · rw [hn]; exact (migrateRtns_spec _ _ _).2.1
  · intro env args rule_type list sa sb sc hn h1 h2
    exact parse_rule_twice hn h1 h2

/-- C1 at the session `sessionMixed`, whose signatures are bound to two
different headers of policy 0. -/
theorem C1_witness :
    demoState.sc.otn_map = [] ∧
    ingest demoState sessionMixed = Except.ok (endState demoState sessionMixed) ∧
    (∀ q o1 o2 a1 a2, o1 ∈ (endState demoState sessionMixed).sc.otn_map →
      o2 ∈ (endState demoState sessionMixed).sc.otn_map →
      getRtnFromOtn o1 q = some a1 → getRtnFromOtn o2 q = some a2 → a1 ≠ a2 →
      ∃ n1 n2, (endState demoState sessionMixed).rtn_heap[a1]? = some n1 ∧
        (endState demoState sessionMixed).rtn_heap[a2]? = some n2 ∧
        TestHeader (some n1) (some n2) = 0) :=
  ⟨rfl, rfl,
   (C1_headers_unique_per_policy demoState sessionMixed (endState demoState sessionMixed)
      rfl rfl).1⟩

/-- C3 at the session `sessionMixed` and the key `1:1`, which comes with the
revisions 1, 3 and 2. -/
theorem C3_witness :
    demoState.sc.otn_map = [] ∧
    ingest demoState sessionMixed = Except.ok (endState demoState sessionMixed) ∧
    (∃ c ∈ callsOf sessionMixed, ∃ si, argsSigInfo c.args = some si ∧ si.key = (1, 1)) ∧
    ∃ o, (endState demoState sessionMixed).sc.otn_map.filter
        (fun x => decide (x.key = (1, 1))) = [o] ∧
      (∀ c ∈ callsOf sessionMixed, ∀ si, argsSigInfo c.args = some si → si.key = (1, 1) →
        si.rev ≤ o.sigInfo.rev) ∧
      (∃ c ∈ callsOf sessionMixed, ∃ si, argsSigInfo c.args = some si ∧ si.key = (1, 1) ∧
        si.rev = o.sigInfo.rev) :=
  ⟨rfl, rfl,
   ⟨textRule80 1 1, List.Mem.head _,
     { generator := 1, id := 1, rev := 1, text_rule := true }, rfl, rfl⟩,
   C3_kept_revision_is_maximum demoState sessionMixed (endState demoState sessionMixed) (1, 1)
     rfl rfl
     ⟨textRule80 1 1, List.Mem.head _,
       { generator := 1, id := 1, rev := 1, text_rule := true }, rfl, rfl⟩⟩

/-- C4 at the stored signature `1:1` rev 2 and a draft of it with rev 1, and at
the rule `alert tcp any any -> any 80 (sid:1; rev:1;)` parsed two times. -/
theorem C4_witness :
    mergeDuplicateOtn stateAfterOne demoStored (demoDraft 1) 0 =
      Except.ok ((mergeDemo 1).1, (mergeDemo 1).2.1, (mergeDemo 1).2.2) ∧
    ((mergeDemo 1).1 = 0 ↔ (demoDraft 1).sigInfo.rev < demoStored.sigInfo.rev) ∧
    (∃ si, argsSigInfo (textRule80 1 1).args = some si ∧
      ∃ o, (endState demoState sessionTwice).sc.otn_map.filter
          (fun x => decide (x.key = si.key)) = [o] ∧
        (OtnLookup demoState.sc.otn_map si.generator si.id = none → o.sigInfo = si)) :=
  ⟨rfl,
   (C4_merge_keeps_higher_revision stateAfterOne demoStored (demoDraft 1) 0
      (mergeDemo 1).1 (mergeDemo 1).2.1 (mergeDemo 1).2.2 rfl).2.1,
   (C4_merge_keeps_higher_revision stateAfterOne demoStored (demoDraft 1) 0
      (mergeDemo 1).1 (mergeDemo 1).2.1 (mergeDemo 1).2.2 rfl).2.2.2.2
      demoEnv (textRule80 1 1).args 1 (some 0) demoState
      (endState demoState [Step.rule (textRule80 1 1)]) (endState demoState sessionTwice)
      List.nodup_nil rfl rfl⟩

/-- C5 fails for `alert tcp any any -> any 80 (sid:1; rev:1;)` followed by the
same rule with `rev:2`: both calls of `parse_rule` return without a parse
error, and the session ends with `rule_count = 2`, `detect_rule_count = 1` and
`builtin_rule_count = 0`, because the replacement takes the old rule out of
`detect_rule_count` but not out of `rule_count`. -/
theorem C5_rule_count_counts_replaced_rule :
    ∃ st, ingest demoState sessionRev12 = Except.ok st ∧
      get_rule_count st = 2 ∧ st.detect_rule_count = 1 ∧ st.builtin_rule_count = 0 ∧
      st.sc.otn_map.length = 1 ∧
      st.rule_count ≠ st.detect_rule_count + st.builtin_rule_count :=
  ⟨endState demoState sessionRev12, rfl, by decide, by decide, by decide, by decide, by decide⟩

/-- C6 at the session `sessionRev12`. -/
theorem C6_witness :
    demoState.sc.otn_map = [] ∧
    ingest (parse_rule_init demoEnv demoState) sessionRev12 =
      Except.ok (endState (parse_rule_init demoEnv demoState) sessionRev12) ∧
    (endState (parse_rule_init demoEnv demoState) sessionRev12).otn_count =
      ((((endState (parse_rule_init demoEnv demoState) sessionRev12).sc.otn_map.map
        OptTreeNode.key).dedup.length : Nat) : Int) ∧
    (endState (parse_rule_init demoEnv demoState) sessionRev12).otn_count = 1 ∧
    (endState (parse_rule_init demoEnv demoState) sessionRev12).detect_rule_count = 1 :=
  ⟨rfl, rfl,
   (C6_otn_count_is_distinct_keys demoEnv demoState sessionRev12
      (endState (parse_rule_init demoEnv demoState) sessionRev12) rfl rfl).1,
   (C6_otn_count_is_distinct_keys demoEnv demoState sessionRev12
      (endState (parse_rule_init demoEnv demoState) sessionRev12) rfl rfl).2
      (textRule80 1 1) (textRule80 1 2)
      { generator := 1, id := 1, rev := 1, text_rule := true }
      { generator := 1, id := 1, rev := 2, text_rule := true }
      rfl rfl rfl rfl rfl rfl (by decide)⟩

/-! ## Specific-port rules in the group tables -/

@[simp] theorem dstTable_setDstTable (pt : rule_port_tables_t) (t : PortTable) (s u : ProtoSel) :
    dstTable (setDstTable pt t s) u = if s = u then t else dstTable pt u := by
  cases s <;> cases u <;> simp [dstTable, setDstTable]

@[simp] theorem srcTable_setDstTable (pt : rule_port_tables_t) (t : PortTable) (s u : ProtoSel) :
    srcTable (setDstTable pt t s) u = srcTable pt u := by
  cases s <;> cases u <;> rfl

@[simp] theorem aaObject_setDstTable (pt : rule_port_tables_t) (t : PortTable) (s u : ProtoSel) :
    aaObject (setDstTable pt t s) u = aaObject pt u := by
  cases s <;> cases u <;> rfl

@[simp] theorem srcTable_setSrcTable (pt : rule_port_tables_t) (t : PortTable) (s u : ProtoSel) :
    srcTable (setSrcTable pt t s) u = if s = u then t else srcTable pt u := by
  cases s <;> cases u <;> simp [srcTable, setSrcTable]

@[simp] theorem dstTable_setSrcTable (pt : rule_port_tables_t) (t : PortTable) (s u : ProtoSel) :
    dstTable (setSrcTable pt t s) u = dstTable pt u := by
  cases s <;> cases u <;> rfl

@[simp] theorem aaObject_setSrcTable (pt : rule_port_tables_t) (t : PortTable) (s u : ProtoSel) :
    aaObject (setSrcTable pt t s) u = aaObject pt u := by
  cases s <;> cases u <;> rfl

theorem countPortRule_prc_ne (st : ParseState) (rtn : RuleTreeNode) (otn : OptTreeNode)
    (pe : port_entry_t) (sel s : ProtoSel) (h : s ≠ sel) :
    prc (countPortRule st rtn otn pe sel) s = prc st s := by
  have h' : ¬ sel = s := fun e => h e.symm
  unfold countPortRule
  dsimp only
  split_ifs <;> simp [h']

/-- What `addRuleToTable` does with a non-null port object: the first entry
with the same port set gets the rule index, or a copy of the port object that
holds just this rule index is appended when no entry has the same port set. -/
theorem addRuleToTable_some (t : PortTable) (po : PortObjectRef) (i : Int) :
    ∃ t', addRuleToTable t (some po) i = Except.ok t' ∧
    ((∃ k e, t[k]? = some e ∧ samePorts e po.obj ∧
        (∀ j e', j < k → t[j]? = some e' → ¬ samePorts e' po.obj) ∧
        t' = t.set k (PortObjectAddRule e i)) ∨
     ((∀ e ∈ t, ¬ samePorts e po.obj) ∧
        t' = t ++ [{ po.obj with rule_list := [i] }])) := by
  unfold addRuleToTable PortTableFindInputPortObjectPorts
  dsimp only
  cases hf : t.findIdx? (fun e => decide (samePorts e po.obj)) with
  | none =>
    refine ⟨_, rfl, Or.inr ⟨?_, ?_⟩⟩
    · rw [List.findIdx?_eq_none_iff] at hf
      intro e he
      simpa using hf e he
    · simp [PortObjectDupPorts, PortObjectAddRule]
  | some k =>
    rw [List.findIdx?_eq_some_iff_getElem] at hf
    obtain ⟨hk, hp, hlt⟩ := hf
    refine ⟨_, rfl, Or.inl ⟨k, t[k], ?_, ?_, ?_, ?_⟩⟩
    · exact List.getElem?_eq_getElem hk
    · simpa using hp
    · intro j e' hj he'
      have hj' : j < t.length := lt_trans hj hk
      rw [List.getElem?_eq_getElem hj'] at he'
      cases he'
      simpa using hlt j hj
    · rw [List.modify_eq_set_get?]
      simp [List.get?_eq_getElem?, List.getElem?_eq_getElem hk]

theorem addRuleToTable_mem (t : PortTable) (po : PortObjectRef) (i : Int) :
    ∃ t', addRuleToTable t (some po) i = Except.ok t' ∧
      ∃ e ∈ t', samePorts e po.obj ∧ i ∈ e.rule_list := by
  obtain ⟨t', h, hc⟩ := addRuleToTable_some t po i
  refine ⟨t', h, ?_⟩
  rcases hc with ⟨k, e, hk, hs, _, ht⟩ | ⟨_, ht⟩
  · refine ⟨PortObjectAddRule e i, ?_, ?_, ?_⟩
    · rw [ht]
      have hlt : k < t.length := by
        by_contra hn
        rw [List.getElem?_eq_none (not_lt.mp hn)] at hk
        cases hk
      exact List.mem_iff_getElem?.mpr ⟨k, by simp [List.getElem?_set, hlt]⟩
    · exact hs
    · simp [PortObjectAddRule]
  · refine ⟨{ po.obj with rule_list := [i] }, ?_, ?_, ?_⟩
    · rw [ht]; simp
    · exact ⟨rfl, rfl, rfl⟩
    · simp

theorem bleedover_false_of_count (fp : FastPatternConfig) (rtn : RuleTreeNode)
    (hs : rtn.flags &&& ANY_SRC_PORT = 0 →
      PortObjectPortCount rtn.src_portobject < fp.bleedoverPortLimit)
    (hd : rtn.flags &&& ANY_DST_PORT = 0 →
      PortObjectPortCount rtn.dst_portobject < fp.bleedoverPortLimit) :
    (bleedover fp rtn).1 = false := by
  unfold bleedover
  by_cases h : fp.singleRuleGroup = false ∧
      rtn.flags &&& (ANY_DST_PORT ||| ANY_SRC_PORT) ≠ (ANY_DST_PORT ||| ANY_SRC_PORT)
  · rw [if_pos h]
    by_cases h1 : rtn.flags &&& ANY_SRC_PORT = 0 <;>
      by_cases h2 : rtn.flags &&& ANY_DST_PORT = 0
    · simp [h1, h2, hs h1, hd h2]
    · simp [h1, h2, hs h1]
    · simp [h1, h2, hd h2]
    · simp [h1, h2]
  · rw [if_neg h]

/-- C11: for a rule that is not bidirectional, has an any src port and a
specific dst port with fewer ports than the bleedover limit, with
single-rule-group mode off, `FinishPortListRule` returns 0 and puts the rule
index into the dst table of the protocol: into the first entry with the port
set of the header's dst port object, or, when no entry has that port set, into
a copy of the dst port object that is appended to the table.  Every src table,
every any-any object and the dst tables of the other protocols stay as they
were; `dst` of the protocol grows by 1, its `src` and `aa` and the counters of
the other protocols are unchanged. -/
theorem C11_dst_port_rule_goes_to_dst_table (env : Collab) (st : ParseState)
    (rtn : RuleTreeNode) (otn : OptTreeNode) (proto : Int) (pe : port_entry_t) (sel : ProtoSel)
    (po : PortObjectRef)
    (hsel : selectProto proto = some sel)
    (hsrc : rtn.flags &&& ANY_SRC_PORT ≠ 0)
    (hdst : rtn.flags &&& ANY_DST_PORT = 0)
    (hbidir : rtn.flags &&& BIDIRECTIONAL = 0)
    (hpo : rtn.dst_portobject = some po)
    (hsingle : st.sc.fast_pattern_config.singleRuleGroup = false)
    (hcnt : PortObjectPortCount rtn.dst_portobject <
      st.sc.fast_pattern_config.bleedoverPortLimit) :
    ∃ st', FinishPortListRule env st rtn otn proto pe = Except.ok (0, st') ∧
      ((∃ k e, (dstTable st.sc.port_tables sel)[k]? = some e ∧ samePorts e po.obj ∧
          (∀ j e', j < k → (dstTable st.sc.port_tables sel)[j]? = some e' →
            ¬ samePorts e' po.obj) ∧
          dstTable st'.sc.port_tables sel =
            (dstTable st.sc.port_tables sel).set k (PortObjectAddRule e otn.ruleIndex)) ∨
       ((∀ e ∈ dstTable st.sc.port_tables sel, ¬ samePorts e po.obj) ∧
          dstTable st'.sc.port_tables sel =
            dstTable st.sc.port_tables sel ++ [{ po.obj with rule_list := [otn.ruleIndex] }])) ∧
      (∀ s, s ≠ sel → dstTable st'.sc.port_tables s = dstTable st.sc.port_tables s) ∧
      (∀ s, srcTable st'.sc.port_tables s = srcTable st.sc.port_tables s ∧
            aaObject st'.sc.port_tables s = aaObject st.sc.port_tables s) ∧
      (prc st' sel).dst = (prc st sel).dst + 1 ∧
      (prc st' sel).src = (prc st sel).src ∧
      (prc st' sel).aa = (prc st sel).aa ∧
      (∀ s, s ≠ sel → prc st' s = prc st s) := by
  have hnot : ¬ takesAnyAnyPath st.sc.fast_pattern_config rtn := by
    rintro (h | h | h)
    · exact ((both_any_iff rtn.flags).mp h).1 hdst
    · rw [bleedover_false_of_count _ _ (fun h0 => absurd h0 hsrc) (fun _ => hcnt)] at h
      cases h
    · rw [hsingle] at h; cases h
  obtain ⟨t', ht, hc⟩ := addRuleToTable_some (dstTable st.sc.port_tables sel) po otn.ruleIndex
  have hcp := countPortRule_prc st rtn otn pe sel sel
  unfold FinishPortListRule
  rw [hsel]
  simp only [if_neg hnot]
  unfold addDstPortRule addSrcPortRule
  simp only [if_pos hdst, if_neg hsrc, hpo, setPrc_sc, countPortRule_sc, ht,
    ParseState.setPortTables, ne_eq, hbidir, not_true_eq_false, if_false]
  refine ⟨_, rfl, ?_, ?_, ?_, ?_, ?_, ?_, ?_⟩
  · simpa using hc
  · intro s hs
    have : ¬ sel = s := fun e => hs e.symm
    simp [this]
  · intro s
    simp
  · cases sel <;> simp_all [prc, setPrc]
  · cases sel <;> simp_all [prc, setPrc]
  · cases sel <;> simp_all [prc, setPrc]
  · intro s hs
    have h1 := countPortRule_prc_ne st rtn otn pe sel s hs
    cases sel <;> cases s <;> simp_all [prc, setPrc]

theorem addDstPortRule_ok (st : ParseState) (rtn : RuleTreeNode) (sel : ProtoSel) (i : Int)
    (h : rtn.flags &&& ANY_DST_PORT = 0 → rtn.dst_portobject ≠ none) :
    ∃ st', addDstPortRule st rtn sel i = Except.ok st' := by
  unfold addDstPortRule
  by_cases hd : rtn.flags &&& ANY_DST_PORT = 0
  · rw [if_pos hd]
    obtain ⟨po, hpo⟩ := Option.ne_none_iff_exists'.mp (h hd)
    dsimp only
    rw [hpo]
    obtain ⟨t1, h1, _⟩ := addRuleToTable_some
      (dstTable (setPrc st { prc st sel with dst := (prc st sel).dst + 1 } sel).sc.port_tables sel)
      po i
    rw [h1]
    dsimp only
    split_ifs
    · obtain ⟨t2, h2, _⟩ := addRuleToTable_some
        (srcTable ((setPrc st { prc st sel with dst := (prc st sel).dst + 1 } sel).setPortTables
          (setDstTable (setPrc st { prc st sel with dst := (prc st sel).dst + 1 } sel).sc.port_tables
            t1 sel)).sc.port_tables sel) po i
      rw [h2]
      exact ⟨_, rfl⟩
    · exact ⟨_, rfl⟩
  · rw [if_neg hd]
    exact ⟨_, rfl⟩

theorem addSrcPortRule_bidir (st : ParseState) (rtn : RuleTreeNode) (sel : ProtoSel) (i : Int)
    (po : PortObjectRef) (hsrc : rtn.flags &&& ANY_SRC_PORT = 0)
    (hbidir : rtn.flags &&& BIDIRECTIONAL ≠ 0) (hpo : rtn.src_portobject = some po) :
    ∃ st', addSrcPortRule st rtn sel i = Except.ok st' ∧
      (∃ e ∈ srcTable st'.sc.port_tables sel, samePorts e po.obj ∧ i ∈ e.rule_list) ∧
      (∃ e ∈ dstTable st'.sc.port_tables sel, samePorts e po.obj ∧ i ∈ e.rule_list) ∧
      (prc st' sel).src = (prc st sel).src + 1 := by
  unfold addSrcPortRule
  rw [if_pos hsrc]
  dsimp only
  rw [hpo]
  obtain ⟨t1, h1, m1⟩ := addRuleToTable_mem
    (srcTable (setPrc st { prc st sel with src := (prc st sel).src + 1 } sel).sc.port_tables sel)
    po i
  rw [h1]
  dsimp only
  rw [if_pos hbidir]
  obtain ⟨t2, h2, m2⟩ := addRuleToTable_mem
    (dstTable ((setPrc st { prc st sel with src := (prc st sel).src + 1 } sel).setPortTables
      (setSrcTable (setPrc st { prc st sel with src := (prc st sel).src + 1 } sel).sc.port_tables
        t1 sel)).sc.port_tables sel) po i
  rw [h2]
  refine ⟨_, rfl, ?_, ?_, ?_⟩
  · simpa using m1
  · simpa using m2
  · simp

/-- C12: for a bidirectional rule with a specific src port that does not take
the any-any path, `FinishPortListRule` returns 0, and afterwards both the src
table and the dst table of the protocol of the rule have an entry with the port
set of the header's src port object whose rule list holds the rule index. -/
theorem C12_bidirectional_src_port_in_both_tables (env : Collab) (st : ParseState)
    (rtn : RuleTreeNode) (otn : OptTreeNode) (proto : Int) (pe : port_entry_t) (sel : ProtoSel)
    (po : PortObjectRef)
    (hsel : selectProto proto = some sel)
    (hbidir : rtn.flags &&& BIDIRECTIONAL ≠ 0)
    (hsrc : rtn.flags &&& ANY_SRC_PORT = 0)
    (hpo : rtn.src_portobject = some po)
    (hdpo : rtn.flags &&& ANY_DST_PORT = 0 → rtn.dst_portobject ≠ none)
    (hnot : ¬ takesAnyAnyPath st.sc.fast_pattern_config rtn) :
    ∃ st', FinishPortListRule env st rtn otn proto pe = Except.ok (0, st') ∧
      (∃ e ∈ srcTable st'.sc.port_tables sel,
        samePorts e po.obj ∧ otn.ruleIndex ∈ e.rule_list) ∧
      (∃ e ∈ dstTable st'.sc.port_tables sel,
        samePorts e po.obj ∧ otn.ruleIndex ∈ e.rule_list) := by
  unfold FinishPortListRule
  rw [hsel]
  simp only [if_neg hnot]
  obtain ⟨st1, h1⟩ := addDstPortRule_ok (countPortRule st rtn otn pe sel) rtn sel otn.ruleIndex hdpo
  rw [h1]
  dsimp only
  obtain ⟨st2, h2, m1, m2, _⟩ := addSrcPortRule_bidir st1 rtn sel otn.ruleIndex po hsrc hbidir hpo
  rw [h2]
  exact ⟨st2, rfl, m1, m2⟩

/-! ## Port resolution -/

theorem samePorts_symm {a b : PortObject} (h : samePorts a b) : samePorts b a :=
  ⟨h.1.symm, h.2.1.symm, h.2.2.symm⟩

theorem samePorts_trans {a b c : PortObject} (h1 : samePorts a b) (h2 : samePorts b c) :
    samePorts a c :=
  ⟨h1.1.trans h2.1, h1.2.1.trans h2.2.1, h1.2.2.trans h2.2.2⟩

theorem PortsUnique_eq {l : List PortObjectRef} (hu : PortsUnique l) {x y : PortObjectRef}
    (hx : x ∈ l) (hy : y ∈ l) (h : samePorts x.obj y.obj) : x = y := by
  by_contra hne
  have hsymm : Symmetric (fun a b : PortObjectRef => ¬ samePorts a.obj b.obj) :=
    fun a b hab hba => hab (samePorts_symm hba)
  exact List.Pairwise.forall hsymm hu hx hy hne h

theorem nonameFind_some {l : List PortObjectRef} {o : PortObject} {x : PortObjectRef}
    (h : nonameFind l o = some x) : x ∈ l ∧ samePorts x.obj o := by
  unfold nonameFind at h
  exact ⟨List.mem_of_find?_eq_some h, by simpa using List.find?_some h⟩

theorem nonameFind_none {l : List PortObjectRef} {o : PortObject}
    (h : nonameFind l o = none) : ∀ e ∈ l, ¬ samePorts e.obj o := by
  unfold nonameFind at h
  rw [List.find?_eq_none] at h
  intro e he
  simpa using h e he

/-- Resolving a literal port list: the parsed object's twin in the anonymous
table is returned, or the parsed object itself after it was added. -/
theorem ParsePortListTcpUdpPort_literal {env : Collab} {pvt : List (String × PortObjectRef)}
    {noname noname' : List PortObjectRef} {s : String} {po : PortObjectRef}
    (h1 : strcaseeq s "any" = false) (h2 : s.front ≠ '$')
    (h : ParsePortListTcpUdpPort env pvt noname s = Except.ok (po, noname')) :
    ∃ parsed, env.PortObjectParseString s = some parsed ∧
      ((nonameFind noname parsed.obj = some po ∧ noname' = noname) ∨
       (nonameFind noname parsed.obj = none ∧ po = parsed ∧ noname' = noname ++ [parsed])) := by
  unfold ParsePortListTcpUdpPort at h
  rw [if_neg (by simp [h1]), if_neg h2] at h
  cases hp : env.PortObjectParseString s with
  | none => rw [hp] at h; cases h
  | some parsed =>
    rw [hp] at h
    refine ⟨parsed, rfl, ?_⟩
    dsimp only at h
    cases hf : nonameFind noname parsed.obj with
    | none =>
      rw [hf] at h
      simp only [Except.ok.injEq, Prod.mk.injEq] at h
      exact Or.inr ⟨rfl, h.1.symm, h.2.symm⟩
    | some pox =>
      rw [hf] at h
      simp only [Except.ok.injEq, Prod.mk.injEq] at h
      exact Or.inl ⟨by rw [h.1], h.2.symm⟩

theorem ParsePortListTcpUdpPort_shares {env : Collab} {pvt : List (String × PortObjectRef)}
    {noname noname' : List PortObjectRef} {s : String} {po : PortObjectRef}
    (h1 : strcaseeq s "any" = false) (h2 : s.front ≠ '$') (hu : PortsUnique noname)
    (h : ParsePortListTcpUdpPort env pvt noname s = Except.ok (po, noname')) :
    PortsUnique noname' ∧ po ∈ noname' ∧
    ∃ parsed, env.PortObjectParseString s = some parsed ∧ samePorts po.obj parsed.obj := by
  obtain ⟨parsed, hp, hc⟩ := ParsePortListTcpUdpPort_literal h1 h2 h
  rcases hc with ⟨hf, hn⟩ | ⟨hf, hpo, hn⟩
  · obtain ⟨hm, hs⟩ := nonameFind_some hf
    subst hn
    exact ⟨hu, hm, parsed, hp, hs⟩
  · subst hn; subst hpo
    refine ⟨?_, by simp, po, hp, ⟨rfl, rfl, rfl⟩⟩
    unfold PortsUnique
    rw [List.pairwise_append]
    refine ⟨hu, List.pairwise_singleton _ _, ?_⟩
    intro a ha b hb
    rw [List.mem_singleton] at hb
    subst hb
    exact nonameFind_none hf a ha

/-- C13: when the anonymous port table holds no two different port objects
with the same port set and `ParsePortListTcpUdpPort` resolves a literal port
list (a token that is neither `any` nor a `$` variable), the table holds none
afterwards either, and the returned port object is in the table and has the
port set of the parsed list.  Resolving a second literal token whose parsed
port set is the same then returns the very same port object and leaves the
table as it is. -/
theorem C13_anonymous_table_shares_port_objects (env : Collab)
    (pvt : List (String × PortObjectRef)) (noname noname' : List PortObjectRef) (s : String)
    (po : PortObjectRef)
    (h1 : strcaseeq s "any" = false) (h2 : s.front ≠ '$') (hu : PortsUnique noname)
    (h : ParsePortListTcpUdpPort env pvt noname s = Except.ok (po, noname')) :
    PortsUnique noname' ∧ po ∈ noname' ∧
    (∃ parsed, env.PortObjectParseString s = some parsed ∧ samePorts po.obj parsed.obj) ∧
    (∀ (pvt2 : List (String × PortObjectRef)) (s2 : String) (po2 : PortObjectRef)
        (noname2 : List PortObjectRef) (p1 p2 : PortObjectRef),
      strcaseeq s2 "any" = false → s2.front ≠ '$' →
      ParsePortListTcpUdpPort env pvt2 noname' s2 = Except.ok (po2, noname2) →
      env.PortObjectParseString s = some p1 → env.PortObjectParseString s2 = some p2 →
      samePorts p1.obj p2.obj → po2 = po ∧ noname2 = noname') := by
  obtain ⟨hu', hm, parsed, hp, hs⟩ := ParsePortListTcpUdpPort_shares h1 h2 hu h
  refine ⟨hu', hm, ⟨parsed, hp, hs⟩, ?_⟩
  intro pvt2 s2 po2 noname2 p1 p2 g1 g2 g hp1 hp2 hsame
  rw [hp] at hp1
  cases hp1
  obtain ⟨parsed2, hq, hc⟩ := ParsePortListTcpUdpPort_literal g1 g2 g
  rw [hp2] at hq
  cases hq
  have hpo2 : samePorts po.obj p2.obj := samePorts_trans hs hsame
  rcases hc with ⟨hf, hn⟩ | ⟨hf, _, _⟩
  · obtain ⟨hm2, hs2⟩ := nonameFind_some hf
    exact ⟨PortsUnique_eq hu' hm2 hm (samePorts_trans hs2 (samePorts_symm hpo2)), hn⟩
  · exact absurd hpo2 (nonameFind_none hf po hm)

theorem ParsePortList_eq (env : Collab) (rtn : RuleTreeNode) (pvt : List (String × PortObjectRef))
    (noname : List PortObjectRef) (s : String) (proto : Int) (dst_flag : Bool) :
    ParsePortList env rtn pvt noname s proto dst_flag =
      match resolvePortObject env pvt noname s proto with
      | Except.error e => Except.error e
      | Except.ok (portobject, noname) =>
          if PortObjectIsPureNot (some portobject) then Except.error ParseErrorMsg.pureNotPorts
          else if dst_flag then
            Except.ok ({ rtn with
              flags := if PortObjectHasAny (some portobject) then rtn.flags ||| ANY_DST_PORT
                       else rtn.flags
              dst_portobject := some portobject }, noname)
          else
            Except.ok ({ rtn with
              flags := if PortObjectHasAny (some portobject) then rtn.flags ||| ANY_SRC_PORT
                       else rtn.flags
              src_portobject := some portobject }, noname) := by
  unfold ParsePortList resolvePortObject
  by_cases hp : proto = IPPROTO_TCP ∨ proto = IPPROTO_UDP
  · simp only [if_pos hp]
    cases hr : ParsePortListTcpUdpPort env pvt noname s with
    | error e => rfl
    | ok p =>
      obtain ⟨po, n⟩ := p
      cases dst_flag <;> cases hpn : PortObjectIsPureNot (some po) <;>
        cases ha : PortObjectHasAny (some po) <;> simp [hpn, ha]
  · simp only [if_neg hp]
    cases hr : PortVarTableFind pvt "any" with
    | none => rfl
    | some po =>
      cases dst_flag <;> cases hpn : PortObjectIsPureNot (some po) <;>
        cases ha : PortObjectHasAny (some po) <;> simp [hpn, ha]

theorem or_pow_and_ne_zero (f k : Nat) : (f ||| 2 ^ k) &&& 2 ^ k ≠ 0 := by
  intro h
  have := congrArg (fun n => n.testBit k) h
  simp [Nat.testBit_and, Nat.testBit_or, Nat.testBit_two_pow_self] at this

theorem or_pow_testBit (f k i : Nat) (h : i ≠ k) : (f ||| 2 ^ k).testBit i = f.testBit i := by
  rw [Nat.testBit_or, Nat.testBit_two_pow]
  simp [Ne.symm h]

theorem ParsePortList_ok {env : Collab} {rtn rtn' : RuleTreeNode}
    {pvt : List (String × PortObjectRef)} {noname noname' : List PortObjectRef} {s : String}
    {proto : Int} {dst_flag : Bool}
    (h : ParsePortList env rtn pvt noname s proto dst_flag = Except.ok (rtn', noname')) :
    ∃ po, resolvePortObject env pvt noname s proto = Except.ok (po, noname') ∧
      PortObjectIsPureNot (some po) = false ∧
      rtn' = (if dst_flag = true then
          { rtn with
            flags := if PortObjectHasAny (some po) then rtn.flags ||| ANY_DST_PORT else rtn.flags
            dst_portobject := some po }
        else
          { rtn with
            flags := if PortObjectHasAny (some po) then rtn.flags ||| ANY_SRC_PORT else rtn.flags
            src_portobject := some po }) := by
  rw [ParsePortList_eq] at h
  cases hr : resolvePortObject env pvt noname s proto with
  | error e => rw [hr] at h; cases h
  | ok p =>
    obtain ⟨po, n⟩ := p
    rw [hr] at h
    dsimp only at h
    cases hpn : PortObjectIsPureNot (some po) with
    | true => rw [hpn] at h; simp at h
    | false =>
      rw [hpn] at h
      cases dst_flag <;> simp at h <;> obtain ⟨h1, h2⟩ := h <;> subst h1 <;> subst h2 <;>
        exact ⟨po, rfl, hpn, by simp⟩

/-- C14: when `ParsePortList` succeeds, the token resolved to a port object
that is not pure-not; for `dst_flag = 0` the header's `src_portobject` is that
object and, the `ANY_SRC_PORT` flag being clear before, it is set afterwards
exactly when the object is the any-port; `dst_portobject`, every other flag bit
and every other field of the header are unchanged.  For `dst_flag = 1` the same
holds with `dst_portobject` and `ANY_DST_PORT`. -/
theorem C14_ParsePortList_sets_port_object_and_flag (env : Collab) (rtn rtn' : RuleTreeNode)
    (pvt : List (String × PortObjectRef)) (noname noname' : List PortObjectRef) (s : String)
    (proto : Int) (dst_flag : Bool)
    (h : ParsePortList env rtn pvt noname s proto dst_flag = Except.ok (rtn', noname')) :
    ∃ po, resolvePortObject env pvt noname s proto = Except.ok (po, noname') ∧
      (dst_flag = false →
        rtn'.src_portobject = some po ∧ rtn'.dst_portobject = rtn.dst_portobject ∧
        (rtn.flags &&& ANY_SRC_PORT = 0 →
          (rtn'.flags &&& ANY_SRC_PORT ≠ 0 ↔ PortObjectHasAny (some po) = true)) ∧
        (∀ i, i ≠ 2 → rtn'.flags.testBit i = rtn.flags.testBit i) ∧
        rtn' = { rtn with flags := rtn'.flags, src_portobject := some po }) ∧
      (dst_flag = true →
        rtn'.dst_portobject = some po ∧ rtn'.src_portobject = rtn.src_portobject ∧
        (rtn.flags &&& ANY_DST_PORT = 0 →
          (rtn'.flags &&& ANY_DST_PORT ≠ 0 ↔ PortObjectHasAny (some po) = true)) ∧
        (∀ i, i ≠ 3 → rtn'.flags.testBit i = rtn.flags.testBit i) ∧
        rtn' = { rtn with flags := rtn'.flags, dst_portobject := some po }) := by
  obtain ⟨po, hr, _, hrtn⟩ := ParsePortList_ok h
  refine ⟨po, hr, ?_, ?_⟩
  · intro hd
    rw [hd] at hrtn
    simp only [Bool.false_eq_true, if_false] at hrtn
    subst hrtn
    refine ⟨rfl, rfl, ?_, ?_, rfl⟩
    · intro h0
      dsimp only
      cases ha : PortObjectHasAny (some po) with
      | true =>
        simp only [if_true]
        exact ⟨fun _ => trivial, fun _ => or_pow_and_ne_zero rtn.flags 2⟩
      | false =>
        simp only [Bool.false_eq_true, if_false]
        exact ⟨fun hne => absurd h0 hne, fun hf => by cases hf⟩
    · intro i hi
      dsimp only
      split
      · exact or_pow_testBit rtn.flags 2 i hi
      · rfl
  · intro hd
    rw [hd] at hrtn
    simp only [if_true] at hrtn
    subst hrtn
    refine ⟨rfl, rfl, ?_, ?_, rfl⟩
    · intro h0
      dsimp only
      cases ha : PortObjectHasAny (some po) with
      | true =>
        simp only [if_true]
        exact ⟨fun _ => trivial, fun _ => or_pow_and_ne_zero rtn.flags 3⟩
      | false =>
        simp only [Bool.false_eq_true, if_false]
        exact ⟨fun hne => absurd h0 hne, fun hf => by cases hf⟩
    · intro i hi
      dsimp only
      split
      · exact or_pow_testBit rtn.flags 3 i hi
      · rfl

theorem ParsePortList_pure_not {env : Collab} (rtn : RuleTreeNode)
    {pvt : List (String × PortObjectRef)} {noname noname1 : List PortObjectRef} {s : String}
    {proto : Int} (dst_flag : Bool) {po : PortObjectRef}
    (hres : resolvePortObject env pvt noname s proto = Except.ok (po, noname1))
    (hpn : PortObjectIsPureNot (some po) = true) :
    ParsePortList env rtn pvt noname s proto dst_flag =
      Except.error ParseErrorMsg.pureNotPorts := by
  rw [ParsePortList_eq, hres]
  simp [hpn]

/-- A text rule whose header parses went through `ParsePortList` two times
with success: for the src token on the tables of the active policy, then for
the dst token on the anonymous table the first call left. -/
theorem parseHeader_text_ports {env : Collab} {st : ParseState}
    {t0 t1 t2 t3 t4 t5 : String} {ro : Option RuleOpts} {rule_type : Int} {hd : HeaderResult}
    (hh : parseHeader env st (RuleArgs.text t0 t1 t2 t3 t4 t5 ro) rule_type = Except.ok hd) :
    ∃ r1 r1' n1 r2 n2,
      ParsePortList env r1 st.policy.portVarTable st.policy.nonamePortVarTable t2
        (env.GetRuleProtocol t0) false = Except.ok (r1', n1) ∧
      ParsePortList env r2 st.policy.portVarTable n1 t5
        (env.GetRuleProtocol t0) true = Except.ok (hd.test_rtn, n2) ∧
      hd.protocol = env.GetRuleProtocol t0 := by
  unfold parseHeader at hh
  dsimp only at hh
  split at hh
  · cases hh
  · rename_i st1 hm
    have hs1 : st1.policy = st.policy := by
      split_ifs at hm <;> cases hm <;> rfl
    rw [hs1] at hh
    split at hh
    · cases hh
    · rename_i r1 _
      split at hh
      · cases hh
      · split at hh
        · cases hh
        · rename_i r1' n1 hp1
          split at hh
          · cases hh
          · split at hh
            · cases hh
            · rename_i r2 _
              split at hh
              · cases hh
              · rename_i r2' n2 hp2
                cases hh
                exact ⟨_, _, _, _, _, hp1, hp2, rfl⟩

/-- Whether a token resolves to a pure-not port object does not depend on the
anonymous table it is resolved against. -/
theorem resolve_pure_not_any_table {env : Collab} {pvt : List (String × PortObjectRef)}
    {noname noname1 : List PortObjectRef} {s : String} {proto : Int} {po : PortObjectRef}
    (hres : resolvePortObject env pvt noname s proto = Except.ok (po, noname1))
    (hpn : PortObjectIsPureNot (some po) = true) (n : List PortObjectRef) :
    ∃ po' n', resolvePortObject env pvt n s proto = Except.ok (po', n') ∧
      PortObjectIsPureNot (some po') = true := by
  unfold resolvePortObject at hres ⊢
  by_cases hp : proto = IPPROTO_TCP ∨ proto = IPPROTO_UDP
  · rw [if_pos hp] at hres ⊢
    unfold ParsePortListTcpUdpPort at hres ⊢
    by_cases h1 : strcaseeq s "any" = true
    · rw [if_pos h1] at hres ⊢
      cases hf : PortVarTableFind pvt "any" with
      | none => rw [hf] at hres; cases hres
      | some x =>
        rw [hf] at hres
        cases hres
        exact ⟨_, _, rfl, hpn⟩
    · rw [if_neg h1] at hres ⊢
      by_cases h2 : s.front = '$'
      · rw [if_pos h2] at hres ⊢
        cases hf : PortVarTableFind pvt (s.drop 1) with
        | none => rw [hf] at hres; cases hres
        | some x =>
          rw [hf] at hres
          cases hres
          exact ⟨_, _, rfl, hpn⟩
      · rw [if_neg h2] at hres ⊢
        cases hq : env.PortObjectParseString s with
        | none => rw [hq] at hres; cases hres
        | some parsed =>
          rw [hq] at hres
          dsimp only at hres ⊢
          have hparsed : parsed.obj.pure_not = true := by
            cases hf : nonameFind noname parsed.obj with
            | none =>
              rw [hf] at hres
              cases hres
              exact hpn
            | some x =>
              rw [hf] at hres
              cases hres
              rw [← (nonameFind_some hf).2.2.2]
              exact hpn
          cases hf : nonameFind n parsed.obj with
          | none => exact ⟨_, _, rfl, hparsed⟩
          | some x =>
            refine ⟨_, _, rfl, ?_⟩
            show x.obj.pure_not = true
            rw [(nonameFind_some hf).2.2.2]
            exact hparsed
  · rw [if_neg hp] at hres ⊢
    cases hf : PortVarTableFind pvt "any" with
    | none => rw [hf] at hres; cases hres
    | some x =>
      rw [hf] at hres
      cases hres
      exact ⟨_, _, rfl, hpn⟩

/-- C15: when the port token resolves to a pure-not port object,
`ParsePortList` raises "Pure NOT ports are not allowed", whatever the draft
header and the direction; and `parse_rule` ends in a parse error for every text
rule of that protocol, in a state with that port-variable table, that has the
token as its dst port, and for every such rule that has it as its src port
when the anonymous table is the one the token was resolved against. -/
theorem C15_pure_not_ports_are_rejected (env : Collab) (rtn : RuleTreeNode)
    (pvt : List (String × PortObjectRef)) (noname noname1 : List PortObjectRef) (s : String)
    (proto : Int) (dst_flag : Bool) (po : PortObjectRef)
    (hres : resolvePortObject env pvt noname s proto = Except.ok (po, noname1))
    (hpn : PortObjectIsPureNot (some po) = true) :
    ParsePortList env rtn pvt noname s proto dst_flag =
      Except.error ParseErrorMsg.pureNotPorts ∧
    (∀ (st : ParseState) (t0 t1 t2 t3 t4 : String) (ro : Option RuleOpts) (rule_type : Int)
        (list : Option Nat),
      st.policy.portVarTable = pvt → env.GetRuleProtocol t0 = proto →
      ∃ e, parse_rule env st (RuleArgs.text t0 t1 t2 t3 t4 s ro) rule_type list =
        Except.error e) ∧
    (∀ (st : ParseState) (t0 t1 t3 t4 t5 : String) (ro : Option RuleOpts) (rule_type : Int)
        (list : Option Nat),
      st.policy.portVarTable = pvt → st.policy.nonamePortVarTable = noname →
      env.GetRuleProtocol t0 = proto →
      ∃ e, parse_rule env st (RuleArgs.text t0 t1 s t3 t4 t5 ro) rule_type list =
        Except.error e) := by
  refine ⟨ParsePortList_pure_not rtn dst_flag hres hpn, ?_, ?_⟩
  · intro st t0 t1 t2 t3 t4 ro rule_type list hpvt hproto
    cases hr : parse_rule env st (RuleArgs.text t0 t1 t2 t3 t4 s ro) rule_type list with
    | error e => exact ⟨e, rfl⟩
    | ok st' =>
      exfalso
      obtain ⟨hd, _, _, hhd, _⟩ := parse_rule_decomp hr
      obtain ⟨r1, r1', n1, r2, n2, _, hp2, _⟩ := parseHeader_text_ports hhd
      obtain ⟨po', n', hres', hpn'⟩ := resolve_pure_not_any_table hres hpn n1
      rw [hpvt, hproto, ParsePortList_pure_not r2 true hres' hpn'] at hp2
      cases hp2
  · intro st t0 t1 t3 t4 t5 ro rule_type list hpvt hnn hproto
    cases hr : parse_rule env st (RuleArgs.text t0 t1 s t3 t4 t5 ro) rule_type list with
    | error e => exact ⟨e, rfl⟩
    | ok st' =>
      exfalso
      obtain ⟨hd, _, _, hhd, _⟩ := parse_rule_decomp hr
      obtain ⟨r1, r1', n1, r2, n2, hp1, _, _⟩ := parseHeader_text_ports hhd
      rw [hpvt, hnn, hproto, ParsePortList_pure_not r1 false hres hpn] at hp1
      cases hp1

/-- C16: for a protocol other than TCP and UDP (ICMP and IP among them),
`ParsePortList` raises "PortVarTable missing an 'any' variable" when the
port-variable table has no `any` entry, whatever the token; otherwise the token
resolves to the `any` entry and the anonymous table is untouched, so the result
is the one for the token `any`; and when that entry is an any-port (and not
pure-not) `ParsePortList` succeeds, stores the entry in the header and sets the
`ANY_SRC_PORT` flag (`dst_flag = 0`) or the `ANY_DST_PORT` flag
(`dst_flag = 1`). -/
theorem C16_portless_protocols_resolve_to_any (env : Collab) (rtn : RuleTreeNode)
    (pvt : List (String × PortObjectRef)) (noname : List PortObjectRef) (s : String)
    (proto : Int) (dst_flag : Bool)
    (h1 : proto ≠ IPPROTO_TCP) (h2 : proto ≠ IPPROTO_UDP) :
    (PortVarTableFind pvt "any" = none →
      ParsePortList env rtn pvt noname s proto dst_flag =
        Except.error ParseErrorMsg.portVarTableMissingAny) ∧
    (∀ po, PortVarTableFind pvt "any" = some po →
      resolvePortObject env pvt noname s proto = Except.ok (po, noname) ∧
      ParsePortList env rtn pvt noname s proto dst_flag =
        ParsePortList env rtn pvt noname "any" proto dst_flag ∧
      (PortObjectHasAny (some po) = true → PortObjectIsPureNot (some po) = false →
        ∃ rtn', ParsePortList env rtn pvt noname s proto dst_flag = Except.ok (rtn', noname) ∧
          (dst_flag = false →
            rtn'.src_portobject = some po ∧ rtn'.flags &&& ANY_SRC_PORT ≠ 0) ∧
          (dst_flag = true →
            rtn'.dst_portobject = some po ∧ rtn'.flags &&& ANY_DST_PORT ≠ 0))) := by
  have hp : ¬ (proto = IPPROTO_TCP ∨ proto = IPPROTO_UDP) := by
    rintro (h | h)
    · exact h1 h
    · exact h2 h
  have hres : ∀ t, resolvePortObject env pvt noname t proto =
      match PortVarTableFind pvt "any" with
      | none => Except.error ParseErrorMsg.portVarTableMissingAny
      | some portobject => Except.ok (portobject, noname) := by
    intro t
    unfold resolvePortObject
    rw [if_neg hp]
  constructor
  · intro hnone
    rw [ParsePortList_eq, hres, hnone]
  · intro po hsome
    refine ⟨by rw [hres, hsome], by rw [ParsePortList_eq, ParsePortList_eq, hres, hres], ?_⟩
    intro hany hnot
    rw [ParsePortList_eq, hres, hsome]
    dsimp only
    rw [hnot, hany]
    cases dst_flag
    · refine ⟨_, rfl, ?_, ?_⟩
      · intro _
        exact ⟨rfl, or_pow_and_ne_zero rtn.flags 2⟩
      · intro hf
        cases hf
    · refine ⟨_, rfl, ?_, ?_⟩
      · intro hf
        cases hf
      · intro _
        exact ⟨rfl, or_pow_and_ne_zero rtn.flags 3⟩

/-! ## Older duplicates leave the indexer alone -/

@[simp] theorem indexPart_ParseWarning (st : ParseState) (w : ParseWarningMsg) :
    indexPart (ParseWarning st w) = indexPart st := rfl

@[simp] theorem indexPart_LogMessage (st : ParseState) (m : LogMsg) :
    indexPart (LogMessage st m) = indexPart st := rfl

@[simp] theorem indexPart_setOtnMap (st : ParseState) (m : List OptTreeNode) :
    indexPart (st.setOtnMap m) = indexPart st := rfl

@[simp] theorem indexPart_setIpProto (st : ParseState) (p : Int) :
    indexPart (setIpProto st p) = indexPart st := rfl

@[simp] theorem indexPart_Destroy (st : ParseState) (r : Option Nat) :
    indexPart (DestroyRuleTreeNode st r) = indexPart st := by
  unfold DestroyRuleTreeNode
  split
  · rfl
  · split <;> rfl

@[simp] theorem indexPart_ValidateFastPattern (st : ParseState) (otn : OptTreeNode) :
    indexPart (ValidateFastPattern st otn) = indexPart st := by
  unfold ValidateFastPattern
  generalize (ValidateFastPatternLoop false otn.opt_func).filter (fun b => b) = l
  induction l generalizing st with
  | nil => rfl
  | cons a rest ih =>
    rw [List.foldl_cons, ih]
    rfl

@[simp] theorem indexPart_storeOtn (st : ParseState) (otn : OptTreeNode) (n : Int) :
    indexPart (storeOtn st otn n).2 = indexPart st := by
  unfold storeOtn
  dsimp only
  rw [indexPart_setOtnMap, indexPart_ValidateFastPattern]
  split <;> rfl

theorem ProcessHeadNode_sc (st : ParseState) (t : RuleTreeNode) (list : Option Nat) :
    (ProcessHeadNode st t list).2.sc = st.sc := by
  unfold ProcessHeadNode
  split
  · rfl
  · split <;> rfl

theorem indexPart_ProcessHeadNode (st : ParseState) (t : RuleTreeNode) (list : Option Nat) :
    indexPart (ProcessHeadNode st t list).2 = indexPart st := by
  unfold ProcessHeadNode
  split
  · rfl
  · split <;> rfl

theorem indexPart_mergeDuplicateOtn {st : ParseState} {cur new : OptTreeNode} {rtn : Nat}
    {ret : Int} {new' : OptTreeNode} {st' : ParseState}
    (h : mergeDuplicateOtn st cur new rtn = Except.ok (ret, new', st')) :
    indexPart st' = indexPart st := by
  unfold mergeDuplicateOtn at h
  dsimp only at h
  split_ifs at h
  all_goals
    simp only [Except.ok.injEq, Prod.mk.injEq] at h
    obtain ⟨_, _, hs⟩ := h
    subst hs
  · split <;> simp
  all_goals simp
  all_goals rfl

theorem indexPart_ParseRuleOptions {st : ParseState} {rtn : Nat} {rule_opts : Option RuleOpts}
    {protocol : Int} {text : Bool} {res : Option OptTreeNode} {st' : ParseState}
    (h : ParseRuleOptions st rtn rule_opts protocol text = Except.ok (res, st')) :
    indexPart st' = indexPart st := by
  unfold ParseRuleOptions at h
  dsimp only at h
  split at h
  · cases h
  · split_ifs at h
    split at h
    · cases h
    · split_ifs at h
      split at h
      · split at h
        · cases h
        · rename_i ret new' st1 hm
          have hi := indexPart_mergeDuplicateOtn hm
          split_ifs at h
          · cases h
            exact hi
          · cases h
            rw [indexPart_storeOtn]
            exact hi
      · cases h
        rw [indexPart_storeOtn]
        rfl

theorem indexPart_parseHeader {env : Collab} {st : ParseState} {args : RuleArgs}
    {rule_type : Int} {h : HeaderResult}
    (hh : parseHeader env st args rule_type = Except.ok h) :
    indexPart h.st = indexPart st := by
  unfold parseHeader at hh
  cases args with
  | builtin ro =>
    dsimp only at hh
    cases hh
    rfl
  | short => cases hh
  | text t0 t1 t2 t3 t4 t5 ro =>
    dsimp only at hh
    split at hh
    · cases hh
    · rename_i st1 hm
      have hs1 : indexPart st1 = indexPart st := by
        split_ifs at hm <;> cases hm <;> rfl
      repeat' (split at hh)
      all_goals
        first
        | (cases hh; done)
        | (cases hh; exact hs1)

/-- C17: when `parse_rule` returns for a rule whose `(gid, sid)` the signature
map already holds with a strictly higher revision, `ParseRuleOptions` returned
null; the map holds the same keys and, under that `(gid, sid)`, a signature
with the `(gid, sid, rev)` of the old one; and `rule_count`,
`detect_rule_count`, `builtin_rule_count`, `otn_count`, the per-rule port
list, the port-group tables and the four per-protocol counters are what they
were before the call. -/
theorem C17_older_duplicate_changes_nothing (env : Collab) (st st' : ParseState)
    (args : RuleArgs) (rule_type : Int) (list : Option Nat) (si : SigInfo) (cur : OptTreeNode)
    (h : parse_rule env st args rule_type list = Except.ok st')
    (hsi : argsSigInfo args = some si)
    (hl : OtnLookup st.sc.otn_map si.generator si.id = some cur)
    (hlt : si.rev < cur.sigInfo.rev) :
    (∃ hd, parseHeader env st args rule_type = Except.ok hd ∧
      ParseRuleOptions (ProcessHeadNode hd.st { hd.test_rtn with listhead := list } list).2
        (ProcessHeadNode hd.st { hd.test_rtn with listhead := list } list).1
        hd.roptions hd.protocol hd.text = Except.ok (none, st')) ∧
    (∃ cur', OtnLookup st'.sc.otn_map si.generator si.id = some cur' ∧
      cur'.sigInfo = cur.sigInfo) ∧
    st'.sc.otn_map.map OptTreeNode.key = st.sc.otn_map.map OptTreeNode.key ∧
    st'.rule_count = st.rule_count ∧
    st'.detect_rule_count = st.detect_rule_count ∧
    st'.builtin_rule_count = st.builtin_rule_count ∧
    st'.otn_count = st.otn_count ∧
    st'.port_list = st.port_list ∧
    st'.sc.port_tables = st.sc.port_tables ∧
    st'.tcpCnt = st.tcpCnt ∧ st'.udpCnt = st.udpCnt ∧
    st'.icmpCnt = st.icmpCnt ∧ st'.ipCnt = st.ipCnt := by
  obtain ⟨s1, hs1, _, _, _, hcases⟩ := parse_rule_step h
  rw [hsi] at hs1
  cases hs1
  obtain ⟨hd, res, st2, hhd, hpro, hres⟩ := parse_rule_decomp h
  rcases hcases with ⟨hn, _⟩ | ⟨cur0, hl0, _, hm, c1, c2, c3, c4⟩ | ⟨cur0, hl0, hnlt, _⟩
  · rw [hl] at hn
    cases hn
  · rw [hl] at hl0
    cases hl0
    have hkey := (OtnLookup_some hl).2
    have hresnone : res = none ∧ st' = st2 := by
      rcases hres with hr | ⟨hne, _⟩
      · exact hr
      · exfalso
        obtain ⟨ro, otn, n, hro, hloops, _, _, _, _, _, _, hc⟩ := ParseRuleOptions_spec hpro
        have hsig : argsSigInfo args = some otn.sigInfo := by
          rw [parseHeader_sig hhd ro hro]
          exact optsSigInfo_of_loops hloops
        rw [hsi] at hsig
        cases hsig
        have hmap : (ProcessHeadNode hd.st { hd.test_rtn with listhead := list } list).2.sc.otn_map
            = st.sc.otn_map := by
          rw [(ProcessHeadNode_sc _ _ _)]
          exact (SameCore_parseHeader hhd).1
        rw [hmap, hl] at hc
        rcases hc with ⟨hn, _⟩ | ⟨_, _, _, hr, _⟩ | ⟨_, hc0, hnlt, _⟩
        · cases hn
        · exact hne hr
        · cases hc0
          exact hnlt hlt
    obtain ⟨hrn, hst⟩ := hresnone
    subst hrn
    subst hst
    have hidx : indexPart st' = indexPart st := by
      rw [indexPart_ParseRuleOptions hpro, indexPart_ProcessHeadNode, indexPart_parseHeader hhd]
    simp only [indexPart, Prod.mk.injEq] at hidx
    obtain ⟨i1, i2, i3, i4, i5, i6⟩ := hidx
    refine ⟨⟨hd, hhd, hpro⟩, ?_, ?_, c2, c3, c4, c1, i2, i1, i3, i4, i5, i6⟩
    · rcases hm with hm | ⟨x, hx, hm⟩
      · exact ⟨cur, by rw [hm]; exact hl, rfl⟩
      · refine ⟨x, ?_, hx⟩
        have hxk : x.key = (si.generator, si.id) := by
          rw [← hkey]
          simp [OptTreeNode.key, hx]
        have := OtnLookup_OtnStore_eq st.sc.otn_map x
        rw [hxk] at this
        rw [hm, this, hl]
        rfl
    · rcases hm with hm | ⟨x, hx, hm⟩
      · rw [hm]
      · rw [hm, OtnStore_keys]
  · rw [hl] at hl0
    cases hl0
    exact absurd hlt hnlt

/-! ## Errors of deduplication and of the option body -/

/-- C18: `mergeDuplicateOtn` raises "duplicates previous rule, with different
protocol" whenever the protocols of the stored and the new signature differ,
and "duplicates previous rule, with different type" whenever the protocols are
the same and the stored signature has a header for the active policy whose
action type differs from the type of the new header; the revisions play no
part in either. -/
theorem C18_merge_rejects_protocol_or_type_conflict (st : ParseState) (cur new : OptTreeNode)
    (rtn : Nat) :
    (cur.proto ≠ new.proto →
      mergeDuplicateOtn st cur new rtn =
        Except.error ParseErrorMsg.duplicateDifferentProtocol) ∧
    (cur.proto = new.proto →
      ∀ (a : Nat) (n m : RuleTreeNode),
        getRtnFromOtn cur st.policy.policy_id = some a →
        st.rtn_heap[a]? = some n → st.rtn_heap[rtn]? = some m → n.type ≠ m.type →
        mergeDuplicateOtn st cur new rtn =
          Except.error ParseErrorMsg.duplicateDifferentType) := by
  constructor
  · intro hne
    unfold mergeDuplicateOtn
    rw [if_pos hne]
  · intro heq a n m ha hn hm hty
    unfold mergeDuplicateOtn
    rw [if_neg (not_not.mpr heq)]
    dsimp only
    rw [if_pos]
    rw [ha]
    refine ⟨by simp, ?_⟩
    simp [getRtn, hn, hm, hty]

theorem warnings_Destroy (st : ParseState) (r : Option Nat) :
    (DestroyRuleTreeNode st r).warnings = st.warnings := by
  unfold DestroyRuleTreeNode
  split
  · rfl
  · split <;> rfl

/-- C19: `mergeDuplicateOtn` first raises "duplicates previous rule, with
different protocol" when the protocols of the stored and the new signature
differ, and "duplicates previous rule, with different type" when the stored
signature has a header for the active policy whose action type is not that of
the new header, in either mode and whatever the revisions.  For a duplicate
that passes these two checks: when the new revision is not lower and the
stored signature has a header for the active policy, it raises "duplicates
previous rule" in strict mode and, with strict mode off, returns 1 having
emitted exactly the warning "duplicates previous rule. Using revision" for the
new revision; when the stored signature has no header for the active policy it
returns 1 without any warning in either mode; and when the new revision is
lower it returns 0 having emitted exactly that warning for the stored
revision, in either mode. -/
theorem C19_strict_mode_promotes_duplicate_warning (st : ParseState) (cur new : OptTreeNode)
    (rtn : Nat) :
    (cur.proto ≠ new.proto →
      mergeDuplicateOtn st cur new rtn =
        Except.error ParseErrorMsg.duplicateDifferentProtocol) ∧
    (cur.proto = new.proto → getRtnFromOtn cur st.policy.policy_id ≠ none →
      (getRtn st (getRtnFromOtn cur st.policy.policy_id)).map RuleTreeNode.type ≠
        (getRtn st (some rtn)).map RuleTreeNode.type →
      mergeDuplicateOtn st cur new rtn =
        Except.error ParseErrorMsg.duplicateDifferentType) ∧
    (cur.proto = new.proto →
      (getRtnFromOtn cur st.policy.policy_id ≠ none →
        (getRtn st (getRtnFromOtn cur st.policy.policy_id)).map RuleTreeNode.type =
          (getRtn st (some rtn)).map RuleTreeNode.type) →
      (¬ new.sigInfo.rev < cur.sigInfo.rev →
        getRtnFromOtn cur st.policy.policy_id ≠ none → st.sc.conf_error_out = true →
        mergeDuplicateOtn st cur new rtn = Except.error ParseErrorMsg.duplicatesPreviousRule) ∧
      (¬ new.sigInfo.rev < cur.sigInfo.rev →
        getRtnFromOtn cur st.policy.policy_id ≠ none → st.sc.conf_error_out = false →
        ∃ new' st', mergeDuplicateOtn st cur new rtn = Except.ok (1, new', st') ∧
          st'.warnings = st.warnings ++
            [ParseWarningMsg.duplicateUsingRevision new.sigInfo.generator new.sigInfo.id
              new.sigInfo.rev]) ∧
      (¬ new.sigInfo.rev < cur.sigInfo.rev →
        getRtnFromOtn cur st.policy.policy_id = none →
        ∃ new' st', mergeDuplicateOtn st cur new rtn = Except.ok (1, new', st') ∧
          st'.warnings = st.warnings) ∧
      (new.sigInfo.rev < cur.sigInfo.rev →
        ∃ new' st', mergeDuplicateOtn st cur new rtn = Except.ok (0, new', st') ∧
          st'.warnings = st.warnings ++
            [ParseWarningMsg.duplicateUsingRevision cur.sigInfo.generator cur.sigInfo.id
              cur.sigInfo.rev])) := by
  refine ⟨?_, ?_, ?_⟩
  · intro hne
    unfold mergeDuplicateOtn
    rw [if_pos hne]
  · intro heq hcur hty
    unfold mergeDuplicateOtn
    rw [if_neg (not_not.mpr heq)]
    dsimp only
    rw [if_pos ⟨hcur, hty⟩]
  · intro hproto htype
    have hnt : ¬ (getRtnFromOtn cur st.policy.policy_id ≠ none ∧
        (getRtn st (getRtnFromOtn cur st.policy.policy_id)).map RuleTreeNode.type ≠
          (getRtn st (some rtn)).map RuleTreeNode.type) := fun hh => hh.2 (htype hh.1)
    have hmig := (migrateRtns_spec st.policy.policy_id cur new).2.1
    refine ⟨?_, ?_, ?_, ?_⟩
    · intro hrev hcur hstrict
      unfold mergeDuplicateOtn
      rw [if_neg (not_not.mpr hproto)]
      dsimp only
      rw [if_neg hnt, if_neg hrev, if_pos ⟨hcur, by simpa [ParseState.setOtnMap] using hstrict⟩]
    · intro hrev hcur hstrict
      unfold mergeDuplicateOtn
      rw [if_neg (not_not.mpr hproto)]
      dsimp only
      rw [if_neg hnt, if_neg hrev,
        if_neg (fun hh => by
          have := hh.2
          simp [ParseState.setOtnMap, hstrict] at this)]
      refine ⟨_, _, rfl, ?_⟩
      rw [warnings_Destroy, if_pos hcur]
      split <;> simp [ParseState.setOtnMap, ParseWarning, hmig]
    · intro hrev hcur
      unfold mergeDuplicateOtn
      rw [if_neg (not_not.mpr hproto)]
      dsimp only
      rw [if_neg hnt, if_neg hrev, if_neg (fun hh => hh.1 hcur)]
      refine ⟨_, _, rfl, ?_⟩
      rw [warnings_Destroy, if_neg (not_not.mpr hcur)]
      rfl
    · intro hrev
      unfold mergeDuplicateOtn
      rw [if_neg (not_not.mpr hproto)]
      dsimp only
      rw [if_neg hnt, if_pos hrev]
      refine ⟨_, _, rfl, ?_⟩
      split
      · rfl
      · rw [warnings_Destroy]
        rfl

/-- C20: `ParseRuleOptions` raises "Each rule must contain a sid" when no
option body is given; it raises a parse error for every option body whose
options leave the sid of the signature at zero; and that error is "Each rule
must contain a rule sid" when the body is enclosed in parentheses, every
option is accepted and the rule is not a built-in rule with detection
options. -/
theorem C20_signature_without_sid_is_rejected (st : ParseState) (rtn : Nat) (protocol : Int)
    (text : Bool) :
    ParseRuleOptions st rtn none protocol text = Except.error ParseErrorMsg.mustContainSid ∧
    (∀ ro : RuleOpts, (∀ si, optsSigInfo text ro.toks = some si → si.id = 0) →
      ∃ e, ParseRuleOptions st rtn (some ro) protocol text = Except.error e) ∧
    (∀ (ro : RuleOpts) (otn : OptTreeNode) (n : Int), ro.enclosed = true →
      parseOptionLoops (newOtn st protocol text) ro.toks = Except.ok (otn, n) →
      otn.sigInfo.id = 0 → ¬ (n > 0 ∧ otn.sigInfo.text_rule = false) →
      ParseRuleOptions st rtn (some ro) protocol text =
        Except.error ParseErrorMsg.mustContainRuleSid) := by
  refine ⟨rfl, ?_, ?_⟩
  · intro ro hz
    cases hr : ParseRuleOptions st rtn (some ro) protocol text with
    | error e => exact ⟨e, rfl⟩
    | ok p =>
      exfalso
      obtain ⟨res, st'⟩ := p
      obtain ⟨ro', otn, n, hro, hloops, hid, _⟩ := ParseRuleOptions_spec hr
      cases hro
      exact hid (hz _ (optsSigInfo_of_loops hloops))
  · intro ro otn n henc hloops hid hb
    unfold ParseRuleOptions
    dsimp only
    rw [if_neg (by simp [henc]), hloops]
    dsimp only
    rw [if_neg hb, if_pos hid]

/-! ## Concrete rules -/

/-- C11 at `tcp any any -> any 80` on empty group tables, bleedover limit
1024. -/
theorem C11_witness :
    ∃ st', FinishPortListRule demoEnv demoState headerDst80 (demoOtn IPPROTO_TCP) IPPROTO_TCP
        (demoEntry IPPROTO_TCP) = Except.ok (0, st') ∧
      ((∃ k e, (dstTable demoState.sc.port_tables ProtoSel.tcp)[k]? = some e ∧
          samePorts e port80 ∧
          (∀ j e', j < k → (dstTable demoState.sc.port_tables ProtoSel.tcp)[j]? = some e' →
            ¬ samePorts e' port80) ∧
          dstTable st'.sc.port_tables ProtoSel.tcp =
            (dstTable demoState.sc.port_tables ProtoSel.tcp).set k
              (PortObjectAddRule e (demoOtn IPPROTO_TCP).ruleIndex)) ∨
       ((∀ e ∈ dstTable demoState.sc.port_tables ProtoSel.tcp, ¬ samePorts e port80) ∧
          dstTable st'.sc.port_tables ProtoSel.tcp =
            dstTable demoState.sc.port_tables ProtoSel.tcp ++
              [{ port80 with rule_list := [(demoOtn IPPROTO_TCP).ruleIndex] }])) ∧
      (∀ s, s ≠ ProtoSel.tcp →
        dstTable st'.sc.port_tables s = dstTable demoState.sc.port_tables s) ∧
      (∀ s, srcTable st'.sc.port_tables s = srcTable demoState.sc.port_tables s ∧
            aaObject st'.sc.port_tables s = aaObject demoState.sc.port_tables s) ∧
      (prc st' ProtoSel.tcp).dst = (prc demoState ProtoSel.tcp).dst + 1 ∧
      (prc st' ProtoSel.tcp).src = (prc demoState ProtoSel.tcp).src ∧
      (prc st' ProtoSel.tcp).aa = (prc demoState ProtoSel.tcp).aa ∧
      (∀ s, s ≠ ProtoSel.tcp → prc st' s = prc demoState s) :=
  C11_dst_port_rule_goes_to_dst_table demoEnv demoState headerDst80 (demoOtn IPPROTO_TCP)
    IPPROTO_TCP (demoEntry IPPROTO_TCP) ProtoSel.tcp { addr := 80, obj := port80 }
    (by decide) (by decide) (by decide) (by decide) rfl (by decide) (by decide)

/-- C12 at `tcp any 80 <> any any` on empty group tables. -/
theorem C12_witness :
    ¬ takesAnyAnyPath demoState.sc.fast_pattern_config headerBidirSrc80 ∧
    ∃ st', FinishPortListRule demoEnv demoState headerBidirSrc80 (demoOtn IPPROTO_TCP)
        IPPROTO_TCP (demoEntry IPPROTO_TCP) = Except.ok (0, st') ∧
      (∃ e ∈ srcTable st'.sc.port_tables ProtoSel.tcp,
        samePorts e port80 ∧ (demoOtn IPPROTO_TCP).ruleIndex ∈ e.rule_list) ∧
      (∃ e ∈ dstTable st'.sc.port_tables ProtoSel.tcp,
        samePorts e port80 ∧ (demoOtn IPPROTO_TCP).ruleIndex ∈ e.rule_list) :=
  ⟨by decide,
   C12_bidirectional_src_port_in_both_tables demoEnv demoState headerBidirSrc80
    (demoOtn IPPROTO_TCP) IPPROTO_TCP (demoEntry IPPROTO_TCP) ProtoSel.tcp
    { addr := 80, obj := port80 } (by decide) (by decide) (by decide) rfl
    (fun h => absurd h (by decide)) (by decide)⟩

/-- C13 at the literal `80` resolved against an empty anonymous table. -/
theorem C13_witness :
    ParsePortListTcpUdpPort demoEnv demoPolicy.portVarTable [] "80" =
      Except.ok ({ addr := 80, obj := port80 }, [{ addr := 80, obj := port80 }]) ∧
    PortsUnique [({ addr := 80, obj := port80 } : PortObjectRef)] ∧
    ({ addr := 80, obj := port80 } : PortObjectRef) ∈
      [({ addr := 80, obj := port80 } : PortObjectRef)] ∧
    (∃ parsed, demoEnv.PortObjectParseString "80" = some parsed ∧
      samePorts port80 parsed.obj) :=
  ⟨rfl,
   (C13_anonymous_table_shares_port_objects demoEnv demoPolicy.portVarTable [] _ "80" _
      (by decide) (by decide) List.Pairwise.nil rfl).1,
   (C13_anonymous_table_shares_port_objects demoEnv demoPolicy.portVarTable [] _ "80" _
      (by decide) (by decide) List.Pairwise.nil rfl).2.1,
   (C13_anonymous_table_shares_port_objects demoEnv demoPolicy.portVarTable [] _ "80" _
      (by decide) (by decide) List.Pairwise.nil rfl).2.2.1⟩

/-- C14 at the dst token `80` of a TCP rule and a blank draft header. -/
theorem C14_witness :
    ParsePortList demoEnv RuleTreeNode.zero demoPolicy.portVarTable [] "80" IPPROTO_TCP true =
      Except.ok ({ RuleTreeNode.zero with dst_portobject := some { addr := 80, obj := port80 } },
        [{ addr := 80, obj := port80 }]) ∧
    ∃ po, resolvePortObject demoEnv demoPolicy.portVarTable [] "80" IPPROTO_TCP =
        Except.ok (po, [{ addr := 80, obj := port80 }]) ∧
      ((true : Bool) = true →
        ({ RuleTreeNode.zero with dst_portobject := some { addr := 80, obj := port80 } } :
          RuleTreeNode).dst_portobject = some po ∧
        (RuleTreeNode.zero.flags &&& ANY_DST_PORT = 0 →
          (({ RuleTreeNode.zero with dst_portobject := some { addr := 80, obj := port80 } } :
            RuleTreeNode).flags &&& ANY_DST_PORT ≠ 0 ↔ PortObjectHasAny (some po) = true))) :=
  ⟨rfl,
   (C14_ParsePortList_sets_port_object_and_flag demoEnv RuleTreeNode.zero _
      demoPolicy.portVarTable [] _ "80" IPPROTO_TCP true rfl).elim
    (fun po hp => ⟨po, hp.1, fun ht => ⟨(hp.2.2 ht).1, (hp.2.2 ht).2.2.1⟩⟩)⟩

/-- C15 at `alert tcp any any -> any ![80] (sid:4;)`. -/
theorem C15_witness :
    resolvePortObject pureNotEnv demoPolicy.portVarTable [] "![80]" IPPROTO_TCP =
      Except.ok ({ addr := 81, obj := notPort80 }, [{ addr := 81, obj := notPort80 }]) ∧
    PortObjectIsPureNot (some { addr := 81, obj := notPort80 }) = true ∧
    ParsePortList pureNotEnv RuleTreeNode.zero demoPolicy.portVarTable [] "![80]" IPPROTO_TCP
      true = Except.error ParseErrorMsg.pureNotPorts ∧
    ∃ e, parse_rule pureNotEnv demoState pureNotRule 1 (some 0) = Except.error e :=
  ⟨rfl, rfl,
   (C15_pure_not_ports_are_rejected pureNotEnv RuleTreeNode.zero demoPolicy.portVarTable [] _
      "![80]" IPPROTO_TCP true _ rfl rfl).1,
   (C15_pure_not_ports_are_rejected pureNotEnv RuleTreeNode.zero demoPolicy.portVarTable [] _
      "![80]" IPPROTO_TCP true _ rfl rfl).2.1 demoState "tcp" "any" "any" "->" "any"
      (some { enclosed := true, toks := [RuleTok.plain (SoTok.sid 4)] }) 1 (some 0) rfl rfl⟩

/-- C16 at the src token `80` of an ICMP rule. -/
theorem C16_witness :
    IPPROTO_ICMP ≠ IPPROTO_TCP ∧ IPPROTO_ICMP ≠ IPPROTO_UDP ∧
    ∃ rtn', ParsePortList demoEnv RuleTreeNode.zero demoPolicy.portVarTable [] "80"
        IPPROTO_ICMP false = Except.ok (rtn', []) ∧
      ((false : Bool) = false →
        rtn'.src_portobject = some { addr := 1, obj := anyPortObject } ∧
        rtn'.flags &&& ANY_SRC_PORT ≠ 0) ∧
      ((false : Bool) = true →
        rtn'.dst_portobject = some { addr := 1, obj := anyPortObject } ∧
        rtn'.flags &&& ANY_DST_PORT ≠ 0) :=
  ⟨by decide, by decide,
   ((C16_portless_protocols_resolve_to_any demoEnv RuleTreeNode.zero demoPolicy.portVarTable []
      "80" IPPROTO_ICMP false (by decide) (by decide)).2
      { addr := 1, obj := anyPortObject } rfl).2.2 rfl rfl⟩

/-- C17 at `alert tcp any any -> any 80 (sid:1; rev:1;)` parsed after the same
rule with `rev:2`. -/
theorem C17_witness :
    parse_rule demoEnv stateAfterOne (textRule80 1 1).args 1 (some 0) =
      Except.ok (endState stateAfterOne [Step.rule (textRule80 1 1)]) ∧
    OtnLookup stateAfterOne.sc.otn_map 1 1 = some demoStored ∧
    1 < demoStored.sigInfo.rev ∧
    (endState stateAfterOne [Step.rule (textRule80 1 1)]).rule_count = stateAfterOne.rule_count ∧
    (endState stateAfterOne [Step.rule (textRule80 1 1)]).port_list = stateAfterOne.port_list ∧
    (endState stateAfterOne [Step.rule (textRule80 1 1)]).sc.port_tables =
      stateAfterOne.sc.port_tables ∧
    (endState stateAfterOne [Step.rule (textRule80 1 1)]).tcpCnt = stateAfterOne.tcpCnt :=
  ⟨rfl, rfl, by decide,
   (C17_older_duplicate_changes_nothing demoEnv stateAfterOne _ (textRule80 1 1).args 1 (some 0)
      { generator := 1, id := 1, rev := 1, text_rule := true } demoStored rfl rfl rfl
      (by decide)).2.2.2.1,
   (C17_older_duplicate_changes_nothing demoEnv stateAfterOne _ (textRule80 1 1).args 1 (some 0)
      { generator := 1, id := 1, rev := 1, text_rule := true } demoStored rfl rfl rfl
      (by decide)).2.2.2.2.2.2.2.1,
   (C17_older_duplicate_changes_nothing demoEnv stateAfterOne _ (textRule80 1 1).args 1 (some 0)
      { generator := 1, id := 1, rev := 1, text_rule := true } demoStored rfl rfl rfl
      (by decide)).2.2.2.2.2.2.2.2.1,
   (C17_older_duplicate_changes_nothing demoEnv stateAfterOne _ (textRule80 1 1).args 1 (some 0)
      { generator := 1, id := 1, rev := 1, text_rule := true } demoStored rfl rfl rfl
      (by decide)).2.2.2.2.2.2.2.2.2.1⟩

/-- C19 (as stated, refuted): with strict mode off and a header stored for the
active policy, the UDP duplicate of the stored TCP signature `1:1` rev 2 does
not end in a warning: `mergeDuplicateOtn` raises a parse error for it, with the
lower revision 1 as with the higher revision 3. -/
theorem C19_counterexample :
    ¬ (stateAfterOne.sc.conf_error_out = false →
        getRtnFromOtn demoStored stateAfterOne.policy.policy_id ≠ none →
        (demoDraft 1).sigInfo.rev < demoStored.sigInfo.rev →
        ∃ r, mergeDuplicateOtn stateAfterOne demoStored
          { demoDraft 1 with proto := IPPROTO_UDP } 0 = Except.ok r) ∧
    ¬ (stateAfterOne.sc.conf_error_out = false →
        getRtnFromOtn demoStored stateAfterOne.policy.policy_id ≠ none →
        ¬ (demoDraft 3).sigInfo.rev < demoStored.sigInfo.rev →
        ∃ r, mergeDuplicateOtn stateAfterOne demoStored
          { demoDraft 3 with proto := IPPROTO_UDP } 0 = Except.ok r) := by
  have e1 : mergeDuplicateOtn stateAfterOne demoStored
      { demoDraft 1 with proto := IPPROTO_UDP } 0 =
        Except.error ParseErrorMsg.duplicateDifferentProtocol := rfl
  have e3 : mergeDuplicateOtn stateAfterOne demoStored
      { demoDraft 3 with proto := IPPROTO_UDP } 0 =
        Except.error ParseErrorMsg.duplicateDifferentProtocol := rfl
  constructor
  · intro h
    obtain ⟨r, hr⟩ := h rfl (by decide) (by decide)
    rw [e1] at hr
    cases hr
  · intro h
    obtain ⟨r, hr⟩ := h rfl (by decide) (by decide)
    rw [e3] at hr
    cases hr

/-- C19 at the stored signature `1:1` rev 2 and drafts of it with rev 1 and
rev 2, strict mode off and on. -/
theorem C19_witness :
    demoStored.proto = (demoDraft 1).proto ∧
    (∃ new' st', mergeDuplicateOtn stateAfterOne demoStored (demoDraft 1) 0 =
        Except.ok (0, new', st') ∧
      st'.warnings = stateAfterOne.warnings ++
        [ParseWarningMsg.duplicateUsingRevision demoStored.sigInfo.generator
          demoStored.sigInfo.id demoStored.sigInfo.rev]) ∧
    (∃ new' st', mergeDuplicateOtn stateAfterOne demoStored (demoDraft 2) 0 =
        Except.ok (1, new', st') ∧
      st'.warnings = stateAfterOne.warnings ++
        [ParseWarningMsg.duplicateUsingRevision (demoDraft 2).sigInfo.generator
          (demoDraft 2).sigInfo.id (demoDraft 2).sigInfo.rev]) ∧
    mergeDuplicateOtn strictStateAfterOne demoStored (demoDraft 2) 0 =
      Except.error ParseErrorMsg.duplicatesPreviousRule ∧
    mergeDuplicateOtn stateAfterOne demoStored { demoDraft 3 with proto := IPPROTO_UDP } 0 =
      Except.error ParseErrorMsg.duplicateDifferentProtocol :=
  ⟨rfl,
   ((C19_strict_mode_promotes_duplicate_warning stateAfterOne demoStored (demoDraft 1) 0).2.2 rfl
      (fun _ => rfl)).2.2.2 (by decide),
   ((C19_strict_mode_promotes_duplicate_warning stateAfterOne demoStored (demoDraft 2) 0).2.2 rfl
      (fun _ => rfl)).2.1 (by decide) (by decide) rfl,
   ((C19_strict_mode_promotes_duplicate_warning strictStateAfterOne demoStored (demoDraft 2) 0).2.2
      rfl (fun _ => rfl)).1 (by decide) (by decide) rfl,
   (C19_strict_mode_promotes_duplicate_warning stateAfterOne demoStored
      { demoDraft 3 with proto := IPPROTO_UDP } 0).1 (by decide)⟩

/-- C18 at the stored TCP signature `1:1` with a header of rule type 1: a UDP
draft of it, and a TCP draft of it under a header of rule type 2. -/
theorem C18_witness :
    mergeDuplicateOtn stateTwoTypes demoStored { demoDraft 3 with proto := IPPROTO_UDP } 0 =
      Except.error ParseErrorMsg.duplicateDifferentProtocol ∧
    mergeDuplicateOtn stateTwoTypes demoStored (demoDraft 1) 1 =
      Except.error ParseErrorMsg.duplicateDifferentType :=
  ⟨(C18_merge_rejects_protocol_or_type_conflict stateTwoTypes demoStored
      { demoDraft 3 with proto := IPPROTO_UDP } 0).1 (by decide),
   (C18_merge_rejects_protocol_or_type_conflict stateTwoTypes demoStored (demoDraft 1) 1).2 rfl
      0 (rtnAt stateTwoTypes 0) (rtnAt stateTwoTypes 1) rfl rfl rfl (by decide)⟩

/-- C20 at the option body `(rev:1;)`, which has no sid. -/
theorem C20_witness :
    ParseRuleOptions demoState 0
      (some { enclosed := true, toks := [RuleTok.plain (SoTok.rev 1)] }) IPPROTO_TCP true =
      Except.error ParseErrorMsg.mustContainRuleSid :=
  (C20_signature_without_sid_is_rejected demoState 0 IPPROTO_TCP true).2.2
    { enclosed := true, toks := [RuleTok.plain (SoTok.rev 1)] }
    { newOtn demoState IPPROTO_TCP true with
      sigInfo := { generator := 1, id := 0, rev := 1, text_rule := true } } 0
    rfl rfl rfl (by decide)

/-! ## Unknown protocols and the function chain -/

/-- C23: for every protocol value other than TCP, UDP, ICMP and the all-IP
pseudo protocol, `FinishPortListRule` returns -1 and the state it hands back is
the state it was given, so no port-group table and no per-protocol counter has
changed. -/
theorem C23_unknown_protocol_returns_minus_one (env : Collab) (st : ParseState)
    (rtn : RuleTreeNode) (otn : OptTreeNode) (proto : Int) (pe : port_entry_t)
    (h1 : proto ≠ IPPROTO_TCP) (h2 : proto ≠ IPPROTO_UDP) (h3 : proto ≠ IPPROTO_ICMP)
    (h4 : proto ≠ ETHERNET_TYPE_IP) :
    FinishPortListRule env st rtn otn proto pe = Except.ok (-1, st) ∧
    (∀ st', FinishPortListRule env st rtn otn proto pe = Except.ok (-1, st') →
      st'.sc.port_tables = st.sc.port_tables ∧ st'.tcpCnt = st.tcpCnt ∧
      st'.udpCnt = st.udpCnt ∧ st'.icmpCnt = st.icmpCnt ∧ st'.ipCnt = st.ipCnt) := by
  have hsel : selectProto proto = none := by
    unfold selectProto
    rw [if_neg h1, if_neg h2, if_neg h3, if_neg h4]
  have hres : FinishPortListRule env st rtn otn proto pe = Except.ok (-1, st) := by
    unfold FinishPortListRule
    rw [hsel]
  refine ⟨hres, ?_⟩
  intro st' h
  rw [hres] at h
  cases h
  exact ⟨rfl, rfl, rfl, rfl, rfl⟩

/-- C23 at protocol number 99. -/
theorem C23_witness :
    FinishPortListRule demoEnv demoState (headerAnyAny 99) (demoOtn 99) 99 (demoEntry 99) =
      Except.ok (-1, demoState) :=
  (C23_unknown_protocol_returns_minus_one demoEnv demoState (headerAnyAny 99) (demoOtn 99) 99
    (demoEntry 99) (by decide) (by decide) (by decide) (by decide)).1

/-- C24: for a header without `BIDIRECTIONAL` and with an empty function
chain, `SetupRTNFuncList` leaves every other field alone and builds the chain
out of, in this order: the dst-port check unless `ANY_DST_PORT` is set, the
src-port check unless `ANY_SRC_PORT` is set, `CheckSrcIP` unless `ANY_SRC_IP`
is set, `CheckDstIP` unless `ANY_DST_IP` is set, and one `RuleListEnd`; a port
check is the NotEq variant when the matching `EXCEPT_*_PORT` flag is set and
the Equal variant otherwise. -/
theorem C24_unidirectional_function_chain (rtn : RuleTreeNode)
    (hb : rtn.flags &&& BIDIRECTIONAL = 0) (he : rtn.rule_func = []) :
    SetupRTNFuncList rtn =
      { rtn with rule_func :=
        (if rtn.flags &&& ANY_DST_PORT ≠ 0 then []
         else if rtn.flags &&& EXCEPT_DST_PORT ≠ 0 then [RuleHeadFunc.CheckDstPortNotEq]
         else [RuleHeadFunc.CheckDstPortEqual]) ++
        (if rtn.flags &&& ANY_SRC_PORT ≠ 0 then []
         else if rtn.flags &&& EXCEPT_SRC_PORT ≠ 0 then [RuleHeadFunc.CheckSrcPortNotEq]
         else [RuleHeadFunc.CheckSrcPortEqual]) ++
        (if rtn.flags &&& ANY_SRC_IP ≠ 0 then [] else [RuleHeadFunc.CheckSrcIP]) ++
        (if rtn.flags &&& ANY_DST_IP ≠ 0 then [] else [RuleHeadFunc.CheckDstIP]) ++
        [RuleHeadFunc.RuleListEnd] } := by
  obtain ⟨rf, hn, ty, sip, dip, pr, sp, dp, fl, lh, rc⟩ := rtn
  dsimp only at hb he
  subst he
  unfold SetupRTNFuncList
  simp only [ne_eq, hb, not_true_eq_false, if_false]
  unfold PortToFunc AddrToFunc AddRuleFuncToList
  by_cases a1 : fl &&& ANY_DST_PORT = 0 <;> by_cases a2 : fl &&& EXCEPT_DST_PORT = 0 <;>
    by_cases a3 : fl &&& ANY_SRC_PORT = 0 <;> by_cases a4 : fl &&& EXCEPT_SRC_PORT = 0 <;>
    by_cases a5 : fl &&& ANY_SRC_IP = 0 <;> by_cases a6 : fl &&& ANY_DST_IP = 0 <;>
    simp [a1, a2, a3, a4, a5, a6]

/-- C24 at the header of `tcp any any -> any 80`, whose chain is the dst-port
check and the terminal. -/
theorem C24_witness :
    headerDst80.flags &&& BIDIRECTIONAL = 0 ∧ headerDst80.rule_func = [] ∧
    (SetupRTNFuncList headerDst80).rule_func =
      [RuleHeadFunc.CheckDstPortEqual, RuleHeadFunc.RuleListEnd] :=
  ⟨by decide, rfl,
   (congrArg RuleTreeNode.rule_func
      (C24_unidirectional_function_chain headerDst80 (by decide) rfl)).trans (by decide)⟩

/-- C25: for a header with `BIDIRECTIONAL` set and an empty function chain,
`SetupRTNFuncList` leaves every other field alone and builds exactly the chain
`[CheckBidirectional, RuleListEnd]`, whatever the other flags are. -/
theorem C25_bidirectional_function_chain (rtn : RuleTreeNode)
    (hb : rtn.flags &&& BIDIRECTIONAL ≠ 0) (he : rtn.rule_func = []) :
    SetupRTNFuncList rtn =
      { rtn with rule_func := [RuleHeadFunc.CheckBidirectional, RuleHeadFunc.RuleListEnd] } := by
  unfold SetupRTNFuncList
  simp only [if_pos hb]
  unfold AddRuleFuncToList
  simp [he]

/-- C25 at the header of `tcp any 80 <> any any`. -/
theorem C25_witness :
    headerBidirSrc80.flags &&& BIDIRECTIONAL ≠ 0 ∧ headerBidirSrc80.rule_func = [] ∧
    (SetupRTNFuncList headerBidirSrc80).rule_func =
      [RuleHeadFunc.CheckBidirectional, RuleHeadFunc.RuleListEnd] :=
  ⟨by decide, rfl,
   congrArg RuleTreeNode.rule_func
     (C25_bidirectional_function_chain headerBidirSrc80 (by decide) rfl)⟩

/-! ## Fast-pattern validation -/

theorem ValidateFastPatternLoop_cons (fp : Bool) (f : OptFpList) (rest : List OptFpList) :
    ValidateFastPatternLoop fp (f :: rest) =
      (fp && f.isRelative) :: ValidateFastPatternLoop (fpOnlyStep fp f) rest := by
  rw [ValidateFastPatternLoop]
  rfl

theorem fpOnlyStep_relevant (fp : Bool) (f : OptFpList)
    (h : (isContentOp f || isResetOp f) = true) :
    fpOnlyStep fp f = (isContentOp f && f.fast_pattern_only) := by
  unfold fpOnlyStep isContentOp isResetOp at *
  obtain ⟨ty, rel, fpo, http⟩ := f
  cases ty <;> simp at h ⊢

theorem fpOnlyStep_other (fp : Bool) (f : OptFpList)
    (h : (isContentOp f || isResetOp f) = false) : fpOnlyStep fp f = fp := by
  unfold fpOnlyStep isContentOp isResetOp at *
  obtain ⟨ty, rel, fpo, http⟩ := f
  cases ty <;> simp at h ⊢

/-- The `fp_only` bit after a run of operators is decided by the most recent
content or reset operator of the run. -/
theorem foldl_fpOnlyStep (fp : Bool) (l : List OptFpList) :
    l.foldl fpOnlyStep fp =
      match l.reverse.find? (fun g => isContentOp g || isResetOp g) with
      | some g => isContentOp g && g.fast_pattern_only
      | none => fp := by
  induction l using List.reverseRecOn with
  | nil => rfl
  | append_singleton l f ih =>
    rw [List.foldl_append, List.foldl_cons, List.foldl_nil, List.reverse_append,
      List.reverse_singleton, List.singleton_append, List.find?_cons]
    cases hr : (isContentOp f || isResetOp f) with
    | true =>
      dsimp only
      exact fpOnlyStep_relevant _ f hr
    | false =>
      dsimp only
      rw [fpOnlyStep_other _ f hr]
      exact ih

theorem ValidateFastPatternLoop_getElem? (fp : Bool) (l : List OptFpList) (i : Nat) :
    (ValidateFastPatternLoop fp l)[i]? =
      (l[i]?).map (fun f => (l.take i).foldl fpOnlyStep fp && f.isRelative) := by
  induction l generalizing fp i with
  | nil => simp [ValidateFastPatternLoop]
  | cons f rest ih =>
    rw [ValidateFastPatternLoop_cons]
    cases i with
    | zero => simp
    | succ j =>
      rw [List.getElem?_cons_succ, List.getElem?_cons_succ, ih, List.take_succ_cons,
        List.foldl_cons]

theorem ValidateFastPatternLoop_length (fp : Bool) (l : List OptFpList) :
    (ValidateFastPatternLoop fp l).length = l.length := by
  induction l generalizing fp with
  | nil => simp [ValidateFastPatternLoop]
  | cons f rest ih => rw [ValidateFastPatternLoop_cons, List.length_cons, ih, List.length_cons]

theorem ValidateFastPattern_warnings (st : ParseState) (otn : OptTreeNode) :
    ValidateFastPattern st otn =
      { st with warnings := (st.warnings ++
          List.replicate ((ValidateFastPatternLoop false otn.opt_func).count true)
            ParseWarningMsg.relativeAfterFastPatternOnly) } := by
  unfold ValidateFastPattern
  have hc : (ValidateFastPatternLoop false otn.opt_func).count true =
      ((ValidateFastPatternLoop false otn.opt_func).filter (fun b => b)).length := by
    rw [List.count, List.countP_eq_length_filter]
    congr 1
    apply List.filter_congr
    intro b _
    cases b <;> rfl
  rw [hc]
  generalize (ValidateFastPatternLoop false otn.opt_func).filter (fun b => b) = l
  induction l generalizing st with
  | nil => simp
  | cons b l ih =>
    rw [List.foldl_cons, ih]
    simp [ParseWarning, List.replicate_succ]

/-- C26: the loop of `ValidateFastPattern` visits every operator once, and it
warns at position `i` exactly when the rule of the specification says so: the
operator there is relative and the most recent operator before it among the
content and reset kinds exists and is a `CONTENT` or `CONTENT_URI` marked
fast-pattern-only.  It never warns at the first operator, and all
`ValidateFastPattern` does is to append one warning per such position to the
log: the state is otherwise the same and the signature is not touched. -/
theorem C26_fast_pattern_warning_positions (st : ParseState) (otn : OptTreeNode) :
    (ValidateFastPatternLoop false otn.opt_func).length = otn.opt_func.length ∧
    (∀ i, (ValidateFastPatternLoop false otn.opt_func)[i]? = some true ↔
      warnsAtSpec otn.opt_func i = true) ∧
    (ValidateFastPatternLoop false otn.opt_func)[0]? ≠ some true ∧
    ValidateFastPattern st otn =
      { st with warnings := (st.warnings ++
          List.replicate ((ValidateFastPatternLoop false otn.opt_func).count true)
            ParseWarningMsg.relativeAfterFastPatternOnly) } := by
  have hiff : ∀ i, (ValidateFastPatternLoop false otn.opt_func)[i]? = some true ↔
      warnsAtSpec otn.opt_func i = true := by
    intro i
    rw [ValidateFastPatternLoop_getElem?, foldl_fpOnlyStep]
    unfold warnsAtSpec
    cases hf : otn.opt_func[i]? with
    | none => simp
    | some f =>
      simp only [Option.map_some', Option.some.injEq]
      cases hg : (List.take i otn.opt_func).reverse.find? (fun g => isContentOp g || isResetOp g)
        <;> simp [Bool.and_comm]
  refine ⟨ValidateFastPatternLoop_length _ _, hiff, ?_, ValidateFastPattern_warnings st otn⟩
  rw [Ne, hiff]
  unfold warnsAtSpec
  cases otn.opt_func[0]? <;> simp

/-! ## Header installation and address resolution -/

theorem PortToFunc_chain (r : RuleTreeNode) (a e : Int) (m : Mode) :
    ∃ c, PortToFunc r a e m = { r with rule_func := c } := by
  unfold PortToFunc AddRuleFuncToList
  split_ifs <;> cases m <;> exact ⟨_, rfl⟩

theorem AddrToFunc_chain (r : RuleTreeNode) (m : Mode) :
    ∃ c, AddrToFunc r m = { r with rule_func := c } := by
  unfold AddrToFunc AddRuleFuncToList
  cases m <;> dsimp only <;> split_ifs <;> exact ⟨_, rfl⟩

theorem SetupRTNFuncList_chain (r : RuleTreeNode) :
    ∃ c, SetupRTNFuncList r = { r with rule_func := c } := by
  unfold SetupRTNFuncList
  dsimp only
  by_cases hb : r.flags &&& BIDIRECTIONAL ≠ 0
  · rw [if_pos hb]
    exact ⟨_, rfl⟩
  · rw [if_neg hb]
    obtain ⟨c1, h1⟩ := PortToFunc_chain r (if r.flags &&& ANY_DST_PORT ≠ 0 then 1 else 0)
      (if r.flags &&& EXCEPT_DST_PORT ≠ 0 then 1 else 0) Mode.DST
    rw [h1]
    obtain ⟨c2, h2⟩ := PortToFunc_chain { r with rule_func := c1 }
      (if r.flags &&& ANY_SRC_PORT ≠ 0 then 1 else 0)
      (if r.flags &&& EXCEPT_SRC_PORT ≠ 0 then 1 else 0) Mode.SRC
    rw [h2]
    obtain ⟨c3, h3⟩ := AddrToFunc_chain { r with rule_func := c2 } Mode.SRC
    rw [h3]
    obtain ⟨c4, h4⟩ := AddrToFunc_chain { r with rule_func := c3 } Mode.DST
    rw [h4]
    exact ⟨_, rfl⟩

/-- C27: when `findHeadNode` finds a header for the active policy,
`ProcessHeadNode` returns its address, the node is in the heap and matches the
draft under `TestHeader`, its reference count has grown by exactly 1 and
nothing else of the state, `head_count` included, has changed.  When it finds
none, `ProcessHeadNode` returns the address of a node appended to the heap that
carries the type, proto, flags, address sets and port objects of the draft,
with `listhead` the given list, reference count 1 and `head_node_number` equal
to the new `head_count`, which is the old one plus 1. -/
theorem C27_ProcessHeadNode_reuses_or_installs (st : ParseState) (t : RuleTreeNode)
    (list : Option Nat) :
    (∀ a, findHeadNode st t st.policy.policy_id = some a →
      ∃ n, st.rtn_heap[a]? = some n ∧ TestHeader (some n) (some t) ≠ 0 ∧
        ProcessHeadNode st t list =
          (a, { st with
                rtn_heap := st.rtn_heap.set a { n with otnRefCount := n.otnRefCount + 1 } })) ∧
    (findHeadNode st t st.policy.policy_id = none →
      ∃ node, ProcessHeadNode st t list =
          (st.rtn_heap.length,
            { st with head_count := st.head_count + 1, rtn_heap := st.rtn_heap ++ [node] }) ∧
        node.type = t.type ∧ node.proto = t.proto ∧ node.flags = t.flags ∧
        node.sip = t.sip ∧ node.dip = t.dip ∧
        node.src_portobject = t.src_portobject ∧ node.dst_portobject = t.dst_portobject ∧
        node.listhead = list ∧ node.otnRefCount = 1 ∧
        node.head_node_number = st.head_count + 1) := by
  constructor
  · intro a ha
    obtain ⟨_, n, hn, ht⟩ := findHeadNode_some ha
    refine ⟨n, hn, ht, ?_⟩
    unfold ProcessHeadNode
    rw [ha]
    dsimp only
    rw [hn]
  · intro hnone
    unfold ProcessHeadNode
    rw [hnone]
    dsimp only
    refine ⟨_, rfl, ?_⟩
    obtain ⟨c, hc⟩ := SetupRTNFuncList_chain
      { XferHeader t { RuleTreeNode.zero with otnRefCount := RuleTreeNode.zero.otnRefCount + 1 }
        with head_node_number := st.head_count + 1 }
    rw [hc]
    exact ⟨rfl, rfl, rfl, rfl, rfl, rfl, rfl, rfl, rfl, rfl⟩

theorem or_pow_testBit_self (f k : Nat) : (f ||| 2 ^ k).testBit k = true := by
  rw [Nat.testBit_or, Nat.testBit_two_pow_self]
  simp

/-- Closed form of `ProcessIP`. -/
theorem ProcessIP_eq (env : Collab) (addr : String) (rtn : RuleTreeNode) (mode : Mode) :
    ProcessIP env addr rtn mode =
      if (resolveIP env addr (addrSetOf rtn mode)).1 ≠ SFIP_RET.SFIP_SUCCESS then
        Except.error (ipStatusError (resolveIP env addr (addrSetOf rtn mode)).1)
      else
        match (resolveIP env addr (addrSetOf rtn mode)).2 with
        | none => Except.error ParseErrorMsg.emptyIpList
        | some a =>
            if a.head = [] ∧ a.neg_head = [] then Except.error ParseErrorMsg.emptyIpList
            else Except.ok (withAddrSet rtn mode a) := by
  cases mode
  · unfold ProcessIP addrSetOf withAddrSet
    dsimp only
    by_cases hr : (resolveIP env addr rtn.sip).1 ≠ SFIP_RET.SFIP_SUCCESS
    · rw [if_pos hr, if_pos hr]
    · rw [if_neg hr, if_neg hr]
      cases hs : (resolveIP env addr rtn.sip).2 with
      | none => simp [headIsAny, ValidateIPList]
      | some a =>
        by_cases hany : headIsAny (some a) = true <;>
          by_cases he : a.head = [] ∧ a.neg_head = [] <;>
          simp [hany, he, ValidateIPList]
  · unfold ProcessIP addrSetOf withAddrSet
    dsimp only
    by_cases hr : (resolveIP env addr rtn.dip).1 ≠ SFIP_RET.SFIP_SUCCESS
    · rw [if_pos hr, if_pos hr]
    · rw [if_neg hr, if_neg hr]
      cases hs : (resolveIP env addr rtn.dip).2 with
      | none => simp [headIsAny, ValidateIPList]
      | some a =>
        by_cases hany : headIsAny (some a) = true <;>
          by_cases he : a.head = [] ∧ a.neg_head = [] <;>
          simp [hany, he, ValidateIPList]

/-- C28: `ProcessIP` succeeds exactly when the address resolution returns
`SFIP_SUCCESS` and the resulting set is neither null nor empty (positive and
negated list both empty); the header it then returns has that set as `sip`
(mode SRC) or `dip` (mode DST), has `ANY_SRC_IP` (respectively `ANY_DST_IP`)
set when the head of the positive list is flagged `any`, and has the address
set of the other side, every other flag bit and every other field unchanged.
Every other status raises a parse error: "Undefined variable" for a lookup
failure, "Negated IP ranges ..." for a conflict, "!any is not allowed" for
`SFIP_NOT_ANY`, and "Unable to process the IP address" for the rest; an empty
set raises "Empty IP used ...". -/
theorem C28_ProcessIP_succeeds_or_raises (env : Collab) (addr : String) (rtn : RuleTreeNode)
    (mode : Mode) :
    (∀ rtn', ProcessIP env addr rtn mode = Except.ok rtn' ↔
      (resolveIP env addr (addrSetOf rtn mode)).1 = SFIP_RET.SFIP_SUCCESS ∧
      ∃ a, (resolveIP env addr (addrSetOf rtn mode)).2 = some a ∧
        ¬ (a.head = [] ∧ a.neg_head = []) ∧ rtn' = withAddrSet rtn mode a) ∧
    ((resolveIP env addr (addrSetOf rtn mode)).1 ≠ SFIP_RET.SFIP_SUCCESS →
      ProcessIP env addr rtn mode =
        Except.error (ipStatusError (resolveIP env addr (addrSetOf rtn mode)).1)) ∧
    ((resolveIP env addr (addrSetOf rtn mode)).1 = SFIP_RET.SFIP_SUCCESS →
      (∀ a, (resolveIP env addr (addrSetOf rtn mode)).2 = some a →
        a.head = [] ∧ a.neg_head = []) →
      ProcessIP env addr rtn mode = Except.error ParseErrorMsg.emptyIpList) ∧
    (ipStatusError SFIP_RET.SFIP_LOOKUP_FAILURE = ParseErrorMsg.undefinedVariable ∧
      ipStatusError SFIP_RET.SFIP_CONFLICT = ParseErrorMsg.negatedRangeConflict ∧
      ipStatusError SFIP_RET.SFIP_NOT_ANY = ParseErrorMsg.notAnyNotAllowed ∧
      ipStatusError SFIP_RET.SFIP_FAILURE = ParseErrorMsg.unableToProcessIp ∧
      ipStatusError SFIP_RET.SFIP_EQUAL = ParseErrorMsg.unableToProcessIp) ∧
    (∀ a,
      (withAddrSet rtn Mode.SRC a).sip = some a ∧
      (withAddrSet rtn Mode.SRC a).dip = rtn.dip ∧
      (headIsAny (some a) = true → (withAddrSet rtn Mode.SRC a).flags.testBit 8 = true) ∧
      (∀ i, i ≠ 8 → (withAddrSet rtn Mode.SRC a).flags.testBit i = rtn.flags.testBit i) ∧
      withAddrSet rtn Mode.SRC a =
        { rtn with sip := some a, flags := (withAddrSet rtn Mode.SRC a).flags } ∧
      (withAddrSet rtn Mode.DST a).dip = some a ∧
      (withAddrSet rtn Mode.DST a).sip = rtn.sip ∧
      (headIsAny (some a) = true → (withAddrSet rtn Mode.DST a).flags.testBit 9 = true) ∧
      (∀ i, i ≠ 9 → (withAddrSet rtn Mode.DST a).flags.testBit i = rtn.flags.testBit i) ∧
      withAddrSet rtn Mode.DST a =
        { rtn with dip := some a, flags := (withAddrSet rtn Mode.DST a).flags }) := by
  refine ⟨?_, ?_, ?_, ⟨rfl, rfl, rfl, rfl, rfl⟩, ?_⟩
  · intro rtn'
    rw [ProcessIP_eq]
    by_cases hr : (resolveIP env addr (addrSetOf rtn mode)).1 = SFIP_RET.SFIP_SUCCESS
    · rw [if_neg (not_not.mpr hr)]
      cases hs : (resolveIP env addr (addrSetOf rtn mode)).2 with
      | none => simp
      | some a =>
        dsimp only
        by_cases he : a.head = [] ∧ a.neg_head = []
        · rw [if_pos he]
          constructor
          · intro h; cases h
          · rintro ⟨_, a', ha', hne, _⟩
            cases ha'
            exact absurd he hne
        · rw [if_neg he]
          constructor
          · intro h
            cases h
            exact ⟨hr, a, rfl, he, rfl⟩
          · rintro ⟨_, a', ha', _, hrt⟩
            cases ha'
            rw [hrt]
    · rw [if_pos hr]
      constructor
      · intro h; cases h
      · rintro ⟨h, _⟩
        exact absurd h hr
  · intro hr
    rw [ProcessIP_eq, if_pos hr]
  · intro hr hempty
    rw [ProcessIP_eq, if_neg (not_not.mpr hr)]
    cases hs : (resolveIP env addr (addrSetOf rtn mode)).2 with
    | none => rfl
    | some a =>
      dsimp only
      rw [if_pos (hempty a hs)]
  · intro a
    unfold withAddrSet
    dsimp only
    refine ⟨rfl, rfl, ?_, ?_, rfl, rfl, rfl, ?_, ?_, rfl⟩
    · intro h
      rw [if_pos h]
      exact or_pow_testBit_self rtn.flags 8
    · intro i hi
      split
      · exact or_pow_testBit rtn.flags 8 i hi
      · rfl
    · intro h
      rw [if_pos h]
      exact or_pow_testBit_self rtn.flags 9
    · intro i hi
      split
      · exact or_pow_testBit rtn.flags 9 i hi
      · rfl

/-! ## Options handled by the loops, rule indices and built-in rules -/

@[simp] theorem otnBody_addRtnToOtn (o : OptTreeNode) (a q : Nat) :
    otnBody (addRtnToOtn o a q) = otnBody o := by
  unfold addRtnToOtn
  dsimp only
  split <;> rfl

@[simp] theorem otnBody_deleteRtnFromOtn (o : OptTreeNode) (q : Nat) :
    otnBody (deleteRtnFromOtn o q).2 = otnBody o := by
  unfold deleteRtnFromOtn
  split_ifs <;> rfl

theorem otnBody_migrateStep (p : Nat) (acc : OptTreeNode × OptTreeNode) (i : Nat) :
    otnBody (migrateStep p acc i).1 = otnBody acc.1 ∧
    otnBody (migrateStep p acc i).2 = otnBody acc.2 := by
  unfold migrateStep
  dsimp only
  split
  · split_ifs <;> simp
  · simp

theorem otnBody_migrateRtns (p : Nat) (cur new : OptTreeNode) :
    otnBody (migrateRtns p cur new).1 = otnBody cur ∧
    otnBody (migrateRtns p cur new).2 = otnBody new := by
  unfold migrateRtns
  generalize List.range cur.proto_node_num = l
  suffices H : ∀ (l : List Nat) (acc : OptTreeNode × OptTreeNode),
      otnBody (l.foldl (migrateStep p) acc).1 = otnBody acc.1 ∧
      otnBody (l.foldl (migrateStep p) acc).2 = otnBody acc.2 from H l (cur, new)
  intro l
  induction l with
  | nil => intro acc; exact ⟨rfl, rfl⟩
  | cons i l ih =>
    intro acc
    rw [List.foldl_cons]
    obtain ⟨h1, h2⟩ := ih (migrateStep p acc i)
    obtain ⟨s1, s2⟩ := otnBody_migrateStep p acc i
    exact ⟨h1.trans s1, h2.trans s2⟩

theorem ruleIndexMap_Destroy (st : ParseState) (r : Option Nat) :
    (DestroyRuleTreeNode st r).ruleIndexMap = st.ruleIndexMap := by
  unfold DestroyRuleTreeNode
  split
  · rfl
  · split <;> rfl

/-- Deduplication hands the new signature back with nothing but its header
array changed, and leaves the rule-index map alone. -/
theorem mergeDuplicateOtn_body {st : ParseState} {cur new : OptTreeNode} {rtn : Nat}
    {ret : Int} {new' : OptTreeNode} {st' : ParseState}
    (h : mergeDuplicateOtn st cur new rtn = Except.ok (ret, new', st')) :
    otnBody new' = otnBody new ∧ st'.ruleIndexMap = st.ruleIndexMap := by
  unfold mergeDuplicateOtn at h
  dsimp only at h
  split_ifs at h
  all_goals
    simp only [Except.ok.injEq, Prod.mk.injEq] at h
    obtain ⟨_, hn, hs⟩ := h
    subst hs
    subst hn
  · refine ⟨by simp, ?_⟩
    split
    · rfl
    · rw [ruleIndexMap_Destroy]
      rfl
  all_goals
    refine ⟨(otnBody_migrateRtns _ _ _).2, ?_⟩
    rw [ruleIndexMap_Destroy]
    rfl

theorem ruleIndexMap_ValidateFastPattern (st : ParseState) (otn : OptTreeNode) :
    (ValidateFastPattern st otn).ruleIndexMap = st.ruleIndexMap := by
  rw [ValidateFastPattern_warnings]

theorem storeOtn_body (st : ParseState) (otn : OptTreeNode) (n : Int) :
    (storeOtn st otn n).1 =
      { otn with
        num_detection_opts := otn.num_detection_opts + n
        opt_func := otn.opt_func ++ [leafNode] } ∧
    (storeOtn st otn n).2.ruleIndexMap = st.ruleIndexMap := by
  unfold storeOtn
  dsimp only
  refine ⟨rfl, ?_⟩
  show (ValidateFastPattern _ _).ruleIndexMap = _
  rw [ruleIndexMap_ValidateFastPattern]
  split <;> rfl

/-- The signature `ParseRuleOptions` returns and the rule-index map it
leaves, in terms of the signature the option loops produced. -/
theorem ParseRuleOptions_result {st : ParseState} {rtn : Nat} {rule_opts : Option RuleOpts}
    {protocol : Int} {text : Bool} {res : Option OptTreeNode} {st' : ParseState}
    (h : ParseRuleOptions st rtn rule_opts protocol text = Except.ok (res, st')) :
    ∃ ro otn n, rule_opts = some ro ∧ ro.enclosed = true ∧
      parseOptionLoops (newOtn st protocol text) ro.toks = Except.ok (otn, n) ∧
      ¬ (n > 0 ∧ otn.sigInfo.text_rule = false) ∧
      ((∃ cur, OtnLookup st.sc.otn_map otn.sigInfo.generator otn.sigInfo.id = some cur ∧
          st'.ruleIndexMap = st.ruleIndexMap ∧
          ∀ o, res = some o →
            o.ruleIndex = cur.ruleIndex ∧ o.opt_func = otn.opt_func ++ [leafNode] ∧
            o.num_detection_opts = otn.num_detection_opts + n) ∨
       (OtnLookup st.sc.otn_map otn.sigInfo.generator otn.sigInfo.id = none ∧
          ∃ o, res = some o ∧
            o.ruleIndex =
              (RuleIndexMapAdd st.ruleIndexMap otn.sigInfo.generator otn.sigInfo.id).1 ∧
            st'.ruleIndexMap =
              (RuleIndexMapAdd st.ruleIndexMap otn.sigInfo.generator otn.sigInfo.id).2 ∧
            o.opt_func = otn.opt_func ++ [leafNode] ∧
            o.num_detection_opts = otn.num_detection_opts + n)) := by
  unfold ParseRuleOptions at h
  dsimp only at h
  split at h
  · cases h
  · rename_i ro
    split_ifs at h with henc
    split at h
    · cases h
    · rename_i otn n hloops
      split_ifs at h with hb hid
      refine ⟨ro, otn, n, rfl, by simpa using henc, hloops, hb, ?_⟩
      have hbody : otnBody (addRtnToOtn otn rtn st.policy.policy_id) = otnBody otn :=
        otnBody_addRtnToOtn _ _ _
      simp only [otnBody, Prod.mk.injEq] at hbody
      obtain ⟨e1, _, _, e4, _, _, e7⟩ := hbody
      rw [e4] at h
      split at h
      · rename_i cur hcur
        split at h
        · cases h
        · rename_i ret new' st1 hm
          obtain ⟨m1, m2⟩ := mergeDuplicateOtn_body hm
          simp only [otnBody, Prod.mk.injEq] at m1
          obtain ⟨f1, _, _, _, _, f6, f7⟩ := m1
          split_ifs at h with hret
          · cases h
            exact Or.inl ⟨cur, hcur, m2, fun o ho => by cases ho⟩
          · cases h
            refine Or.inl ⟨cur, hcur, ?_, ?_⟩
            · rw [(storeOtn_body _ _ _).2, m2]
            · intro o ho
              cases ho
              rw [(storeOtn_body _ _ _).1]
              dsimp only
              exact ⟨f6, by rw [f1, e1], by rw [f7, e7]⟩
      · rename_i hnone
        cases h
        refine Or.inr ⟨hnone, _, rfl, ?_, ?_, ?_, ?_⟩
        · rw [(storeOtn_body _ _ _).1]
        · rw [(storeOtn_body _ _ _).2]
        · rw [(storeOtn_body _ _ _).1]
          dsimp only
          rw [e1]
        · rw [(storeOtn_body _ _ _).1]
          dsimp only
          rw [e7]

/-- C29: when `ParseRuleOptions` returns, and the `(gid, sid)` the options
gave the signature is in the signature map, the rule-index map is unchanged
(`RuleIndexMapAdd` was not called) and a signature that is returned, the kept
newer revision, has the `ruleIndex` of the stored one; when the `(gid, sid)`
is not in the map, a signature is returned and its `ruleIndex` and the new
rule-index map are what `RuleIndexMapAdd` gives for `(gid, sid)`. -/
theorem C29_rule_index_is_reused_for_duplicates (st : ParseState) (rtn : Nat)
    (rule_opts : Option RuleOpts) (protocol : Int) (text : Bool) (res : Option OptTreeNode)
    (st' : ParseState)
    (h : ParseRuleOptions st rtn rule_opts protocol text = Except.ok (res, st')) :
    ∃ ro otn n, rule_opts = some ro ∧
      parseOptionLoops (newOtn st protocol text) ro.toks = Except.ok (otn, n) ∧
      (∀ cur, OtnLookup st.sc.otn_map otn.sigInfo.generator otn.sigInfo.id = some cur →
        st'.ruleIndexMap = st.ruleIndexMap ∧
        ∀ o, res = some o → o.ruleIndex = cur.ruleIndex) ∧
      (OtnLookup st.sc.otn_map otn.sigInfo.generator otn.sigInfo.id = none →
        ∃ o, res = some o ∧
          (o.ruleIndex, st'.ruleIndexMap) =
            RuleIndexMapAdd st.ruleIndexMap otn.sigInfo.generator otn.sigInfo.id) := by
  obtain ⟨ro, otn, n, hro, _, hloops, _, hc⟩ := ParseRuleOptions_result h
  refine ⟨ro, otn, n, hro, hloops, ?_, ?_⟩
  · intro cur hcur
    rcases hc with ⟨cur', hcur', hm, ho⟩ | ⟨hnone, _⟩
    · rw [hcur] at hcur'
      cases hcur'
      exact ⟨hm, fun o hres => (ho o hres).1⟩
    · rw [hcur] at hnone
      cases hnone
  · intro hnone
    rcases hc with ⟨cur', hcur', _⟩ | ⟨_, o, ho, h1, h2, _⟩
    · rw [hnone] at hcur'
      cases hcur'
    · exact ⟨o, ho, by rw [h1, h2]⟩

/-- C29 at the options `(sid:1; rev:3;)` parsed when the map holds `1:1` with
rev 2: the signature that is returned has the rule index of the stored one. -/
theorem C29_witness :
    ParseRuleOptions stateAfterOne 0 (some bodySid1Rev3) IPPROTO_TCP true =
      Except.ok (optionsDemo.1, optionsDemo.2) ∧
    optionsDemo.1.map OptTreeNode.ruleIndex = some demoStored.ruleIndex ∧
    ∃ ro otn n, some bodySid1Rev3 = some ro ∧
      parseOptionLoops (newOtn stateAfterOne IPPROTO_TCP true) ro.toks = Except.ok (otn, n) ∧
      (∀ cur, OtnLookup stateAfterOne.sc.otn_map otn.sigInfo.generator otn.sigInfo.id =
          some cur →
        optionsDemo.2.ruleIndexMap = stateAfterOne.ruleIndexMap ∧
        ∀ o, optionsDemo.1 = some o → o.ruleIndex = cur.ruleIndex) ∧
      (OtnLookup stateAfterOne.sc.otn_map otn.sigInfo.generator otn.sigInfo.id = none →
        ∃ o, optionsDemo.1 = some o ∧
          (o.ruleIndex, optionsDemo.2.ruleIndexMap) =
            RuleIndexMapAdd stateAfterOne.ruleIndexMap otn.sigInfo.generator otn.sigInfo.id) :=
  ⟨rfl, by decide,
   C29_rule_index_is_reused_for_duplicates stateAfterOne 0 (some bodySid1Rev3) IPPROTO_TCP true
     optionsDemo.1 optionsDemo.2 rfl⟩

/-! ## Built-in rules and the counters on replacement -/

/-- C22 (the code): for every rule string that begins with `(`, the header
`parse_rule` drafts has the five flags, the rule type and text flag false, and
the protocol handed to the signature is TCP, but the `proto` field of the
draft header is left at 0.  For the built-in rule `(sid:1; rev:1;)` the
canonical header in the heap therefore has `proto = 0`, which is not
`IPPROTO_TCP`, while the signature bound to it has protocol TCP. -/
theorem C22_builtin_header_proto_is_zero :
    (∀ (env : Collab) (st : ParseState) (ro : RuleOpts) (rule_type : Int),
      ∃ hd, parseHeader env st (RuleArgs.builtin ro) rule_type = Except.ok hd ∧
        hd.text = false ∧ hd.protocol = IPPROTO_TCP ∧ hd.roptions = some ro ∧
        hd.test_rtn.flags =
          ANY_SRC_IP ||| ANY_DST_IP ||| ANY_SRC_PORT ||| ANY_DST_PORT ||| BIDIRECTIONAL ∧
        hd.test_rtn.type = rule_type ∧ hd.test_rtn.proto = 0) ∧
    (∃ st, ingest demoState [Step.rule (builtinRule 1 1)] = Except.ok st ∧
      st.rtn_heap.map (fun n => (n.proto, n.flags)) =
        [(0, ANY_SRC_IP ||| ANY_DST_IP ||| ANY_SRC_PORT ||| ANY_DST_PORT ||| BIDIRECTIONAL)] ∧
      st.sc.otn_map.map (fun o => (o.proto, o.sigInfo.text_rule, getRtnFromOtn o 0)) =
        [(IPPROTO_TCP, false, some 0)]) ∧
    (0 : Int) ≠ IPPROTO_TCP := by
  refine ⟨?_, ⟨endState demoState [Step.rule (builtinRule 1 1)], rfl, by decide, by decide⟩,
    by decide⟩
  intro env st ro rule_type
  refine ⟨_, rfl, rfl, rfl, rfl, ?_, rfl, rfl⟩
  show (((((RuleTreeNode.zero.flags ||| ANY_DST_PORT) ||| ANY_SRC_PORT) ||| ANY_DST_IP) |||
    ANY_SRC_IP) ||| BIDIRECTIONAL) = _
  decide

/-- C30 (the code): the counter `mergeDuplicateOtn` decrements on a
replacement is chosen by the kind of the new signature.  When a text rule is
stored with a header for the active policy and a built-in rule with the same
`(gid, sid)` and a revision that is not lower replaces it,
`builtin_rule_count` is decremented and `detect_rule_count` is not; the
session of the text rule `1:1` rev 1 followed by the built-in rule `1:1` rev 2
ends with a single built-in signature in the map, `detect_rule_count = 1` and
`builtin_rule_count = 0`. -/
theorem C30_decrement_follows_new_signature :
    (∀ (st : ParseState) (cur new : OptTreeNode) (rtn : Nat) (ret : Int) (new' : OptTreeNode)
        (st' : ParseState),
      mergeDuplicateOtn st cur new rtn = Except.ok (ret, new', st') →
      ¬ new.sigInfo.rev < cur.sigInfo.rev →
      getRtnFromOtn cur st.policy.policy_id ≠ none →
      cur.sigInfo.text_rule = true → new.sigInfo.text_rule = false →
      st'.detect_rule_count = st.detect_rule_count ∧
      st'.builtin_rule_count = st.builtin_rule_count - 1) ∧
    (∃ st, ingest demoState sessionTextThenBuiltin = Except.ok st ∧
      st.sc.otn_map.map (fun o => o.sigInfo) =
        [{ generator := 1, id := 1, rev := 2, text_rule := false }] ∧
      st.detect_rule_count = 1 ∧ st.builtin_rule_count = 0) := by
  refine ⟨?_, ⟨endState demoState sessionTextThenBuiltin, rfl, by decide, by decide, by decide⟩⟩
  intro st cur new rtn ret new' st' h hrev hcur _ hnew
  obtain ⟨_, _, _, _, _, hc⟩ := mergeDuplicateOtn_spec h
  rcases hc with ⟨hlt, _⟩ | ⟨_, _, _, _, _, _, hd, hb⟩
  · exact absurd hlt hrev
  · rw [hd, hb]
    simp [hcur, hnew]

/-- C26 at a content operator marked fast-pattern-only followed by a relative
operator: the warning is at position 1. -/
theorem C26_witness :
    warnsAtSpec opsFpOnlyThenRelative 1 = true ∧
    (ValidateFastPatternLoop false opsFpOnlyThenRelative)[1]? = some true :=
  ⟨by decide,
   ((C26_fast_pattern_warning_positions demoState
      { demoOtn IPPROTO_TCP with opt_func := opsFpOnlyThenRelative }).2.1 1).mpr (by decide)⟩

/-- C27 at the draft header of `tcp any any -> any 80` in a state without
headers. -/
theorem C27_witness :
    findHeadNode demoState headerDst80 demoState.policy.policy_id = none ∧
    ∃ node, ProcessHeadNode demoState headerDst80 (some 0) =
        (demoState.rtn_heap.length,
          { demoState with
            head_count := demoState.head_count + 1, rtn_heap := demoState.rtn_heap ++ [node] }) ∧
      node.type = headerDst80.type ∧ node.proto = headerDst80.proto ∧
      node.flags = headerDst80.flags ∧ node.sip = headerDst80.sip ∧
      node.dip = headerDst80.dip ∧
      node.src_portobject = headerDst80.src_portobject ∧
      node.dst_portobject = headerDst80.dst_portobject ∧
      node.listhead = some 0 ∧ node.otnRefCount = 1 ∧
      node.head_node_number = demoState.head_count + 1 :=
  ⟨rfl, (C27_ProcessHeadNode_reuses_or_installs demoState headerDst80 (some 0)).2 rfl⟩

/-- C28 at the source address `any` and a blank draft header. -/
theorem C28_witness :
    ProcessIP demoEnv "any" RuleTreeNode.zero Mode.SRC =
      Except.ok (withAddrSet RuleTreeNode.zero Mode.SRC anyAddrSet) ∧
    (withAddrSet RuleTreeNode.zero Mode.SRC anyAddrSet).flags = ANY_SRC_IP :=
  ⟨((C28_ProcessIP_succeeds_or_raises demoEnv "any" RuleTreeNode.zero Mode.SRC).1 _).mpr
      ⟨rfl, anyAddrSet, rfl, by decide, rfl⟩,
   by decide⟩

/-! ## Header comparison as a relation -/

/-- C36 (as stated, refuted): `TestHeader` is not transitive on non-null
headers.  A header with source address set `any` matches the header without
address sets, which matches the header with the source address set of one
host, but the first and the third do not match. -/
theorem C36_counterexample :
    ¬ (TestHeader (some headerSrcAny) (some headerNoAddr) = 1 →
        TestHeader (some headerNoAddr) (some headerSrcHost) = 1 →
        TestHeader (some headerSrcAny) (some headerSrcHost) = 1) := by
  decide

theorem sfvar_compare_refl (a : Option sfip_var_t) :
    sfvar_compare a a = SFIP_RET.SFIP_EQUAL := by
  cases a <;> simp [sfvar_compare]

theorem sfvar_compare_trans {a b c : Option sfip_var_t}
    (h1 : sfvar_compare a b = SFIP_RET.SFIP_EQUAL) (h2 : sfvar_compare b c = SFIP_RET.SFIP_EQUAL) :
    sfvar_compare a c = SFIP_RET.SFIP_EQUAL := by
  cases a <;> cases b <;> cases c <;> simp [sfvar_compare] at h1 h2 ⊢
  exact ⟨h1.1.trans h2.1, h1.2.trans h2.2⟩

theorem HeaderFieldsMatch_refl (a : RuleTreeNode) : HeaderFieldsMatch a a :=
  ⟨rfl, rfl, rfl, rfl, Or.inr (Or.inr (sfvar_compare_refl _)),
    Or.inr (Or.inr (sfvar_compare_refl _)), rfl, rfl⟩

theorem HeaderFieldsMatch_trans {a b c : RuleTreeNode} (hs : b.sip ≠ none) (hd : b.dip ≠ none)
    (h1 : HeaderFieldsMatch a b) (h2 : HeaderFieldsMatch b c) : HeaderFieldsMatch a c := by
  obtain ⟨a1, a2, a3, a4, a5, a6, a7, a8⟩ := h1
  obtain ⟨b1, b2, b3, b4, b5, b6, b7, b8⟩ := h2
  refine ⟨a1.trans b1, a2.trans b2, a3.trans b3, a4.trans b4, ?_, ?_, a7.trans b7, a8.trans b8⟩
  · rcases a5 with h | h | h
    · exact Or.inl h
    · exact absurd h hs
    · rcases b5 with g | g | g
      · exact absurd g hs
      · exact Or.inr (Or.inl g)
      · exact Or.inr (Or.inr (sfvar_compare_trans h g))
  · rcases a6 with h | h | h
    · exact Or.inl h
    · exact absurd h hd
    · rcases b6 with g | g | g
      · exact absurd g hd
      · exact Or.inr (Or.inl g)
      · exact Or.inr (Or.inr (sfvar_compare_trans h g))

/-- C36 (amended): on non-null headers `TestHeader` is reflexive and
symmetric, and it is transitive through a middle header that has both address
sets: when `b.sip` and `b.dip` are non-null, `TestHeader(a, b) = 1` and
`TestHeader(b, c) = 1` give `TestHeader(a, c) = 1`. -/
theorem C36_TestHeader_reflexive_symmetric (a b c : RuleTreeNode) :
    TestHeader (some a) (some a) = 1 ∧
    TestHeader (some a) (some b) = TestHeader (some b) (some a) ∧
    (b.sip ≠ none → b.dip ≠ none →
      TestHeader (some a) (some b) = 1 → TestHeader (some b) (some c) = 1 →
      TestHeader (some a) (some c) = 1) := by
  refine ⟨(TestHeader_one_iff a a).mpr (HeaderFieldsMatch_refl a), TestHeader_comm _ _, ?_⟩
  intro hs hd h1 h2
  rw [TestHeader_one_iff] at h1 h2 ⊢
  exact HeaderFieldsMatch_trans hs hd h1 h2

/-- C36 at three headers with address sets: the header of `tcp any any -> any
80` three times. -/
theorem C36_witness :
    headerDst80.sip ≠ none ∧ headerDst80.dip ≠ none ∧
    TestHeader (some headerDst80) (some headerDst80) = 1 :=
  ⟨by decide, by decide,
   (C36_TestHeader_reflexive_symmetric headerDst80 headerDst80 headerDst80).2.2
     (by decide) (by decide) (by decide) (by decide)⟩

/-! ## Counters and group tables after FinishPortListRule -/

theorem samePorts_iff_key (a b : PortObject) : samePorts a b ↔ portKey a = portKey b := by
  unfold samePorts portKey
  simp [Prod.mk.injEq]

theorem TableUnique_iff_nodup (t : PortTable) : TableUnique t ↔ (t.map portKey).Nodup := by
  unfold TableUnique List.Nodup
  rw [List.pairwise_map]
  apply Iff.intro <;> intro h <;> refine h.imp ?_ <;> intro a b hab
  · exact fun he => hab ((samePorts_iff_key a b).mpr he)
  · exact fun hs => hab ((samePorts_iff_key a b).mp hs)

theorem map_portKey_modify (t : PortTable) (i : Int) (k : Nat) :
    (t.modify (fun pox => PortObjectAddRule pox i) k).map portKey = t.map portKey := by
  apply List.ext_getElem?
  intro m
  rw [List.getElem?_map, List.getElem?_map, List.getElem?_modify]
  cases t[m]? with
  | none => rfl
  | some a =>
    by_cases hk : k = m
    · simp [hk, portKey, PortObjectAddRule]
    · simp [hk]

/-- `addRuleToTable` never fails for a non-null port object, and fails for a
null one. -/
theorem addRuleToTable_ok_iff (t : PortTable) (po : Option PortObjectRef) (i : Int) :
    (∃ t', addRuleToTable t po i = Except.ok t') ↔ po ≠ none := by
  cases po with
  | none =>
    simp [addRuleToTable, PortTableFindInputPortObjectPorts, PortObjectDupPorts]
  | some p =>
    obtain ⟨t', h, _⟩ := addRuleToTable_some t p i
    simp [h]

theorem addRuleToTable_unique {t t' : PortTable} {po : Option PortObjectRef} {i : Int}
    (h : addRuleToTable t po i = Except.ok t') (hu : TableUnique t) : TableUnique t' := by
  rw [TableUnique_iff_nodup] at hu ⊢
  unfold addRuleToTable PortTableFindInputPortObjectPorts at h
  cases po with
  | none => simp [PortObjectDupPorts] at h
  | some p =>
    dsimp only at h
    cases hf : t.findIdx? (fun e => decide (samePorts e p.obj)) with
    | some k =>
      rw [hf] at h
      cases h
      rw [map_portKey_modify]
      exact hu
    | none =>
      rw [hf] at h
      simp only [PortObjectDupPorts, Option.map_some', Except.ok.injEq] at h
      subst h
      rw [List.map_append, List.map_singleton]
      apply List.Nodup.append hu (List.nodup_singleton _)
      rw [List.disjoint_singleton]
      rw [List.findIdx?_eq_none_iff] at hf
      intro hm
      obtain ⟨e, he, hk⟩ := List.mem_map.mp hm
      have := hf e he
      simp only [decide_eq_false_iff_not] at this
      exact this ((samePorts_iff_key _ _).mpr hk)

theorem addRuleToTable_mem_of_ok {t t' : PortTable} {po : Option PortObjectRef} {i : Int}
    (h : addRuleToTable t po i = Except.ok t') : ∃ e ∈ t', i ∈ e.rule_list := by
  cases po with
  | none => simp [addRuleToTable, PortTableFindInputPortObjectPorts, PortObjectDupPorts] at h
  | some p =>
    obtain ⟨t2, h2, e, he, _, hi⟩ := addRuleToTable_mem t p i
    rw [h] at h2
    cases h2
    exact ⟨e, he, hi⟩

/-- What the block for the dst port does: it touches the dst and src table and
the `dst` counter of the protocol of the rule, and nothing else of the
index. -/
theorem addDstPortRule_spec {st st' : ParseState} {rtn : RuleTreeNode} {sel : ProtoSel}
    {i : Int} (h : addDstPortRule st rtn sel i = Except.ok st') :
    (∀ s, aaObject st'.sc.port_tables s = aaObject st.sc.port_tables s) ∧
    (∀ s, s ≠ sel → srcTable st'.sc.port_tables s = srcTable st.sc.port_tables s ∧
      dstTable st'.sc.port_tables s = dstTable st.sc.port_tables s ∧ prc st' s = prc st s) ∧
    prc st' sel = { prc st sel with
      dst := (prc st sel).dst + (if rtn.flags &&& ANY_DST_PORT = 0 then 1 else 0) } ∧
    (rtn.flags &&& ANY_DST_PORT ≠ 0 → st' = st) ∧
    (rtn.flags &&& ANY_DST_PORT = 0 →
      addRuleToTable (dstTable st.sc.port_tables sel) rtn.dst_portobject i =
        Except.ok (dstTable st'.sc.port_tables sel) ∧
      (rtn.flags &&& BIDIRECTIONAL ≠ 0 →
        addRuleToTable (srcTable st.sc.port_tables sel) rtn.dst_portobject i =
          Except.ok (srcTable st'.sc.port_tables sel)) ∧
      (rtn.flags &&& BIDIRECTIONAL = 0 →
        srcTable st'.sc.port_tables sel = srcTable st.sc.port_tables sel)) := by
  unfold addDstPortRule at h
  by_cases hd : rtn.flags &&& ANY_DST_PORT = 0
  · rw [if_pos hd] at h
    dsimp only at h
    rw [setPrc_sc] at h
    cases h1 : addRuleToTable (dstTable st.sc.port_tables sel) rtn.dst_portobject i with
    | error e => rw [h1] at h; cases h
    | ok t1 =>
      rw [h1] at h
      dsimp only at h
      by_cases hb : rtn.flags &&& BIDIRECTIONAL ≠ 0
      · rw [if_pos hb] at h
        simp only [setPortTables_port_tables, srcTable_setDstTable, setPrc_sc] at h
        cases h2 : addRuleToTable (srcTable st.sc.port_tables sel) rtn.dst_portobject i with
        | error e => rw [h2] at h; cases h
        | ok t2 =>
          rw [h2] at h
          cases h
          refine ⟨?_, ?_, ?_, fun hn => absurd hd hn, fun _ => ⟨?_, fun _ => ?_,
            fun hb0 => absurd hb0 hb⟩⟩
          · intro s; simp
          · intro s hs
            have : ¬ sel = s := fun e => hs e.symm
            simp [this]
          · simp [hd]
          · simp
          · simp
      · rw [if_neg hb] at h
        cases h
        refine ⟨?_, ?_, ?_, fun hn => absurd hd hn, fun _ => ⟨?_, fun hb1 => absurd hb1 hb,
          fun _ => ?_⟩⟩
        · intro s; simp
        · intro s hs
          have : ¬ sel = s := fun e => hs e.symm
          simp [this]
        · simp [hd]
        · simp
        · simp
  · rw [if_neg hd] at h
    cases h
    refine ⟨fun _ => rfl, fun _ _ => ⟨rfl, rfl, rfl⟩, ?_, fun _ => rfl,
      fun h0 => absurd h0 hd⟩
    simp [hd]

/-- What the block for the src port does: it touches the src and dst table and
the `src` counter of the protocol of the rule, and nothing else of the
index. -/
theorem addSrcPortRule_spec {st st' : ParseState} {rtn : RuleTreeNode} {sel : ProtoSel}
    {i : Int} (h : addSrcPortRule st rtn sel i = Except.ok st') :
    (∀ s, aaObject st'.sc.port_tables s = aaObject st.sc.port_tables s) ∧
    (∀ s, s ≠ sel → srcTable st'.sc.port_tables s = srcTable st.sc.port_tables s ∧
      dstTable st'.sc.port_tables s = dstTable st.sc.port_tables s ∧ prc st' s = prc st s) ∧
    prc st' sel = { prc st sel with
      src := (prc st sel).src + (if rtn.flags &&& ANY_SRC_PORT = 0 then 1 else 0) } ∧
    (rtn.flags &&& ANY_SRC_PORT ≠ 0 → st' = st) ∧
    (rtn.flags &&& ANY_SRC_PORT = 0 →
      addRuleToTable (srcTable st.sc.port_tables sel) rtn.src_portobject i =
        Except.ok (srcTable st'.sc.port_tables sel) ∧
      (rtn.flags &&& BIDIRECTIONAL ≠ 0 →
        addRuleToTable (dstTable st.sc.port_tables sel) rtn.src_portobject i =
          Except.ok (dstTable st'.sc.port_tables sel)) ∧
      (rtn.flags &&& BIDIRECTIONAL = 0 →
        dstTable st'.sc.port_tables sel = dstTable st.sc.port_tables sel)) := by
  unfold addSrcPortRule at h
  by_cases hd : rtn.flags &&& ANY_SRC_PORT = 0
  · rw [if_pos hd] at h
    dsimp only at h
    rw [setPrc_sc] at h
    cases h1 : addRuleToTable (srcTable st.sc.port_tables sel) rtn.src_portobject i with
    | error e => rw [h1] at h; cases h
    | ok t1 =>
      rw [h1] at h
      dsimp only at h
      by_cases hb : rtn.flags &&& BIDIRECTIONAL ≠ 0
      · rw [if_pos hb] at h
        simp only [setPortTables_port_tables, dstTable_setSrcTable, setPrc_sc] at h
        cases h2 : addRuleToTable (dstTable st.sc.port_tables sel) rtn.src_portobject i with
        | error e => rw [h2] at h; cases h
        | ok t2 =>
          rw [h2] at h
          cases h
          refine ⟨?_, ?_, ?_, fun hn => absurd hd hn, fun _ => ⟨?_, fun _ => ?_,
            fun hb0 => absurd hb0 hb⟩⟩
          · intro s; simp
          · intro s hs
            have : ¬ sel = s := fun e => hs e.symm
            simp [this]
          · simp [hd]
          · simp
          · simp
      · rw [if_neg hb] at h
        cases h
        refine ⟨?_, ?_, ?_, fun hn => absurd hd hn, fun _ => ⟨?_, fun hb1 => absurd hb1 hb,
          fun _ => ?_⟩⟩
        · intro s; simp
        · intro s hs
          have : ¬ sel = s := fun e => hs e.symm
          simp [this]
        · simp [hd]
        · simp
        · simp
  · rw [if_neg hd] at h
    cases h
    refine ⟨fun _ => rfl, fun _ _ => ⟨rfl, rfl, rfl⟩, ?_, fun _ => rfl,
      fun h0 => absurd h0 hd⟩
    simp [hd]

theorem countPortRule_prc_sel (st : ParseState) (rtn : RuleTreeNode) (otn : OptTreeNode)
    (pe : port_entry_t) (sel : ProtoSel) :
    prc (countPortRule st rtn otn pe sel) sel = { prc st sel with
      sd := (prc st sel).sd +
        (if rtn.flags &&& ANY_DST_PORT = 0 ∧ rtn.flags &&& ANY_SRC_PORT = 0 then 1 else 0)
      nc := (prc st sel).nc +
        (if pe.content = false ∧ pe.uricontent = false then 1 else 0) } := by
  unfold countPortRule
  dsimp only
  split_ifs <;> simp

/-- The two ways through `FinishPortListRule` for a protocol with group
tables: the any-any path, or the dst block followed by the src block. -/
theorem FinishPortListRule_cases {env : Collab} {st st' : ParseState} {rtn : RuleTreeNode}
    {otn : OptTreeNode} {proto ret : Int} {pe : port_entry_t} {sel : ProtoSel}
    (hsel : selectProto proto = some sel)
    (h : FinishPortListRule env st rtn otn proto pe = Except.ok (ret, st')) :
    ret = 0 ∧
    ((takesAnyAnyPath st.sc.fast_pattern_config rtn ∧
        st' = addToAnyAny (if proto = ETHERNET_TYPE_IP then
            addIpRuleToProtoGroups (countPortRule st rtn otn pe sel) (env.GetOtnIpProto otn)
              otn.ruleIndex
          else countPortRule st rtn otn pe sel) sel otn.ruleIndex) ∨
     (¬ takesAnyAnyPath st.sc.fast_pattern_config rtn ∧
        ∃ st1, addDstPortRule (countPortRule st rtn otn pe sel) rtn sel otn.ruleIndex =
            Except.ok st1 ∧
          addSrcPortRule st1 rtn sel otn.ruleIndex = Except.ok st')) := by
  unfold FinishPortListRule at h
  rw [hsel] at h
  dsimp only at h
  by_cases hpath : takesAnyAnyPath st.sc.fast_pattern_config rtn
  · rw [if_pos hpath] at h
    by_cases hp : proto = ETHERNET_TYPE_IP
    · rw [if_pos hp] at h
      cases h
      exact ⟨rfl, Or.inl ⟨hpath, by rw [if_pos hp]⟩⟩
    · rw [if_neg hp] at h
      cases h
      exact ⟨rfl, Or.inl ⟨hpath, by rw [if_neg hp]⟩⟩
  · rw [if_neg hpath] at h
    cases h1 : addDstPortRule (countPortRule st rtn otn pe sel) rtn sel otn.ruleIndex with
    | error e => rw [h1] at h; cases h
    | ok st1 =>
      rw [h1] at h
      dsimp only at h
      cases h2 : addSrcPortRule st1 rtn sel otn.ruleIndex with
      | error e => rw [h2] at h; cases h
      | ok st2 =>
        rw [h2] at h
        cases h
        exact ⟨rfl, Or.inr ⟨hpath, st1, rfl, h2⟩⟩

theorem FinishPortListRule_none {env : Collab} {st : ParseState} {rtn : RuleTreeNode}
    {otn : OptTreeNode} {proto : Int} {pe : port_entry_t}
    (hsel : selectProto proto = none) :
    FinishPortListRule env st rtn otn proto pe = Except.ok (-1, st) := by
  unfold FinishPortListRule
  rw [hsel]

theorem prc_addIpRuleToProtoGroups_sd_nc (st : ParseState) (ipp i : Int) (s : ProtoSel) :
    (prc (addIpRuleToProtoGroups st ipp i) s).sd = (prc st s).sd ∧
    (prc (addIpRuleToProtoGroups st ipp i) s).nc = (prc st s).nc := by
  unfold addIpRuleToProtoGroups
  split_ifs <;> cases s <;> simp

theorem addIpRuleToProtoGroups_spec (st : ParseState) (ipp i : Int) (s : ProtoSel)
    (hs : s ≠ ProtoSel.ip) :
    aaObject (addIpRuleToProtoGroups st ipp i).sc.port_tables s =
      (if ipp = protoOf s ∨ ipp = -1 then PortObjectAddRule (aaObject st.sc.port_tables s) i
       else aaObject st.sc.port_tables s) ∧
    prc (addIpRuleToProtoGroups st ipp i) s =
      (if ipp = protoOf s ∨ ipp = -1 then { prc st s with aa := (prc st s).aa + 1 }
       else prc st s) := by
  unfold addIpRuleToProtoGroups
  by_cases h1 : ipp = IPPROTO_TCP
  · subst h1
    cases s <;> simp [protoOf, IPPROTO_TCP, IPPROTO_UDP, IPPROTO_ICMP] at hs ⊢
  · by_cases h2 : ipp = IPPROTO_UDP
    · subst h2
      cases s <;> simp [protoOf, IPPROTO_TCP, IPPROTO_UDP, IPPROTO_ICMP] at hs ⊢
    · by_cases h3 : ipp = IPPROTO_ICMP
      · subst h3
        cases s <;> simp [protoOf, IPPROTO_TCP, IPPROTO_UDP, IPPROTO_ICMP] at hs ⊢
      · by_cases h4 : ipp = -1
        · subst h4
          cases s <;> simp [protoOf, IPPROTO_TCP, IPPROTO_UDP, IPPROTO_ICMP] at hs ⊢
        · rw [if_neg h1, if_neg h2, if_neg h3, if_neg h4]
          cases s <;> simp [protoOf, h1, h2, h3, h4] at hs ⊢

/-- C32: an IP rule on the any-any path is appended to the IP any-any object
and `ipCnt.aa` grows by 1; of the TCP, UDP and ICMP groups, a group gets the
rule index and its `aa` counter grows by 1 exactly when `GetOtnIpProto` is the
protocol of that group or -1, and otherwise the any-any object and the counters
of the group stay as they were. -/
theorem C32_ip_rule_goes_to_matching_anyany_groups (env : Collab) (st : ParseState)
    (rtn : RuleTreeNode) (otn : OptTreeNode) (pe : port_entry_t)
    (hpath : takesAnyAnyPath st.sc.fast_pattern_config rtn) :
    ∃ st', FinishPortListRule env st rtn otn ETHERNET_TYPE_IP pe = Except.ok (0, st') ∧
      aaObject st'.sc.port_tables ProtoSel.ip =
        PortObjectAddRule (aaObject st.sc.port_tables ProtoSel.ip) otn.ruleIndex ∧
      (prc st' ProtoSel.ip).aa = (prc st ProtoSel.ip).aa + 1 ∧
      ∀ s, s ≠ ProtoSel.ip →
        aaObject st'.sc.port_tables s =
          (if env.GetOtnIpProto otn = protoOf s ∨ env.GetOtnIpProto otn = -1 then
            PortObjectAddRule (aaObject st.sc.port_tables s) otn.ruleIndex
           else aaObject st.sc.port_tables s) ∧
        prc st' s =
          (if env.GetOtnIpProto otn = protoOf s ∨ env.GetOtnIpProto otn = -1 then
            { prc st s with aa := (prc st s).aa + 1 }
           else prc st s) := by
  unfold FinishPortListRule
  have hsel : selectProto ETHERNET_TYPE_IP = some ProtoSel.ip := by decide
  rw [hsel]
  simp only [if_pos hpath, if_true]
  refine ⟨_, rfl, ?_, ?_, ?_⟩
  · simp [(addIpRuleToProtoGroups_ip _ _ _).1]
  · simp [(addIpRuleToProtoGroups_ip _ _ _).2, (countPortRule_prc _ _ _ _ _ _).1]
  · intro s hs
    have h1 := addIpRuleToProtoGroups_spec (countPortRule st rtn otn pe ProtoSel.ip)
      (env.GetOtnIpProto otn) otn.ruleIndex s hs
    have h2 := countPortRule_prc_ne st rtn otn pe ProtoSel.ip s hs
    have h' : ¬ ProtoSel.ip = s := fun e => hs e.symm
    simp only [addToAnyAny_port_tables, aaObject_setAaObject, prc_addToAnyAny, if_neg h']
    rw [h1.1, h1.2, h2]
    simp

/-- C32 at `ip any any -> any any` with `ip_proto:17`: the rule index 7 goes
to the IP and the UDP any-any objects, and not to the TCP and ICMP ones. -/
theorem C32_witness :
    takesAnyAnyPath demoState.sc.fast_pattern_config (headerAnyAny ETHERNET_TYPE_IP) ∧
    (∃ st', FinishPortListRule udpOnlyEnv demoState (headerAnyAny ETHERNET_TYPE_IP)
        (demoOtn ETHERNET_TYPE_IP) ETHERNET_TYPE_IP (demoEntry ETHERNET_TYPE_IP) =
          Except.ok (0, st') ∧
      aaObject st'.sc.port_tables ProtoSel.ip =
        PortObjectAddRule (aaObject demoState.sc.port_tables ProtoSel.ip)
          (demoOtn ETHERNET_TYPE_IP).ruleIndex ∧
      (prc st' ProtoSel.ip).aa = (prc demoState ProtoSel.ip).aa + 1 ∧
      ∀ s, s ≠ ProtoSel.ip →
        aaObject st'.sc.port_tables s =
          (if udpOnlyEnv.GetOtnIpProto (demoOtn ETHERNET_TYPE_IP) = protoOf s ∨
              udpOnlyEnv.GetOtnIpProto (demoOtn ETHERNET_TYPE_IP) = -1 then
            PortObjectAddRule (aaObject demoState.sc.port_tables s)
              (demoOtn ETHERNET_TYPE_IP).ruleIndex
           else aaObject demoState.sc.port_tables s) ∧
        prc st' s =
          (if udpOnlyEnv.GetOtnIpProto (demoOtn ETHERNET_TYPE_IP) = protoOf s ∨
              udpOnlyEnv.GetOtnIpProto (demoOtn ETHERNET_TYPE_IP) = -1 then
            { prc demoState s with aa := (prc demoState s).aa + 1 }
           else prc demoState s)) ∧
    (aaObject (finishState udpOnlyEnv demoState (headerAnyAny ETHERNET_TYPE_IP)
        (demoOtn ETHERNET_TYPE_IP) ETHERNET_TYPE_IP
        (demoEntry ETHERNET_TYPE_IP)).sc.port_tables ProtoSel.udp).rule_list = [7] ∧
    (aaObject (finishState udpOnlyEnv demoState (headerAnyAny ETHERNET_TYPE_IP)
        (demoOtn ETHERNET_TYPE_IP) ETHERNET_TYPE_IP
        (demoEntry ETHERNET_TYPE_IP)).sc.port_tables ProtoSel.tcp).rule_list = [] :=
  ⟨by decide,
   C32_ip_rule_goes_to_matching_anyany_groups udpOnlyEnv demoState (headerAnyAny ETHERNET_TYPE_IP)
    (demoOtn ETHERNET_TYPE_IP) (demoEntry ETHERNET_TYPE_IP) (by decide), by decide, by decide⟩

/-- C34: when `FinishPortListRule` returns for a protocol with group tables,
the `sd` counter of the protocol has grown by 1 if neither `ANY_DST_PORT` nor
`ANY_SRC_PORT` is set in the header and is unchanged otherwise, and its `nc`
counter has grown by 1 if the rule has neither content nor uricontent and is
unchanged otherwise, whichever path placed the rule. -/
theorem C34_sd_and_nc_count_on_every_path (env : Collab) (st st' : ParseState)
    (rtn : RuleTreeNode) (otn : OptTreeNode) (proto ret : Int) (pe : port_entry_t)
    (sel : ProtoSel) (hsel : selectProto proto = some sel)
    (h : FinishPortListRule env st rtn otn proto pe = Except.ok (ret, st')) :
    (prc st' sel).sd = (prc st sel).sd +
      (if rtn.flags &&& ANY_DST_PORT = 0 ∧ rtn.flags &&& ANY_SRC_PORT = 0 then 1 else 0) ∧
    (prc st' sel).nc = (prc st sel).nc +
      (if pe.content = false ∧ pe.uricontent = false then 1 else 0) := by
  have hc := countPortRule_prc_sel st rtn otn pe sel
  obtain ⟨_, ⟨_, he⟩ | ⟨_, st1, h1, h2⟩⟩ := FinishPortListRule_cases hsel h
  · subst he
    by_cases hp : proto = ETHERNET_TYPE_IP
    · have hi := prc_addIpRuleToProtoGroups_sd_nc (countPortRule st rtn otn pe sel)
        (env.GetOtnIpProto otn) otn.ruleIndex sel
      rw [if_pos hp]
      simp only [prc_addToAnyAny, if_true]
      rw [hi.1, hi.2, hc]
      exact ⟨rfl, rfl⟩
    · rw [if_neg hp]
      simp only [prc_addToAnyAny, if_true]
      rw [hc]
      exact ⟨rfl, rfl⟩
  · have d := (addDstPortRule_spec h1).2.2.1
    have e := (addSrcPortRule_spec h2).2.2.1
    rw [e, d, hc]
    exact ⟨rfl, rfl⟩

/-- C34 at `tcp any 80 <> any 80` without content: `sd` and `nc` of TCP go
from 0 to 1. -/
theorem C34_witness :
    selectProto IPPROTO_TCP = some ProtoSel.tcp ∧
    FinishPortListRule demoEnv demoState headerBidirBoth80 (demoOtn IPPROTO_TCP) IPPROTO_TCP
        (demoEntry IPPROTO_TCP) =
      Except.ok (0, finishState demoEnv demoState headerBidirBoth80 (demoOtn IPPROTO_TCP)
        IPPROTO_TCP (demoEntry IPPROTO_TCP)) ∧
    (prc (finishState demoEnv demoState headerBidirBoth80 (demoOtn IPPROTO_TCP)
        IPPROTO_TCP (demoEntry IPPROTO_TCP)) ProtoSel.tcp).sd =
      (prc demoState ProtoSel.tcp).sd +
      (if headerBidirBoth80.flags &&& ANY_DST_PORT = 0 ∧
          headerBidirBoth80.flags &&& ANY_SRC_PORT = 0 then 1 else 0) ∧
    (prc (finishState demoEnv demoState headerBidirBoth80 (demoOtn IPPROTO_TCP)
        IPPROTO_TCP (demoEntry IPPROTO_TCP)) ProtoSel.tcp).nc =
      (prc demoState ProtoSel.tcp).nc +
      (if (demoEntry IPPROTO_TCP).content = false ∧
          (demoEntry IPPROTO_TCP).uricontent = false then 1 else 0) :=
  ⟨by decide, rfl,
   C34_sd_and_nc_count_on_every_path demoEnv demoState _ headerBidirBoth80 (demoOtn IPPROTO_TCP)
    IPPROTO_TCP 0 (demoEntry IPPROTO_TCP) ProtoSel.tcp (by decide) rfl⟩

/-- C38: for a TCP, UDP or ICMP rule, what `FinishPortListRule` leaves of the
other three protocols is what it found: their src tables, dst tables, any-any
objects and counters are unchanged. -/
theorem C38_other_protocols_are_untouched (env : Collab) (st st' : ParseState)
    (rtn : RuleTreeNode) (otn : OptTreeNode) (proto ret : Int) (pe : port_entry_t)
    (hp : proto = IPPROTO_TCP ∨ proto = IPPROTO_UDP ∨ proto = IPPROTO_ICMP)
    (h : FinishPortListRule env st rtn otn proto pe = Except.ok (ret, st')) :
    ∃ sel, selectProto proto = some sel ∧ protoOf sel = proto ∧
      ∀ s, s ≠ sel →
        srcTable st'.sc.port_tables s = srcTable st.sc.port_tables s ∧
        dstTable st'.sc.port_tables s = dstTable st.sc.port_tables s ∧
        aaObject st'.sc.port_tables s = aaObject st.sc.port_tables s ∧
        prc st' s = prc st s := by
  have hx : ∃ sel, selectProto proto = some sel ∧ protoOf sel = proto ∧
      proto ≠ ETHERNET_TYPE_IP := by
    rcases hp with hp | hp | hp <;> subst hp
    · exact ⟨ProtoSel.tcp, by decide, rfl, by decide⟩
    · exact ⟨ProtoSel.udp, by decide, rfl, by decide⟩
    · exact ⟨ProtoSel.icmp, by decide, rfl, by decide⟩
  obtain ⟨sel, hsel, hpo, hne⟩ := hx
  refine ⟨sel, hsel, hpo, ?_⟩
  intro s hs
  have hs' : ¬ sel = s := fun e => hs e.symm
  have hc := countPortRule_prc_ne st rtn otn pe sel s hs
  obtain ⟨_, ⟨_, he⟩ | ⟨_, st1, h1, h2⟩⟩ := FinishPortListRule_cases hsel h
  · subst he
    rw [if_neg hne]
    simp [hs', hc]
  · have d := (addDstPortRule_spec h1)
    have e := (addSrcPortRule_spec h2)
    have d3 := d.2.1 s hs
    have e3 := e.2.1 s hs
    refine ⟨?_, ?_, ?_, ?_⟩
    · rw [e3.1, d3.1, countPortRule_sc]
    · rw [e3.2.1, d3.2.1, countPortRule_sc]
    · rw [e.1 s, d.1 s, countPortRule_sc]
    · rw [e3.2.2, d3.2.2, hc]

/-- C38 at `tcp any 80 <> any 80`: the UDP tables and counters are those of
the state before the call. -/
theorem C38_witness :
    FinishPortListRule demoEnv demoState headerBidirBoth80 (demoOtn IPPROTO_TCP) IPPROTO_TCP
        (demoEntry IPPROTO_TCP) =
      Except.ok (0, finishState demoEnv demoState headerBidirBoth80 (demoOtn IPPROTO_TCP)
        IPPROTO_TCP (demoEntry IPPROTO_TCP)) ∧
    ∃ sel, selectProto IPPROTO_TCP = some sel ∧ protoOf sel = IPPROTO_TCP ∧
      ∀ s, s ≠ sel →
        srcTable (finishState demoEnv demoState headerBidirBoth80 (demoOtn IPPROTO_TCP)
          IPPROTO_TCP (demoEntry IPPROTO_TCP)).sc.port_tables s =
            srcTable demoState.sc.port_tables s ∧
        dstTable (finishState demoEnv demoState headerBidirBoth80 (demoOtn IPPROTO_TCP)
          IPPROTO_TCP (demoEntry IPPROTO_TCP)).sc.port_tables s =
            dstTable demoState.sc.port_tables s ∧
        aaObject (finishState demoEnv demoState headerBidirBoth80 (demoOtn IPPROTO_TCP)
          IPPROTO_TCP (demoEntry IPPROTO_TCP)).sc.port_tables s =
            aaObject demoState.sc.port_tables s ∧
        prc (finishState demoEnv demoState headerBidirBoth80 (demoOtn IPPROTO_TCP)
          IPPROTO_TCP (demoEntry IPPROTO_TCP)) s = prc demoState s :=
  ⟨rfl,
   C38_other_protocols_are_untouched demoEnv demoState _ headerBidirBoth80 (demoOtn IPPROTO_TCP)
    IPPROTO_TCP 0 (demoEntry IPPROTO_TCP) (Or.inl rfl) rfl⟩

theorem TableExtends_refl (t : PortTable) : TableExtends t t :=
  ⟨[], by simp, List.nodup_nil, fun _ hk => by cases hk⟩

theorem TableExtends_of_eq {t1 t2 : PortTable} (h : t2 = t1) : TableExtends t1 t2 := by
  subst h
  exact TableExtends_refl _

theorem TableExtends_trans {t1 t2 t3 : PortTable} (h1 : TableExtends t1 t2)
    (h2 : TableExtends t2 t3) : TableExtends t1 t3 := by
  obtain ⟨l1, e1, n1, d1⟩ := h1
  obtain ⟨l2, e2, n2, d2⟩ := h2
  refine ⟨l1 ++ l2, by rw [e2, e1, List.append_assoc], ?_, ?_⟩
  · refine List.Nodup.append n1 n2 ?_
    intro k hk1 hk2
    exact d2 k hk2 (by rw [e1]; exact List.mem_append_right _ hk1)
  · intro k hk
    rcases List.mem_append.mp hk with hk | hk
    · exact d1 k hk
    · exact fun hm => d2 k hk (by rw [e1]; exact List.mem_append_left _ hm)

theorem TableExtends_unique {t1 t2 : PortTable} (h : TableExtends t1 t2)
    (hu : TableUnique t1) : TableUnique t2 := by
  rw [TableUnique_iff_nodup] at hu ⊢
  obtain ⟨l, e, n, d⟩ := h
  rw [e]
  refine List.Nodup.append hu n ?_
  intro k hk1 hk2
  exact d k hk2 hk1

theorem addRuleToTable_extends {t t' : PortTable} {po : Option PortObjectRef} {i : Int}
    (h : addRuleToTable t po i = Except.ok t') : TableExtends t t' := by
  unfold addRuleToTable PortTableFindInputPortObjectPorts at h
  cases po with
  | none => simp [PortObjectDupPorts] at h
  | some p =>
    dsimp only at h
    cases hf : t.findIdx? (fun e => decide (samePorts e p.obj)) with
    | some k =>
      rw [hf] at h
      cases h
      exact ⟨[], by rw [map_portKey_modify, List.append_nil], List.nodup_nil,
        fun _ hk => by cases hk⟩
    | none =>
      rw [hf] at h
      simp only [PortObjectDupPorts, Option.map_some', Except.ok.injEq] at h
      subst h
      refine ⟨[portKey p.obj], by rw [List.map_append]; rfl, List.nodup_singleton _, ?_⟩
      intro k hk hm
      rw [List.mem_singleton] at hk
      subst hk
      rw [List.findIdx?_eq_none_iff] at hf
      obtain ⟨e, he, hk⟩ := List.mem_map.mp hm
      have := hf e he
      simp only [decide_eq_false_iff_not] at this
      exact this ((samePorts_iff_key _ _).mpr hk)

theorem addDstPortRule_extends {st st' : ParseState} {rtn : RuleTreeNode} {sel : ProtoSel}
    {i : Int} (h : addDstPortRule st rtn sel i = Except.ok st') (s : ProtoSel) :
    TableExtends (srcTable st.sc.port_tables s) (srcTable st'.sc.port_tables s) ∧
    TableExtends (dstTable st.sc.port_tables s) (dstTable st'.sc.port_tables s) := by
  obtain ⟨_, hother, _, hany, hspec⟩ := addDstPortRule_spec h
  by_cases hs : s = sel
  · subst hs
    by_cases hd : rtn.flags &&& ANY_DST_PORT = 0
    · obtain ⟨a, b, c⟩ := hspec hd
      refine ⟨?_, addRuleToTable_extends a⟩
      by_cases hb : rtn.flags &&& BIDIRECTIONAL = 0
      · exact TableExtends_of_eq (c hb)
      · exact addRuleToTable_extends (b hb)
    · rw [hany hd]
      exact ⟨TableExtends_refl _, TableExtends_refl _⟩
  · obtain ⟨a, b, _⟩ := hother s hs
    exact ⟨TableExtends_of_eq a, TableExtends_of_eq b⟩

theorem addSrcPortRule_extends {st st' : ParseState} {rtn : RuleTreeNode} {sel : ProtoSel}
    {i : Int} (h : addSrcPortRule st rtn sel i = Except.ok st') (s : ProtoSel) :
    TableExtends (srcTable st.sc.port_tables s) (srcTable st'.sc.port_tables s) ∧
    TableExtends (dstTable st.sc.port_tables s) (dstTable st'.sc.port_tables s) := by
  obtain ⟨_, hother, _, hany, hspec⟩ := addSrcPortRule_spec h
  by_cases hs : s = sel
  · subst hs
    by_cases hd : rtn.flags &&& ANY_SRC_PORT = 0
    · obtain ⟨a, b, c⟩ := hspec hd
      refine ⟨addRuleToTable_extends a, ?_⟩
      by_cases hb : rtn.flags &&& BIDIRECTIONAL = 0
      · exact TableExtends_of_eq (c hb)
      · exact addRuleToTable_extends (b hb)
    · rw [hany hd]
      exact ⟨TableExtends_refl _, TableExtends_refl _⟩
  · obtain ⟨a, b, _⟩ := hother s hs
    exact ⟨TableExtends_of_eq a, TableExtends_of_eq b⟩

theorem FinishPortListRule_extends {env : Collab} {st st' : ParseState} {rtn : RuleTreeNode}
    {otn : OptTreeNode} {proto ret : Int} {pe : port_entry_t}
    (h : FinishPortListRule env st rtn otn proto pe = Except.ok (ret, st')) (s : ProtoSel) :
    TableExtends (srcTable st.sc.port_tables s) (srcTable st'.sc.port_tables s) ∧
    TableExtends (dstTable st.sc.port_tables s) (dstTable st'.sc.port_tables s) := by
  cases hsel : selectProto proto with
  | none =>
    rw [FinishPortListRule_none hsel] at h
    cases h
    exact ⟨TableExtends_refl _, TableExtends_refl _⟩
  | some sel =>
    obtain ⟨_, ⟨_, he⟩ | ⟨_, st1, h1, h2⟩⟩ := FinishPortListRule_cases hsel h
    · subst he
      by_cases hp : proto = ETHERNET_TYPE_IP
      · rw [if_pos hp]
        have hi := addIpRuleToProtoGroups_tables (countPortRule st rtn otn pe sel)
          (env.GetOtnIpProto otn) otn.ruleIndex s
        exact ⟨TableExtends_of_eq (by simp [hi.1]), TableExtends_of_eq (by simp [hi.2])⟩
      · rw [if_neg hp]
        exact ⟨TableExtends_of_eq (by simp), TableExtends_of_eq (by simp)⟩
    · have d := addDstPortRule_extends h1 s
      have e := addSrcPortRule_extends h2 s
      rw [countPortRule_sc] at d
      exact ⟨TableExtends_trans d.1 e.1, TableExtends_trans d.2 e.2⟩

/-- C35: after `FinishPortListRule` every src table and every dst table lists
the port sets it had before, in their places, followed by port sets it did not
have, each of them once; so a table in which no two entries have equal port
sets is still such a table afterwards. -/
theorem C35_group_tables_keep_port_sets_unique (env : Collab) (st st' : ParseState)
    (rtn : RuleTreeNode) (otn : OptTreeNode) (proto ret : Int) (pe : port_entry_t)
    (h : FinishPortListRule env st rtn otn proto pe = Except.ok (ret, st')) (s : ProtoSel) :
    TableExtends (srcTable st.sc.port_tables s) (srcTable st'.sc.port_tables s) ∧
    TableExtends (dstTable st.sc.port_tables s) (dstTable st'.sc.port_tables s) ∧
    (TableUnique (srcTable st.sc.port_tables s) → TableUnique (srcTable st'.sc.port_tables s)) ∧
    (TableUnique (dstTable st.sc.port_tables s) → TableUnique (dstTable st'.sc.port_tables s)) :=
  ⟨(FinishPortListRule_extends h s).1, (FinishPortListRule_extends h s).2,
   TableExtends_unique (FinishPortListRule_extends h s).1,
   TableExtends_unique (FinishPortListRule_extends h s).2⟩

/-- C35 at the bidirectional rule `tcp any 80 <> any 80` on empty tables: the
src table and the dst table of TCP end with one port object each. -/
theorem C35_witness :
    FinishPortListRule demoEnv demoState headerBidirBoth80 (demoOtn IPPROTO_TCP) IPPROTO_TCP
        (demoEntry IPPROTO_TCP) =
      Except.ok (0, finishState demoEnv demoState headerBidirBoth80 (demoOtn IPPROTO_TCP)
        IPPROTO_TCP (demoEntry IPPROTO_TCP)) ∧
    TableUnique (srcTable demoState.sc.port_tables ProtoSel.tcp) ∧
    TableUnique (dstTable demoState.sc.port_tables ProtoSel.tcp) ∧
    TableUnique (srcTable (finishState demoEnv demoState headerBidirBoth80 (demoOtn IPPROTO_TCP)
        IPPROTO_TCP (demoEntry IPPROTO_TCP)).sc.port_tables ProtoSel.tcp) ∧
    TableUnique (dstTable (finishState demoEnv demoState headerBidirBoth80 (demoOtn IPPROTO_TCP)
        IPPROTO_TCP (demoEntry IPPROTO_TCP)).sc.port_tables ProtoSel.tcp) ∧
    srcTable (finishState demoEnv demoState headerBidirBoth80 (demoOtn IPPROTO_TCP)
        IPPROTO_TCP (demoEntry IPPROTO_TCP)).sc.port_tables ProtoSel.tcp =
      [{ port80 with rule_list := [7, 7] }] ∧
    dstTable (finishState demoEnv demoState headerBidirBoth80 (demoOtn IPPROTO_TCP)
        IPPROTO_TCP (demoEntry IPPROTO_TCP)).sc.port_tables ProtoSel.tcp =
      [{ port80 with rule_list := [7, 7] }] :=
  ⟨rfl, List.Pairwise.nil, List.Pairwise.nil,
   (C35_group_tables_keep_port_sets_unique demoEnv demoState _ headerBidirBoth80
      (demoOtn IPPROTO_TCP) IPPROTO_TCP 0 (demoEntry IPPROTO_TCP) rfl ProtoSel.tcp).2.2.1
      List.Pairwise.nil,
   (C35_group_tables_keep_port_sets_unique demoEnv demoState _ headerBidirBoth80
      (demoOtn IPPROTO_TCP) IPPROTO_TCP 0 (demoEntry IPPROTO_TCP) rfl ProtoSel.tcp).2.2.2
      List.Pairwise.nil,
   by decide, by decide⟩

theorem specific_of_not_anyany {fp : FastPatternConfig} {rtn : RuleTreeNode}
    (h : ¬ takesAnyAnyPath fp rtn) :
    rtn.flags &&& ANY_SRC_PORT = 0 ∨ rtn.flags &&& ANY_DST_PORT = 0 := by
  by_contra hn
  rw [not_or] at hn
  exact h (Or.inl ((both_any_iff rtn.flags).mpr ⟨hn.2, hn.1⟩))

/-- C37: a call of `FinishPortListRule` that returns 0 is for a protocol with
group tables and leaves the rule index either in the any-any object of the
protocol, with `aa` grown by 1 and `src` and `dst` unchanged, or in an entry of
the src or dst table of the protocol, with `aa` unchanged and `src` grown by 1
for a specific src port, `dst` grown by 1 for a specific dst port, one of the
two ports being specific. -/
theorem C37_accepted_rule_reaches_a_port_group (env : Collab) (st st' : ParseState)
    (rtn : RuleTreeNode) (otn : OptTreeNode) (proto : Int) (pe : port_entry_t)
    (h : FinishPortListRule env st rtn otn proto pe = Except.ok (0, st')) :
    ∃ sel, selectProto proto = some sel ∧
      ((otn.ruleIndex ∈ (aaObject st'.sc.port_tables sel).rule_list ∧
        (prc st' sel).aa = (prc st sel).aa + 1 ∧
        (prc st' sel).src = (prc st sel).src ∧
        (prc st' sel).dst = (prc st sel).dst) ∨
       (((∃ e ∈ srcTable st'.sc.port_tables sel, otn.ruleIndex ∈ e.rule_list) ∨
         (∃ e ∈ dstTable st'.sc.port_tables sel, otn.ruleIndex ∈ e.rule_list)) ∧
        (prc st' sel).aa = (prc st sel).aa ∧
        (prc st' sel).src =
          (prc st sel).src + (if rtn.flags &&& ANY_SRC_PORT = 0 then 1 else 0) ∧
        (prc st' sel).dst =
          (prc st sel).dst + (if rtn.flags &&& ANY_DST_PORT = 0 then 1 else 0) ∧
        (rtn.flags &&& ANY_SRC_PORT = 0 ∨ rtn.flags &&& ANY_DST_PORT = 0))) := by
  cases hsel : selectProto proto with
  | none =>
    rw [FinishPortListRule_none hsel] at h
    cases h
  | some sel =>
    refine ⟨sel, rfl, ?_⟩
    have hc := countPortRule_prc st rtn otn pe sel sel
    obtain ⟨_, ⟨hpath, he⟩ | ⟨hpath, st1, h1, h2⟩⟩ := FinishPortListRule_cases hsel h
    · left
      obtain ⟨st2, e2, a, _, c, d⟩ := FinishPortListRule_anyany env st rtn otn proto pe sel hsel
        hpath
      rw [h] at e2
      cases e2
      refine ⟨?_, c, (d sel).1, (d sel).2⟩
      rw [a]
      exact List.mem_append_right _ (List.mem_singleton.mpr rfl)
    · right
      obtain ⟨_, _, dp, dany, dspec⟩ := addDstPortRule_spec h1
      obtain ⟨_, _, ep, eany, espec⟩ := addSrcPortRule_spec h2
      have hone := specific_of_not_anyany hpath
      refine ⟨?_, ?_, ?_, ?_, hone⟩
      · by_cases hs : rtn.flags &&& ANY_SRC_PORT = 0
        · exact Or.inl (addRuleToTable_mem_of_ok (espec hs).1)
        · have hd : rtn.flags &&& ANY_DST_PORT = 0 := hone.resolve_left hs
          rw [eany hs]
          exact Or.inr (addRuleToTable_mem_of_ok (dspec hd).1)
      · rw [ep, dp]
        exact hc.1
      · rw [ep, dp]
        show (prc (countPortRule st rtn otn pe sel) sel).src + _ = _
        rw [hc.2.1]
      · rw [ep, dp]
        show (prc (countPortRule st rtn otn pe sel) sel).dst + _ = _
        rw [hc.2.2]

/-- C37 at `tcp any any -> any 80`: the call returns 0 and the rule index 7
is in the dst table of TCP. -/
theorem C37_witness :
    FinishPortListRule demoEnv demoState headerDst80 (demoOtn IPPROTO_TCP) IPPROTO_TCP
        (demoEntry IPPROTO_TCP) =
      Except.ok (0, finishState demoEnv demoState headerDst80 (demoOtn IPPROTO_TCP)
        IPPROTO_TCP (demoEntry IPPROTO_TCP)) ∧
    (dstTable (finishState demoEnv demoState headerDst80 (demoOtn IPPROTO_TCP)
        IPPROTO_TCP (demoEntry IPPROTO_TCP)).sc.port_tables ProtoSel.tcp =
      [{ port80 with rule_list := [7] }]) ∧
    ∃ sel, selectProto IPPROTO_TCP = some sel ∧
      ((((demoOtn IPPROTO_TCP).ruleIndex ∈ (aaObject (finishState demoEnv demoState headerDst80
            (demoOtn IPPROTO_TCP) IPPROTO_TCP (demoEntry IPPROTO_TCP)).sc.port_tables
            sel).rule_list) ∧
        (prc (finishState demoEnv demoState headerDst80 (demoOtn IPPROTO_TCP) IPPROTO_TCP
            (demoEntry IPPROTO_TCP)) sel).aa = (prc demoState sel).aa + 1 ∧
        (prc (finishState demoEnv demoState headerDst80 (demoOtn IPPROTO_TCP) IPPROTO_TCP
            (demoEntry IPPROTO_TCP)) sel).src = (prc demoState sel).src ∧
        (prc (finishState demoEnv demoState headerDst80 (demoOtn IPPROTO_TCP) IPPROTO_TCP
            (demoEntry IPPROTO_TCP)) sel).dst = (prc demoState sel).dst) ∨
       (((∃ e ∈ srcTable (finishState demoEnv demoState headerDst80 (demoOtn IPPROTO_TCP)
            IPPROTO_TCP (demoEntry IPPROTO_TCP)).sc.port_tables sel,
            (demoOtn IPPROTO_TCP).ruleIndex ∈ e.rule_list) ∨
         (∃ e ∈ dstTable (finishState demoEnv demoState headerDst80 (demoOtn IPPROTO_TCP)
            IPPROTO_TCP (demoEntry IPPROTO_TCP)).sc.port_tables sel,
            (demoOtn IPPROTO_TCP).ruleIndex ∈ e.rule_list)) ∧
        (prc (finishState demoEnv demoState headerDst80 (demoOtn IPPROTO_TCP) IPPROTO_TCP
            (demoEntry IPPROTO_TCP)) sel).aa = (prc demoState sel).aa ∧
        (prc (finishState demoEnv demoState headerDst80 (demoOtn IPPROTO_TCP) IPPROTO_TCP
            (demoEntry IPPROTO_TCP)) sel).src =
          (prc demoState sel).src + (if headerDst80.flags &&& ANY_SRC_PORT = 0 then 1 else 0) ∧
        (prc (finishState demoEnv demoState headerDst80 (demoOtn IPPROTO_TCP) IPPROTO_TCP
            (demoEntry IPPROTO_TCP)) sel).dst =
          (prc demoState sel).dst + (if headerDst80.flags &&& ANY_DST_PORT = 0 then 1 else 0) ∧
        (headerDst80.flags &&& ANY_SRC_PORT = 0 ∨ headerDst80.flags &&& ANY_DST_PORT = 0))) :=
  ⟨rfl, by decide,
   C37_accepted_rule_reaches_a_port_group demoEnv demoState _ headerDst80 (demoOtn IPPROTO_TCP)
    IPPROTO_TCP (demoEntry IPPROTO_TCP) rfl⟩

/-! ## Header bindings after a replacement -/

theorem getRtn_addRtn_eq (o : OptTreeNode) (a p q : Nat) :
    getRtnFromOtn (addRtnToOtn o a p) q =
      if q = p ∧ getRtnFromOtn o p = none then some a else getRtnFromOtn o q := by
  cases hb : getRtnFromOtn o p with
  | none =>
    by_cases hq : q = p
    · subst hq
      rw [if_pos ⟨rfl, rfl⟩]
      exact getRtn_addRtn_self o a q hb
    · rw [if_neg (fun h => hq h.1)]
      unfold addRtnToOtn
      dsimp only
      have hj : ((o.proto_nodes ++ List.replicate (p + 1 - o.proto_nodes.length) none)[p]?).join
          = none := by
        rw [pad_getElem?_join]
        exact hb
      rw [hj]
      unfold getRtnFromOtn
      dsimp only
      rw [List.getElem?_set_ne (fun e => hq e.symm), pad_getElem?_join]
  | some b =>
    rw [if_neg (fun h => by cases h.2)]
    unfold addRtnToOtn
    dsimp only
    have hj : ((o.proto_nodes ++ List.replicate (p + 1 - o.proto_nodes.length) none)[p]?).join
        = some b := by
      rw [pad_getElem?_join]
      exact hb
    rw [hj]
    unfold getRtnFromOtn
    dsimp only
    rw [pad_getElem?_join]

theorem getRtn_deleteRtn_eq (o : OptTreeNode) (i q : Nat) :
    getRtnFromOtn (deleteRtnFromOtn o i).2 q = if q = i then none else getRtnFromOtn o q := by
  unfold deleteRtnFromOtn
  by_cases hi : i < o.proto_nodes.length
  · rw [if_pos hi]
    unfold getRtnFromOtn
    dsimp only
    by_cases hq : q = i
    · subst hq
      rw [if_pos rfl, List.getElem?_set_self hi]
      rfl
    · rw [if_neg hq, List.getElem?_set_ne (fun e => hq e.symm)]
  · rw [if_neg hi]
    by_cases hq : q = i
    · subst hq
      rw [if_pos rfl]
      unfold getRtnFromOtn
      rw [List.getElem?_eq_none (not_lt.mp hi)]
      rfl
    · rw [if_neg hq]

theorem deleteRtn_fst_eq (o : OptTreeNode) (i : Nat) :
    (deleteRtnFromOtn o i).1 = getRtnFromOtn o i := by
  unfold deleteRtnFromOtn
  by_cases hi : i < o.proto_nodes.length
  · rw [if_pos hi]
  · rw [if_neg hi]
    unfold getRtnFromOtn
    rw [List.getElem?_eq_none (not_lt.mp hi)]
    rfl

theorem getRtn_none_of_le (o : OptTreeNode) (q : Nat) (h : o.proto_nodes.length ≤ q) :
    getRtnFromOtn o q = none := by
  unfold getRtnFromOtn
  rw [List.getElem?_eq_none h]
  rfl

/-- The bindings after one round of the loop of `mergeDuplicateOtn`. -/
theorem migrateStep_eq (p : Nat) (acc : OptTreeNode × OptTreeNode) (i q : Nat) :
    getRtnFromOtn (migrateStep p acc i).1 q = (if q = i then none else getRtnFromOtn acc.1 q) ∧
    getRtnFromOtn (migrateStep p acc i).2 q =
      (if q = i ∧ i ≠ p ∧ getRtnFromOtn acc.2 i = none then getRtnFromOtn acc.1 i
       else getRtnFromOtn acc.2 q) := by
  unfold migrateStep
  dsimp only
  rw [deleteRtn_fst_eq]
  cases hb : getRtnFromOtn acc.1 i with
  | none =>
    dsimp only
    refine ⟨getRtn_deleteRtn_eq _ _ _, ?_⟩
    split_ifs with h
    · rw [h.1]
      exact h.2.2
    · rfl
  | some b =>
    dsimp only
    by_cases hi : i ≠ p
    · rw [if_pos hi]
      dsimp only
      refine ⟨getRtn_deleteRtn_eq _ _ _, ?_⟩
      rw [getRtn_addRtn_eq]
      by_cases hq : q = i
      · subst hq
        by_cases hn : getRtnFromOtn acc.2 q = none
        · rw [if_pos ⟨rfl, hn⟩, if_pos ⟨rfl, hi, hn⟩]
        · rw [if_neg (fun h => hn h.2), if_neg (fun h => hn h.2.2)]
      · rw [if_neg (fun h => hq h.1), if_neg (fun h => hq h.1)]
    · rw [if_neg hi]
      dsimp only
      refine ⟨getRtn_deleteRtn_eq _ _ _, ?_⟩
      rw [if_neg (fun h => hi h.2.1)]

/-- The bindings after the loop of `mergeDuplicateOtn` has gone over the
policies of the list `l`. -/
theorem foldl_migrateStep_eq (p : Nat) (cur new : OptTreeNode) (l : List Nat) (q : Nat) :
    getRtnFromOtn (l.foldl (migrateStep p) (cur, new)).1 q =
      (if q ∈ l then none else getRtnFromOtn cur q) ∧
    getRtnFromOtn (l.foldl (migrateStep p) (cur, new)).2 q =
      (match getRtnFromOtn new q with
       | some b => some b
       | none => if q ∈ l ∧ q ≠ p then getRtnFromOtn cur q else none) := by
  induction l using List.reverseRecOn generalizing q with
  | nil =>
    refine ⟨by simp, ?_⟩
    simp only [List.foldl_nil, List.not_mem_nil, false_and, if_false]
    cases getRtnFromOtn new q <;> rfl
  | append_singleton l i ih =>
    rw [List.foldl_append, List.foldl_cons, List.foldl_nil]
    obtain ⟨s1, s2⟩ := migrateStep_eq p (l.foldl (migrateStep p) (cur, new)) i q
    rw [s1, s2]
    constructor
    · rw [(ih q).1]
      by_cases hq : q = i
      · subst hq
        simp
      · by_cases hl : q ∈ l
        · simp [hq, hl]
        · simp [hq, hl]
    · rw [(ih q).2, (ih i).2, (ih i).1]
      by_cases hq : q = i
      · subst hq
        cases hn : getRtnFromOtn new q with
        | some b => simp
        | none =>
          by_cases hp : q = p
          · simp [hp]
          · by_cases hl : q ∈ l
            · simp only [hl, hp, ne_eq, not_false_eq_true, and_self, if_true, true_and,
                List.mem_append, List.mem_singleton, or_true]
              cases getRtnFromOtn cur q <;> simp
            · simp [hl, hp]
      · have hm : (q ∈ l ++ [i]) ↔ q ∈ l := by
          simp [hq]
        simp only [hq, false_and, if_false, hm]

/-- The bindings after the loop of `mergeDuplicateOtn`: the stored signature
has none left; the new signature keeps its own and gets, for every other policy
than the active one, the binding the stored signature had. -/
theorem migrateRtns_eq (p : Nat) (cur new : OptTreeNode) (q : Nat) :
    getRtnFromOtn (migrateRtns p cur new).1 q = none ∧
    getRtnFromOtn (migrateRtns p cur new).2 q =
      (match getRtnFromOtn new q with
       | some b => some b
       | none => if q ≠ p then getRtnFromOtn cur q else none) := by
  unfold migrateRtns
  obtain ⟨h1, h2⟩ := foldl_migrateStep_eq p cur new (List.range cur.proto_node_num) q
  rw [h1, h2]
  by_cases hq : q < cur.proto_nodes.length
  · have hm : q ∈ List.range cur.proto_node_num := List.mem_range.mpr hq
    simp [hm]
  · have hm : ¬ q ∈ List.range cur.proto_node_num := fun h => hq (List.mem_range.mp h)
    have hc := getRtn_none_of_le cur q (not_lt.mp hq)
    simp [hm, hc]

/-- The signature `ParseRuleOptions` hands to `mergeDuplicateOtn`, built from a
signature without bindings, is bound to the header of the rule for the active
policy and to nothing else. -/
theorem draft_bindings (o : OptTreeNode) (rtn p : Nat) (idx : Int) (q : Nat)
    (ho : o.proto_nodes = []) :
    getRtnFromOtn { addRtnToOtn o rtn p with ruleIndex := idx } q =
      if q = p then some rtn else none := by
  have hn : ∀ k, getRtnFromOtn o k = none := fun k =>
    getRtn_none_of_le o k (by rw [ho]; exact Nat.zero_le _)
  show getRtnFromOtn (addRtnToOtn o rtn p) q = _
  rw [getRtn_addRtn_eq, hn p, hn q]
  by_cases hq : q = p
  · rw [if_pos ⟨hq, rfl⟩, if_pos hq]
  · rw [if_neg (fun h => hq h.1), if_neg hq]

/-- C31: when `mergeDuplicateOtn` keeps the new signature, which came bound to
`rtn_new` for the active policy only, then afterwards the new signature is
bound, for every other policy, to what the stored signature was bound to, and
for the active policy to `rtn_new`; the stored signature is left without any
binding, and in this form it is written back and taken out of the map. -/
theorem C31_merge_moves_other_policies_to_new (st st' : ParseState)
    (cur new new' : OptTreeNode) (rtn_new : Nat)
    (hnew : ∀ q, getRtnFromOtn new q = if q = st.policy.policy_id then some rtn_new else none)
    (h : mergeDuplicateOtn st cur new rtn_new = Except.ok (1, new', st')) :
    (∀ q, q ≠ st.policy.policy_id → getRtnFromOtn new' q = getRtnFromOtn cur q) ∧
    getRtnFromOtn new' st.policy.policy_id = some rtn_new ∧
    (∀ q, getRtnFromOtn (migrateRtns st.policy.policy_id cur new).1 q = none) ∧
    st'.sc.otn_map =
      OtnRemove (OtnStore st.sc.otn_map (migrateRtns st.policy.policy_id cur new).1) cur := by
  obtain ⟨_, _, _, _, _, hc⟩ := mergeDuplicateOtn_spec h
  rcases hc with ⟨_, h0, _⟩ | ⟨_, _, hn, hm, _⟩
  · exact absurd h0 (by decide)
  · subst hn
    refine ⟨?_, ?_, fun q => (migrateRtns_eq _ cur new q).1, hm⟩
    · intro q hq
      rw [(migrateRtns_eq _ cur new q).2, hnew q, if_neg hq]
      exact if_pos hq
    · rw [(migrateRtns_eq _ cur new _).2, hnew _, if_pos rfl]

/-- C31 at the signature `1:1`, bound to header 0 for policy 0 and to header 1
for policy 1, and the rule `alert tcp any any -> any [1:1024] (sid:1; rev:2;)`
under policy 0, whose header is header 2: the new signature ends bound to
header 2 for policy 0 and header 1 for policy 1. -/
theorem C31_witness :
    (∀ q, getRtnFromOtn draftHeader2 q =
      if q = stateTwoPolicies.policy.policy_id then some 2 else none) ∧
    mergeDuplicateOtn stateTwoPolicies storedTwoPolicies draftHeader2 2 =
      Except.ok (1, (mergeResult stateTwoPolicies storedTwoPolicies draftHeader2 2).2.1,
        (mergeResult stateTwoPolicies storedTwoPolicies draftHeader2 2).2.2) ∧
    storedTwoPolicies.proto_nodes = [some 0, some 1] ∧
    (mergeResult stateTwoPolicies storedTwoPolicies draftHeader2 2).2.1.proto_nodes =
      [some 2, some 1] ∧
    (endState stateTwoPolicies [Step.rule (textRule1024 1 2)]).sc.otn_map.map
      (fun o => (o.sigInfo, o.proto_nodes)) =
      [({ generator := 1, id := 7, rev := 1, text_rule := true }, [some 2]),
       ({ generator := 1, id := 1, rev := 2, text_rule := true }, [some 2, some 1])] ∧
    ((∀ q, q ≠ stateTwoPolicies.policy.policy_id →
        getRtnFromOtn (mergeResult stateTwoPolicies storedTwoPolicies draftHeader2 2).2.1 q =
          getRtnFromOtn storedTwoPolicies q) ∧
      getRtnFromOtn (mergeResult stateTwoPolicies storedTwoPolicies draftHeader2 2).2.1
        stateTwoPolicies.policy.policy_id = some 2 ∧
      (∀ q, getRtnFromOtn
        (migrateRtns stateTwoPolicies.policy.policy_id storedTwoPolicies draftHeader2).1 q =
          none) ∧
      (mergeResult stateTwoPolicies storedTwoPolicies draftHeader2 2).2.2.sc.otn_map =
        OtnRemove (OtnStore stateTwoPolicies.sc.otn_map
          (migrateRtns stateTwoPolicies.policy.policy_id storedTwoPolicies draftHeader2).1)
          storedTwoPolicies) :=
  ⟨fun q => draft_bindings _ 2 _ _ q rfl, rfl, by decide, by decide, by decide,
   C31_merge_moves_other_policies_to_new stateTwoPolicies _ storedTwoPolicies draftHeader2 _ 2
     (fun q => draft_bindings _ 2 _ _ q rfl) rfl⟩

/-! ## The continuation loop inside ParseRuleOptions -/

theorem dispatchOptions_append (acc : OptTreeNode × Int) (l1 l2 : List SoTok) :
    dispatchOptions acc (l1 ++ l2) =
      match dispatchOptions acc l1 with
      | Except.error e => Except.error e
      | Except.ok r => dispatchOptions r l2 := by
  induction l1 generalizing acc with
  | nil => rfl
  | cons t l ih =>
    rw [List.cons_append, dispatchOptions, dispatchOptions]
    cases dispatchOption acc t with
    | error e => rfl
    | ok r => exact ih r

/-- The first option loop dispatches the plain tokens of the body, in order,
and keeps the last continuation a token handed back. -/
theorem firstPass_eq (acc : OptTreeNode × Int × Option (List SoTok)) (toks : List RuleTok) :
    firstPass acc toks =
      match dispatchOptions (acc.1, acc.2.1) (plainToks toks) with
      | Except.error e => Except.error e
      | Except.ok r => Except.ok (r.1, r.2, soOptsAfter acc.2.2 toks) := by
  induction toks generalizing acc with
  | nil => rfl
  | cons t l ih =>
    cases t with
    | plain t =>
      rw [firstPass, plainToks, dispatchOptions]
      cases hd : dispatchOption (acc.1, acc.2.1) t with
      | error e => rfl
      | ok r => exact ih (r.1, r.2, acc.2.2)
    | soid so =>
      rw [firstPass, plainToks]
      exact ih (acc.1, acc.2.1, some so)

theorem plainToks_map_plain (l : List SoTok) : plainToks (l.map RuleTok.plain) = l := by
  induction l with
  | nil => rfl
  | cons t l ih => rw [List.map_cons, plainToks, ih]

theorem soOptsAfter_map_plain (s : Option (List SoTok)) (l : List SoTok) :
    soOptsAfter s (l.map RuleTok.plain) = s := by
  induction l with
  | nil => rfl
  | cons t l ih => rw [List.map_cons, soOptsAfter, ih]

/-- The option loops over a body of plain tokens dispatch these tokens. -/
theorem parseOptionLoops_plain (o : OptTreeNode) (l : List SoTok) :
    parseOptionLoops o (l.map RuleTok.plain) = dispatchOptions (o, 0) l := by
  unfold parseOptionLoops
  rw [firstPass_eq, plainToks_map_plain, soOptsAfter_map_plain]
  cases dispatchOptions (o, 0) l with
  | error e => rfl
  | ok r => rfl

/-- The option loops over a body whose first loop ends with the continuation
`so`: the second loop dispatches the tokens of `so` but the last. -/
theorem parseOptionLoops_continuation {o : OptTreeNode} {toks : List RuleTok}
    {r1 : OptTreeNode × Int × Option (List SoTok)} {so : List SoTok}
    (h1 : firstPass (o, 0, none) toks = Except.ok r1) (h2 : r1.2.2 = some so) :
    parseOptionLoops o toks = dispatchOptions (r1.1, r1.2.1) (so.take (so.length - 1)) ∧
    dispatchOptions (o, 0) (plainToks toks ++ so.take (so.length - 1)) =
      dispatchOptions (r1.1, r1.2.1) (so.take (so.length - 1)) := by
  constructor
  · unfold parseOptionLoops
    rw [h1]
    dsimp only
    rw [h2]
    dsimp only
    rw [List.dropLast_eq_take]
  · rw [dispatchOptions_append]
    have hf := firstPass_eq (o, 0, none) toks
    rw [h1] at hf
    dsimp only at hf
    cases hd : dispatchOptions (o, 0) (plainToks toks) with
    | error e => rw [hd] at hf; cases hf
    | ok r =>
      rw [hd] at hf
      dsimp only at hf ⊢
      cases hf
      rfl

/-- `ParseRuleOptions` reads the tokens of an enclosed body through the option
loops only. -/
theorem ParseRuleOptions_congr (st : ParseState) (rtn : Nat) (ro ro' : RuleOpts) (protocol : Int)
    (text : Bool) (henc : ro.enclosed = ro'.enclosed)
    (h : parseOptionLoops (newOtn st protocol text) ro.toks =
      parseOptionLoops (newOtn st protocol text) ro'.toks) :
    ParseRuleOptions st rtn (some ro) protocol text =
      ParseRuleOptions st rtn (some ro') protocol text := by
  unfold ParseRuleOptions
  dsimp only
  rw [henc, h]

theorem ParseRuleOptions_loops_error {st : ParseState} {rtn : Nat} {ro : RuleOpts}
    {protocol : Int} {text : Bool} {e : ParseErrorMsg} (henc : ro.enclosed = true)
    (h : parseOptionLoops (newOtn st protocol text) ro.toks = Except.error e) :
    ParseRuleOptions st rtn (some ro) protocol text = Except.error e := by
  unfold ParseRuleOptions
  dsimp only
  rw [if_neg (by rw [henc]; decide), h]

/-- A signature that is not a duplicate is stored: the result of
`ParseRuleOptions` for an enclosed body whose options are all accepted. -/
theorem ParseRuleOptions_stores {st : ParseState} {rtn : Nat} {ro : RuleOpts}
    {protocol : Int} {text : Bool} {otn : OptTreeNode} {n : Int} (henc : ro.enclosed = true)
    (h : parseOptionLoops (newOtn st protocol text) ro.toks = Except.ok (otn, n))
    (hb : ¬ (n > 0 ∧ otn.sigInfo.text_rule = false)) (hid : otn.sigInfo.id ≠ 0)
    (hl : OtnLookup st.sc.otn_map otn.sigInfo.generator otn.sigInfo.id = none) :
    ∃ o st', ParseRuleOptions st rtn (some ro) protocol text = Except.ok (some o, st') ∧
      o.sigInfo = otn.sigInfo ∧ o.opt_func = otn.opt_func ++ [leafNode] ∧
      o.num_detection_opts = otn.num_detection_opts + n := by
  have hbody : otnBody (addRtnToOtn otn rtn st.policy.policy_id) = otnBody otn :=
    otnBody_addRtnToOtn _ _ _
  simp only [otnBody, Prod.mk.injEq] at hbody
  obtain ⟨e1, _, _, e4, _, _, e7⟩ := hbody
  unfold ParseRuleOptions
  dsimp only
  rw [if_neg (by rw [henc]; decide), h]
  dsimp only
  have hl' : OtnLookup st.sc.otn_map (addRtnToOtn otn rtn st.policy.policy_id).sigInfo.generator
      (addRtnToOtn otn rtn st.policy.policy_id).sigInfo.id = none := by
    rw [e4]
    exact hl
  rw [if_neg hb, if_neg hid, hl']
  dsimp only
  refine ⟨_, _, rfl, ?_, ?_, ?_⟩
  · exact (congrArg OptTreeNode.sigInfo (storeOtn_body _ _ _).1).trans e4
  · refine (congrArg OptTreeNode.opt_func (storeOtn_body _ _ _).1).trans ?_
    show (addRtnToOtn otn rtn st.policy.policy_id).opt_func ++ [leafNode] = _
    rw [e1]
  · refine (congrArg OptTreeNode.num_detection_opts (storeOtn_body _ _ _).1).trans ?_
    show (addRtnToOtn otn rtn st.policy.policy_id).num_detection_opts + n = _
    rw [e7]

/-- C33: when the first option loop of `ParseRuleOptions` ends with the
continuation `so` of `n` tokens, `ParseRuleOptions` goes on with the tokens
`0 .. n - 2` of `so`, dispatched in order from the signature and the count the
first loop left.  A parse error of that dispatch is the result of
`ParseRuleOptions`; a result of `ParseRuleOptions` carries the signature, the
operators and the count that dispatch ended with, and there is such a result
when the signature is accepted and is not a duplicate.  The call returns what
it returns for the body made of the plain tokens of the body followed by the
tokens `0 .. n - 2` of `so` as ordinary options, so the final token plays no
part, and for `n ≤ 1` no token of `so` does. -/
theorem C33_continuation_skips_final_token (st : ParseState) (rtn : Nat) (ro : RuleOpts)
    (protocol : Int) (text : Bool) (r1 : OptTreeNode × Int × Option (List SoTok))
    (so : List SoTok) (henc : ro.enclosed = true)
    (h1 : firstPass (newOtn st protocol text, 0, none) ro.toks = Except.ok r1)
    (h2 : r1.2.2 = some so) :
    (∀ e, dispatchOptions (r1.1, r1.2.1) (so.take (so.length - 1)) = Except.error e →
      ParseRuleOptions st rtn (some ro) protocol text = Except.error e) ∧
    (∀ res st', ParseRuleOptions st rtn (some ro) protocol text = Except.ok (res, st') →
      ∃ otn n, dispatchOptions (r1.1, r1.2.1) (so.take (so.length - 1)) = Except.ok (otn, n) ∧
        ∀ o, res = some o →
          o.sigInfo = otn.sigInfo ∧ o.opt_func = otn.opt_func ++ [leafNode] ∧
          o.num_detection_opts = otn.num_detection_opts + n) ∧
    (∀ otn n, dispatchOptions (r1.1, r1.2.1) (so.take (so.length - 1)) = Except.ok (otn, n) →
      ¬ (n > 0 ∧ otn.sigInfo.text_rule = false) → otn.sigInfo.id ≠ 0 →
      OtnLookup st.sc.otn_map otn.sigInfo.generator otn.sigInfo.id = none →
      ∃ o st', ParseRuleOptions st rtn (some ro) protocol text = Except.ok (some o, st') ∧
        o.sigInfo = otn.sigInfo ∧ o.opt_func = otn.opt_func ++ [leafNode] ∧
        o.num_detection_opts = otn.num_detection_opts + n) ∧
    ParseRuleOptions st rtn (some ro) protocol text =
      ParseRuleOptions st rtn
        (some { enclosed := true,
                toks := (plainToks ro.toks ++ so.take (so.length - 1)).map RuleTok.plain })
        protocol text ∧
    (∀ (pre : List SoTok) (last : SoTok), so = pre ++ [last] →
      ParseRuleOptions st rtn (some ro) protocol text =
        ParseRuleOptions st rtn
          (some { enclosed := true, toks := (plainToks ro.toks ++ pre).map RuleTok.plain })
          protocol text) ∧
    (so.length ≤ 1 →
      ParseRuleOptions st rtn (some ro) protocol text =
        ParseRuleOptions st rtn
          (some { enclosed := true, toks := (plainToks ro.toks).map RuleTok.plain })
          protocol text) := by
  obtain ⟨hloops, hplain⟩ := parseOptionLoops_continuation h1 h2
  have heq : ParseRuleOptions st rtn (some ro) protocol text =
      ParseRuleOptions st rtn
        (some { enclosed := true,
                toks := (plainToks ro.toks ++ so.take (so.length - 1)).map RuleTok.plain })
        protocol text := by
    apply ParseRuleOptions_congr st rtn ro _ protocol text henc
    show parseOptionLoops _ ro.toks = parseOptionLoops _ (List.map RuleTok.plain _)
    rw [parseOptionLoops_plain, hloops, hplain]
  refine ⟨?_, ?_, ?_, heq, ?_, ?_⟩
  · intro e he
    exact ParseRuleOptions_loops_error henc (hloops.trans he)
  · intro res st' h
    obtain ⟨ro1, otn, n, e1, hl, _, _, _, _, _, _, hs⟩ := ParseRuleOptions_spec h
    obtain ⟨ro2, otn2, n2, e2, _, hl2, _, hr⟩ := ParseRuleOptions_result h
    cases e1
    cases e2
    have hsame : (otn2, n2) = (otn, n) := by
      have := hl2.symm.trans hl
      cases this
      rfl
    cases hsame
    refine ⟨otn, n, hloops.symm.trans hl, ?_⟩
    intro o ho
    subst ho
    have hf : o.opt_func = otn.opt_func ++ [leafNode] ∧
        o.num_detection_opts = otn.num_detection_opts + n := by
      rcases hr with ⟨cur, _, _, hh⟩ | ⟨_, o', ho', _, _, a, b⟩
      · exact (hh o rfl).2
      · cases ho'
        exact ⟨a, b⟩
    have hsi : o.sigInfo = otn.sigInfo := by
      rcases hs with ⟨_, o', ho', a, _⟩ | ⟨cur, _, _, hn, _⟩ | ⟨cur, _, _, o', _, ho', a, _⟩
      · cases ho'
        exact a
      · cases hn
      · cases ho'
        exact a
    exact ⟨hsi, hf.1, hf.2⟩
  · intro otn n hd hb hid hl
    exact ParseRuleOptions_stores henc (hloops.trans hd) hb hid hl
  · intro pre last hso
    have ht : so.take (so.length - 1) = pre := by
      rw [← List.dropLast_eq_take, hso, List.dropLast_concat]
    rw [heq, ht]
  · intro hle
    have ht : so.take (so.length - 1) = [] := by
      have : so.length - 1 = 0 := by omega
      rw [this]
      rfl
    rw [heq, ht, List.append_nil]

/-- C33 at the text rule body `(sid:1; soid:<id>;)` with the continuation
`rev:2; <content>; <unknown option>`: `ParseRuleOptions` returns the signature
`1:1` of revision 2 with the content operator, as it does for the body
`(sid:1; rev:2; <content>;)`, although the final token of the continuation is
an unknown option; with the unknown option in the first place of the
continuation it raises "Unknown rule option". -/
theorem C33_witness :
    firstPass (newOtn demoState IPPROTO_TCP true, 0, none) optsWithContinuation.toks =
      Except.ok (firstPassResult (newOtn demoState IPPROTO_TCP true) optsWithContinuation.toks) ∧
    (firstPassResult (newOtn demoState IPPROTO_TCP true) optsWithContinuation.toks).2.2 =
      some continuationDemo ∧
    ParseRuleOptions demoState 0 (some optsWithContinuation) IPPROTO_TCP true =
      ParseRuleOptions demoState 0
        (some { enclosed := true,
                toks := [RuleTok.plain (SoTok.sid 1), RuleTok.plain (SoTok.rev 2),
                  RuleTok.plain (SoTok.detection
                    { type := RuleOptionType.RULE_OPTION_TYPE_CONTENT, isRelative := false,
                      fast_pattern_only := false, http_fp_eligible := false })] })
        IPPROTO_TCP true ∧
    ParseRuleOptions demoState 0 (some optsWithContinuation) IPPROTO_TCP true =
      Except.ok (optionsResult optsWithContinuation) ∧
    (optionsResult optsWithContinuation).1.map (fun o => (o.sigInfo, o.opt_func)) =
      some ({ generator := 1, id := 1, rev := 2, text_rule := true },
        [{ type := RuleOptionType.RULE_OPTION_TYPE_CONTENT, isRelative := false,
           fast_pattern_only := false, http_fp_eligible := false }, leafNode]) ∧
    ParseRuleOptions demoState 0 (some optsUnknownFirst) IPPROTO_TCP true =
      Except.error ParseErrorMsg.unknownRuleOption :=
  ⟨rfl, rfl,
   (C33_continuation_skips_final_token demoState 0 optsWithContinuation IPPROTO_TCP true
      (firstPassResult (newOtn demoState IPPROTO_TCP true) optsWithContinuation.toks)
      continuationDemo rfl rfl rfl).2.2.2.2.1
      [SoTok.rev 2,
       SoTok.detection
         { type := RuleOptionType.RULE_OPTION_TYPE_CONTENT, isRelative := false,
           fast_pattern_only := false, http_fp_eligible := false }]
      SoTok.unknown rfl,
   rfl, by decide,
   (C33_continuation_skips_final_token demoState 0 optsUnknownFirst IPPROTO_TCP true
      (firstPassResult (newOtn demoState IPPROTO_TCP true) optsUnknownFirst.toks)
      _ rfl rfl rfl).1 _ rfl⟩

end ParseRule
